import Mathlib

/-!
# Device selection of the audio HAL (`src/hal/audio_hw.c`)

A shallow embedding of the sound-device selectors `get_output_snd_device` and
`get_input_snd_device`, with the properties of the written specification that
concern them.

Bitmasks (`audio_devices_t`, a 32-bit unsigned integer in C) are natural
numbers; `&`, `|` are `&&&`, `|||`.  C truth tests `if (x & BIT)` are written
`x &&& BIT ≠ 0`.
-/

namespace AudioHw

/-! ## Types and constants -/

/-- Sound devices, in the order of `device_table` (audio_hw.c, lines 80-119). -/
inductive snd_device_t where
  | SND_DEVICE_NONE
  | SND_DEVICE_OUT_HANDSET
  | SND_DEVICE_OUT_SPEAKER
  | SND_DEVICE_OUT_HEADPHONES
  | SND_DEVICE_OUT_SPEAKER_AND_HEADPHONES
  | SND_DEVICE_OUT_VOICE_SPEAKER
  | SND_DEVICE_OUT_VOICE_HEADPHONES
  | SND_DEVICE_OUT_HDMI
  | SND_DEVICE_OUT_SPEAKER_AND_HDMI
  | SND_DEVICE_OUT_BT_SCO
  | SND_DEVICE_OUT_VOICE_HANDSET_TMUS
  | SND_DEVICE_OUT_VOICE_TTY_FULL_HEADPHONES
  | SND_DEVICE_OUT_VOICE_TTY_VCO_HEADPHONES
  | SND_DEVICE_OUT_VOICE_TTY_HCO_HANDSET
  | SND_DEVICE_IN_HANDSET_MIC
  | SND_DEVICE_IN_SPEAKER_MIC
  | SND_DEVICE_IN_HEADSET_MIC
  | SND_DEVICE_IN_VOICE_SPEAKER_MIC
  | SND_DEVICE_IN_VOICE_HEADSET_MIC
  | SND_DEVICE_IN_HDMI_MIC
  | SND_DEVICE_IN_BT_SCO_MIC
  | SND_DEVICE_IN_CAMCORDER_MIC
  | SND_DEVICE_IN_VOICE_DMIC_EF
  | SND_DEVICE_IN_VOICE_DMIC_BS
  | SND_DEVICE_IN_VOICE_DMIC_EF_TMUS
  | SND_DEVICE_IN_VOICE_SPEAKER_DMIC_EF
  | SND_DEVICE_IN_VOICE_SPEAKER_DMIC_BS
  | SND_DEVICE_IN_VOICE_TTY_FULL_HEADSET_MIC
  | SND_DEVICE_IN_VOICE_TTY_VCO_HANDSET_MIC
  | SND_DEVICE_IN_VOICE_TTY_HCO_HEADSET_MIC
  | SND_DEVICE_IN_VOICE_REC_MIC
  | SND_DEVICE_IN_VOICE_REC_DMIC_EF
  | SND_DEVICE_IN_VOICE_REC_DMIC_BS
  | SND_DEVICE_IN_VOICE_REC_DMIC_EF_FLUENCE
  | SND_DEVICE_IN_VOICE_REC_DMIC_BS_FLUENCE
  deriving DecidableEq, Repr

open snd_device_t

/-- Modelled from the spec: the audio mode (`audio_mode_t`); its declaration is in
the platform header `system/audio.h`, which is not under `src/`.  The code only
compares it with `AUDIO_MODE_IN_CALL` ("call mode active"). -/
inductive audio_mode_t where
  | AUDIO_MODE_NORMAL
  | AUDIO_MODE_RINGTONE
  | AUDIO_MODE_IN_CALL
  | AUDIO_MODE_IN_COMMUNICATION
  deriving DecidableEq, Repr

open audio_mode_t

/-- Modelled from the spec: the input source (`audio_source_t`); its declaration is
in the platform header `system/audio.h`, which is not under `src/`.  The code
compares it with the camcorder, voice-recognition, voice-communication and
default sources; the remaining sources are those of the platform header. -/
inductive audio_source_t where
  | AUDIO_SOURCE_DEFAULT
  | AUDIO_SOURCE_MIC
  | AUDIO_SOURCE_VOICE_UPLINK
  | AUDIO_SOURCE_VOICE_DOWNLINK
  | AUDIO_SOURCE_VOICE_CALL
  | AUDIO_SOURCE_CAMCORDER
  | AUDIO_SOURCE_VOICE_RECOGNITION
  | AUDIO_SOURCE_VOICE_COMMUNICATION
  deriving DecidableEq, Repr

open audio_source_t

/-- Modelled from the spec: the dual-mic configuration (endfire / broadside / none);
its declaration is in `audio_hw.h`, which is not under `src/`. -/
inductive dualmic_config_t where
  | DUALMIC_CONFIG_NONE
  | DUALMIC_CONFIG_ENDFIRE
  | DUALMIC_CONFIG_BROADSIDE
  deriving DecidableEq, Repr

open dualmic_config_t

/-! ### TTY flags (audio_hw.c, lines 44-47) -/

abbrev TTY_MODE_OFF : Int := 0x00000010
abbrev TTY_MODE_FULL : Int := 0x00000020
abbrev TTY_MODE_VCO : Int := 0x00000040
abbrev TTY_MODE_HCO : Int := 0x00000080

/-! ### Device bits

The header that gives the device bits their values, `system/audio.h`, is not
under `src/`.  The values below are those of that platform header: every output
device is one bit, every input device is one bit together with the direction
flag `AUDIO_DEVICE_BIT_IN`. -/

/-- Modelled from the spec: the empty device bitmask ("zero bits") of
`system/audio.h`, a header that is not under `src/`. -/
abbrev AUDIO_DEVICE_NONE : Nat := 0x0

/-- Modelled from the spec: the input-direction flag of `system/audio.h` (not under
`src/`), the top bit of the 32-bit bitmask. -/
abbrev AUDIO_DEVICE_BIT_IN : Nat := 0x80000000

/-- Modelled from the spec: the earpiece output bit of `system/audio.h` (not under
`src/`). -/
abbrev AUDIO_DEVICE_OUT_EARPIECE : Nat := 0x1

/-- Modelled from the spec: the speaker output bit of `system/audio.h` (not under
`src/`). -/
abbrev AUDIO_DEVICE_OUT_SPEAKER : Nat := 0x2

/-- Modelled from the spec: the wired-headset output bit of `system/audio.h` (not
under `src/`). -/
abbrev AUDIO_DEVICE_OUT_WIRED_HEADSET : Nat := 0x4

/-- Modelled from the spec: the wired-headphone output bit of `system/audio.h` (not
under `src/`). -/
abbrev AUDIO_DEVICE_OUT_WIRED_HEADPHONE : Nat := 0x8

/-- Modelled from the spec: the first Bluetooth SCO output bit of `system/audio.h`
(not under `src/`). -/
abbrev AUDIO_DEVICE_OUT_BLUETOOTH_SCO : Nat := 0x10

/-- Modelled from the spec: the Bluetooth SCO headset output bit of
`system/audio.h` (not under `src/`). -/
abbrev AUDIO_DEVICE_OUT_BLUETOOTH_SCO_HEADSET : Nat := 0x20

/-- Modelled from the spec: the Bluetooth SCO carkit output bit of `system/audio.h`
(not under `src/`). -/
abbrev AUDIO_DEVICE_OUT_BLUETOOTH_SCO_CARKIT : Nat := 0x40

/-- Modelled from the spec: the Bluetooth A2DP output bit of `system/audio.h` (not
under `src/`), an output bit the selectors do not recognise. -/
abbrev AUDIO_DEVICE_OUT_BLUETOOTH_A2DP : Nat := 0x80

/-- Modelled from the spec: the AUX_DIGITAL (HDMI) output bit of `system/audio.h`
(not under `src/`). -/
abbrev AUDIO_DEVICE_OUT_AUX_DIGITAL : Nat := 0x400

/-- Modelled from the spec: the union of the three Bluetooth SCO output bits, as
`system/audio.h` (not under `src/`) defines it. -/
abbrev AUDIO_DEVICE_OUT_ALL_SCO : Nat :=
  AUDIO_DEVICE_OUT_BLUETOOTH_SCO ||| AUDIO_DEVICE_OUT_BLUETOOTH_SCO_HEADSET |||
    AUDIO_DEVICE_OUT_BLUETOOTH_SCO_CARKIT

/-- Modelled from the spec: the communication input device of `system/audio.h` (not
under `src/`): direction flag and one bit. -/
abbrev AUDIO_DEVICE_IN_COMMUNICATION : Nat := AUDIO_DEVICE_BIT_IN ||| 0x1

/-- Modelled from the spec: the builtin-mic input device of `system/audio.h` (not
under `src/`): direction flag and one bit. -/
abbrev AUDIO_DEVICE_IN_BUILTIN_MIC : Nat := AUDIO_DEVICE_BIT_IN ||| 0x4

/-- Modelled from the spec: the BT-SCO mic input device of `system/audio.h` (not
under `src/`): direction flag and one bit. -/
abbrev AUDIO_DEVICE_IN_BLUETOOTH_SCO_HEADSET : Nat := AUDIO_DEVICE_BIT_IN ||| 0x8

/-- Modelled from the spec: the wired-headset mic input device of `system/audio.h`
(not under `src/`): direction flag and one bit. -/
abbrev AUDIO_DEVICE_IN_WIRED_HEADSET : Nat := AUDIO_DEVICE_BIT_IN ||| 0x10

/-- Modelled from the spec: the digital (HDMI) mic input device of `system/audio.h`
(not under `src/`): direction flag and one bit. -/
abbrev AUDIO_DEVICE_IN_AUX_DIGITAL : Nat := AUDIO_DEVICE_BIT_IN ||| 0x20

/-- Modelled from the spec: the voice-call input device of `system/audio.h` (not
under `src/`): direction flag and one bit. -/
abbrev AUDIO_DEVICE_IN_VOICE_CALL : Nat := AUDIO_DEVICE_BIT_IN ||| 0x40

/-- Modelled from the spec: the back-mic input device of `system/audio.h` (not
under `src/`): direction flag and one bit. -/
abbrev AUDIO_DEVICE_IN_BACK_MIC : Nat := AUDIO_DEVICE_BIT_IN ||| 0x80

/-- Modelled from the spec: the mono input channel mask of `system/audio.h` (not
under `src/`): the front channel. -/
abbrev AUDIO_CHANNEL_IN_MONO : Nat := 0x10

/-- Modelled from the spec: the front-back input channel mask of `system/audio.h`
(not under `src/`): the front and the back channel. -/
abbrev AUDIO_CHANNEL_IN_FRONT_BACK : Nat := 0x30

/-- The 32-bit complement `~x` of an `audio_devices_t` value. -/
def not32 (x : Nat) : Nat := 0xFFFFFFFF ^^^ (x % 2 ^ 32)

/-- Number of one bits among the lowest `w` bits of `x`. -/
def popcountBits : Nat → Nat → Nat
  | 0, _ => 0
  | w + 1, x => x % 2 + popcountBits w (x / 2)

/-- The compiler builtin `popcount` on a 32-bit unsigned argument. -/
def popcount (x : Nat) : Nat := popcountBits 32 (x % 2 ^ 32)

/-! ## Usecases, tables and mixer paths (audio_hw.c, lines 61-250) -/

/-- Usecase ids, in the order of `use_case_table` (audio_hw.c, lines 61-68). -/
inductive audio_usecase_t where
  | USECASE_AUDIO_PLAYBACK_DEEP_BUFFER
  | USECASE_AUDIO_PLAYBACK_LOW_LATENCY
  | USECASE_AUDIO_PLAYBACK_MULTI_CH
  | USECASE_AUDIO_RECORD
  | USECASE_AUDIO_RECORD_LOW_LATENCY
  | USECASE_VOICE_CALL
  deriving DecidableEq, Repr

open audio_usecase_t

/-- Modelled from the spec: the kind of a usecase entry, Playback, Capture or
VoiceCall (`usecase_type_t`); its declaration is in `audio_hw.h`, which is not
under `src/`.  `PCM_PLAYBACK` and `PCM_CAPTURE` also name the two directions of
`get_pcm_device_id`. -/
inductive usecase_type_t where
  | PCM_PLAYBACK
  | PCM_CAPTURE
  | VOICE_CALL
  deriving DecidableEq, Repr

open usecase_type_t

/-- An entry of the usecase list, `struct audio_usecase` without its `next`
pointer: the list itself is a Lean list, first entry first. -/
structure audio_usecase where
  id : audio_usecase_t
  type : usecase_type_t
  devices : Nat
  deriving DecidableEq, Repr

/-- Modelled from the spec: the errno value InvalidArgument, `EINVAL` of the
platform header `errno.h` (not under `src/`). -/
abbrev EINVAL : Int := 22

/-- Modelled from the spec: the errno value IoFailure, `EIO` of the platform header
`errno.h` (not under `src/`). -/
abbrev EIO : Int := 5

/-- Modelled from the spec: the errno value AlreadyExists, `EEXIST` of the platform
header `errno.h` (not under `src/`). -/
abbrev EEXIST : Int := 17

/-- Modelled from the spec: the calibration direction RX of an output device,
`ACDB_DEV_TYPE_OUT` of `audio_hw.h` (not under `src/`). -/
abbrev ACDB_DEV_TYPE_OUT : Int := 1

/-- Modelled from the spec: the calibration direction TX of an input device,
`ACDB_DEV_TYPE_IN` of `audio_hw.h` (not under `src/`). -/
abbrev ACDB_DEV_TYPE_IN : Int := 2

/-- The table `use_case_table`, lines 61-68. -/
def use_case_table : audio_usecase_t → String
  | USECASE_AUDIO_PLAYBACK_DEEP_BUFFER => "deep-buffer-playback"
  | USECASE_AUDIO_PLAYBACK_LOW_LATENCY => "low-latency-playback"
  | USECASE_AUDIO_PLAYBACK_MULTI_CH => "multi-channel-playback"
  | USECASE_AUDIO_RECORD => "audio-record"
  | USECASE_AUDIO_RECORD_LOW_LATENCY => "low-latency-record"
  | USECASE_VOICE_CALL => "voice-call"

/-- The table `pcm_device_table`, lines 70-77: playback and capture device index. -/
def pcm_device_table : audio_usecase_t → Int × Int
  | USECASE_AUDIO_PLAYBACK_DEEP_BUFFER => (0, 0)
  | USECASE_AUDIO_PLAYBACK_LOW_LATENCY => (14, 14)
  | USECASE_AUDIO_PLAYBACK_MULTI_CH => (1, 1)
  | USECASE_AUDIO_RECORD => (0, 0)
  | USECASE_AUDIO_RECORD_LOW_LATENCY => (14, 14)
  | USECASE_VOICE_CALL => (12, 12)

/-- The table `device_table`, lines 80-119. -/
def device_table : snd_device_t → String
  | SND_DEVICE_NONE => "none"
  | SND_DEVICE_OUT_HANDSET => "handset"
  | SND_DEVICE_OUT_SPEAKER => "speaker"
  | SND_DEVICE_OUT_HEADPHONES => "headphones"
  | SND_DEVICE_OUT_SPEAKER_AND_HEADPHONES => "speaker-and-headphones"
  | SND_DEVICE_OUT_VOICE_SPEAKER => "voice-speaker"
  | SND_DEVICE_OUT_VOICE_HEADPHONES => "voice-headphones"
  | SND_DEVICE_OUT_HDMI => "hdmi"
  | SND_DEVICE_OUT_SPEAKER_AND_HDMI => "speaker-and-hdmi"
  | SND_DEVICE_OUT_BT_SCO => "bt-sco-headset"
  | SND_DEVICE_OUT_VOICE_HANDSET_TMUS => "voice-handset-tmus"
  | SND_DEVICE_OUT_VOICE_TTY_FULL_HEADPHONES => "voice-tty-full-headphones"
  | SND_DEVICE_OUT_VOICE_TTY_VCO_HEADPHONES => "voice-tty-vco-headphones"
  | SND_DEVICE_OUT_VOICE_TTY_HCO_HANDSET => "voice-tty-hco-handset"
  | SND_DEVICE_IN_HANDSET_MIC => "handset-mic"
  | SND_DEVICE_IN_SPEAKER_MIC => "speaker-mic"
  | SND_DEVICE_IN_HEADSET_MIC => "headset-mic"
  | SND_DEVICE_IN_VOICE_SPEAKER_MIC => "voice-speaker-mic"
  | SND_DEVICE_IN_VOICE_HEADSET_MIC => "voice-headset-mic"
  | SND_DEVICE_IN_HDMI_MIC => "hdmi-mic"
  | SND_DEVICE_IN_BT_SCO_MIC => "bt-sco-mic"
  | SND_DEVICE_IN_CAMCORDER_MIC => "camcorder-mic"
  | SND_DEVICE_IN_VOICE_DMIC_EF => "voice-dmic-ef"
  | SND_DEVICE_IN_VOICE_DMIC_BS => "voice-dmic-bs"
  | SND_DEVICE_IN_VOICE_DMIC_EF_TMUS => "voice-dmic-ef-tmus"
  | SND_DEVICE_IN_VOICE_SPEAKER_DMIC_EF => "voice-speaker-dmic-ef"
  | SND_DEVICE_IN_VOICE_SPEAKER_DMIC_BS => "voice-speaker-dmic-bs"
  | SND_DEVICE_IN_VOICE_TTY_FULL_HEADSET_MIC => "voice-tty-full-headset-mic"
  | SND_DEVICE_IN_VOICE_TTY_VCO_HANDSET_MIC => "voice-tty-vco-handset-mic"
  | SND_DEVICE_IN_VOICE_TTY_HCO_HEADSET_MIC => "voice-tty-hco-headset-mic"
  | SND_DEVICE_IN_VOICE_REC_MIC => "voice-rec-mic"
  | SND_DEVICE_IN_VOICE_REC_DMIC_EF => "voice-rec-dmic-ef"
  | SND_DEVICE_IN_VOICE_REC_DMIC_BS => "voice-rec-dmic-bs"
  | SND_DEVICE_IN_VOICE_REC_DMIC_EF_FLUENCE => "voice-rec-dmic-ef-fluence"
  | SND_DEVICE_IN_VOICE_REC_DMIC_BS_FLUENCE => "voice-rec-dmic-bs-fluence"

/-- The table `acdb_device_table`, lines 122-159; the entry of `SND_DEVICE_NONE`
is not initialised and so is zero. -/
def acdb_device_table : snd_device_t → Int
  | SND_DEVICE_NONE => 0
  | SND_DEVICE_OUT_HANDSET => 7
  | SND_DEVICE_OUT_SPEAKER => 14
  | SND_DEVICE_OUT_HEADPHONES => 10
  | SND_DEVICE_OUT_SPEAKER_AND_HEADPHONES => 10
  | SND_DEVICE_OUT_VOICE_SPEAKER => 14
  | SND_DEVICE_OUT_VOICE_HEADPHONES => 10
  | SND_DEVICE_OUT_HDMI => 18
  | SND_DEVICE_OUT_SPEAKER_AND_HDMI => 14
  | SND_DEVICE_OUT_BT_SCO => 22
  | SND_DEVICE_OUT_VOICE_HANDSET_TMUS => 81
  | SND_DEVICE_OUT_VOICE_TTY_FULL_HEADPHONES => 17
  | SND_DEVICE_OUT_VOICE_TTY_VCO_HEADPHONES => 17
  | SND_DEVICE_OUT_VOICE_TTY_HCO_HANDSET => 37
  | SND_DEVICE_IN_HANDSET_MIC => 4
  | SND_DEVICE_IN_SPEAKER_MIC => 4
  | SND_DEVICE_IN_HEADSET_MIC => 8
  | SND_DEVICE_IN_VOICE_SPEAKER_MIC => 11
  | SND_DEVICE_IN_VOICE_HEADSET_MIC => 8
  | SND_DEVICE_IN_HDMI_MIC => 4
  | SND_DEVICE_IN_BT_SCO_MIC => 21
  | SND_DEVICE_IN_CAMCORDER_MIC => 61
  | SND_DEVICE_IN_VOICE_DMIC_EF => 6
  | SND_DEVICE_IN_VOICE_DMIC_BS => 5
  | SND_DEVICE_IN_VOICE_DMIC_EF_TMUS => 91
  | SND_DEVICE_IN_VOICE_SPEAKER_DMIC_EF => 13
  | SND_DEVICE_IN_VOICE_SPEAKER_DMIC_BS => 12
  | SND_DEVICE_IN_VOICE_TTY_FULL_HEADSET_MIC => 16
  | SND_DEVICE_IN_VOICE_TTY_VCO_HANDSET_MIC => 36
  | SND_DEVICE_IN_VOICE_TTY_HCO_HEADSET_MIC => 16
  | SND_DEVICE_IN_VOICE_REC_MIC => 62
  | SND_DEVICE_IN_VOICE_REC_DMIC_EF => 62
  | SND_DEVICE_IN_VOICE_REC_DMIC_BS => 62
  | SND_DEVICE_IN_VOICE_REC_DMIC_EF_FLUENCE => 62
  | SND_DEVICE_IN_VOICE_REC_DMIC_BS_FLUENCE => 62

/-- Modelled from the spec: membership of the Output range of sound devices, the
test `SND_DEVICE_OUT_BEGIN <= d < SND_DEVICE_OUT_END` on the enumeration of
`audio_hw.h` (not under `src/`): the playback sound devices of `device_table`. -/
def snd_device_is_out : snd_device_t → Bool
  | SND_DEVICE_OUT_HANDSET => true
  | SND_DEVICE_OUT_SPEAKER => true
  | SND_DEVICE_OUT_HEADPHONES => true
  | SND_DEVICE_OUT_SPEAKER_AND_HEADPHONES => true
  | SND_DEVICE_OUT_VOICE_SPEAKER => true
  | SND_DEVICE_OUT_VOICE_HEADPHONES => true
  | SND_DEVICE_OUT_HDMI => true
  | SND_DEVICE_OUT_SPEAKER_AND_HDMI => true
  | SND_DEVICE_OUT_BT_SCO => true
  | SND_DEVICE_OUT_VOICE_HANDSET_TMUS => true
  | SND_DEVICE_OUT_VOICE_TTY_FULL_HEADPHONES => true
  | SND_DEVICE_OUT_VOICE_TTY_VCO_HEADPHONES => true
  | SND_DEVICE_OUT_VOICE_TTY_HCO_HANDSET => true
  | _ => false

/-- Modelled from the spec: the range test of `enable_snd_device` and
`disable_snd_device`, `SND_DEVICE_MIN <= d < SND_DEVICE_MAX` on the enumeration of
`audio_hw.h` (not under `src/`): every sound device but the `None` sentinel. -/
def snd_device_in_range (snd_device : snd_device_t) : Bool :=
  if snd_device = SND_DEVICE_NONE then false else true

/-- Modelled from the spec: direction of a transfer endpoint (`PCM_OUT` and `PCM_IN`
of the tinyalsa header, not under `src/`). -/
inductive pcm_flags_t where
  | PCM_OUT
  | PCM_IN
  deriving DecidableEq, Repr

open pcm_flags_t

/-- Modelled from the spec: a transfer-endpoint handle (`struct pcm` of the tinyalsa
header, not under `src/`); the HAL only asks whether it is ready. -/
structure pcm_t where
  pcm_is_ready : Bool
  deriving DecidableEq, Repr

/-- The test `pcm && !pcm_is_ready(pcm)` on the handle `pcm_open` returned, `none`
standing for `NULL`. -/
def pcm_open_failed (pcm : Option pcm_t) : Bool :=
  match pcm with
  | some p => !p.pcm_is_ready
  | none => false

/-- The calls the HAL makes into its collaborators (mixer-path engine,
calibration and voice-signaling libraries, transfer endpoints), with the
arguments that identify them. -/
inductive action where
  | audio_route_apply_path (name : String)
  | audio_route_reset_path (name : String)
  | audio_route_update_mixer
  | acdb_send_audio_cal (acdb_dev_id : Int) (acdb_dev_type : Int)
  | csd_disable_device
  | csd_enable_device (acdb_rx_id : Int) (acdb_tx_id : Int) (acdb_settings : Nat)
  | csd_start_voice
  | csd_stop_voice
  | pcm_open (device_id : Int) (flags : pcm_flags_t)
  | pcm_close (flags : pcm_flags_t)
  | pcm_start (flags : pcm_flags_t)
  | mixer_ctl_set_enum_by_string (ctl : String) (value : String)
  deriving DecidableEq, Repr

/-! ## State -/

/-- The fields of `struct stream_in` the modelled functions use: `source`, `device`
and `channel_mask` are what the selectors read; of the pcm configuration
`config` the channel count, the rate and the period size are kept, as
`config_channels`, `config_rate` and `config_period_size`. -/
structure stream_in where
  source : audio_source_t := AUDIO_SOURCE_DEFAULT
  device : Nat := AUDIO_DEVICE_NONE
  channel_mask : Nat := AUDIO_CHANNEL_IN_MONO
  usecase : audio_usecase_t := USECASE_AUDIO_RECORD
  standby : Bool := false
  pcm : Option pcm_t := none
  pcm_device_id : Int := 0
  config_channels : Int := 0
  config_rate : Nat := 0
  config_period_size : Nat := 0
  deriving DecidableEq, Repr

/-- The fields of `struct audio_device` the modelled functions use; the defaults
are the values `adev_open` and `init_platform_data` store when no vendor library
is loaded.  `usecase_list` is the list behind the head node, first entry first.
`csd_client` tells whether the voice-signaling library is loaded, and
`acdb_send_audio_cal`, `csd_disable_device`, `csd_enable_device`,
`csd_start_voice`, `csd_stop_voice` whether the entry point is resolved (the
pointer is not `NULL`). -/
structure audio_device where
  mode : audio_mode_t := AUDIO_MODE_NORMAL
  active_input : Option stream_in := none
  out_device : Nat := AUDIO_DEVICE_NONE
  tty_mode : Int := TTY_MODE_OFF
  dualmic_config : dualmic_config_t := DUALMIC_CONFIG_NONE
  fluence_in_voice_call : Bool := false
  fluence_in_voice_rec : Bool := false
  mic_type_analog : Bool := false
  cur_out_snd_device : snd_device_t := SND_DEVICE_NONE
  cur_in_snd_device : snd_device_t := SND_DEVICE_NONE
  out_snd_device_active : Bool := false
  in_snd_device_active : Bool := false
  usecase_list : List audio_usecase := []
  in_call : Bool := false
  acdb_settings : Nat := 0x10
  voice_call_rx : Option pcm_t := none
  voice_call_tx : Option pcm_t := none
  acdb_send_audio_cal : Bool := false
  csd_client : Bool := false
  csd_disable_device : Bool := false
  csd_enable_device : Bool := false
  csd_start_voice : Bool := false
  csd_stop_voice : Bool := false
  deriving DecidableEq, Repr

/-! ## Carrier variant (audio_hw.c, lines 166-187) -/

/-- The value `check_operator` stores in `is_tmus` for the numeric SIM operator. -/
def check_operator (mccmnc : Int) : Bool :=
  if mccmnc = 310490 ∨ mccmnc = 310260 ∨ mccmnc = 310026 then true else false

/-! ## Output selector (audio_hw.c, lines 362-444)

`is_tmus` is the cached result of `is_operator_tmus()`. -/

/-- The in-call branch, lines 378-397: the device it assigns, `SND_DEVICE_NONE`
when no test matches. -/
def get_output_snd_device_in_call (is_tmus : Bool) (adev : audio_device) : snd_device_t :=
  let devices := adev.out_device
  if devices &&& AUDIO_DEVICE_OUT_WIRED_HEADPHONE ≠ 0 ∨
      devices &&& AUDIO_DEVICE_OUT_WIRED_HEADSET ≠ 0 then
    if adev.tty_mode = TTY_MODE_FULL then SND_DEVICE_OUT_VOICE_TTY_FULL_HEADPHONES
    else if adev.tty_mode = TTY_MODE_VCO then SND_DEVICE_OUT_VOICE_TTY_VCO_HEADPHONES
    else if adev.tty_mode = TTY_MODE_HCO then SND_DEVICE_OUT_VOICE_TTY_HCO_HANDSET
    else SND_DEVICE_OUT_VOICE_HEADPHONES
  else if devices &&& AUDIO_DEVICE_OUT_ALL_SCO ≠ 0 then SND_DEVICE_OUT_BT_SCO
  else if devices &&& AUDIO_DEVICE_OUT_SPEAKER ≠ 0 then SND_DEVICE_OUT_VOICE_SPEAKER
  else if devices &&& AUDIO_DEVICE_OUT_EARPIECE ≠ 0 then
    if is_tmus then SND_DEVICE_OUT_VOICE_HANDSET_TMUS else SND_DEVICE_OUT_HANDSET
  else SND_DEVICE_NONE

/-- The combination branch, lines 404-416, entered when `popcount(devices) == 2`. -/
def get_output_snd_device_combo (devices : Nat) : snd_device_t :=
  if devices = (AUDIO_DEVICE_OUT_WIRED_HEADPHONE ||| AUDIO_DEVICE_OUT_SPEAKER) then
    SND_DEVICE_OUT_SPEAKER_AND_HEADPHONES
  else if devices = (AUDIO_DEVICE_OUT_WIRED_HEADSET ||| AUDIO_DEVICE_OUT_SPEAKER) then
    SND_DEVICE_OUT_SPEAKER_AND_HEADPHONES
  else if devices = (AUDIO_DEVICE_OUT_AUX_DIGITAL ||| AUDIO_DEVICE_OUT_SPEAKER) then
    SND_DEVICE_OUT_SPEAKER_AND_HDMI
  else SND_DEVICE_NONE

/-- The single-device branch, lines 427-440. -/
def get_output_snd_device_single (devices : Nat) : snd_device_t :=
  if devices &&& AUDIO_DEVICE_OUT_WIRED_HEADPHONE ≠ 0 ∨
      devices &&& AUDIO_DEVICE_OUT_WIRED_HEADSET ≠ 0 then SND_DEVICE_OUT_HEADPHONES
  else if devices &&& AUDIO_DEVICE_OUT_SPEAKER ≠ 0 then SND_DEVICE_OUT_SPEAKER
  else if devices &&& AUDIO_DEVICE_OUT_ALL_SCO ≠ 0 then SND_DEVICE_OUT_BT_SCO
  else if devices &&& AUDIO_DEVICE_OUT_AUX_DIGITAL ≠ 0 then SND_DEVICE_OUT_HDMI
  else if devices &&& AUDIO_DEVICE_OUT_EARPIECE ≠ 0 then SND_DEVICE_OUT_HANDSET
  else SND_DEVICE_NONE

/-- The function `get_output_snd_device`, lines 362-444. -/
def get_output_snd_device (is_tmus : Bool) (adev : audio_device) : snd_device_t :=
  let devices := adev.out_device
  if devices = AUDIO_DEVICE_NONE ∨ devices &&& AUDIO_DEVICE_BIT_IN ≠ 0 then SND_DEVICE_NONE
  else if adev.mode = AUDIO_MODE_IN_CALL ∧
      get_output_snd_device_in_call is_tmus adev ≠ SND_DEVICE_NONE then
    get_output_snd_device_in_call is_tmus adev
  else if popcount devices = 2 then get_output_snd_device_combo devices
  else if popcount devices ≠ 1 then SND_DEVICE_NONE
  else get_output_snd_device_single devices

/-! ## Input selector (audio_hw.c, lines 446-594) -/

/-- The TTY switch of the in-call branch, lines 470-482. -/
def get_input_snd_device_tty (adev : audio_device) : snd_device_t :=
  if adev.tty_mode = TTY_MODE_FULL then SND_DEVICE_IN_VOICE_TTY_FULL_HEADSET_MIC
  else if adev.tty_mode = TTY_MODE_VCO then SND_DEVICE_IN_VOICE_TTY_VCO_HANDSET_MIC
  else if adev.tty_mode = TTY_MODE_HCO then SND_DEVICE_IN_VOICE_TTY_HCO_HEADSET_MIC
  else SND_DEVICE_NONE

/-- The in-call chain on the output bitmask, lines 486-515: the device it
assigns, `SND_DEVICE_NONE` when no test matches. -/
def get_input_snd_device_in_call (is_tmus : Bool) (adev : audio_device) : snd_device_t :=
  let out_device := adev.out_device
  if out_device &&& AUDIO_DEVICE_OUT_EARPIECE ≠ 0 ∨
      out_device &&& AUDIO_DEVICE_OUT_WIRED_HEADPHONE ≠ 0 then
    if adev.mic_type_analog = true ∨ adev.fluence_in_voice_call = false then
      SND_DEVICE_IN_HANDSET_MIC
    else if adev.dualmic_config = DUALMIC_CONFIG_ENDFIRE then
      if is_tmus then SND_DEVICE_IN_VOICE_DMIC_EF_TMUS else SND_DEVICE_IN_VOICE_DMIC_EF
    else if adev.dualmic_config = DUALMIC_CONFIG_BROADSIDE then SND_DEVICE_IN_VOICE_DMIC_BS
    else SND_DEVICE_IN_HANDSET_MIC
  else if out_device &&& AUDIO_DEVICE_OUT_WIRED_HEADSET ≠ 0 then
    SND_DEVICE_IN_VOICE_HEADSET_MIC
  else if out_device &&& AUDIO_DEVICE_OUT_ALL_SCO ≠ 0 then SND_DEVICE_IN_BT_SCO_MIC
  else if out_device &&& AUDIO_DEVICE_OUT_SPEAKER ≠ 0 then
    if adev.fluence_in_voice_call = true ∧ adev.dualmic_config = DUALMIC_CONFIG_ENDFIRE then
      SND_DEVICE_IN_VOICE_SPEAKER_DMIC_EF
    else if adev.fluence_in_voice_call = true ∧
        adev.dualmic_config = DUALMIC_CONFIG_BROADSIDE then
      SND_DEVICE_IN_VOICE_SPEAKER_DMIC_BS
    else SND_DEVICE_IN_VOICE_SPEAKER_MIC
  else SND_DEVICE_NONE

/-- The voice-recognition branch, lines 522-539. -/
def get_input_snd_device_voice_rec (adev : audio_device) (in_device channel_mask : Nat) :
    snd_device_t :=
  if in_device &&& AUDIO_DEVICE_IN_BUILTIN_MIC ≠ 0 then
    if adev.dualmic_config = DUALMIC_CONFIG_ENDFIRE then
      if channel_mask = AUDIO_CHANNEL_IN_FRONT_BACK then SND_DEVICE_IN_VOICE_REC_DMIC_EF
      else if adev.fluence_in_voice_rec = true then SND_DEVICE_IN_VOICE_REC_DMIC_EF_FLUENCE
      else SND_DEVICE_IN_VOICE_REC_MIC
    else if adev.dualmic_config = DUALMIC_CONFIG_BROADSIDE then
      if channel_mask = AUDIO_CHANNEL_IN_FRONT_BACK then SND_DEVICE_IN_VOICE_REC_DMIC_BS
      else if adev.fluence_in_voice_rec = true then SND_DEVICE_IN_VOICE_REC_DMIC_BS_FLUENCE
      else SND_DEVICE_IN_VOICE_REC_MIC
    else SND_DEVICE_IN_VOICE_REC_MIC
  else SND_DEVICE_NONE

/-- The generic tier on the input bitmask, lines 554-571. -/
def get_input_snd_device_by_in_device (adev : audio_device) (in_device : Nat) : snd_device_t :=
  if in_device &&& AUDIO_DEVICE_IN_BUILTIN_MIC ≠ 0 then SND_DEVICE_IN_HANDSET_MIC
  else if in_device &&& AUDIO_DEVICE_IN_BACK_MIC ≠ 0 then
    if adev.mic_type_analog = true then SND_DEVICE_IN_HANDSET_MIC
    else SND_DEVICE_IN_SPEAKER_MIC
  else if in_device &&& AUDIO_DEVICE_IN_WIRED_HEADSET ≠ 0 then SND_DEVICE_IN_HEADSET_MIC
  else if in_device &&& AUDIO_DEVICE_IN_BLUETOOTH_SCO_HEADSET ≠ 0 then SND_DEVICE_IN_BT_SCO_MIC
  else if in_device &&& AUDIO_DEVICE_IN_AUX_DIGITAL ≠ 0 then SND_DEVICE_IN_HDMI_MIC
  else SND_DEVICE_IN_HANDSET_MIC

/-- The tier on the output bitmask, lines 573-589. -/
def get_input_snd_device_by_out_device (out_device : Nat) : snd_device_t :=
  if out_device &&& AUDIO_DEVICE_OUT_EARPIECE ≠ 0 then SND_DEVICE_IN_HANDSET_MIC
  else if out_device &&& AUDIO_DEVICE_OUT_WIRED_HEADSET ≠ 0 then SND_DEVICE_IN_HEADSET_MIC
  else if out_device &&& AUDIO_DEVICE_OUT_SPEAKER ≠ 0 then SND_DEVICE_IN_SPEAKER_MIC
  else if out_device &&& AUDIO_DEVICE_OUT_WIRED_HEADPHONE ≠ 0 then SND_DEVICE_IN_HANDSET_MIC
  else if out_device &&& AUDIO_DEVICE_OUT_BLUETOOTH_SCO_HEADSET ≠ 0 then
    SND_DEVICE_IN_BT_SCO_MIC
  else if out_device &&& AUDIO_DEVICE_OUT_AUX_DIGITAL ≠ 0 then SND_DEVICE_IN_HDMI_MIC
  else SND_DEVICE_IN_HANDSET_MIC

/-- The code after the mode / source chain, lines 547-590, reached with the
current values of `in_device` and `snd_device`. -/
def get_input_snd_device_tail (adev : audio_device) (in_device : Nat)
    (snd_device : snd_device_t) : snd_device_t :=
  if snd_device ≠ SND_DEVICE_NONE then snd_device
  else if in_device ≠ AUDIO_DEVICE_NONE ∧
      ¬ (in_device &&& AUDIO_DEVICE_IN_VOICE_CALL ≠ 0) ∧
      ¬ (in_device &&& AUDIO_DEVICE_IN_COMMUNICATION ≠ 0) then
    get_input_snd_device_by_in_device adev in_device
  else get_input_snd_device_by_out_device adev.out_device

/-- The function `get_input_snd_device`, lines 446-594. -/
def get_input_snd_device (is_tmus : Bool) (adev : audio_device) : snd_device_t :=
  let source := match adev.active_input with
    | none => AUDIO_SOURCE_DEFAULT
    | some i => i.source
  let out_device := adev.out_device
  let in_device := (match adev.active_input with
    | none => AUDIO_DEVICE_NONE
    | some i => i.device) &&& not32 AUDIO_DEVICE_BIT_IN
  let channel_mask := match adev.active_input with
    | none => AUDIO_CHANNEL_IN_MONO
    | some i => i.channel_mask
  if adev.mode = AUDIO_MODE_IN_CALL then
    if out_device = AUDIO_DEVICE_NONE then SND_DEVICE_NONE
    else if adev.tty_mode ≠ TTY_MODE_OFF ∧
        (out_device &&& AUDIO_DEVICE_OUT_WIRED_HEADPHONE ≠ 0 ∨
          out_device &&& AUDIO_DEVICE_OUT_WIRED_HEADSET ≠ 0) then
      get_input_snd_device_tty adev
    else get_input_snd_device_tail adev in_device (get_input_snd_device_in_call is_tmus adev)
  else if source = AUDIO_SOURCE_CAMCORDER then
    get_input_snd_device_tail adev in_device
      (if in_device &&& AUDIO_DEVICE_IN_BUILTIN_MIC ≠ 0 ∨
          in_device &&& AUDIO_DEVICE_IN_BACK_MIC ≠ 0 then SND_DEVICE_IN_CAMCORDER_MIC
        else SND_DEVICE_NONE)
  else if source = AUDIO_SOURCE_VOICE_RECOGNITION then
    get_input_snd_device_tail adev in_device
      (get_input_snd_device_voice_rec adev in_device channel_mask)
  else if source = AUDIO_SOURCE_VOICE_COMMUNICATION then
    get_input_snd_device_tail adev
      (if out_device &&& AUDIO_DEVICE_OUT_SPEAKER ≠ 0 then AUDIO_DEVICE_IN_BACK_MIC
        else in_device)
      SND_DEVICE_NONE
  else if source = AUDIO_SOURCE_DEFAULT then SND_DEVICE_NONE
  else get_input_snd_device_tail adev in_device SND_DEVICE_NONE

/-! ## Mixer paths and physical devices (audio_hw.c, lines 189-299) -/

/-- The function `get_pcm_device_id`, lines 189-201. -/
def get_pcm_device_id (usecase : audio_usecase_t) (device_type : usecase_type_t) : Int :=
  if device_type = PCM_PLAYBACK then (pcm_device_table usecase).1
  else (pcm_device_table usecase).2

/-- The function `get_acdb_device_id`, lines 203-209. -/
def get_acdb_device_id (snd_device : snd_device_t) : Int :=
  acdb_device_table snd_device

/-- The function `add_backend_name`, lines 211-222: the path with the backend
suffix appended. -/
def add_backend_name (mixer_path : String) (snd_device : snd_device_t) : String :=
  if snd_device = SND_DEVICE_OUT_HDMI ∨ snd_device = SND_DEVICE_IN_HDMI_MIC then
    mixer_path ++ " hdmi"
  else if snd_device = SND_DEVICE_OUT_BT_SCO ∨ snd_device = SND_DEVICE_IN_BT_SCO_MIC then
    mixer_path ++ " bt-sco"
  else if snd_device = SND_DEVICE_OUT_SPEAKER_AND_HDMI then mixer_path ++ " speaker-and-hdmi"
  else mixer_path

/-- The function `enable_audio_route`, lines 224-236: the call it issues; it
returns 0. -/
def enable_audio_route (usecase : audio_usecase_t) (snd_device : snd_device_t) :
    List action :=
  [action.audio_route_apply_path (add_backend_name (use_case_table usecase) snd_device)]

/-- The function `disable_audio_route`, lines 238-250: the call it issues; it
returns 0. -/
def disable_audio_route (usecase : audio_usecase_t) (snd_device : snd_device_t) :
    List action :=
  [action.audio_route_reset_path (add_backend_name (use_case_table usecase) snd_device)]

/-- The function `enable_snd_device`, lines 252-286: its status and the calls it
issues. -/
def enable_snd_device (adev : audio_device) (snd_device : snd_device_t) :
    Int × List action :=
  if snd_device_in_range snd_device = false then (-EINVAL, [])
  else if get_acdb_device_id snd_device < 0 then (-EINVAL, [])
  else
    let acdb_dev_type :=
      if snd_device_is_out snd_device = true then ACDB_DEV_TYPE_OUT else ACDB_DEV_TYPE_IN
    (0,
      (if adev.acdb_send_audio_cal = true then
          [action.acdb_send_audio_cal (get_acdb_device_id snd_device) acdb_dev_type]
        else []) ++
        [action.audio_route_apply_path (device_table snd_device)])

/-- The function `disable_snd_device`, lines 288-299: its status and the calls it
issues. -/
def disable_snd_device (snd_device : snd_device_t) : Int × List action :=
  if snd_device_in_range snd_device = false then (-EINVAL, [])
  else (0, [action.audio_route_reset_path (device_table snd_device)])

/-! ## Usecase list (audio_hw.c, lines 731-816) -/

/-- The function `add_usecase_to_list`, lines 731-740: the entry becomes the first
of the list. -/
def add_usecase_to_list (adev : audio_device) (uc_info : audio_usecase) : audio_device :=
  { adev with usecase_list := uc_info :: adev.usecase_list }

/-- The loop of `remove_usecase_from_list`, lines 748-756: unlink the first entry
with the id. -/
def remove_usecase_loop (uc_id : audio_usecase_t) : List audio_usecase → List audio_usecase
  | [] => []
  | u :: us => if u.id = uc_id then us else u :: remove_usecase_loop uc_id us

/-- The function `remove_usecase_from_list`, lines 742-758. -/
def remove_usecase_from_list (adev : audio_device) (uc_id : audio_usecase_t) : audio_device :=
  { adev with usecase_list := remove_usecase_loop uc_id adev.usecase_list }

/-- The loop of `get_usecase_from_list`, lines 766-772: the first entry with the
id, `none` for `NULL`. -/
def get_usecase_loop (uc_id : audio_usecase_t) : List audio_usecase → Option audio_usecase
  | [] => none
  | u :: us => if u.id = uc_id then some u else get_usecase_loop uc_id us

/-- The function `get_usecase_from_list`, lines 760-775. -/
def get_usecase_from_list (adev : audio_device) (uc_id : audio_usecase_t) :
    Option audio_usecase :=
  get_usecase_loop uc_id adev.usecase_list

/-- The function `get_num_active_usecases`, lines 777-786. -/
def get_num_active_usecases (adev : audio_device) : Nat :=
  adev.usecase_list.length

/-- The loop of `get_active_out_devices`, lines 794-799, from the accumulator
`devices`. -/
def get_active_out_devices_loop (usecase : audio_usecase_t) :
    Nat → List audio_usecase → Nat
  | devices, [] => devices
  | devices, u :: us =>
    get_active_out_devices_loop usecase
      (if u.type = PCM_PLAYBACK ∧ u.id ≠ usecase then devices ||| u.devices else devices) us

/-- The function `get_active_out_devices`, lines 788-801. -/
def get_active_out_devices (adev : audio_device) (usecase : audio_usecase_t) : Nat :=
  get_active_out_devices_loop usecase 0 adev.usecase_list

/-- The function `get_voice_call_out_device`, lines 803-816. -/
def get_voice_call_out_device (adev : audio_device) : Nat :=
  match get_usecase_loop USECASE_VOICE_CALL adev.usecase_list with
  | some u => u.devices
  | none => 0

/-! ## Routing controller (audio_hw.c, lines 596-729) -/

/-- The results of the vendor calls one run of `select_devices` may make: the
status `csd_disable_device()` returns and the status `csd_enable_device(...)`
returns, when they are called. -/
structure select_devices_ext where
  csd_disable_device : Int := 0
  csd_enable_device : Int := 0
  deriving DecidableEq, Repr

/-- The loop of lines 641-648: reset the path of every playback and voice-call
usecase against the sound device `d`. -/
def disable_out_routes (d : snd_device_t) : List audio_usecase → List action
  | [] => []
  | u :: us =>
    (if u.type = PCM_PLAYBACK ∨ u.type = VOICE_CALL then disable_audio_route u.id d else []) ++
      disable_out_routes d us

/-- The loop of lines 657-664: reset the path of every capture usecase against the
sound device `d`. -/
def disable_in_routes (d : snd_device_t) : List audio_usecase → List action
  | [] => []
  | u :: us =>
    (if u.type = PCM_CAPTURE then disable_audio_route u.id d else []) ++
      disable_in_routes d us

/-- The loop of lines 696-707, its calls: apply the path of every usecase against
the current output device (playback, voice call) or input device (capture). -/
def enable_routes (cur_out cur_in : snd_device_t) : List audio_usecase → List action
  | [] => []
  | u :: us =>
    (if u.type = PCM_PLAYBACK ∨ u.type = VOICE_CALL then enable_audio_route u.id cur_out
      else enable_audio_route u.id cur_in) ++
      enable_routes cur_out cur_in us

/-- The loop of lines 696-707, its writes: every playback and voice-call entry
takes the requested output bitmask of the device. -/
def update_usecase_devices (out_device : Nat) : List audio_usecase → List audio_usecase
  | [] => []
  | u :: us =>
    (if u.type = PCM_PLAYBACK ∨ u.type = VOICE_CALL then { u with devices := out_device }
      else u) :: update_usecase_devices out_device us

/-- Lines 625-637 of `select_devices`: the status and the call of the in-call
switch. -/
def select_devices_csd_disable (x : select_devices_ext) (adev : audio_device) :
    Int × List action :=
  if adev.in_call = true ∧ adev.csd_client = true then
    if adev.csd_disable_device = false then (0, [])
    else (x.csd_disable_device, [action.csd_disable_device])
  else (0, [])

/-- Lines 639-653 of `select_devices`: disable the current output device. -/
def select_devices_disable_out (adev : audio_device) (out_snd_device : snd_device_t)
    (in_call_device_switch : Bool) : audio_device × List action :=
  if (out_snd_device ≠ adev.cur_out_snd_device ∨ in_call_device_switch = true) ∧
      adev.out_snd_device_active = true then
    ({ adev with out_snd_device_active := false },
      disable_out_routes adev.cur_out_snd_device adev.usecase_list ++
        [action.audio_route_update_mixer] ++
        (disable_snd_device adev.cur_out_snd_device).2)
  else (adev, [])

/-- Lines 655-669 of `select_devices`: disable the current input device. -/
def select_devices_disable_in (adev : audio_device) (in_snd_device : snd_device_t)
    (in_call_device_switch : Bool) : audio_device × List action :=
  if (in_snd_device ≠ adev.cur_in_snd_device ∨ in_call_device_switch = true) ∧
      adev.in_snd_device_active = true then
    ({ adev with in_snd_device_active := false },
      disable_in_routes adev.cur_in_snd_device adev.usecase_list ++
        [action.audio_route_update_mixer] ++
        (disable_snd_device adev.cur_in_snd_device).2)
  else (adev, [])

/-- Lines 694-728 of `select_devices`, reached with the current `status`: commit,
re-apply the usecase paths, commit, and enable the voice device. -/
def select_devices_finish (x : select_devices_ext)
    (out_snd_device in_snd_device : snd_device_t) (status : Int) (adev : audio_device) :
    Int × audio_device × List action :=
  let routes := enable_routes adev.cur_out_snd_device adev.cur_in_snd_device adev.usecase_list
  let status := if adev.usecase_list = [] then status else 0
  let adev := { adev with
    usecase_list := update_usecase_devices adev.out_device adev.usecase_list }
  let log := [action.audio_route_update_mixer] ++ routes ++ [action.audio_route_update_mixer]
  if adev.mode = AUDIO_MODE_IN_CALL ∧ adev.csd_client = true then
    if adev.csd_enable_device = false then (status, adev, log)
    else
      (x.csd_enable_device, adev,
        log ++ [action.csd_enable_device (get_acdb_device_id out_snd_device)
          (get_acdb_device_id in_snd_device) adev.acdb_settings])
  else (status, adev, log)

/-- Lines 683-693 of `select_devices` and what follows: enable the new input
device. -/
def select_devices_enable_in (x : select_devices_ext)
    (out_snd_device in_snd_device : snd_device_t) (status : Int) (adev : audio_device) :
    Int × audio_device × List action :=
  if in_snd_device ≠ SND_DEVICE_NONE ∧ adev.in_snd_device_active = false then
    let e := enable_snd_device adev in_snd_device
    if e.1 ≠ 0 then (e.1, adev, e.2)
    else
      let r := select_devices_finish x out_snd_device in_snd_device e.1
        { adev with in_snd_device_active := true, cur_in_snd_device := in_snd_device }
      (r.1, r.2.1, e.2 ++ r.2.2)
  else select_devices_finish x out_snd_device in_snd_device status adev

/-- Lines 671-681 of `select_devices` and what follows: enable the new output
device. -/
def select_devices_enable_out (x : select_devices_ext)
    (out_snd_device in_snd_device : snd_device_t) (status : Int) (adev : audio_device) :
    Int × audio_device × List action :=
  if out_snd_device ≠ SND_DEVICE_NONE ∧ adev.out_snd_device_active = false then
    let e := enable_snd_device adev out_snd_device
    if e.1 ≠ 0 then (e.1, adev, e.2)
    else
      let r := select_devices_enable_in x out_snd_device in_snd_device e.1
        { adev with out_snd_device_active := true, cur_out_snd_device := out_snd_device }
      (r.1, r.2.1, e.2 ++ r.2.2)
  else select_devices_enable_in x out_snd_device in_snd_device status adev

/-- The function `select_devices`, lines 596-729: its status, the device state it
leaves and the calls it issues, in order. -/
def select_devices (x : select_devices_ext) (is_tmus : Bool) (adev : audio_device) :
    Int × audio_device × List action :=
  let out_snd_device := get_output_snd_device is_tmus adev
  let in_snd_device := get_input_snd_device is_tmus adev
  if out_snd_device = adev.cur_out_snd_device ∧ adev.out_snd_device_active = true ∧
      in_snd_device = adev.cur_in_snd_device ∧ adev.in_snd_device_active = true then
    (0, adev, [])
  else
    let in_call_device_switch : Bool := adev.in_call && adev.csd_client
    let c := select_devices_csd_disable x adev
    let d1 := select_devices_disable_out adev out_snd_device in_call_device_switch
    let d2 := select_devices_disable_in d1.1 in_snd_device in_call_device_switch
    let r := select_devices_enable_out x out_snd_device in_snd_device c.1 d2.1
    (r.1, r.2.1, c.2 ++ d1.2 ++ d2.2 ++ r.2.2)

/-! ## Stream lifecycle (audio_hw.c, lines 922-1155 and 1594-1682) -/

/-- Modelled from the spec: the stereo output channel mask of `system/audio.h` (not
under `src/`): front left and front right. -/
abbrev AUDIO_CHANNEL_OUT_STEREO : Nat := 0x3

/-- Modelled from the spec: the 5.1 output channel mask of `system/audio.h` (not
under `src/`): six channels. -/
abbrev AUDIO_CHANNEL_OUT_5POINT1 : Nat := 0x3F

/-- Modelled from the spec: the 7.1 output channel mask of `system/audio.h` (not
under `src/`): eight channels. -/
abbrev AUDIO_CHANNEL_OUT_7POINT1 : Nat := 0x63F

/-- Modelled from the spec: the direct output flag of `system/audio.h` (not under
`src/`). -/
abbrev AUDIO_OUTPUT_FLAG_DIRECT : Nat := 0x1

/-- Modelled from the spec: the deep-buffer output flag of `system/audio.h` (not
under `src/`). -/
abbrev AUDIO_OUTPUT_FLAG_DEEP_BUFFER : Nat := 0x8

/-- The fields of `struct stream_out` the modelled functions use.  The array
`supported_channel_masks` has three entries and is zero-terminated; the pcm
configuration `config` is left out but for the channel count, which is
`popcount(channel_mask)` where the modelled code reads it. -/
structure stream_out where
  usecase : audio_usecase_t := USECASE_AUDIO_PLAYBACK_DEEP_BUFFER
  devices : Nat := AUDIO_DEVICE_NONE
  flags : Nat := 0
  channel_mask : Nat := 0
  supported_channel_masks : List Nat := [0, 0, 0]
  standby : Bool := false
  pcm : Option pcm_t := none
  pcm_device_id : Int := 0
  deriving DecidableEq, Repr

/-- The function `set_hdmi_channels`, lines 301-332: its status and the call it
issues; `ctl_found` tells whether the mixer has the control. -/
def set_hdmi_channels (ctl_found : Bool) (channel_count : Nat) : Int × List action :=
  let channel_cnt_str :=
    if channel_count = 8 then "Eight"
    else if channel_count = 7 then "Seven"
    else if channel_count = 6 then "Six"
    else if channel_count = 5 then "Five"
    else if channel_count = 4 then "Four"
    else if channel_count = 3 then "Three"
    else "Two"
  if ctl_found = false then (-EINVAL, [])
  else (0, [action.mixer_ctl_set_enum_by_string "HDMI_RX Channels" channel_cnt_str])

/-- The function `read_hdmi_channel_masks`, lines 335-360; `channels` is what
`edid_get_max_channels()` reports. -/
def read_hdmi_channel_masks (channels : Int) (out : stream_out) : stream_out :=
  if channels = 6 then
    { out with
      supported_channel_masks := out.supported_channel_masks.set 0 AUDIO_CHANNEL_OUT_5POINT1 }
  else if channels = 8 then
    { out with
      supported_channel_masks :=
        (out.supported_channel_masks.set 0 AUDIO_CHANNEL_OUT_5POINT1).set 1
          AUDIO_CHANNEL_OUT_7POINT1 }
  else out

/-- What the collaborators report while an output stream is opened: the channel
capability of `edid_get_max_channels()` and whether the mixer has the HDMI
channel control. -/
structure adev_open_output_stream_ext where
  edid_get_max_channels : Int := 0
  ctl_found : Bool := true
  deriving DecidableEq, Repr

/-- The usecase `adev_open_output_stream` gives the stream, lines 1610-1611 and the
tests of lines 1619-1641. -/
def adev_open_output_stream_usecase (devices flags : Nat) : audio_usecase_t :=
  let devices := if devices = AUDIO_DEVICE_NONE then AUDIO_DEVICE_OUT_SPEAKER else devices
  if flags &&& AUDIO_OUTPUT_FLAG_DIRECT ≠ 0 ∧ devices &&& AUDIO_DEVICE_OUT_AUX_DIGITAL ≠ 0 then
    USECASE_AUDIO_PLAYBACK_MULTI_CH
  else if flags &&& AUDIO_OUTPUT_FLAG_DEEP_BUFFER ≠ 0 then USECASE_AUDIO_PLAYBACK_DEEP_BUFFER
  else USECASE_AUDIO_PLAYBACK_LOW_LATENCY

/-- The function `adev_open_output_stream`, lines 1594-1682: its status, the device
state (which it does not write), the stream it creates (`none` for `NULL`) and
the calls it issues; `channel_mask` is the channel mask of the caller's
configuration. -/
def adev_open_output_stream (x : adev_open_output_stream_ext) (adev : audio_device)
    (devices flags channel_mask : Nat) :
    Int × audio_device × Option stream_out × List action :=
  let devices := if devices = AUDIO_DEVICE_NONE then AUDIO_DEVICE_OUT_SPEAKER else devices
  let out : stream_out :=
    { supported_channel_masks := [AUDIO_CHANNEL_OUT_STEREO, 0, 0],
      channel_mask := AUDIO_CHANNEL_OUT_STEREO, flags := flags, devices := devices }
  let r : stream_out × List action :=
    if out.flags &&& AUDIO_OUTPUT_FLAG_DIRECT ≠ 0 ∧
        out.devices &&& AUDIO_DEVICE_OUT_AUX_DIGITAL ≠ 0 then
      let out := read_hdmi_channel_masks x.edid_get_max_channels
        { out with usecase := USECASE_AUDIO_PLAYBACK_MULTI_CH }
      let channel_mask := if channel_mask = 0 then AUDIO_CHANNEL_OUT_5POINT1 else channel_mask
      let out := { out with channel_mask := channel_mask }
      (out, (set_hdmi_channels x.ctl_found (popcount out.channel_mask)).2)
    else if out.flags &&& AUDIO_OUTPUT_FLAG_DEEP_BUFFER ≠ 0 then
      ({ out with usecase := USECASE_AUDIO_PLAYBACK_DEEP_BUFFER }, [])
    else ({ out with usecase := USECASE_AUDIO_PLAYBACK_LOW_LATENCY }, [])
  if get_usecase_from_list adev r.1.usecase ≠ none then (-EEXIST, adev, none, r.2)
  else (0, adev, some { r.1 with standby := true }, r.2)

/-- The function `stop_output_stream`, lines 922-952. -/
def stop_output_stream (x : select_devices_ext) (is_tmus : Bool) (adev : audio_device)
    (out : stream_out) : Int × audio_device × List action :=
  match get_usecase_from_list adev out.usecase with
  | none => (-EINVAL, adev, [])
  | some uc_info =>
    let log := disable_audio_route out.usecase adev.cur_out_snd_device ++
      [action.audio_route_update_mixer]
    let adev := remove_usecase_from_list adev uc_info.id
    let adev := { adev with out_device := get_active_out_devices adev out.usecase }
    let adev := { adev with out_device := adev.out_device ||| get_voice_call_out_device adev }
    let r := select_devices x is_tmus adev
    (r.1, r.2.1, log ++ r.2.2)

/-- The results of the collaborators during one run of `start_output_stream`: those
of its `select_devices`, the handle `pcm_open` returns (`none` for `NULL`), and
those of the `select_devices` of the unwinding `stop_output_stream`. -/
structure start_output_stream_ext where
  select : select_devices_ext := {}
  pcm_open : Option pcm_t := some { pcm_is_ready := true }
  unwind : select_devices_ext := {}
  deriving DecidableEq, Repr

/-- The label `error_config` of `start_output_stream`, lines 1016-1019. -/
def start_output_stream_error_config (ret : Int) (adev : audio_device) (out : stream_out)
    (log : List action) : Int × audio_device × stream_out × List action :=
  let adev := { adev with out_device := get_active_out_devices adev out.usecase }
  let adev := { adev with out_device := adev.out_device ||| get_voice_call_out_device adev }
  (ret, adev, out, log)

/-- The function `start_output_stream`, lines 954-1020. -/
def start_output_stream (x : start_output_stream_ext) (is_tmus : Bool)
    (adev : audio_device) (out : stream_out) :
    Int × audio_device × stream_out × List action :=
  let adev := { adev with out_device := adev.out_device ||| out.devices }
  if get_output_snd_device is_tmus adev = SND_DEVICE_NONE then
    start_output_stream_error_config (-EINVAL) adev out []
  else
    let out := { out with pcm_device_id := get_pcm_device_id out.usecase PCM_PLAYBACK }
    if out.pcm_device_id < 0 then start_output_stream_error_config (-EINVAL) adev out []
    else
      let uc_info : audio_usecase :=
        { id := out.usecase, type := PCM_PLAYBACK, devices := out.devices }
      let r := select_devices x.select is_tmus adev
      if r.1 ≠ 0 then start_output_stream_error_config r.1 r.2.1 out r.2.2
      else
        let adev := r.2.1
        let log := r.2.2 ++ enable_audio_route out.usecase adev.cur_out_snd_device ++
          [action.audio_route_update_mixer]
        let adev := add_usecase_to_list adev uc_info
        let out := { out with pcm := x.pcm_open }
        let log := log ++ [action.pcm_open out.pcm_device_id PCM_OUT]
        if pcm_open_failed out.pcm = true then
          let out := { out with pcm := none }
          let log := log ++ [action.pcm_close PCM_OUT]
          let s := stop_output_stream x.unwind is_tmus adev out
          start_output_stream_error_config (- EIO) s.2.1 out (log ++ s.2.2)
        else (0, adev, out, log)

/-- The function `stop_voice_call`, lines 1022-1070; `x` holds the results of the
vendor calls of its `select_devices`.  The status of `csd_stop_voice()` is only
logged: `ret` is overwritten before it is returned. -/
def stop_voice_call (x : select_devices_ext) (is_tmus : Bool) (adev : audio_device) :
    Int × audio_device × List action :=
  let adev := { adev with in_call := false }
  let log : List action :=
    if adev.csd_client = true ∧ adev.csd_stop_voice = true then [action.csd_stop_voice]
    else []
  let log := if adev.voice_call_rx ≠ none then log ++ [action.pcm_close PCM_OUT] else log
  let adev := { adev with voice_call_rx := none }
  let log := if adev.voice_call_tx ≠ none then log ++ [action.pcm_close PCM_IN] else log
  let adev := { adev with voice_call_tx := none }
  match get_usecase_from_list adev USECASE_VOICE_CALL with
  | none => (-EINVAL, adev, log)
  | some uc_info =>
    let log := log ++ disable_audio_route USECASE_VOICE_CALL adev.cur_out_snd_device ++
      [action.audio_route_update_mixer]
    let adev := remove_usecase_from_list adev uc_info.id
    let r := select_devices x is_tmus adev
    (r.1, r.2.1, log ++ r.2.2)

/-- The results of the collaborators during one run of `start_voice_call`: those of
its `select_devices`, the handles the two `pcm_open` calls return, the status
of `csd_start_voice()`, and those of the `select_devices` of the unwinding
`stop_voice_call`. -/
structure start_voice_call_ext where
  select : select_devices_ext := {}
  pcm_open_rx : Option pcm_t := some { pcm_is_ready := true }
  pcm_open_tx : Option pcm_t := some { pcm_is_ready := true }
  csd_start_voice : Int := 0
  unwind : select_devices_ext := {}
  deriving DecidableEq, Repr

/-- The label `error_start_voice` of `start_voice_call`, lines 1150-1154. -/
def start_voice_call_error (x : start_voice_call_ext) (is_tmus : Bool) (ret : Int)
    (adev : audio_device) (log : List action) : Int × audio_device × List action :=
  let s := stop_voice_call x.unwind is_tmus adev
  (ret, s.2.1, log ++ s.2.2)

/-- The function `start_voice_call`, lines 1072-1155. -/
def start_voice_call (x : start_voice_call_ext) (is_tmus : Bool) (adev : audio_device) :
    Int × audio_device × List action :=
  let uc_info : audio_usecase :=
    { id := USECASE_VOICE_CALL, type := VOICE_CALL, devices := adev.out_device }
  let r := select_devices x.select is_tmus adev
  if r.1 ≠ 0 then (r.1, r.2.1, r.2.2)
  else
    let adev := r.2.1
    let log := r.2.2 ++ enable_audio_route uc_info.id adev.cur_out_snd_device ++
      [action.audio_route_update_mixer]
    let adev := add_usecase_to_list adev uc_info
    let pcm_dev_rx_id := get_pcm_device_id uc_info.id PCM_PLAYBACK
    let pcm_dev_tx_id := get_pcm_device_id uc_info.id PCM_CAPTURE
    if pcm_dev_rx_id < 0 ∨ pcm_dev_tx_id < 0 then
      start_voice_call_error x is_tmus (- EIO) adev log
    else
      let adev := { adev with voice_call_rx := x.pcm_open_rx }
      let log := log ++ [action.pcm_open pcm_dev_rx_id PCM_OUT]
      if pcm_open_failed adev.voice_call_rx = true then
        start_voice_call_error x is_tmus (- EIO) adev log
      else
        let adev := { adev with voice_call_tx := x.pcm_open_tx }
        let log := log ++ [action.pcm_open pcm_dev_tx_id PCM_IN]
        if pcm_open_failed adev.voice_call_tx = true then
          start_voice_call_error x is_tmus (- EIO) adev log
        else
          let log := log ++ [action.pcm_start PCM_OUT, action.pcm_start PCM_IN]
          if adev.csd_client = true then
            if adev.csd_start_voice = false then start_voice_call_error x is_tmus 0 adev log
            else if x.csd_start_voice < 0 then
              start_voice_call_error x is_tmus x.csd_start_voice adev
                (log ++ [action.csd_start_voice])
            else (0, { adev with in_call := true }, log ++ [action.csd_start_voice])
          else (0, { adev with in_call := true }, log)

/-! ## Device open (audio_hw.c, lines 1961-2130) -/

/-- The dual-mic flag `DMIC_FLAG` of the calibration settings, line 43. -/
abbrev DMIC_FLAG : Nat := 0x00000002

/-- Modelled from the spec: the errno value `ENOSYS` of the platform header
`errno.h` (not under `src/`), returned when the mixer cannot be opened. -/
abbrev ENOSYS : Int := 38

/-- What `adev_open` and `init_platform_data` find on the platform: the name asked
for, the mixer and the mixer paths, the persistent properties, and for each
vendor library whether it loads and which entry points resolve. -/
structure platform_data where
  name_is_audio_hardware_interface : Bool := true
  mixer_open : Bool := true
  audio_route_init : Bool := true
  mic_type_analog : Bool := false
  dualmic_config : dualmic_config_t := DUALMIC_CONFIG_NONE
  fluence_voicecall : Bool := false
  fluence_voicerec : Bool := false
  acdb_handle : Bool := false
  acdb_send_audio_cal : Bool := false
  msm8960_mdm : Bool := false
  csd_client : Bool := false
  csd_disable_device : Bool := false
  csd_enable_device : Bool := false
  csd_start_voice : Bool := false
  csd_stop_voice : Bool := false
  deriving DecidableEq, Repr

/-- The function `init_platform_data`, lines 1961-2053. -/
def init_platform_data (p : platform_data) (adev : audio_device) : audio_device :=
  let adev := { adev with
    dualmic_config := DUALMIC_CONFIG_NONE, fluence_in_voice_call := false,
    fluence_in_voice_rec := false, mic_type_analog := false }
  let adev := if p.mic_type_analog = true then { adev with mic_type_analog := true } else adev
  let adev :=
    if p.dualmic_config = DUALMIC_CONFIG_BROADSIDE then
      { adev with dualmic_config := DUALMIC_CONFIG_BROADSIDE,
                  acdb_settings := adev.acdb_settings ||| DMIC_FLAG }
    else if p.dualmic_config = DUALMIC_CONFIG_ENDFIRE then
      { adev with dualmic_config := DUALMIC_CONFIG_ENDFIRE,
                  acdb_settings := adev.acdb_settings ||| DMIC_FLAG }
    else adev
  let adev :=
    if adev.dualmic_config ≠ DUALMIC_CONFIG_NONE then
      { adev with
        fluence_in_voice_call := p.fluence_voicecall,
        fluence_in_voice_rec := p.fluence_voicerec }
    else adev
  let adev :=
    if p.acdb_handle = true then { adev with acdb_send_audio_cal := p.acdb_send_audio_cal }
    else adev
  let adev := if p.msm8960_mdm = true then { adev with csd_client := p.csd_client } else adev
  if adev.csd_client = true then
    { adev with
      csd_disable_device := p.csd_disable_device,
      csd_enable_device := p.csd_enable_device,
      csd_start_voice := p.csd_start_voice,
      csd_stop_voice := p.csd_stop_voice }
  else adev

/-- The function `adev_open`, lines 2055-2130: its status and the device it opens
(`none` when it fails).  The device is zero-filled by `calloc`, then lines
2104-2121 set the default route. -/
def adev_open (p : platform_data) : Int × Option audio_device :=
  if p.name_is_audio_hardware_interface = false then (-EINVAL, none)
  else if p.mixer_open = false then (-ENOSYS, none)
  else if p.audio_route_init = false then (-EINVAL, none)
  else
    let adev : audio_device :=
      { mode := AUDIO_MODE_NORMAL, active_input := none, out_device := AUDIO_DEVICE_NONE,
        voice_call_rx := none, voice_call_tx := none, tty_mode := TTY_MODE_OFF,
        cur_out_snd_device := SND_DEVICE_NONE, cur_in_snd_device := SND_DEVICE_NONE,
        out_snd_device_active := false, in_snd_device_active := false,
        usecase_list := [], in_call := false, acdb_settings := 0x10,
        acdb_send_audio_cal := false, csd_client := false, csd_disable_device := false,
        csd_enable_device := false, csd_start_voice := false, csd_stop_voice := false }
    (0, some (init_platform_data p adev))

/-! ## Input streams and stream parameters
(audio_hw.c, lines 818-920, 1157-1181, 1310-1345 and 1875-1935) -/

/-- The function `stop_input_stream`, lines 818-847; `in_stream` is the stream `in`.
The status of its `select_devices` is dropped: `ret` stays 0. -/
def stop_input_stream (x : select_devices_ext) (is_tmus : Bool) (adev : audio_device)
    (in_stream : stream_in) : Int × audio_device × List action :=
  let adev := { adev with active_input := none }
  match get_usecase_from_list adev in_stream.usecase with
  | none => (-EINVAL, adev, [])
  | some _ =>
    let log := disable_audio_route in_stream.usecase adev.cur_in_snd_device ++
      [action.audio_route_update_mixer]
    let adev := remove_usecase_from_list adev in_stream.usecase
    let r := select_devices x is_tmus adev
    (0, r.2.1, log ++ r.2.2)

/-- The results of the collaborators during one run of `start_input_stream`: those
of its `select_devices`, the handle `pcm_open` returns (`none` for `NULL`), and
those of the `select_devices` of the unwinding `stop_input_stream`. -/
structure start_input_stream_ext where
  select : select_devices_ext := {}
  pcm_open : Option pcm_t := some { pcm_is_ready := true }
  unwind : select_devices_ext := {}
  deriving DecidableEq, Repr

/-- The function `start_input_stream`, lines 849-920; `in_stream` is the stream
`in`.  `active_input` points to the stream, so the device state holds the
stream as the function has written it so far. -/
def start_input_stream (x : start_input_stream_ext) (is_tmus : Bool)
    (adev : audio_device) (in_stream : stream_in) :
    Int × audio_device × stream_in × List action :=
  let adev := { adev with active_input := some in_stream }
  if get_input_snd_device is_tmus adev = SND_DEVICE_NONE then
    (-EINVAL, { adev with active_input := none }, in_stream, [])
  else
    let in_stream :=
      { in_stream with pcm_device_id := get_pcm_device_id in_stream.usecase PCM_CAPTURE }
    let adev := { adev with active_input := some in_stream }
    if in_stream.pcm_device_id < 0 then
      (-EINVAL, { adev with active_input := none }, in_stream, [])
    else
      let uc_info : audio_usecase :=
        { id := in_stream.usecase, type := PCM_CAPTURE, devices := in_stream.device }
      let r := select_devices x.select is_tmus adev
      if r.1 ≠ 0 then (r.1, { r.2.1 with active_input := none }, in_stream, r.2.2)
      else
        let adev := r.2.1
        let log := r.2.2 ++ enable_audio_route in_stream.usecase adev.cur_in_snd_device ++
          [action.audio_route_update_mixer]
        let adev := add_usecase_to_list adev uc_info
        let in_stream := { in_stream with pcm := x.pcm_open }
        let adev := { adev with active_input := some in_stream }
        let log := log ++ [action.pcm_open in_stream.pcm_device_id PCM_IN]
        if pcm_open_failed in_stream.pcm = true then
          let in_stream := { in_stream with pcm := none }
          let log := log ++ [action.pcm_close PCM_IN]
          let s := stop_input_stream x.unwind is_tmus adev in_stream
          (- EIO, { s.2.1 with active_input := none }, in_stream, log ++ s.2.2)
        else (0, adev, in_stream, log)

/-- Modelled from the spec: the sample format 16-bit PCM, `AUDIO_FORMAT_PCM_16_BIT`
of the platform header `system/audio.h` (not under `src/`). -/
abbrev AUDIO_FORMAT_PCM_16_BIT : Nat := 0x1

/-- The function `check_input_parameters`, lines 1157-1181. -/
def check_input_parameters (sample_rate : Nat) (format : Nat) (channel_count : Int) : Int :=
  if format ≠ AUDIO_FORMAT_PCM_16_BIT then -EINVAL
  else if channel_count < 1 ∨ channel_count > 2 then -EINVAL
  else if sample_rate = 8000 ∨ sample_rate = 11025 ∨ sample_rate = 12000 ∨
      sample_rate = 16000 ∨ sample_rate = 22050 ∨ sample_rate = 24000 ∨
      sample_rate = 32000 ∨ sample_rate = 44100 ∨ sample_rate = 48000 then 0
  else -EINVAL

/-- The function `get_input_buffer_size`, lines 1183-1202; `size_t` and `uint32_t`
have 32 bits. -/
def get_input_buffer_size (sample_rate : Nat) (format : Nat) (channel_count : Int) : Nat :=
  if check_input_parameters sample_rate format channel_count ≠ 0 then 0
  else
    let size : Nat :=
      if sample_rate = 8000 ∨ sample_rate = 16000 ∨ sample_rate = 32000 then
        (sample_rate * 20) % 2 ^ 32 / 1000
      else if sample_rate = 11025 ∨ sample_rate = 12000 then 256
      else if sample_rate = 22050 ∨ sample_rate = 24000 then 512
      else if sample_rate = 44100 ∨ sample_rate = 48000 then 1024
      else 0
    (size * 2 * channel_count.toNat) % 2 ^ 32

/-- Modelled from the spec: the frame size of an input stream,
`audio_stream_frame_size` of the platform header `system/audio.h` (not under
`src/`), on the format `in_get_format` returns, 16-bit PCM, and the channel
mask `in_get_channels` returns: two bytes for each channel of the mask. -/
def audio_stream_frame_size (in_stream : stream_in) : Nat :=
  popcount in_stream.channel_mask * 2

/-- The function `adev_open_input_stream`, lines 1875-1935: its status and the
stream it creates (`none` for `NULL`); `sample_rate`, `format` and
`channel_mask` are those of the caller's configuration.  It reads and writes
nothing of the device state. -/
def adev_open_input_stream (devices sample_rate format channel_mask : Nat) :
    Int × Option stream_in :=
  let channel_count : Int := popcount channel_mask
  if check_input_parameters sample_rate format channel_count ≠ 0 then (-EINVAL, none)
  else
    let in_stream : stream_in :=
      { device := devices, source := AUDIO_SOURCE_DEFAULT, standby := true,
        channel_mask := channel_mask, usecase := USECASE_AUDIO_RECORD,
        config_channels := channel_count, config_rate := sample_rate }
    let frame_size := audio_stream_frame_size in_stream
    let buffer_size := get_input_buffer_size sample_rate format channel_count
    (0, some { in_stream with config_period_size := buffer_size / frame_size })

/-- The table `out_channels_name_to_enum_table`, lines 55-59: name and value of the
output channel masks. -/
def out_channels_name_to_enum_table : List (String × Nat) :=
  [("AUDIO_CHANNEL_OUT_STEREO", AUDIO_CHANNEL_OUT_STEREO),
   ("AUDIO_CHANNEL_OUT_5POINT1", AUDIO_CHANNEL_OUT_5POINT1),
   ("AUDIO_CHANNEL_OUT_7POINT1", AUDIO_CHANNEL_OUT_7POINT1)]

/-- The inner loop of `out_get_parameters`, lines 1326-1335: the name of the first
table entry with the value `mask`. -/
def out_get_parameters_name (mask : Nat) : List (String × Nat) → Option String
  | [] => none
  | e :: es => if e.2 = mask then some e.1 else out_get_parameters_name mask es

/-- The outer loop of `out_get_parameters`, lines 1325-1337, over the entries of
`supported_channel_masks` still to read: it stops at the first zero entry. -/
def out_get_parameters_loop : List Nat → String → Bool → String
  | [], value, _ => value
  | m :: ms, value, first =>
    if m = 0 then value
    else
      match out_get_parameters_name m out_channels_name_to_enum_table with
      | some name =>
        out_get_parameters_loop ms ((if first = true then value else value ++ "|") ++ name) false
      | none => out_get_parameters_loop ms value first

/-- The value `out_get_parameters` reports for the supported-channels key, lines
1322-1338: the names of the supported channel masks, separated by a bar. -/
def out_get_parameters_sup_channels (out : stream_out) : String :=
  out_get_parameters_loop out.supported_channel_masks "" true

/-! ## Registry queries in the words of the specification -/

/-- The query `unionOutputDevices(excludeId)` as the specification words it: the
bitwise OR of the device bitmasks of the entries of kind Playback whose id is
not the excluded one, zero if there are none. -/
def unionOutputDevices (registry : List audio_usecase) (excludeId : audio_usecase_t) : Nat :=
  ((registry.filter (fun u => decide (u.type = PCM_PLAYBACK ∧ u.id ≠ excludeId))).map
    (fun u => u.devices)).foldr (fun a b => a ||| b) 0

/-- The query `unionVoiceCallDevice()` as the specification words it: the device
bitmask of the VoiceCall entry if one is present, zero otherwise. -/
def unionVoiceCallDevice (registry : List audio_usecase) : Nat :=
  match registry.find? (fun u => decide (u.id = USECASE_VOICE_CALL)) with
  | some u => u.devices
  | none => 0

/-- Lines 942-946 of `stop_output_stream`, reached when the usecase is registered:
the device state on which its `select_devices` runs, with the first entry of
the usecase unlinked and the requested output bitmask recomputed. -/
def stop_output_stream_recompute (adev : audio_device) (out : stream_out) : audio_device :=
  let adev := remove_usecase_from_list adev out.usecase
  let adev := { adev with out_device := get_active_out_devices adev out.usecase }
  { adev with out_device := adev.out_device ||| get_voice_call_out_device adev }

/-! ## Entry points of the streams and of the device
(audio_hw.c, lines 1240-1308, 1362-1394, 1456-1580 and 1693-1837)

The data transfer itself (`pcm_write`, `pcm_read`) is not part of the trace of
calls; its status is an input of the model. -/

/-- The function `out_standby`, lines 1240-1260; `x` holds the results of the vendor
calls of the `select_devices` of its `stop_output_stream`. -/
def out_standby (x : select_devices_ext) (is_tmus : Bool) (adev : audio_device)
    (out : stream_out) : Int × audio_device × stream_out × List action :=
  if out.standby = false then
    let out := { out with standby := true }
    let log : List action := if out.pcm ≠ none then [action.pcm_close PCM_OUT] else []
    let out := { out with pcm := none }
    let s := stop_output_stream x is_tmus adev out
    (0, s.2.1, out, log ++ s.2.2)
  else (0, adev, out, [])

/-- The results of the collaborators during one run of `out_write`: those of its
`start_output_stream`, the status of `pcm_write`, and those of the
`select_devices` of the `out_standby` it falls back to. -/
structure out_write_ext where
  start : start_output_stream_ext := {}
  pcm_write : Int := 0
  standby : select_devices_ext := {}
  deriving DecidableEq, Repr

/-- The function `out_write`, lines 1362-1394: the device state and the stream it
leaves and the calls it issues; it returns the byte count it was given. -/
def out_write (x : out_write_ext) (is_tmus : Bool) (adev : audio_device)
    (out : stream_out) : audio_device × stream_out × List action :=
  let r : Int × audio_device × stream_out × List action :=
    if out.standby = true then
      let s := start_output_stream x.start is_tmus adev out
      if s.1 ≠ 0 then s
      else
        let out : stream_out := { s.2.2.1 with standby := false }
        if out.pcm ≠ none then (x.pcm_write, s.2.1, out, s.2.2.2)
        else (s.1, s.2.1, out, s.2.2.2)
    else if out.pcm ≠ none then (x.pcm_write, adev, out, [])
    else (-1, adev, out, [])
  if r.1 ≠ 0 then
    let s := out_standby x.standby is_tmus r.2.1 r.2.2.1
    (s.2.1, s.2.2.1, r.2.2.2 ++ s.2.2.2)
  else (r.2.1, r.2.2.1, r.2.2.2)

/-- The results of the collaborators during one run of `out_set_parameters` with the
routing key present: the result `ret` of the lookup, which is not negative, and
those of the `start_voice_call`, `stop_voice_call` or `select_devices` it
runs. -/
structure out_set_parameters_ext where
  ret : Int := 0
  start_voice : start_voice_call_ext := {}
  stop_voice : select_devices_ext := {}
  select : select_devices_ext := {}
  deriving DecidableEq, Repr

/-- The function `out_set_parameters`, lines 1267-1308, with the routing key
present and the value `val`.  The status of `start_voice_call` and of
`stop_voice_call` is dropped. -/
def out_set_parameters (x : out_set_parameters_ext) (is_tmus : Bool) (adev : audio_device)
    (out : stream_out) (val : Nat) : Int × audio_device × stream_out × List action :=
  if adev.mode = AUDIO_MODE_IN_CALL ∧ adev.in_call = false ∧ val ≠ 0 then
    let adev := { adev with out_device := get_active_out_devices adev out.usecase ||| val }
    let out := { out with devices := val }
    let s := start_voice_call x.start_voice is_tmus adev
    (x.ret, s.2.1, out, s.2.2)
  else if adev.mode ≠ AUDIO_MODE_IN_CALL ∧ adev.in_call = true then
    let r : audio_device × stream_out :=
      if val ≠ 0 then
        ({ adev with out_device := get_active_out_devices adev out.usecase ||| val },
          { out with devices := val })
      else (adev, out)
    let s := stop_voice_call x.stop_voice is_tmus r.1
    (x.ret, s.2.1, r.2, s.2.2)
  else if out.devices ≠ val ∧ val ≠ 0 then
    if out.standby = false ∨ adev.in_call = true then
      let adev := { adev with out_device := get_active_out_devices adev out.usecase ||| val }
      let s := select_devices x.select is_tmus adev
      (s.1, s.2.1, { out with devices := val }, s.2.2)
    else (x.ret, adev, { out with devices := val }, [])
  else (x.ret, adev, out, [])

/-- The function `in_standby`, lines 1456-1476. -/
def in_standby (x : select_devices_ext) (is_tmus : Bool) (adev : audio_device)
    (in_stream : stream_in) : Int × audio_device × stream_in × List action :=
  if in_stream.standby = false then
    let in_stream := { in_stream with standby := true }
    let log : List action := if in_stream.pcm ≠ none then [action.pcm_close PCM_IN] else []
    let in_stream := { in_stream with pcm := none }
    let s := stop_input_stream x is_tmus adev in_stream
    (s.1, s.2.1, in_stream, log ++ s.2.2)
  else (0, adev, in_stream, [])

/-- The results of the collaborators during one run of `in_read`: those of its
`start_input_stream`, the status of `pcm_read`, and those of the
`select_devices` of the `in_standby` it falls back to. -/
structure in_read_ext where
  start : start_input_stream_ext := {}
  pcm_read : Int := 0
  standby : select_devices_ext := {}
  deriving DecidableEq, Repr

/-- The function `in_read`, lines 1535-1580: the device state and the stream it
leaves and the calls it issues; it returns the byte count it was given. -/
def in_read (x : in_read_ext) (is_tmus : Bool) (adev : audio_device)
    (in_stream : stream_in) : audio_device × stream_in × List action :=
  let r : Int × audio_device × stream_in × List action :=
    if in_stream.standby = true then
      let s := start_input_stream x.start is_tmus adev in_stream
      if s.1 ≠ 0 then s
      else
        let in_stream : stream_in := { s.2.2.1 with standby := false }
        let adev := { s.2.1 with active_input := some in_stream }
        if in_stream.pcm ≠ none then (x.pcm_read, adev, in_stream, s.2.2.2)
        else (s.1, adev, in_stream, s.2.2.2)
    else if in_stream.pcm ≠ none then (x.pcm_read, adev, in_stream, [])
    else (-1, adev, in_stream, [])
  if r.1 ≠ 0 then
    let s := in_standby x.standby is_tmus r.2.1 r.2.2.1
    (s.2.1, s.2.2.1, r.2.2.2 ++ s.2.2.2)
  else (r.2.1, r.2.2.1, r.2.2.2)

/-- The function `in_set_parameters`, lines 1483-1522: `source` is the value of the
input-source key and `routing` that of the routing key, `none` when the key is
absent; a source value of 0 is the default source; `ret` is the result of the
last lookup.  The stream is the active input when `active_input` holds it, and
then the device state sees what is written to it. -/
def in_set_parameters (x : select_devices_ext) (ret : Int) (is_tmus : Bool)
    (adev : audio_device) (in_stream : stream_in) (source : Option audio_source_t)
    (routing : Option Nat) : Int × audio_device × stream_in × List action :=
  let is_active : Bool := decide (adev.active_input = some in_stream)
  let in_stream :=
    match source with
    | some val =>
      if in_stream.source ≠ val ∧ val ≠ AUDIO_SOURCE_DEFAULT then
        { in_stream with source := val }
      else in_stream
    | none => in_stream
  let adev := if is_active = true then { adev with active_input := some in_stream } else adev
  match routing with
  | some val =>
    if in_stream.device ≠ val ∧ val ≠ 0 then
      let in_stream := { in_stream with device := val }
      let adev :=
        if is_active = true then { adev with active_input := some in_stream } else adev
      if in_stream.standby = false then
        let s := select_devices x is_tmus adev
        (s.1, s.2.1, in_stream, s.2.2)
      else (ret, adev, in_stream, [])
    else (ret, adev, in_stream, [])
  | none => (ret, adev, in_stream, [])

/-- Modelled from the spec: the values of the TTY-mode key,
`AUDIO_PARAMETER_VALUE_TTY_OFF`, `_VCO`, `_HCO` and `_FULL` of the platform
header `hardware/audio.h` (not under `src/`), as the four requests for the TTY
modes OFF, VCO, HCO and FULL. -/
inductive tty_value_t where
  | AUDIO_PARAMETER_VALUE_TTY_OFF
  | AUDIO_PARAMETER_VALUE_TTY_VCO
  | AUDIO_PARAMETER_VALUE_TTY_HCO
  | AUDIO_PARAMETER_VALUE_TTY_FULL
  | other
  deriving DecidableEq, Repr

open tty_value_t

/-- The mask `TTY_MODE_CLEAR`, line 48. -/
abbrev TTY_MODE_CLEAR : Nat := 0xFFFFFF0F

/-- Lines 1706-1716 of `adev_set_parameters`: the TTY mode a value of the TTY-mode
key stands for, `none` for a value that is none of the four. -/
def adev_set_parameters_tty_mode (value : tty_value_t) : Option Int :=
  if value = AUDIO_PARAMETER_VALUE_TTY_OFF then some TTY_MODE_OFF
  else if value = AUDIO_PARAMETER_VALUE_TTY_VCO then some TTY_MODE_VCO
  else if value = AUDIO_PARAMETER_VALUE_TTY_HCO then some TTY_MODE_HCO
  else if value = AUDIO_PARAMETER_VALUE_TTY_FULL then some TTY_MODE_FULL
  else none

/-- The function `adev_set_parameters`, lines 1693-1751, for a request that holds
the TTY-mode key with the value `value`: it returns `-EINVAL` at once for a
value that is none of the four; otherwise it goes on with the lookups of the
other keys, which write nothing that is modelled, and returns `ret`, the
result of the last lookup, that of the key `screen_state` (lines 1740 and
1750). -/
def adev_set_parameters (x : select_devices_ext) (ret : Int) (is_tmus : Bool)
    (adev : audio_device) (value : tty_value_t) : Int × audio_device × List action :=
  match adev_set_parameters_tty_mode value with
  | none => (-EINVAL, adev, [])
  | some tty_mode =>
    if tty_mode ≠ adev.tty_mode then
      let adev := { adev with
        tty_mode := tty_mode,
        acdb_settings := (adev.acdb_settings &&& TTY_MODE_CLEAR) ||| tty_mode.toNat }
      if adev.in_call = true then
        let s := select_devices x is_tmus adev
        (ret, s.2.1, s.2.2)
      else (ret, adev, [])
    else (ret, adev, [])

/-- The function `adev_set_mode`, lines 1825-1835. -/
def adev_set_mode (adev : audio_device) (mode : audio_mode_t) : Int × audio_device :=
  if adev.mode ≠ mode then (0, { adev with mode := mode }) else (0, adev)

/-- One call of an entry point that writes the device state, or of one of the
operations the entry points are built from, with the stream it is made on as the
caller holds it and with the results of the collaborators. -/
inductive hal_op where
  | select_devices (x : select_devices_ext)
  | start_output_stream (x : start_output_stream_ext) (out : stream_out)
  | stop_output_stream (x : select_devices_ext) (out : stream_out)
  | start_input_stream (x : start_input_stream_ext) (in_stream : stream_in)
  | stop_input_stream (x : select_devices_ext) (in_stream : stream_in)
  | start_voice_call (x : start_voice_call_ext)
  | stop_voice_call (x : select_devices_ext)
  | out_write (x : out_write_ext) (out : stream_out)
  | out_standby (x : select_devices_ext) (out : stream_out)
  | out_set_parameters (x : out_set_parameters_ext) (out : stream_out) (val : Nat)
  | in_read (x : in_read_ext) (in_stream : stream_in)
  | in_standby (x : select_devices_ext) (in_stream : stream_in)
  | in_set_parameters (x : select_devices_ext) (ret : Int) (in_stream : stream_in)
      (source : Option audio_source_t) (routing : Option Nat)
  | adev_set_parameters (x : select_devices_ext) (ret : Int) (value : tty_value_t)
  | adev_set_mode (mode : audio_mode_t)

/-- The device state after one such call. -/
def hal_step (is_tmus : Bool) (adev : audio_device) : hal_op → audio_device
  | hal_op.select_devices x => (select_devices x is_tmus adev).2.1
  | hal_op.start_output_stream x out => (start_output_stream x is_tmus adev out).2.1
  | hal_op.stop_output_stream x out => (stop_output_stream x is_tmus adev out).2.1
  | hal_op.start_input_stream x in_stream => (start_input_stream x is_tmus adev in_stream).2.1
  | hal_op.stop_input_stream x in_stream => (stop_input_stream x is_tmus adev in_stream).2.1
  | hal_op.start_voice_call x => (start_voice_call x is_tmus adev).2.1
  | hal_op.stop_voice_call x => (stop_voice_call x is_tmus adev).2.1
  | hal_op.out_write x out => (out_write x is_tmus adev out).1
  | hal_op.out_standby x out => (out_standby x is_tmus adev out).2.1
  | hal_op.out_set_parameters x out val => (out_set_parameters x is_tmus adev out val).2.1
  | hal_op.in_read x in_stream => (in_read x is_tmus adev in_stream).1
  | hal_op.in_standby x in_stream => (in_standby x is_tmus adev in_stream).2.1
  | hal_op.in_set_parameters x ret in_stream source routing =>
    (in_set_parameters x ret is_tmus adev in_stream source routing).2.1
  | hal_op.adev_set_parameters x ret value =>
    (adev_set_parameters x ret is_tmus adev value).2.1
  | hal_op.adev_set_mode mode => (adev_set_mode adev mode).2

/-- The device state after a sequence of such calls, first call first. -/
def hal_run (is_tmus : Bool) (adev : audio_device) : List hal_op → audio_device
  | [] => adev
  | op :: ops => hal_run is_tmus (hal_step is_tmus adev op) ops

/-! ## Auxiliary facts on bitmasks -/

/-- A bitmask with a bit in common with another one is not empty. -/
theorem ne_zero_of_and_ne_zero {d c : Nat} (h : d &&& c ≠ 0) : d ≠ 0 := by
  intro hd
  apply h
  rw [hd]
  exact Nat.zero_and c

/-- The empty bitmask has no bit set. -/
theorem popcount_zero : popcount 0 = 0 := by decide

/-- A bitmask with a bit set is not empty. -/
theorem ne_zero_of_popcount_ne_zero {d : Nat} (h : popcount d ≠ 0) : d ≠ 0 := by
  intro hd
  apply h
  rw [hd]
  exact popcount_zero

/-- A value below `2 ^ w` without one bits is zero. -/
theorem popcountBits_eq_zero : ∀ (w x : Nat), x < 2 ^ w → popcountBits w x = 0 → x = 0
  | 0, x, h, _ => by simpa using h
  | w + 1, x, h, hp => by
    simp only [popcountBits] at hp
    have h2 : popcountBits w (x / 2) = 0 := by omega
    have h3 : x / 2 < 2 ^ w := by rw [pow_succ] at h; omega
    have h4 := popcountBits_eq_zero w (x / 2) h3 h2
    omega

/-- A value below `2 ^ w` with exactly one bit set is a power of two. -/
theorem popcountBits_eq_one : ∀ (w x : Nat), x < 2 ^ w → popcountBits w x = 1 →
    ∃ k, k < w ∧ x = 2 ^ k
  | 0, _, _, hp => by simp [popcountBits] at hp
  | w + 1, x, h, hp => by
    simp only [popcountBits] at hp
    have h3 : x / 2 < 2 ^ w := by rw [pow_succ] at h; omega
    rcases Nat.mod_two_eq_zero_or_one x with h0 | h1
    · have h2 : popcountBits w (x / 2) = 1 := by omega
      obtain ⟨k, hk, hx⟩ := popcountBits_eq_one w (x / 2) h3 h2
      refine ⟨k + 1, by omega, ?_⟩
      rw [pow_succ, ← hx]
      omega
    · have h2 : popcountBits w (x / 2) = 0 := by omega
      have h4 := popcountBits_eq_zero w (x / 2) h3 h2
      exact ⟨0, by omega, by simp; omega⟩

/-- A 32-bit value with exactly one bit set is one of the 32 single bits. -/
theorem popcount_eq_one {d : Nat} (hlt : d < 2 ^ 32) (h : popcount d = 1) :
    ∃ k, k < 32 ∧ d = 2 ^ k := by
  unfold popcount at h
  rw [Nat.mod_eq_of_lt hlt] at h
  exact popcountBits_eq_one 32 d hlt h

/-- The guard and the single-device chain of the output selector, evaluated on each
of the 32 single bits. -/
theorem single_pow_two : ∀ k, k < 32 →
    (if 2 ^ k = AUDIO_DEVICE_NONE ∨ 2 ^ k &&& AUDIO_DEVICE_BIT_IN ≠ 0 then SND_DEVICE_NONE
      else get_output_snd_device_single (2 ^ k)) =
    (if 2 ^ k = AUDIO_DEVICE_OUT_WIRED_HEADPHONE ∨ 2 ^ k = AUDIO_DEVICE_OUT_WIRED_HEADSET then
        SND_DEVICE_OUT_HEADPHONES
      else if 2 ^ k = AUDIO_DEVICE_OUT_SPEAKER then SND_DEVICE_OUT_SPEAKER
      else if 2 ^ k = AUDIO_DEVICE_OUT_BLUETOOTH_SCO ∨
          2 ^ k = AUDIO_DEVICE_OUT_BLUETOOTH_SCO_HEADSET ∨
          2 ^ k = AUDIO_DEVICE_OUT_BLUETOOTH_SCO_CARKIT then SND_DEVICE_OUT_BT_SCO
      else if 2 ^ k = AUDIO_DEVICE_OUT_AUX_DIGITAL then SND_DEVICE_OUT_HDMI
      else if 2 ^ k = AUDIO_DEVICE_OUT_EARPIECE then SND_DEVICE_OUT_HANDSET
      else SND_DEVICE_NONE) := by
  decide

/-! ## Output selector -/

/-- C1: a requested output bitmask with exactly two bits set and no direction
flag, which the in-call branch does not resolve (in particular any such bitmask
outside call mode), selects speaker-and-headphones for wired headphone + speaker
and for wired headset + speaker, speaker-and-hdmi for AUX_DIGITAL + speaker, and
no device for every other two-bit combination. -/
theorem get_output_snd_device_two_bit_combo (is_tmus : Bool) (adev : audio_device)
    (hpop : popcount adev.out_device = 2)
    (hdir : adev.out_device &&& AUDIO_DEVICE_BIT_IN = 0)
    (hcall : adev.mode ≠ AUDIO_MODE_IN_CALL ∨
      get_output_snd_device_in_call is_tmus adev = SND_DEVICE_NONE) :
    get_output_snd_device is_tmus adev =
      if adev.out_device = (AUDIO_DEVICE_OUT_WIRED_HEADPHONE ||| AUDIO_DEVICE_OUT_SPEAKER) ∨
          adev.out_device = (AUDIO_DEVICE_OUT_WIRED_HEADSET ||| AUDIO_DEVICE_OUT_SPEAKER) then
        SND_DEVICE_OUT_SPEAKER_AND_HEADPHONES
      else if adev.out_device = (AUDIO_DEVICE_OUT_AUX_DIGITAL ||| AUDIO_DEVICE_OUT_SPEAKER) then
        SND_DEVICE_OUT_SPEAKER_AND_HDMI
      else SND_DEVICE_NONE := by
  have hne : adev.out_device ≠ 0 := ne_zero_of_popcount_ne_zero (by rw [hpop]; decide)
  have hguard : ¬ (adev.out_device = AUDIO_DEVICE_NONE ∨
      adev.out_device &&& AUDIO_DEVICE_BIT_IN ≠ 0) := by
    rintro (h | h)
    · exact hne h
    · exact h hdir
  have hnocall : ¬ (adev.mode = AUDIO_MODE_IN_CALL ∧
      get_output_snd_device_in_call is_tmus adev ≠ SND_DEVICE_NONE) := by
    rintro ⟨h1, h2⟩
    rcases hcall with h | h
    · exact h h1
    · exact h2 h
  unfold get_output_snd_device
  simp only [hguard, hnocall, hpop, if_true, if_false]
  unfold get_output_snd_device_combo
  by_cases h1 :
      adev.out_device = (AUDIO_DEVICE_OUT_WIRED_HEADPHONE ||| AUDIO_DEVICE_OUT_SPEAKER)
  · simp [h1]
  · by_cases h2 :
        adev.out_device = (AUDIO_DEVICE_OUT_WIRED_HEADSET ||| AUDIO_DEVICE_OUT_SPEAKER)
    · simp [h2]
    · simp [h1, h2]

/-- In call mode a device the in-call branch assigns is the result. -/
theorem get_output_snd_device_of_in_call (is_tmus : Bool) (adev : audio_device)
    (hmode : adev.mode = AUDIO_MODE_IN_CALL) (hne : adev.out_device ≠ AUDIO_DEVICE_NONE)
    (hdir : adev.out_device &&& AUDIO_DEVICE_BIT_IN = 0) (r : snd_device_t)
    (hr : get_output_snd_device_in_call is_tmus adev = r) (hr0 : r ≠ SND_DEVICE_NONE) :
    get_output_snd_device is_tmus adev = r := by
  have hguard : ¬ (adev.out_device = AUDIO_DEVICE_NONE ∨
      adev.out_device &&& AUDIO_DEVICE_BIT_IN ≠ 0) := by
    rintro (h | h)
    · exact hne h
    · exact h hdir
  unfold get_output_snd_device
  simp only [hguard, hmode, hr, if_false]
  simp [hr0]

/-- Outside call mode the in-call branch is skipped. -/
theorem get_output_snd_device_not_in_call (is_tmus : Bool) (adev : audio_device)
    (hmode : adev.mode ≠ AUDIO_MODE_IN_CALL) :
    get_output_snd_device is_tmus adev =
      if adev.out_device = AUDIO_DEVICE_NONE ∨ adev.out_device &&& AUDIO_DEVICE_BIT_IN ≠ 0 then
        SND_DEVICE_NONE
      else if popcount adev.out_device = 2 then get_output_snd_device_combo adev.out_device
      else if popcount adev.out_device ≠ 1 then SND_DEVICE_NONE
      else get_output_snd_device_single adev.out_device := by
  unfold get_output_snd_device
  simp [hmode]

/-- C2: in call mode, for a non-empty requested output bitmask without the
direction flag, the rules apply in priority order whatever other bits are set:
wired headphone or headset selects by TTY mode (FULL, VCO, HCO, OFF); otherwise a
Bluetooth SCO bit selects bt-sco; otherwise speaker selects voice-speaker;
otherwise earpiece selects the carrier-variant handset when the carrier variant
is detected and the plain handset when it is not. -/
theorem get_output_snd_device_in_call_priority (is_tmus : Bool) (adev : audio_device)
    (hmode : adev.mode = AUDIO_MODE_IN_CALL) (hne : adev.out_device ≠ AUDIO_DEVICE_NONE)
    (hdir : adev.out_device &&& AUDIO_DEVICE_BIT_IN = 0) :
    ((adev.out_device &&& AUDIO_DEVICE_OUT_WIRED_HEADPHONE ≠ 0 ∨
        adev.out_device &&& AUDIO_DEVICE_OUT_WIRED_HEADSET ≠ 0) →
      (adev.tty_mode = TTY_MODE_FULL →
        get_output_snd_device is_tmus adev = SND_DEVICE_OUT_VOICE_TTY_FULL_HEADPHONES) ∧
      (adev.tty_mode = TTY_MODE_VCO →
        get_output_snd_device is_tmus adev = SND_DEVICE_OUT_VOICE_TTY_VCO_HEADPHONES) ∧
      (adev.tty_mode = TTY_MODE_HCO →
        get_output_snd_device is_tmus adev = SND_DEVICE_OUT_VOICE_TTY_HCO_HANDSET) ∧
      (adev.tty_mode = TTY_MODE_OFF →
        get_output_snd_device is_tmus adev = SND_DEVICE_OUT_VOICE_HEADPHONES)) ∧
    (¬ (adev.out_device &&& AUDIO_DEVICE_OUT_WIRED_HEADPHONE ≠ 0 ∨
        adev.out_device &&& AUDIO_DEVICE_OUT_WIRED_HEADSET ≠ 0) →
      (adev.out_device &&& AUDIO_DEVICE_OUT_ALL_SCO ≠ 0 →
        get_output_snd_device is_tmus adev = SND_DEVICE_OUT_BT_SCO) ∧
      (adev.out_device &&& AUDIO_DEVICE_OUT_ALL_SCO = 0 →
        (adev.out_device &&& AUDIO_DEVICE_OUT_SPEAKER ≠ 0 →
          get_output_snd_device is_tmus adev = SND_DEVICE_OUT_VOICE_SPEAKER) ∧
        (adev.out_device &&& AUDIO_DEVICE_OUT_SPEAKER = 0 →
          adev.out_device &&& AUDIO_DEVICE_OUT_EARPIECE ≠ 0 →
          get_output_snd_device is_tmus adev =
            if is_tmus = true then SND_DEVICE_OUT_VOICE_HANDSET_TMUS
            else SND_DEVICE_OUT_HANDSET))) := by
  refine ⟨fun hw => ⟨fun ht => ?_, fun ht => ?_, fun ht => ?_, fun ht => ?_⟩,
    fun hw => ⟨fun hs => ?_, fun hs => ⟨fun hp => ?_, fun hp he => ?_⟩⟩⟩
  · exact get_output_snd_device_of_in_call is_tmus adev hmode hne hdir _
      (by simp [get_output_snd_device_in_call, hw, ht]) (by decide)
  · exact get_output_snd_device_of_in_call is_tmus adev hmode hne hdir _
      (by simp [get_output_snd_device_in_call, hw, ht]) (by decide)
  · exact get_output_snd_device_of_in_call is_tmus adev hmode hne hdir _
      (by simp [get_output_snd_device_in_call, hw, ht]) (by decide)
  · exact get_output_snd_device_of_in_call is_tmus adev hmode hne hdir _
      (by simp [get_output_snd_device_in_call, hw, ht]) (by decide)
  · exact get_output_snd_device_of_in_call is_tmus adev hmode hne hdir _
      (by simp [get_output_snd_device_in_call, hw, hs]) (by decide)
  · exact get_output_snd_device_of_in_call is_tmus adev hmode hne hdir _
      (by simp [get_output_snd_device_in_call, hw, hs, hp]) (by decide)
  · exact get_output_snd_device_of_in_call is_tmus adev hmode hne hdir _
      (by
        simp only [get_output_snd_device_in_call]
        rw [if_neg hw, if_neg (not_not.mpr hs), if_neg (not_not.mpr hp), if_pos he])
      (by cases is_tmus <;> decide)

/-- C3: outside call mode a requested output bitmask (a 32-bit value) with
exactly one bit set selects by the direct mapping: wired headphone or wired
headset gives headphones, speaker gives speaker, each Bluetooth SCO bit gives
bt-sco, AUX_DIGITAL gives hdmi, earpiece gives handset, and any other single bit
gives no device. -/
theorem get_output_snd_device_one_bit (is_tmus : Bool) (adev : audio_device)
    (hmode : adev.mode ≠ AUDIO_MODE_IN_CALL) (hlt : adev.out_device < 2 ^ 32)
    (hpop : popcount adev.out_device = 1) :
    get_output_snd_device is_tmus adev =
      if adev.out_device = AUDIO_DEVICE_OUT_WIRED_HEADPHONE ∨
          adev.out_device = AUDIO_DEVICE_OUT_WIRED_HEADSET then SND_DEVICE_OUT_HEADPHONES
      else if adev.out_device = AUDIO_DEVICE_OUT_SPEAKER then SND_DEVICE_OUT_SPEAKER
      else if adev.out_device = AUDIO_DEVICE_OUT_BLUETOOTH_SCO ∨
          adev.out_device = AUDIO_DEVICE_OUT_BLUETOOTH_SCO_HEADSET ∨
          adev.out_device = AUDIO_DEVICE_OUT_BLUETOOTH_SCO_CARKIT then SND_DEVICE_OUT_BT_SCO
      else if adev.out_device = AUDIO_DEVICE_OUT_AUX_DIGITAL then SND_DEVICE_OUT_HDMI
      else if adev.out_device = AUDIO_DEVICE_OUT_EARPIECE then SND_DEVICE_OUT_HANDSET
      else SND_DEVICE_NONE := by
  obtain ⟨k, hk, hd⟩ := popcount_eq_one hlt hpop
  rw [get_output_snd_device_not_in_call is_tmus adev hmode]
  have h2 : ¬ (popcount adev.out_device = 2) := by rw [hpop]; decide
  have h1 : ¬ (popcount adev.out_device ≠ 1) := by rw [hpop]; decide
  simp only [h2, h1, if_false]
  rw [hd]
  exact single_pow_two k hk

/-- C4: outside call mode the output selector returns no device for the empty
bitmask, for every bitmask with more than two bits set, and for every bitmask
carrying the input-direction flag. -/
theorem get_output_snd_device_invalid_none (is_tmus : Bool) (adev : audio_device)
    (hmode : adev.mode ≠ AUDIO_MODE_IN_CALL)
    (hbad : adev.out_device = AUDIO_DEVICE_NONE ∨ 2 < popcount adev.out_device ∨
      adev.out_device &&& AUDIO_DEVICE_BIT_IN ≠ 0) :
    get_output_snd_device is_tmus adev = SND_DEVICE_NONE := by
  rw [get_output_snd_device_not_in_call is_tmus adev hmode]
  rcases hbad with h | h | h
  · simp [h]
  · have h2 : ¬ (popcount adev.out_device = 2) := by omega
    have h1 : popcount adev.out_device ≠ 1 := by omega
    simp [h2, h1]
  · simp [h]

/-! ## Input selector -/

/-- In call mode with a non-empty output bitmask and the TTY rule not applying,
the in-call chain decides when it assigns a device. -/
theorem get_input_snd_device_of_in_call (is_tmus : Bool) (adev : audio_device)
    (hmode : adev.mode = AUDIO_MODE_IN_CALL) (hne : adev.out_device ≠ AUDIO_DEVICE_NONE)
    (htty : ¬ (adev.tty_mode ≠ TTY_MODE_OFF ∧
      (adev.out_device &&& AUDIO_DEVICE_OUT_WIRED_HEADPHONE ≠ 0 ∨
        adev.out_device &&& AUDIO_DEVICE_OUT_WIRED_HEADSET ≠ 0)))
    (r : snd_device_t) (hr : get_input_snd_device_in_call is_tmus adev = r)
    (hr0 : r ≠ SND_DEVICE_NONE) :
    get_input_snd_device is_tmus adev = r := by
  simp only [get_input_snd_device]
  rw [if_pos hmode, if_neg hne, if_neg htty, hr]
  simp only [get_input_snd_device_tail]
  rw [if_pos hr0]

/-- C5: in call mode, when the requested output bitmask contains wired headphone
or wired headset and the TTY mode is not OFF, the input selector returns the TTY
microphone of FULL, VCO or HCO, and no device for any other TTY value, whatever
the rest of the state is. -/
theorem get_input_snd_device_in_call_tty (is_tmus : Bool) (adev : audio_device)
    (hmode : adev.mode = AUDIO_MODE_IN_CALL)
    (hw : adev.out_device &&& AUDIO_DEVICE_OUT_WIRED_HEADPHONE ≠ 0 ∨
      adev.out_device &&& AUDIO_DEVICE_OUT_WIRED_HEADSET ≠ 0)
    (htty : adev.tty_mode ≠ TTY_MODE_OFF) :
    get_input_snd_device is_tmus adev =
      if adev.tty_mode = TTY_MODE_FULL then SND_DEVICE_IN_VOICE_TTY_FULL_HEADSET_MIC
      else if adev.tty_mode = TTY_MODE_VCO then SND_DEVICE_IN_VOICE_TTY_VCO_HANDSET_MIC
      else if adev.tty_mode = TTY_MODE_HCO then SND_DEVICE_IN_VOICE_TTY_HCO_HEADSET_MIC
      else SND_DEVICE_NONE := by
  have hne : adev.out_device ≠ AUDIO_DEVICE_NONE := by
    rcases hw with h | h
    · exact ne_zero_of_and_ne_zero h
    · exact ne_zero_of_and_ne_zero h
  simp only [get_input_snd_device]
  rw [if_pos hmode, if_neg hne, if_pos ⟨htty, hw⟩]
  rfl

/-- C6: in call mode, when the TTY rule does not apply (TTY off, or neither wired
headphone nor wired headset requested) and the requested output bitmask contains
earpiece or wired headphone, the input selector returns the handset mic if the
mic is analog or fluence-in-call is disabled, and otherwise selects by dual-mic
configuration: endfire gives the carrier-variant endfire mic when the carrier
variant is detected and the plain endfire mic when not, broadside gives the
broadside mic, none gives the handset mic. -/
theorem get_input_snd_device_in_call_handset (is_tmus : Bool) (adev : audio_device)
    (hmode : adev.mode = AUDIO_MODE_IN_CALL)
    (htty : adev.tty_mode = TTY_MODE_OFF ∨
      (adev.out_device &&& AUDIO_DEVICE_OUT_WIRED_HEADPHONE = 0 ∧
        adev.out_device &&& AUDIO_DEVICE_OUT_WIRED_HEADSET = 0))
    (he : adev.out_device &&& AUDIO_DEVICE_OUT_EARPIECE ≠ 0 ∨
      adev.out_device &&& AUDIO_DEVICE_OUT_WIRED_HEADPHONE ≠ 0) :
    get_input_snd_device is_tmus adev =
      if adev.mic_type_analog = true ∨ adev.fluence_in_voice_call = false then
        SND_DEVICE_IN_HANDSET_MIC
      else
        match adev.dualmic_config with
        | DUALMIC_CONFIG_ENDFIRE =>
          if is_tmus = true then SND_DEVICE_IN_VOICE_DMIC_EF_TMUS
          else SND_DEVICE_IN_VOICE_DMIC_EF
        | DUALMIC_CONFIG_BROADSIDE => SND_DEVICE_IN_VOICE_DMIC_BS
        | DUALMIC_CONFIG_NONE => SND_DEVICE_IN_HANDSET_MIC := by
  have hne : adev.out_device ≠ AUDIO_DEVICE_NONE := by
    rcases he with h | h
    · exact ne_zero_of_and_ne_zero h
    · exact ne_zero_of_and_ne_zero h
  have hrule : ¬ (adev.tty_mode ≠ TTY_MODE_OFF ∧
      (adev.out_device &&& AUDIO_DEVICE_OUT_WIRED_HEADPHONE ≠ 0 ∨
        adev.out_device &&& AUDIO_DEVICE_OUT_WIRED_HEADSET ≠ 0)) := by
    rintro ⟨h1, h2⟩
    rcases htty with h | ⟨h3, h4⟩
    · exact h1 h
    · rcases h2 with h | h
      · exact h h3
      · exact h h4
  apply get_input_snd_device_of_in_call is_tmus adev hmode hne hrule
  · simp only [get_input_snd_device_in_call]
    rw [if_pos he]
    cases adev.dualmic_config <;> simp
  · cases adev.dualmic_config <;> cases is_tmus <;> cases adev.mic_type_analog <;>
      cases adev.fluence_in_voice_call <;> decide

/-- C7: in call mode, when the TTY rule does not apply and the requested output
bitmask has neither earpiece nor wired headphone: wired headset gives the voice
headset mic; otherwise a Bluetooth SCO bit gives the bt-sco mic; otherwise speaker
gives the endfire speaker dmic if fluence-in-call and endfire, the broadside
speaker dmic if fluence-in-call and broadside, and the voice speaker mic
otherwise. -/
theorem get_input_snd_device_in_call_headset_sco_speaker (is_tmus : Bool)
    (adev : audio_device) (hmode : adev.mode = AUDIO_MODE_IN_CALL)
    (htty : adev.tty_mode = TTY_MODE_OFF ∨
      (adev.out_device &&& AUDIO_DEVICE_OUT_WIRED_HEADPHONE = 0 ∧
        adev.out_device &&& AUDIO_DEVICE_OUT_WIRED_HEADSET = 0))
    (he : adev.out_device &&& AUDIO_DEVICE_OUT_EARPIECE = 0)
    (hp : adev.out_device &&& AUDIO_DEVICE_OUT_WIRED_HEADPHONE = 0) :
    (adev.out_device &&& AUDIO_DEVICE_OUT_WIRED_HEADSET ≠ 0 →
      get_input_snd_device is_tmus adev = SND_DEVICE_IN_VOICE_HEADSET_MIC) ∧
    (adev.out_device &&& AUDIO_DEVICE_OUT_WIRED_HEADSET = 0 →
      (adev.out_device &&& AUDIO_DEVICE_OUT_ALL_SCO ≠ 0 →
        get_input_snd_device is_tmus adev = SND_DEVICE_IN_BT_SCO_MIC) ∧
      (adev.out_device &&& AUDIO_DEVICE_OUT_ALL_SCO = 0 →
        adev.out_device &&& AUDIO_DEVICE_OUT_SPEAKER ≠ 0 →
        get_input_snd_device is_tmus adev =
          if adev.fluence_in_voice_call = true ∧
              adev.dualmic_config = DUALMIC_CONFIG_ENDFIRE then
            SND_DEVICE_IN_VOICE_SPEAKER_DMIC_EF
          else if adev.fluence_in_voice_call = true ∧
              adev.dualmic_config = DUALMIC_CONFIG_BROADSIDE then
            SND_DEVICE_IN_VOICE_SPEAKER_DMIC_BS
          else SND_DEVICE_IN_VOICE_SPEAKER_MIC)) := by
  have hrule : ¬ (adev.tty_mode ≠ TTY_MODE_OFF ∧
      (adev.out_device &&& AUDIO_DEVICE_OUT_WIRED_HEADPHONE ≠ 0 ∨
        adev.out_device &&& AUDIO_DEVICE_OUT_WIRED_HEADSET ≠ 0)) := by
    rintro ⟨h1, h2⟩
    rcases htty with h | ⟨h3, h4⟩
    · exact h1 h
    · rcases h2 with h | h
      · exact h h3
      · exact h h4
  have hfirst : ¬ (adev.out_device &&& AUDIO_DEVICE_OUT_EARPIECE ≠ 0 ∨
      adev.out_device &&& AUDIO_DEVICE_OUT_WIRED_HEADPHONE ≠ 0) := by
    rintro (h | h)
    · exact h he
    · exact h hp
  refine ⟨fun hs => ?_, fun hs => ⟨fun hsco => ?_, fun hsco hspk => ?_⟩⟩
  · apply get_input_snd_device_of_in_call is_tmus adev hmode (ne_zero_of_and_ne_zero hs) hrule
    · simp only [get_input_snd_device_in_call]
      rw [if_neg hfirst, if_pos hs]
    · decide
  · apply get_input_snd_device_of_in_call is_tmus adev hmode (ne_zero_of_and_ne_zero hsco)
      hrule
    · simp only [get_input_snd_device_in_call]
      rw [if_neg hfirst, if_neg (not_not.mpr hs), if_pos hsco]
    · decide
  · apply get_input_snd_device_of_in_call is_tmus adev hmode (ne_zero_of_and_ne_zero hspk)
      hrule
    · simp only [get_input_snd_device_in_call]
      rw [if_neg hfirst, if_neg (not_not.mpr hs), if_neg (not_not.mpr hsco), if_pos hspk]
    · cases adev.dualmic_config <;> cases adev.fluence_in_voice_call <;> decide

/-- C8, amended: in call mode with an empty requested output bitmask the output
selector resolves no device and the input selector fails at once, returning no
device. -/
theorem get_input_snd_device_in_call_no_output (is_tmus : Bool) (adev : audio_device)
    (hmode : adev.mode = AUDIO_MODE_IN_CALL) (hnone : adev.out_device = AUDIO_DEVICE_NONE) :
    get_output_snd_device is_tmus adev = SND_DEVICE_NONE ∧
      get_input_snd_device is_tmus adev = SND_DEVICE_NONE := by
  constructor
  · simp only [get_output_snd_device]
    rw [if_pos (Or.inl hnone)]
  · simp only [get_input_snd_device]
    rw [if_pos hmode, if_pos hnone]

/-- C8, counterexample: in call mode with only the A2DP output bit requested the
output selector resolves no device, yet the input selector does not fail: it
returns the handset mic. -/
theorem get_input_snd_device_unresolved_output_counterexample :
    ({ mode := AUDIO_MODE_IN_CALL, out_device := AUDIO_DEVICE_OUT_BLUETOOTH_A2DP } :
        audio_device).mode = AUDIO_MODE_IN_CALL ∧
      get_output_snd_device false
        { mode := AUDIO_MODE_IN_CALL, out_device := AUDIO_DEVICE_OUT_BLUETOOTH_A2DP } =
        SND_DEVICE_NONE ∧
      get_input_snd_device false
        { mode := AUDIO_MODE_IN_CALL, out_device := AUDIO_DEVICE_OUT_BLUETOOTH_A2DP } =
        SND_DEVICE_IN_HANDSET_MIC := by
  decide

/-- C9, amended: outside call mode, when the input source is the default source
(also when there is no active input stream) the input selector resolves nothing
and returns no device at once; the fallback tiers are not consulted. -/
theorem get_input_snd_device_default_source_none (is_tmus : Bool) (adev : audio_device)
    (hmode : adev.mode ≠ AUDIO_MODE_IN_CALL)
    (hsrc : adev.active_input = none ∨
      ∃ i, adev.active_input = some i ∧ i.source = AUDIO_SOURCE_DEFAULT) :
    get_input_snd_device is_tmus adev = SND_DEVICE_NONE := by
  simp only [get_input_snd_device]
  rw [if_neg hmode]
  rcases hsrc with h | ⟨i, h, hi⟩
  · rw [h]
    rfl
  · rw [h]
    simp only [hi]
    rfl

/-- C9, counterexample: outside call mode, with an active input of default source
requesting the builtin mic, the input selector returns no device, not the
handset mic. -/
theorem get_input_snd_device_default_source_counterexample :
    get_input_snd_device false
      { mode := AUDIO_MODE_NORMAL,
        active_input := some { source := AUDIO_SOURCE_DEFAULT,
                               device := AUDIO_DEVICE_IN_BUILTIN_MIC } } =
      SND_DEVICE_NONE ∧
    get_input_snd_device false
      { mode := AUDIO_MODE_NORMAL,
        active_input := some { source := AUDIO_SOURCE_DEFAULT,
                               device := AUDIO_DEVICE_IN_BUILTIN_MIC } } ≠
      SND_DEVICE_IN_HANDSET_MIC := by
  decide

/-- C10, the code at the failing input: outside call mode, voice-communication
source, speaker output requested and the analog-mic flag set, the input selector
returns the speaker mic, whereas the generic tier on the back-mic bit gives the
handset mic. -/
theorem get_input_snd_device_voice_comm_speaker_analog :
    get_input_snd_device false
      { mode := AUDIO_MODE_NORMAL, out_device := AUDIO_DEVICE_OUT_SPEAKER,
        mic_type_analog := true,
        active_input := some { source := AUDIO_SOURCE_VOICE_COMMUNICATION,
                               device := AUDIO_DEVICE_IN_BUILTIN_MIC } } =
      SND_DEVICE_IN_SPEAKER_MIC ∧
    get_input_snd_device_by_in_device { mic_type_analog := true }
      (AUDIO_DEVICE_IN_BACK_MIC &&& not32 AUDIO_DEVICE_BIT_IN) =
      SND_DEVICE_IN_HANDSET_MIC := by
  decide

/-- Outside call mode, with the voice-communication source and speaker output
requested, the remapped input bitmask `AUDIO_DEVICE_IN_BACK_MIC` carries the
direction flag, which the guard of the generic tier reads as a voice-call bit:
the result is that of the tier on the output bitmask. -/
theorem get_input_snd_device_voice_comm_speaker (is_tmus : Bool) (adev : audio_device)
    (i : stream_in) (hmode : adev.mode ≠ AUDIO_MODE_IN_CALL)
    (hin : adev.active_input = some i) (hsrc : i.source = AUDIO_SOURCE_VOICE_COMMUNICATION)
    (hspk : adev.out_device &&& AUDIO_DEVICE_OUT_SPEAKER ≠ 0) :
    get_input_snd_device is_tmus adev = get_input_snd_device_by_out_device adev.out_device := by
  simp only [get_input_snd_device]
  rw [if_neg hmode, hin]
  simp only [hsrc]
  rw [if_neg (by decide), if_neg (by decide), if_pos trivial, if_pos hspk]
  simp only [get_input_snd_device_tail]
  rw [if_neg (by decide), if_neg (by decide)]

/-! ## Input selector: source-based branch and fallback tiers -/

/-- Outside call mode, with an active input whose source is none of camcorder,
voice recognition, voice communication and default, or whose branch assigns no
device, the tail decides on the stripped input bitmask. -/
theorem get_input_snd_device_of_source (is_tmus : Bool) (adev : audio_device) (i : stream_in)
    (hmode : adev.mode ≠ AUDIO_MODE_IN_CALL) (hin : adev.active_input = some i) :
    get_input_snd_device is_tmus adev =
      if i.source = AUDIO_SOURCE_CAMCORDER then
        get_input_snd_device_tail adev (i.device &&& not32 AUDIO_DEVICE_BIT_IN)
          (if (i.device &&& not32 AUDIO_DEVICE_BIT_IN) &&& AUDIO_DEVICE_IN_BUILTIN_MIC ≠ 0 ∨
              (i.device &&& not32 AUDIO_DEVICE_BIT_IN) &&& AUDIO_DEVICE_IN_BACK_MIC ≠ 0 then
            SND_DEVICE_IN_CAMCORDER_MIC
          else SND_DEVICE_NONE)
      else if i.source = AUDIO_SOURCE_VOICE_RECOGNITION then
        get_input_snd_device_tail adev (i.device &&& not32 AUDIO_DEVICE_BIT_IN)
          (get_input_snd_device_voice_rec adev (i.device &&& not32 AUDIO_DEVICE_BIT_IN)
            i.channel_mask)
      else if i.source = AUDIO_SOURCE_VOICE_COMMUNICATION then
        get_input_snd_device_tail adev
          (if adev.out_device &&& AUDIO_DEVICE_OUT_SPEAKER ≠ 0 then AUDIO_DEVICE_IN_BACK_MIC
            else i.device &&& not32 AUDIO_DEVICE_BIT_IN)
          SND_DEVICE_NONE
      else if i.source = AUDIO_SOURCE_DEFAULT then SND_DEVICE_NONE
      else get_input_snd_device_tail adev (i.device &&& not32 AUDIO_DEVICE_BIT_IN)
        SND_DEVICE_NONE := by
  simp only [get_input_snd_device]
  rw [if_neg hmode, hin]

/-- C11: outside call mode, with the voice-recognition source and the builtin-mic
bit set in the requested input bitmask, the input selector returns, for endfire,
the endfire voice-rec dmic if the channel mask is front-back, else its fluence
variant if fluence-in-record is on, else the voice-rec mic; for broadside the
broadside devices by the same tests; without dual mic the voice-rec mic. -/
theorem get_input_snd_device_voice_rec_builtin (is_tmus : Bool) (adev : audio_device)
    (i : stream_in) (hmode : adev.mode ≠ AUDIO_MODE_IN_CALL)
    (hin : adev.active_input = some i)
    (hsrc : i.source = AUDIO_SOURCE_VOICE_RECOGNITION)
    (hmic : (i.device &&& not32 AUDIO_DEVICE_BIT_IN) &&& AUDIO_DEVICE_IN_BUILTIN_MIC ≠ 0) :
    get_input_snd_device is_tmus adev =
      match adev.dualmic_config with
      | DUALMIC_CONFIG_ENDFIRE =>
        if i.channel_mask = AUDIO_CHANNEL_IN_FRONT_BACK then SND_DEVICE_IN_VOICE_REC_DMIC_EF
        else if adev.fluence_in_voice_rec = true then SND_DEVICE_IN_VOICE_REC_DMIC_EF_FLUENCE
        else SND_DEVICE_IN_VOICE_REC_MIC
      | DUALMIC_CONFIG_BROADSIDE =>
        if i.channel_mask = AUDIO_CHANNEL_IN_FRONT_BACK then SND_DEVICE_IN_VOICE_REC_DMIC_BS
        else if adev.fluence_in_voice_rec = true then SND_DEVICE_IN_VOICE_REC_DMIC_BS_FLUENCE
        else SND_DEVICE_IN_VOICE_REC_MIC
      | DUALMIC_CONFIG_NONE => SND_DEVICE_IN_VOICE_REC_MIC := by
  rw [get_input_snd_device_of_source is_tmus adev i hmode hin, hsrc]
  rw [if_neg (by decide), if_pos rfl]
  simp only [get_input_snd_device_voice_rec]
  rw [if_pos hmic]
  simp only [get_input_snd_device_tail]
  cases adev.dualmic_config
  · simp
  · by_cases hc : i.channel_mask = AUDIO_CHANNEL_IN_FRONT_BACK
    · simp [hc]
    · cases adev.fluence_in_voice_rec <;> simp [hc]
  · by_cases hc : i.channel_mask = AUDIO_CHANNEL_IN_FRONT_BACK
    · simp [hc]
    · cases adev.fluence_in_voice_rec <;> simp [hc]

/-- The tail on an unresolved device and an input bitmask that passes the guard of
the generic tier. -/
theorem get_input_snd_device_tail_generic (adev : audio_device) (e : Nat)
    (hne : e ≠ AUDIO_DEVICE_NONE) (hvc : e &&& AUDIO_DEVICE_IN_VOICE_CALL = 0)
    (hcomm : e &&& AUDIO_DEVICE_IN_COMMUNICATION = 0) :
    get_input_snd_device_tail adev e SND_DEVICE_NONE =
      get_input_snd_device_by_in_device adev e := by
  simp only [get_input_snd_device_tail]
  rw [if_neg (by decide), if_pos ⟨hne, not_not.mpr hvc, not_not.mpr hcomm⟩]

/-- The generic tier never leaves the device unresolved. -/
theorem get_input_snd_device_by_in_device_ne_none (adev : audio_device) (e : Nat) :
    get_input_snd_device_by_in_device adev e ≠ SND_DEVICE_NONE := by
  simp only [get_input_snd_device_by_in_device]
  split_ifs <;> decide

/-- C12, amended: when neither the in-call branch nor the source-based branch
resolved a device, the source is not the default source, the source-based branch
did not remap the input bitmask (the source is not voice communication with the
speaker requested), and the requested input bitmask, direction flag stripped, is
non-empty without voice-call or communication bit, the input selector resolves in
priority order: builtin mic gives the handset mic; back mic the handset mic if the
mic is analog and the speaker mic if not; wired-headset mic the headset mic; BT-SCO
mic the bt-sco mic; digital mic the hdmi mic; anything else the handset mic; the
result is never NONE. -/
theorem get_input_snd_device_generic_tier (is_tmus : Bool) (adev : audio_device)
    (i : stream_in) (hin : adev.active_input = some i)
    (hfall :
      (adev.mode = AUDIO_MODE_IN_CALL ∧ adev.out_device ≠ AUDIO_DEVICE_NONE ∧
        (adev.tty_mode = TTY_MODE_OFF ∨
          (adev.out_device &&& AUDIO_DEVICE_OUT_WIRED_HEADPHONE = 0 ∧
            adev.out_device &&& AUDIO_DEVICE_OUT_WIRED_HEADSET = 0)) ∧
        get_input_snd_device_in_call is_tmus adev = SND_DEVICE_NONE) ∨
      (adev.mode ≠ AUDIO_MODE_IN_CALL ∧
        ((i.source = AUDIO_SOURCE_CAMCORDER ∧
            (i.device &&& not32 AUDIO_DEVICE_BIT_IN) &&& AUDIO_DEVICE_IN_BUILTIN_MIC = 0 ∧
            (i.device &&& not32 AUDIO_DEVICE_BIT_IN) &&& AUDIO_DEVICE_IN_BACK_MIC = 0) ∨
          (i.source = AUDIO_SOURCE_VOICE_RECOGNITION ∧
            (i.device &&& not32 AUDIO_DEVICE_BIT_IN) &&& AUDIO_DEVICE_IN_BUILTIN_MIC = 0) ∨
          (i.source = AUDIO_SOURCE_VOICE_COMMUNICATION ∧
            adev.out_device &&& AUDIO_DEVICE_OUT_SPEAKER = 0) ∨
          (i.source ≠ AUDIO_SOURCE_CAMCORDER ∧ i.source ≠ AUDIO_SOURCE_VOICE_RECOGNITION ∧
            i.source ≠ AUDIO_SOURCE_VOICE_COMMUNICATION ∧
            i.source ≠ AUDIO_SOURCE_DEFAULT))))
    (hne : i.device &&& not32 AUDIO_DEVICE_BIT_IN ≠ AUDIO_DEVICE_NONE)
    (hvc : (i.device &&& not32 AUDIO_DEVICE_BIT_IN) &&& AUDIO_DEVICE_IN_VOICE_CALL = 0)
    (hcomm : (i.device &&& not32 AUDIO_DEVICE_BIT_IN) &&& AUDIO_DEVICE_IN_COMMUNICATION = 0) :
    get_input_snd_device is_tmus adev =
      (if (i.device &&& not32 AUDIO_DEVICE_BIT_IN) &&& AUDIO_DEVICE_IN_BUILTIN_MIC ≠ 0 then
        SND_DEVICE_IN_HANDSET_MIC
      else if (i.device &&& not32 AUDIO_DEVICE_BIT_IN) &&& AUDIO_DEVICE_IN_BACK_MIC ≠ 0 then
        (if adev.mic_type_analog = true then SND_DEVICE_IN_HANDSET_MIC
          else SND_DEVICE_IN_SPEAKER_MIC)
      else if (i.device &&& not32 AUDIO_DEVICE_BIT_IN) &&& AUDIO_DEVICE_IN_WIRED_HEADSET ≠ 0 then
        SND_DEVICE_IN_HEADSET_MIC
      else if (i.device &&& not32 AUDIO_DEVICE_BIT_IN) &&&
          AUDIO_DEVICE_IN_BLUETOOTH_SCO_HEADSET ≠ 0 then
        SND_DEVICE_IN_BT_SCO_MIC
      else if (i.device &&& not32 AUDIO_DEVICE_BIT_IN) &&& AUDIO_DEVICE_IN_AUX_DIGITAL ≠ 0 then
        SND_DEVICE_IN_HDMI_MIC
      else SND_DEVICE_IN_HANDSET_MIC) ∧
    get_input_snd_device is_tmus adev ≠ SND_DEVICE_NONE := by
  have key : get_input_snd_device is_tmus adev =
      get_input_snd_device_by_in_device adev (i.device &&& not32 AUDIO_DEVICE_BIT_IN) := by
    rcases hfall with ⟨hmode, hout, htty, hchain⟩ | ⟨hmode, hsrc⟩
    · have hrule : ¬ (adev.tty_mode ≠ TTY_MODE_OFF ∧
          (adev.out_device &&& AUDIO_DEVICE_OUT_WIRED_HEADPHONE ≠ 0 ∨
            adev.out_device &&& AUDIO_DEVICE_OUT_WIRED_HEADSET ≠ 0)) := by
        rintro ⟨h1, h2⟩
        rcases htty with h | ⟨h3, h4⟩
        · exact h1 h
        · rcases h2 with h | h
          · exact h h3
          · exact h h4
      simp only [get_input_snd_device]
      rw [if_pos hmode, if_neg hout, if_neg hrule, hchain, hin]
      exact get_input_snd_device_tail_generic adev _ hne hvc hcomm
    · rw [get_input_snd_device_of_source is_tmus adev i hmode hin]
      rcases hsrc with ⟨hs, hb, hk⟩ | ⟨hs, hb⟩ | ⟨hs, hspk⟩ | ⟨h1, h2, h3, h4⟩
      · rw [hs, if_pos rfl, if_neg (by
          rintro (h | h)
          · exact h hb
          · exact h hk)]
        exact get_input_snd_device_tail_generic adev _ hne hvc hcomm
      · rw [hs, if_neg (by decide), if_pos rfl]
        simp only [get_input_snd_device_voice_rec]
        rw [if_neg (not_not.mpr hb)]
        exact get_input_snd_device_tail_generic adev _ hne hvc hcomm
      · rw [hs, if_neg (by decide), if_neg (by decide), if_pos rfl,
          if_neg (not_not.mpr hspk)]
        exact get_input_snd_device_tail_generic adev _ hne hvc hcomm
      · rw [if_neg h1, if_neg h2, if_neg h3, if_neg h4]
        exact get_input_snd_device_tail_generic adev _ hne hvc hcomm
  constructor
  · rw [key]
    rfl
  · rw [key]
    exact get_input_snd_device_by_in_device_ne_none adev _

/-- C12, counterexample: outside call mode, voice-communication source, the speaker
requested for output and the builtin mic for input (no voice-call or
communication bit): no branch resolved a device and the source is not the default
source, yet the result is the speaker mic, not the handset mic of the builtin-mic
rule. -/
theorem get_input_snd_device_generic_tier_counterexample :
    (AUDIO_DEVICE_IN_BUILTIN_MIC &&& not32 AUDIO_DEVICE_BIT_IN ≠ AUDIO_DEVICE_NONE ∧
      (AUDIO_DEVICE_IN_BUILTIN_MIC &&& not32 AUDIO_DEVICE_BIT_IN) &&&
        AUDIO_DEVICE_IN_VOICE_CALL = 0 ∧
      (AUDIO_DEVICE_IN_BUILTIN_MIC &&& not32 AUDIO_DEVICE_BIT_IN) &&&
        AUDIO_DEVICE_IN_COMMUNICATION = 0 ∧
      (AUDIO_DEVICE_IN_BUILTIN_MIC &&& not32 AUDIO_DEVICE_BIT_IN) &&&
        AUDIO_DEVICE_IN_BUILTIN_MIC ≠ 0) ∧
    get_input_snd_device false
      { mode := AUDIO_MODE_NORMAL, out_device := AUDIO_DEVICE_OUT_SPEAKER,
        active_input := some { source := AUDIO_SOURCE_VOICE_COMMUNICATION,
                               device := AUDIO_DEVICE_IN_BUILTIN_MIC } } =
      SND_DEVICE_IN_SPEAKER_MIC ∧
    get_input_snd_device false
      { mode := AUDIO_MODE_NORMAL, out_device := AUDIO_DEVICE_OUT_SPEAKER,
        active_input := some { source := AUDIO_SOURCE_VOICE_COMMUNICATION,
                               device := AUDIO_DEVICE_IN_BUILTIN_MIC } } ≠
      SND_DEVICE_IN_HANDSET_MIC := by
  decide

/-- Outside call mode, with an active input of a source other than the default one
and no bit left in the stripped input bitmask, the tier on the output bitmask
decides. -/
theorem get_input_snd_device_mirror (is_tmus : Bool) (adev : audio_device) (i : stream_in)
    (hmode : adev.mode ≠ AUDIO_MODE_IN_CALL) (hin : adev.active_input = some i)
    (hsrc : i.source ≠ AUDIO_SOURCE_DEFAULT)
    (he : i.device &&& not32 AUDIO_DEVICE_BIT_IN = AUDIO_DEVICE_NONE) :
    get_input_snd_device is_tmus adev =
      get_input_snd_device_by_out_device adev.out_device := by
  have htail : get_input_snd_device_tail adev AUDIO_DEVICE_NONE SND_DEVICE_NONE =
      get_input_snd_device_by_out_device adev.out_device := by
    simp only [get_input_snd_device_tail]
    rw [if_neg (by decide), if_neg (by decide)]
  have hback : get_input_snd_device_tail adev AUDIO_DEVICE_IN_BACK_MIC SND_DEVICE_NONE =
      get_input_snd_device_by_out_device adev.out_device := by
    simp only [get_input_snd_device_tail]
    rw [if_neg (by decide), if_neg (by decide)]
  rw [get_input_snd_device_of_source is_tmus adev i hmode hin, he]
  by_cases h1 : i.source = AUDIO_SOURCE_CAMCORDER
  · rw [if_pos h1, if_neg (by decide)]
    exact htail
  · rw [if_neg h1]
    by_cases h2 : i.source = AUDIO_SOURCE_VOICE_RECOGNITION
    · rw [if_pos h2]
      simp only [get_input_snd_device_voice_rec]
      rw [if_neg (by decide)]
      exact htail
    · rw [if_neg h2]
      by_cases h3 : i.source = AUDIO_SOURCE_VOICE_COMMUNICATION
      · rw [if_pos h3]
        by_cases h4 : adev.out_device &&& AUDIO_DEVICE_OUT_SPEAKER ≠ 0
        · rw [if_pos h4]
          exact hback
        · rw [if_neg h4]
          exact htail
      · rw [if_neg h3, if_neg hsrc]
        exact htail

/-- The tier on the output bitmask, evaluated on each of the 32 single bits. -/
theorem by_out_device_pow_two : ∀ k, k < 32 →
    get_input_snd_device_by_out_device (2 ^ k) =
      (if 2 ^ k = AUDIO_DEVICE_OUT_EARPIECE then SND_DEVICE_IN_HANDSET_MIC
      else if 2 ^ k = AUDIO_DEVICE_OUT_WIRED_HEADSET then SND_DEVICE_IN_HEADSET_MIC
      else if 2 ^ k = AUDIO_DEVICE_OUT_SPEAKER then SND_DEVICE_IN_SPEAKER_MIC
      else if 2 ^ k = AUDIO_DEVICE_OUT_WIRED_HEADPHONE then SND_DEVICE_IN_HANDSET_MIC
      else if 2 ^ k = AUDIO_DEVICE_OUT_BLUETOOTH_SCO_HEADSET then SND_DEVICE_IN_BT_SCO_MIC
      else if 2 ^ k = AUDIO_DEVICE_OUT_AUX_DIGITAL then SND_DEVICE_IN_HDMI_MIC
      else SND_DEVICE_IN_HANDSET_MIC) := by
  decide

/-- What the code does on a single requested output bit when the tier on the output
bitmask decides outside call mode: of the Bluetooth SCO output bits only the SCO
headset bit gives the bt-sco mic; the SCO and SCO carkit bits give the handset
mic like an unrecognized bit. -/
theorem get_input_snd_device_mirror_one_bit (is_tmus : Bool) (adev : audio_device)
    (i : stream_in) (hmode : adev.mode ≠ AUDIO_MODE_IN_CALL)
    (hin : adev.active_input = some i) (hsrc : i.source ≠ AUDIO_SOURCE_DEFAULT)
    (he : i.device &&& not32 AUDIO_DEVICE_BIT_IN = AUDIO_DEVICE_NONE)
    (hlt : adev.out_device < 2 ^ 32) (hpop : popcount adev.out_device = 1) :
    get_input_snd_device is_tmus adev =
      if adev.out_device = AUDIO_DEVICE_OUT_EARPIECE then SND_DEVICE_IN_HANDSET_MIC
      else if adev.out_device = AUDIO_DEVICE_OUT_WIRED_HEADSET then SND_DEVICE_IN_HEADSET_MIC
      else if adev.out_device = AUDIO_DEVICE_OUT_SPEAKER then SND_DEVICE_IN_SPEAKER_MIC
      else if adev.out_device = AUDIO_DEVICE_OUT_WIRED_HEADPHONE then
        SND_DEVICE_IN_HANDSET_MIC
      else if adev.out_device = AUDIO_DEVICE_OUT_BLUETOOTH_SCO_HEADSET then
        SND_DEVICE_IN_BT_SCO_MIC
      else if adev.out_device = AUDIO_DEVICE_OUT_AUX_DIGITAL then SND_DEVICE_IN_HDMI_MIC
      else SND_DEVICE_IN_HANDSET_MIC := by
  obtain ⟨k, hk, hd⟩ := popcount_eq_one hlt hpop
  rw [get_input_snd_device_mirror is_tmus adev i hmode hin hsrc he, hd]
  exact by_out_device_pow_two k hk

/-- C13, the code at the failing input: outside call mode, an active input of
source mic with no input device bit, and the single Bluetooth SCO output bit
requested: the output selector maps the bit to bt-sco, the input selector returns
the handset mic, not the bt-sco mic. -/
theorem get_input_snd_device_mirror_sco :
    popcount AUDIO_DEVICE_OUT_BLUETOOTH_SCO = 1 ∧
    get_output_snd_device false
      { mode := AUDIO_MODE_NORMAL, out_device := AUDIO_DEVICE_OUT_BLUETOOTH_SCO,
        active_input := some { source := AUDIO_SOURCE_MIC, device := AUDIO_DEVICE_NONE } } =
      SND_DEVICE_OUT_BT_SCO ∧
    get_input_snd_device false
      { mode := AUDIO_MODE_NORMAL, out_device := AUDIO_DEVICE_OUT_BLUETOOTH_SCO,
        active_input := some { source := AUDIO_SOURCE_MIC, device := AUDIO_DEVICE_NONE } } =
      SND_DEVICE_IN_HANDSET_MIC := by
  decide

/-! ## Routing controller -/

/-- Enabling a sound device other than the `None` sentinel succeeds: its
calibration id is not negative. -/
theorem enable_snd_device_fst (adev : audio_device) (d : snd_device_t)
    (h : d ≠ SND_DEVICE_NONE) : (enable_snd_device adev d).1 = 0 := by
  cases d <;> first | exact absurd rfl h | rfl

/-- The calls of `enable_snd_device` depend on the device state only through the
calibration entry point. -/
theorem enable_snd_device_snd (a b : audio_device) (d : snd_device_t)
    (h : a.acdb_send_audio_cal = b.acdb_send_audio_cal) :
    (enable_snd_device a d).2 = (enable_snd_device b d).2 := by
  simp only [enable_snd_device, h]

/-- The enable step of the input side without its failure branch. -/
theorem select_devices_enable_in_eq (x : select_devices_ext) (o i : snd_device_t)
    (status : Int) (adev : audio_device) :
    select_devices_enable_in x o i status adev =
      if i ≠ SND_DEVICE_NONE ∧ adev.in_snd_device_active = false then
        ((select_devices_finish x o i 0
            { adev with in_snd_device_active := true, cur_in_snd_device := i }).1,
          (select_devices_finish x o i 0
            { adev with in_snd_device_active := true, cur_in_snd_device := i }).2.1,
          (enable_snd_device adev i).2 ++
            (select_devices_finish x o i 0
              { adev with in_snd_device_active := true, cur_in_snd_device := i }).2.2)
      else select_devices_finish x o i status adev := by
  simp only [select_devices_enable_in]
  by_cases h : i ≠ SND_DEVICE_NONE ∧ adev.in_snd_device_active = false
  · rw [if_pos h, if_pos h, enable_snd_device_fst adev i h.1]
    simp
  · rw [if_neg h, if_neg h]

/-- The enable step of the output side without its failure branch. -/
theorem select_devices_enable_out_eq (x : select_devices_ext) (o i : snd_device_t)
    (status : Int) (adev : audio_device) :
    select_devices_enable_out x o i status adev =
      if o ≠ SND_DEVICE_NONE ∧ adev.out_snd_device_active = false then
        ((select_devices_enable_in x o i 0
            { adev with out_snd_device_active := true, cur_out_snd_device := o }).1,
          (select_devices_enable_in x o i 0
            { adev with out_snd_device_active := true, cur_out_snd_device := o }).2.1,
          (enable_snd_device adev o).2 ++
            (select_devices_enable_in x o i 0
              { adev with out_snd_device_active := true, cur_out_snd_device := o }).2.2)
      else select_devices_enable_in x o i status adev := by
  simp only [select_devices_enable_out]
  by_cases h : o ≠ SND_DEVICE_NONE ∧ adev.out_snd_device_active = false
  · rw [if_pos h, if_pos h, enable_snd_device_fst adev o h.1]
    simp
  · rw [if_neg h, if_neg h]

/-- The device state `select_devices_finish` leaves. -/
theorem select_devices_finish_state (x : select_devices_ext) (o i : snd_device_t)
    (status : Int) (adev : audio_device) :
    (select_devices_finish x o i status adev).2.1 =
      { adev with
        usecase_list := update_usecase_devices adev.out_device adev.usecase_list } := by
  simp only [select_devices_finish]
  split_ifs <;> rfl


/-- The device state after the disable step of the output side. -/
theorem select_devices_disable_out_state (adev : audio_device) (o : snd_device_t)
    (sw : Bool) :
    (select_devices_disable_out adev o sw).1 =
      { adev with
        out_snd_device_active :=
          if (o ≠ adev.cur_out_snd_device ∨ sw = true) ∧ adev.out_snd_device_active = true
          then false else adev.out_snd_device_active } := by
  simp only [select_devices_disable_out]
  split_ifs <;> rfl

/-- The device state after the disable step of the input side. -/
theorem select_devices_disable_in_state (adev : audio_device) (i : snd_device_t)
    (sw : Bool) :
    (select_devices_disable_in adev i sw).1 =
      { adev with
        in_snd_device_active :=
          if (i ≠ adev.cur_in_snd_device ∨ sw = true) ∧ adev.in_snd_device_active = true
          then false else adev.in_snd_device_active } := by
  simp only [select_devices_disable_in]
  split_ifs <;> rfl

/-- The device state after the enable step of the input side and what follows. -/
theorem select_devices_enable_in_state (x : select_devices_ext) (o i : snd_device_t)
    (status : Int) (adev : audio_device) :
    (select_devices_enable_in x o i status adev).2.1 =
      { adev with
        in_snd_device_active :=
          if i ≠ SND_DEVICE_NONE ∧ adev.in_snd_device_active = false then true
          else adev.in_snd_device_active,
        cur_in_snd_device :=
          if i ≠ SND_DEVICE_NONE ∧ adev.in_snd_device_active = false then i
          else adev.cur_in_snd_device,
        usecase_list := update_usecase_devices adev.out_device adev.usecase_list } := by
  rw [select_devices_enable_in_eq]
  by_cases h : i ≠ SND_DEVICE_NONE ∧ adev.in_snd_device_active = false
  · simp only [if_pos h, select_devices_finish_state]
  · simp only [if_neg h, select_devices_finish_state]

/-- The device state after the enable step of the output side and what follows. -/
theorem select_devices_enable_out_state (x : select_devices_ext) (o i : snd_device_t)
    (status : Int) (adev : audio_device) :
    (select_devices_enable_out x o i status adev).2.1 =
      { adev with
        out_snd_device_active :=
          if o ≠ SND_DEVICE_NONE ∧ adev.out_snd_device_active = false then true
          else adev.out_snd_device_active,
        cur_out_snd_device :=
          if o ≠ SND_DEVICE_NONE ∧ adev.out_snd_device_active = false then o
          else adev.cur_out_snd_device,
        in_snd_device_active :=
          if i ≠ SND_DEVICE_NONE ∧ adev.in_snd_device_active = false then true
          else adev.in_snd_device_active,
        cur_in_snd_device :=
          if i ≠ SND_DEVICE_NONE ∧ adev.in_snd_device_active = false then i
          else adev.cur_in_snd_device,
        usecase_list := update_usecase_devices adev.out_device adev.usecase_list } := by
  rw [select_devices_enable_out_eq]
  by_cases h : o ≠ SND_DEVICE_NONE ∧ adev.out_snd_device_active = false
  · simp only [if_pos h, select_devices_enable_in_state]
  · simp only [if_neg h, select_devices_enable_in_state]

/-- The device state a run of `select_devices` that is not short-circuited leaves:
each side is active exactly if its newly selected device is not `None` (or it was
active on `None` and is left alone), the current device is the selected one
unless that is `None`, and every playback and voice-call entry takes the
requested output bitmask; nothing else is written. -/
theorem select_devices_state (x : select_devices_ext) (is_tmus : Bool) (adev : audio_device)
    (hns : ¬ (get_output_snd_device is_tmus adev = adev.cur_out_snd_device ∧
      adev.out_snd_device_active = true ∧
      get_input_snd_device is_tmus adev = adev.cur_in_snd_device ∧
      adev.in_snd_device_active = true)) :
    (select_devices x is_tmus adev).2.1 =
      { adev with
        out_snd_device_active :=
          if get_output_snd_device is_tmus adev ≠ SND_DEVICE_NONE then true
          else if get_output_snd_device is_tmus adev ≠ adev.cur_out_snd_device ∨
              (adev.in_call && adev.csd_client) = true then false
          else adev.out_snd_device_active,
        cur_out_snd_device :=
          if get_output_snd_device is_tmus adev ≠ SND_DEVICE_NONE then
            get_output_snd_device is_tmus adev
          else adev.cur_out_snd_device,
        in_snd_device_active :=
          if get_input_snd_device is_tmus adev ≠ SND_DEVICE_NONE then true
          else if get_input_snd_device is_tmus adev ≠ adev.cur_in_snd_device ∨
              (adev.in_call && adev.csd_client) = true then false
          else adev.in_snd_device_active,
        cur_in_snd_device :=
          if get_input_snd_device is_tmus adev ≠ SND_DEVICE_NONE then
            get_input_snd_device is_tmus adev
          else adev.cur_in_snd_device,
        usecase_list := update_usecase_devices adev.out_device adev.usecase_list } := by
  simp only [select_devices]
  rw [if_neg hns]
  generalize get_output_snd_device is_tmus adev = o
  generalize get_input_snd_device is_tmus adev = i
  generalize (adev.in_call && adev.csd_client) = sw
  simp only [select_devices_enable_out_state, select_devices_disable_in_state,
    select_devices_disable_out_state]
  clear hns
  congr 1 <;> split_ifs <;> simp_all

/-- The calls of `select_devices_finish`. -/
theorem select_devices_finish_trace (x : select_devices_ext) (o i : snd_device_t)
    (status : Int) (adev : audio_device) :
    (select_devices_finish x o i status adev).2.2 =
      [action.audio_route_update_mixer] ++
        enable_routes adev.cur_out_snd_device adev.cur_in_snd_device adev.usecase_list ++
        [action.audio_route_update_mixer] ++
        (if adev.mode = AUDIO_MODE_IN_CALL ∧ adev.csd_client = true ∧
            adev.csd_enable_device = true then
          [action.csd_enable_device (get_acdb_device_id o) (get_acdb_device_id i)
            adev.acdb_settings]
        else []) := by
  simp only [select_devices_finish]
  by_cases h1 : adev.mode = AUDIO_MODE_IN_CALL ∧ adev.csd_client = true
  · cases h2 : adev.csd_enable_device <;> simp [h1]
  · have h3 : ¬ (adev.mode = AUDIO_MODE_IN_CALL ∧ adev.csd_client = true ∧
        adev.csd_enable_device = true) := fun h => h1 ⟨h.1, h.2.1⟩
    rw [if_neg h1, if_neg h3]
    simp

/-- The calls of the enable step of the input side and what follows. -/
theorem select_devices_enable_in_trace (x : select_devices_ext) (o i : snd_device_t)
    (status : Int) (adev : audio_device) :
    (select_devices_enable_in x o i status adev).2.2 =
      (if i ≠ SND_DEVICE_NONE ∧ adev.in_snd_device_active = false then
          (enable_snd_device adev i).2
        else []) ++
        ([action.audio_route_update_mixer] ++
          enable_routes adev.cur_out_snd_device
            (if i ≠ SND_DEVICE_NONE ∧ adev.in_snd_device_active = false then i
              else adev.cur_in_snd_device) adev.usecase_list ++
          [action.audio_route_update_mixer] ++
          (if adev.mode = AUDIO_MODE_IN_CALL ∧ adev.csd_client = true ∧
              adev.csd_enable_device = true then
            [action.csd_enable_device (get_acdb_device_id o) (get_acdb_device_id i)
              adev.acdb_settings]
          else [])) := by
  rw [select_devices_enable_in_eq]
  by_cases h : i ≠ SND_DEVICE_NONE ∧ adev.in_snd_device_active = false
  · simp only [if_pos h, select_devices_finish_trace]
  · simp only [if_neg h, select_devices_finish_trace, List.nil_append]

/-- The calls of the enable step of the output side and what follows. -/
theorem select_devices_enable_out_trace (x : select_devices_ext) (o i : snd_device_t)
    (status : Int) (adev : audio_device) :
    (select_devices_enable_out x o i status adev).2.2 =
      (if o ≠ SND_DEVICE_NONE ∧ adev.out_snd_device_active = false then
          (enable_snd_device adev o).2
        else []) ++
        ((if i ≠ SND_DEVICE_NONE ∧ adev.in_snd_device_active = false then
            (enable_snd_device adev i).2
          else []) ++
          ([action.audio_route_update_mixer] ++
            enable_routes
              (if o ≠ SND_DEVICE_NONE ∧ adev.out_snd_device_active = false then o
                else adev.cur_out_snd_device)
              (if i ≠ SND_DEVICE_NONE ∧ adev.in_snd_device_active = false then i
                else adev.cur_in_snd_device) adev.usecase_list ++
            [action.audio_route_update_mixer] ++
            (if adev.mode = AUDIO_MODE_IN_CALL ∧ adev.csd_client = true ∧
                adev.csd_enable_device = true then
              [action.csd_enable_device (get_acdb_device_id o) (get_acdb_device_id i)
                adev.acdb_settings]
            else []))) := by
  rw [select_devices_enable_out_eq]
  by_cases h : o ≠ SND_DEVICE_NONE ∧ adev.out_snd_device_active = false
  · simp only [if_pos h, select_devices_enable_in_trace]
    rw [enable_snd_device_snd
      { adev with out_snd_device_active := true, cur_out_snd_device := o } adev i rfl]
  · simp only [if_neg h, select_devices_enable_in_trace, List.nil_append]

/-- The calls of the disable step of the output side. -/
theorem select_devices_disable_out_trace (adev : audio_device) (o : snd_device_t)
    (sw : Bool) :
    (select_devices_disable_out adev o sw).2 =
      if (o ≠ adev.cur_out_snd_device ∨ sw = true) ∧ adev.out_snd_device_active = true then
        disable_out_routes adev.cur_out_snd_device adev.usecase_list ++
          [action.audio_route_update_mixer] ++
          (disable_snd_device adev.cur_out_snd_device).2
      else [] := by
  simp only [select_devices_disable_out]
  split_ifs <;> rfl

/-- The calls of the disable step of the input side. -/
theorem select_devices_disable_in_trace (adev : audio_device) (i : snd_device_t)
    (sw : Bool) :
    (select_devices_disable_in adev i sw).2 =
      if (i ≠ adev.cur_in_snd_device ∨ sw = true) ∧ adev.in_snd_device_active = true then
        disable_in_routes adev.cur_in_snd_device adev.usecase_list ++
          [action.audio_route_update_mixer] ++
          (disable_snd_device adev.cur_in_snd_device).2
      else [] := by
  simp only [select_devices_disable_in]
  split_ifs <;> rfl

/-- A side is enabled exactly if its selected device is not `None` and the side was
inactive or has just been disabled. -/
theorem enable_condition (d cur : snd_device_t) (sw active : Bool) :
    (d ≠ SND_DEVICE_NONE ∧
      (if (d ≠ cur ∨ sw = true) ∧ active = true then false else active) = false) ↔
    (d ≠ SND_DEVICE_NONE ∧ (active = false ∨ d ≠ cur ∨ sw = true)) := by
  cases sw <;> cases active <;> by_cases h : d = cur <;> simp [h]

/-- The current device of a side after the enable step: the selected device unless
that is `None`. -/
theorem current_after_enable (d cur : snd_device_t) (sw active : Bool) :
    (if d ≠ SND_DEVICE_NONE ∧ (active = false ∨ d ≠ cur ∨ sw = true) then d else cur) =
      if d ≠ SND_DEVICE_NONE then d else cur := by
  by_cases h0 : d = SND_DEVICE_NONE
  · simp [h0]
  · by_cases h1 : d ≠ SND_DEVICE_NONE ∧ (active = false ∨ d ≠ cur ∨ sw = true)
    · rw [if_pos h1, if_pos h0]
    · rw [if_neg h1, if_pos h0]
      by_cases h3 : d = cur
      · exact h3.symm
      · exact absurd ⟨h0, Or.inr (Or.inl h3)⟩ h1

/-- The calls a run of `select_devices` that is not short-circuited issues, in
order: the in-call switch, the disable of the output side, the disable of the
input side, the enable of the output side, the enable of the input side, the
commit, the usecase paths against the current devices, the commit, and the
voice-enable call. -/
theorem select_devices_trace (x : select_devices_ext) (is_tmus : Bool) (adev : audio_device)
    (hns : ¬ (get_output_snd_device is_tmus adev = adev.cur_out_snd_device ∧
      adev.out_snd_device_active = true ∧
      get_input_snd_device is_tmus adev = adev.cur_in_snd_device ∧
      adev.in_snd_device_active = true)) :
    (select_devices x is_tmus adev).2.2 =
      (select_devices_csd_disable x adev).2 ++
      (if (get_output_snd_device is_tmus adev ≠ adev.cur_out_snd_device ∨
            (adev.in_call && adev.csd_client) = true) ∧
            adev.out_snd_device_active = true then
          disable_out_routes adev.cur_out_snd_device adev.usecase_list ++
            [action.audio_route_update_mixer] ++
            (disable_snd_device adev.cur_out_snd_device).2
        else []) ++
      (if (get_input_snd_device is_tmus adev ≠ adev.cur_in_snd_device ∨
            (adev.in_call && adev.csd_client) = true) ∧
            adev.in_snd_device_active = true then
          disable_in_routes adev.cur_in_snd_device adev.usecase_list ++
            [action.audio_route_update_mixer] ++
            (disable_snd_device adev.cur_in_snd_device).2
        else []) ++
      (if get_output_snd_device is_tmus adev ≠ SND_DEVICE_NONE ∧
            (adev.out_snd_device_active = false ∨
              get_output_snd_device is_tmus adev ≠ adev.cur_out_snd_device ∨
              (adev.in_call && adev.csd_client) = true) then
          (enable_snd_device adev (get_output_snd_device is_tmus adev)).2
        else []) ++
      (if get_input_snd_device is_tmus adev ≠ SND_DEVICE_NONE ∧
            (adev.in_snd_device_active = false ∨
              get_input_snd_device is_tmus adev ≠ adev.cur_in_snd_device ∨
              (adev.in_call && adev.csd_client) = true) then
          (enable_snd_device adev (get_input_snd_device is_tmus adev)).2
        else []) ++
      [action.audio_route_update_mixer] ++
      enable_routes
        (if get_output_snd_device is_tmus adev ≠ SND_DEVICE_NONE then
          get_output_snd_device is_tmus adev else adev.cur_out_snd_device)
        (if get_input_snd_device is_tmus adev ≠ SND_DEVICE_NONE then
          get_input_snd_device is_tmus adev else adev.cur_in_snd_device)
        adev.usecase_list ++
      [action.audio_route_update_mixer] ++
      (if adev.mode = AUDIO_MODE_IN_CALL ∧ adev.csd_client = true ∧
          adev.csd_enable_device = true then
        [action.csd_enable_device
          (get_acdb_device_id (get_output_snd_device is_tmus adev))
          (get_acdb_device_id (get_input_snd_device is_tmus adev)) adev.acdb_settings]
      else []) := by
  simp only [select_devices]
  rw [if_neg hns]
  generalize get_output_snd_device is_tmus adev = o
  generalize get_input_snd_device is_tmus adev = i
  generalize (adev.in_call && adev.csd_client) = sw
  simp only [select_devices_enable_out_trace, select_devices_disable_in_trace,
    select_devices_disable_out_trace, select_devices_disable_in_state,
    select_devices_disable_out_state]
  simp only [enable_snd_device, enable_condition, current_after_enable, List.append_assoc]

/-- The status of a run of `select_devices` that is not short-circuited, in call
mode with the voice-signaling library loaded and its enable entry point resolved:
the status of the voice-enable call. -/
theorem select_devices_status_in_call (x : select_devices_ext) (is_tmus : Bool)
    (adev : audio_device)
    (hns : ¬ (get_output_snd_device is_tmus adev = adev.cur_out_snd_device ∧
      adev.out_snd_device_active = true ∧
      get_input_snd_device is_tmus adev = adev.cur_in_snd_device ∧
      adev.in_snd_device_active = true))
    (hmode : adev.mode = AUDIO_MODE_IN_CALL) (hcsd : adev.csd_client = true)
    (hen : adev.csd_enable_device = true) :
    (select_devices x is_tmus adev).1 = x.csd_enable_device := by
  have hfin : ∀ (o i : snd_device_t) (st : Int) (a : audio_device),
      a.mode = AUDIO_MODE_IN_CALL → a.csd_client = true → a.csd_enable_device = true →
      (select_devices_finish x o i st a).1 = x.csd_enable_device := by
    intro o i st a h1 h2 h3
    simp [select_devices_finish, h1, h2, h3]
  have hin : ∀ (o i : snd_device_t) (st : Int) (a : audio_device),
      a.mode = AUDIO_MODE_IN_CALL → a.csd_client = true → a.csd_enable_device = true →
      (select_devices_enable_in x o i st a).1 = x.csd_enable_device := by
    intro o i st a h1 h2 h3
    rw [select_devices_enable_in_eq]
    split_ifs
    · exact hfin o i 0 _ h1 h2 h3
    · exact hfin o i st a h1 h2 h3
  have hout : ∀ (o i : snd_device_t) (st : Int) (a : audio_device),
      a.mode = AUDIO_MODE_IN_CALL → a.csd_client = true → a.csd_enable_device = true →
      (select_devices_enable_out x o i st a).1 = x.csd_enable_device := by
    intro o i st a h1 h2 h3
    rw [select_devices_enable_out_eq]
    split_ifs
    · exact hin o i 0 _ h1 h2 h3
    · exact hin o i st a h1 h2 h3
  simp only [select_devices]
  rw [if_neg hns]
  apply hout
  · simp only [select_devices_disable_in_state, select_devices_disable_out_state]
    exact hmode
  · simp only [select_devices_disable_in_state, select_devices_disable_out_state]
    exact hcsd
  · simp only [select_devices_disable_in_state, select_devices_disable_out_state]
    exact hen

/-- The selectors read none of the fields `select_devices` writes. -/
theorem selectors_routing_frame (is_tmus : Bool) (adev : audio_device) (oa ia : Bool)
    (co ci : snd_device_t) (l : List audio_usecase) :
    get_output_snd_device is_tmus
        { adev with out_snd_device_active := oa, cur_out_snd_device := co,
                    in_snd_device_active := ia, cur_in_snd_device := ci, usecase_list := l } =
        get_output_snd_device is_tmus adev ∧
      get_input_snd_device is_tmus
        { adev with out_snd_device_active := oa, cur_out_snd_device := co,
                    in_snd_device_active := ia, cur_in_snd_device := ci, usecase_list := l } =
        get_input_snd_device is_tmus adev :=
  ⟨rfl, rfl⟩

/-- Writing the requested output bitmask into the playback and voice-call entries
twice is writing it once. -/
theorem update_usecase_devices_idem (d : Nat) (l : List audio_usecase) :
    update_usecase_devices d (update_usecase_devices d l) = update_usecase_devices d l := by
  induction l with
  | nil => rfl
  | cons u us ih =>
    simp only [update_usecase_devices]
    rw [ih]
    by_cases h : u.type = PCM_PLAYBACK ∨ u.type = VOICE_CALL
    · simp [h]
    · simp [h]

/-- What a run of `select_devices` leaves for the next run: the selectors and the
in-call switch are as before, a side whose selected device is not `None` is
active on it, and without the in-call switch an active side is on the selected
device. -/
theorem select_devices_post (x : select_devices_ext) (is_tmus : Bool) (adev : audio_device) :
    get_output_snd_device is_tmus (select_devices x is_tmus adev).2.1 =
        get_output_snd_device is_tmus adev ∧
      get_input_snd_device is_tmus (select_devices x is_tmus adev).2.1 =
        get_input_snd_device is_tmus adev ∧
      (select_devices x is_tmus adev).2.1.in_call = adev.in_call ∧
      (select_devices x is_tmus adev).2.1.csd_client = adev.csd_client ∧
      (get_output_snd_device is_tmus adev ≠ SND_DEVICE_NONE →
        (select_devices x is_tmus adev).2.1.out_snd_device_active = true ∧
        (select_devices x is_tmus adev).2.1.cur_out_snd_device =
          get_output_snd_device is_tmus adev) ∧
      (get_input_snd_device is_tmus adev ≠ SND_DEVICE_NONE →
        (select_devices x is_tmus adev).2.1.in_snd_device_active = true ∧
        (select_devices x is_tmus adev).2.1.cur_in_snd_device =
          get_input_snd_device is_tmus adev) ∧
      ((adev.in_call && adev.csd_client) = false →
        ((select_devices x is_tmus adev).2.1.out_snd_device_active = true →
          (select_devices x is_tmus adev).2.1.cur_out_snd_device =
            get_output_snd_device is_tmus adev) ∧
        ((select_devices x is_tmus adev).2.1.in_snd_device_active = true →
          (select_devices x is_tmus adev).2.1.cur_in_snd_device =
            get_input_snd_device is_tmus adev)) ∧
      (¬ (get_output_snd_device is_tmus adev = adev.cur_out_snd_device ∧
          adev.out_snd_device_active = true ∧
          get_input_snd_device is_tmus adev = adev.cur_in_snd_device ∧
          adev.in_snd_device_active = true) →
        (select_devices x is_tmus adev).2.1.out_device = adev.out_device ∧
        (select_devices x is_tmus adev).2.1.usecase_list =
          update_usecase_devices adev.out_device adev.usecase_list) := by
  by_cases hsc : get_output_snd_device is_tmus adev = adev.cur_out_snd_device ∧
      adev.out_snd_device_active = true ∧
      get_input_snd_device is_tmus adev = adev.cur_in_snd_device ∧
      adev.in_snd_device_active = true
  · have h : select_devices x is_tmus adev = (0, adev, []) := by
      simp only [select_devices]
      rw [if_pos hsc]
    rw [h]
    obtain ⟨h1, h2, h3, h4⟩ := hsc
    refine ⟨rfl, rfl, rfl, rfl, fun _ => ⟨h2, h1.symm⟩, fun _ => ⟨h4, h3.symm⟩,
      fun _ => ⟨fun _ => h1.symm, fun _ => h3.symm⟩, fun hn => absurd ⟨h1, h2, h3, h4⟩ hn⟩
  · rw [select_devices_state x is_tmus adev hsc]
    refine ⟨(selectors_routing_frame is_tmus adev _ _ _ _ _).1,
      (selectors_routing_frame is_tmus adev _ _ _ _ _).2, rfl, rfl, ?_, ?_, ?_, fun _ => ⟨rfl, rfl⟩⟩
    · intro h
      simp only [if_pos h, and_self]
    · intro h
      simp only [if_pos h, and_self]
    · intro hsw
      simp only [hsw]
      constructor
      · by_cases h : get_output_snd_device is_tmus adev = SND_DEVICE_NONE
        · by_cases h2 : get_output_snd_device is_tmus adev = adev.cur_out_snd_device
          · simp [h, h2.symm]
          · have hne : ¬ (SND_DEVICE_NONE = adev.cur_out_snd_device) := by
              rw [← h]
              exact h2
            simp [h, hne]
        · simp [h]
      · by_cases h : get_input_snd_device is_tmus adev = SND_DEVICE_NONE
        · by_cases h2 : get_input_snd_device is_tmus adev = adev.cur_in_snd_device
          · simp [h, h2.symm]
          · have hne : ¬ (SND_DEVICE_NONE = adev.cur_in_snd_device) := by
              rw [← h]
              exact h2
            simp [h, hne]
        · simp [h]

/-- C14: when the newly selected output and input sound devices both equal the
current devices and both paths are marked active, `select_devices` returns
success, issues no call (no mixer, calibration or voice-signaling action) and
leaves the device state, the registry included, as it was. -/
theorem select_devices_short_circuit (x : select_devices_ext) (is_tmus : Bool)
    (adev : audio_device)
    (hout : get_output_snd_device is_tmus adev = adev.cur_out_snd_device)
    (hout_active : adev.out_snd_device_active = true)
    (hin : get_input_snd_device is_tmus adev = adev.cur_in_snd_device)
    (hin_active : adev.in_snd_device_active = true) :
    select_devices x is_tmus adev = (0, adev, []) := by
  simp only [select_devices]
  rw [if_pos ⟨hout, hout_active, hin, hin_active⟩]

/-- C15, amended: of two runs of `select_devices` in succession on unchanged
inputs, the second is the short-circuit no-op (success, no call, state unchanged)
when both selected devices are not `None`; and when no call is in progress or no
voice-signaling library is loaded, the second run leaves the device state
unchanged and issues either nothing or only the commits, the usecase paths and
the voice-enable call: no physical sound device is disabled or enabled by it. -/
theorem select_devices_twice (x1 x2 : select_devices_ext) (is_tmus : Bool)
    (adev : audio_device) :
    (get_output_snd_device is_tmus adev ≠ SND_DEVICE_NONE →
      get_input_snd_device is_tmus adev ≠ SND_DEVICE_NONE →
      select_devices x2 is_tmus (select_devices x1 is_tmus adev).2.1 =
        (0, (select_devices x1 is_tmus adev).2.1, [])) ∧
    (¬ (adev.in_call = true ∧ adev.csd_client = true) →
      (select_devices x2 is_tmus (select_devices x1 is_tmus adev).2.1).2.1 =
        (select_devices x1 is_tmus adev).2.1 ∧
      ((select_devices x2 is_tmus (select_devices x1 is_tmus adev).2.1).2.2 = [] ∨
        (select_devices x2 is_tmus (select_devices x1 is_tmus adev).2.1).2.2 =
          [action.audio_route_update_mixer] ++
          enable_routes (select_devices x1 is_tmus adev).2.1.cur_out_snd_device
            (select_devices x1 is_tmus adev).2.1.cur_in_snd_device
            (select_devices x1 is_tmus adev).2.1.usecase_list ++
          [action.audio_route_update_mixer] ++
          (if (select_devices x1 is_tmus adev).2.1.mode = AUDIO_MODE_IN_CALL ∧
              (select_devices x1 is_tmus adev).2.1.csd_client = true ∧
              (select_devices x1 is_tmus adev).2.1.csd_enable_device = true then
            [action.csd_enable_device
              (get_acdb_device_id (get_output_snd_device is_tmus adev))
              (get_acdb_device_id (get_input_snd_device is_tmus adev))
              (select_devices x1 is_tmus adev).2.1.acdb_settings]
          else []))) := by
  obtain ⟨ho, hi, hcall, hcsd, hpo, hpi, hsw, hlist⟩ := select_devices_post x1 is_tmus adev
  by_cases hsc1 : get_output_snd_device is_tmus adev = adev.cur_out_snd_device ∧
      adev.out_snd_device_active = true ∧
      get_input_snd_device is_tmus adev = adev.cur_in_snd_device ∧
      adev.in_snd_device_active = true
  · -- the first run is short-circuited, and so is the second
    have h1 : select_devices x1 is_tmus adev = (0, adev, []) := by
      simp only [select_devices]
      rw [if_pos hsc1]
    have h2 : select_devices x2 is_tmus adev = (0, adev, []) := by
      simp only [select_devices]
      rw [if_pos hsc1]
    rw [h1]
    exact ⟨fun _ _ => h2, fun _ => ⟨by rw [h2], Or.inl (by rw [h2])⟩⟩
  · have hl := hlist hsc1
    clear hlist
    generalize (select_devices x1 is_tmus adev).2.1 = s1 at *
    constructor
    · intro hno hni
      simp only [select_devices]
      rw [if_pos ⟨by rw [ho]; exact (hpo hno).2.symm, (hpo hno).1,
        by rw [hi]; exact (hpi hni).2.symm, (hpi hni).1⟩]
    · intro hnsw
      have hsw0 : (adev.in_call && adev.csd_client) = false := by
        cases h1 : adev.in_call <;> cases h2 : adev.csd_client <;> simp_all
      have hsw1 : (s1.in_call && s1.csd_client) = false := by rw [hcall, hcsd]; exact hsw0
      obtain ⟨hao, hai⟩ := hsw hsw0
      by_cases hsc2 : get_output_snd_device is_tmus s1 = s1.cur_out_snd_device ∧
          s1.out_snd_device_active = true ∧
          get_input_snd_device is_tmus s1 = s1.cur_in_snd_device ∧
          s1.in_snd_device_active = true
      · have h2 : select_devices x2 is_tmus s1 = (0, s1, []) := by
          simp only [select_devices]
          rw [if_pos hsc2]
        rw [h2]
        exact ⟨rfl, Or.inl rfl⟩
      · have hdo : ¬ ((get_output_snd_device is_tmus adev ≠ s1.cur_out_snd_device ∨
            false = true) ∧ s1.out_snd_device_active = true) := by
          rintro ⟨h1 | h1, h2⟩
          · exact h1 (hao h2).symm
          · exact absurd h1 (by decide)
        have hdi : ¬ ((get_input_snd_device is_tmus adev ≠ s1.cur_in_snd_device ∨
            false = true) ∧ s1.in_snd_device_active = true) := by
          rintro ⟨h1 | h1, h2⟩
          · exact h1 (hai h2).symm
          · exact absurd h1 (by decide)
        have heo : ¬ (get_output_snd_device is_tmus adev ≠ SND_DEVICE_NONE ∧
            (s1.out_snd_device_active = false ∨
              get_output_snd_device is_tmus adev ≠ s1.cur_out_snd_device ∨ false = true)) := by
          rintro ⟨h1, h2 | h2 | h2⟩
          · rw [(hpo h1).1] at h2
            exact absurd h2 (by decide)
          · exact h2 (hpo h1).2.symm
          · exact absurd h2 (by decide)
        have hei : ¬ (get_input_snd_device is_tmus adev ≠ SND_DEVICE_NONE ∧
            (s1.in_snd_device_active = false ∨
              get_input_snd_device is_tmus adev ≠ s1.cur_in_snd_device ∨ false = true)) := by
          rintro ⟨h1, h2 | h2 | h2⟩
          · rw [(hpi h1).1] at h2
            exact absurd h2 (by decide)
          · exact h2 (hpi h1).2.symm
          · exact absurd h2 (by decide)
        have hco : (if get_output_snd_device is_tmus adev ≠ SND_DEVICE_NONE then
            get_output_snd_device is_tmus adev else s1.cur_out_snd_device) =
            s1.cur_out_snd_device := by
          by_cases h : get_output_snd_device is_tmus adev ≠ SND_DEVICE_NONE
          · rw [if_pos h]
            exact (hpo h).2.symm
          · rw [if_neg h]
        have hci : (if get_input_snd_device is_tmus adev ≠ SND_DEVICE_NONE then
            get_input_snd_device is_tmus adev else s1.cur_in_snd_device) =
            s1.cur_in_snd_device := by
          by_cases h : get_input_snd_device is_tmus adev ≠ SND_DEVICE_NONE
          · rw [if_pos h]
            exact (hpi h).2.symm
          · rw [if_neg h]
        have hcd : (select_devices_csd_disable x2 s1).2 = [] := by
          simp only [select_devices_csd_disable]
          rw [if_neg (by
            rintro ⟨h1, h2⟩
            rw [h1, h2] at hsw1
            exact absurd hsw1 (by decide))]
        constructor
        · rw [select_devices_state x2 is_tmus s1 hsc2]
          simp only [ho, hi, hsw1]
          have hul : update_usecase_devices s1.out_device s1.usecase_list =
              s1.usecase_list := by
            rw [hl.1, hl.2, update_usecase_devices_idem]
          have hoa : (if get_output_snd_device is_tmus adev ≠ SND_DEVICE_NONE then true
              else if get_output_snd_device is_tmus adev ≠ s1.cur_out_snd_device ∨
                false = true then false
              else s1.out_snd_device_active) = s1.out_snd_device_active := by
            by_cases h : get_output_snd_device is_tmus adev ≠ SND_DEVICE_NONE
            · rw [if_pos h]
              exact (hpo h).1.symm
            · rw [if_neg h]
              by_cases h3 : get_output_snd_device is_tmus adev ≠ s1.cur_out_snd_device ∨
                  false = true
              · rw [if_pos h3]
                cases h4 : s1.out_snd_device_active
                · rfl
                · exact absurd ⟨h3, h4⟩ hdo
              · rw [if_neg h3]
          have hia : (if get_input_snd_device is_tmus adev ≠ SND_DEVICE_NONE then true
              else if get_input_snd_device is_tmus adev ≠ s1.cur_in_snd_device ∨
                false = true then false
              else s1.in_snd_device_active) = s1.in_snd_device_active := by
            by_cases h : get_input_snd_device is_tmus adev ≠ SND_DEVICE_NONE
            · rw [if_pos h]
              exact (hpi h).1.symm
            · rw [if_neg h]
              by_cases h3 : get_input_snd_device is_tmus adev ≠ s1.cur_in_snd_device ∨
                  false = true
              · rw [if_pos h3]
                cases h4 : s1.in_snd_device_active
                · rfl
                · exact absurd ⟨h3, h4⟩ hdi
              · rw [if_neg h3]
          rw [hoa, hia, hco, hci, hul]
        · right
          rw [select_devices_trace x2 is_tmus s1 hsc2]
          simp only [ho, hi, hsw1]
          rw [hcd, if_neg hdo, if_neg hdi, if_neg heo, if_neg hei, hco, hci]
          simp only [List.nil_append, List.append_nil]

/-- C15, counterexample: a call is in progress with the voice-signaling library
loaded, the mode is back to normal, the speaker is requested and there is no
active input, so the input selector returns `None`.  The second of two runs of
`select_devices` on unchanged inputs is not a no-op: it disables the speaker
device and enables it again. -/
theorem select_devices_twice_counterexample :
    (select_devices {} false
      (select_devices {} false
        { mode := AUDIO_MODE_NORMAL, in_call := true, csd_client := true,
          csd_disable_device := true, csd_enable_device := true,
          out_device := AUDIO_DEVICE_OUT_SPEAKER,
          cur_out_snd_device := SND_DEVICE_OUT_VOICE_SPEAKER, out_snd_device_active := true,
          cur_in_snd_device := SND_DEVICE_IN_VOICE_SPEAKER_MIC,
          in_snd_device_active := true,
          usecase_list := [{ id := USECASE_VOICE_CALL, type := VOICE_CALL,
                             devices := AUDIO_DEVICE_OUT_SPEAKER }] }).2.1).2.2 =
      [action.csd_disable_device,
        action.audio_route_reset_path "voice-call",
        action.audio_route_update_mixer,
        action.audio_route_reset_path "speaker",
        action.audio_route_apply_path "speaker",
        action.audio_route_update_mixer,
        action.audio_route_apply_path "voice-call",
        action.audio_route_update_mixer] := by
  decide

/-- The blocks of a run of `select_devices` that is not short-circuited, made while
a call is in progress with the voice-signaling library loaded: the conditions
of the two disable blocks reduce to the side being active, those of the two
enable blocks to the selected device not being `None`. -/
theorem select_devices_in_call_blocks (x : select_devices_ext) (is_tmus : Bool)
    (adev : audio_device) (hcall : adev.in_call = true) (hcsd : adev.csd_client = true)
    (hns : ¬ (get_output_snd_device is_tmus adev = adev.cur_out_snd_device ∧
      adev.out_snd_device_active = true ∧
      get_input_snd_device is_tmus adev = adev.cur_in_snd_device ∧
      adev.in_snd_device_active = true)) :
    (select_devices x is_tmus adev).2.2 =
      (if adev.csd_disable_device = true then [action.csd_disable_device] else []) ++
      (if adev.out_snd_device_active = true then
          disable_out_routes adev.cur_out_snd_device adev.usecase_list ++
            [action.audio_route_update_mixer] ++
            (disable_snd_device adev.cur_out_snd_device).2
        else []) ++
      (if adev.in_snd_device_active = true then
          disable_in_routes adev.cur_in_snd_device adev.usecase_list ++
            [action.audio_route_update_mixer] ++
            (disable_snd_device adev.cur_in_snd_device).2
        else []) ++
      (if get_output_snd_device is_tmus adev ≠ SND_DEVICE_NONE then
          (enable_snd_device adev (get_output_snd_device is_tmus adev)).2
        else []) ++
      (if get_input_snd_device is_tmus adev ≠ SND_DEVICE_NONE then
          (enable_snd_device adev (get_input_snd_device is_tmus adev)).2
        else []) ++
      [action.audio_route_update_mixer] ++
      enable_routes
        (if get_output_snd_device is_tmus adev ≠ SND_DEVICE_NONE then
          get_output_snd_device is_tmus adev else adev.cur_out_snd_device)
        (if get_input_snd_device is_tmus adev ≠ SND_DEVICE_NONE then
          get_input_snd_device is_tmus adev else adev.cur_in_snd_device)
        adev.usecase_list ++
      [action.audio_route_update_mixer] ++
      (if adev.mode = AUDIO_MODE_IN_CALL ∧ adev.csd_client = true ∧
          adev.csd_enable_device = true then
        [action.csd_enable_device
          (get_acdb_device_id (get_output_snd_device is_tmus adev))
          (get_acdb_device_id (get_input_snd_device is_tmus adev)) adev.acdb_settings]
      else []) ∧
    ((select_devices x is_tmus adev).2.1.out_snd_device_active = true ↔
      get_output_snd_device is_tmus adev ≠ SND_DEVICE_NONE) ∧
    ((select_devices x is_tmus adev).2.1.in_snd_device_active = true ↔
      get_input_snd_device is_tmus adev ≠ SND_DEVICE_NONE) ∧
    (get_output_snd_device is_tmus adev ≠ SND_DEVICE_NONE →
      (select_devices x is_tmus adev).2.1.cur_out_snd_device =
        get_output_snd_device is_tmus adev) ∧
    (get_input_snd_device is_tmus adev ≠ SND_DEVICE_NONE →
      (select_devices x is_tmus adev).2.1.cur_in_snd_device =
        get_input_snd_device is_tmus adev) := by
  have hsw : (adev.in_call && adev.csd_client) = true := by rw [hcall, hcsd]; rfl
  refine ⟨?_, ?_, ?_, ?_, ?_⟩
  · rw [select_devices_trace x is_tmus adev hns]
    have hcd : (select_devices_csd_disable x adev).2 =
        if adev.csd_disable_device = true then [action.csd_disable_device] else [] := by
      simp only [select_devices_csd_disable]
      rw [if_pos ⟨hcall, hcsd⟩]
      cases adev.csd_disable_device <;> rfl
    rw [hcd, hsw]
    simp only [or_true, true_and, and_true]
  · rw [select_devices_state x is_tmus adev hns, hsw]
    by_cases h : get_output_snd_device is_tmus adev = SND_DEVICE_NONE <;> simp [h]
  · rw [select_devices_state x is_tmus adev hns, hsw]
    by_cases h : get_input_snd_device is_tmus adev = SND_DEVICE_NONE <;> simp [h]
  · intro h
    rw [select_devices_state x is_tmus adev hns]
    simp only [if_pos h]
  · intro h
    rw [select_devices_state x is_tmus adev hns]
    simp only [if_pos h]

/-- C18, amended: when `select_devices` runs in call mode with the voice-signaling
library loaded and its enable entry point resolved, and is not short-circuited,
its last call is the voice-enable call carrying the calibration ids of both
chosen devices and the calibration-settings bitmask; the status of that call is
the status `select_devices` returns (success only if the call reports 0), and the
device state it leaves does not depend on what the vendor calls report. -/
theorem select_devices_voice_enable_status (x : select_devices_ext) (is_tmus : Bool)
    (adev : audio_device) (hmode : adev.mode = AUDIO_MODE_IN_CALL)
    (hcsd : adev.csd_client = true) (hen : adev.csd_enable_device = true)
    (hns : ¬ (get_output_snd_device is_tmus adev = adev.cur_out_snd_device ∧
      adev.out_snd_device_active = true ∧
      get_input_snd_device is_tmus adev = adev.cur_in_snd_device ∧
      adev.in_snd_device_active = true)) :
    (select_devices x is_tmus adev).1 = x.csd_enable_device ∧
    (∃ before, (select_devices x is_tmus adev).2.2 =
      before ++ [action.csd_enable_device
        (get_acdb_device_id (get_output_snd_device is_tmus adev))
        (get_acdb_device_id (get_input_snd_device is_tmus adev)) adev.acdb_settings]) ∧
    (∀ y : select_devices_ext,
      (select_devices y is_tmus adev).2.1 = (select_devices x is_tmus adev).2.1) := by
  refine ⟨select_devices_status_in_call x is_tmus adev hns hmode hcsd hen, ?_, ?_⟩
  · have hlast : (if adev.mode = AUDIO_MODE_IN_CALL ∧ adev.csd_client = true ∧
          adev.csd_enable_device = true then
        [action.csd_enable_device
          (get_acdb_device_id (get_output_snd_device is_tmus adev))
          (get_acdb_device_id (get_input_snd_device is_tmus adev)) adev.acdb_settings]
      else []) =
        [action.csd_enable_device
          (get_acdb_device_id (get_output_snd_device is_tmus adev))
          (get_acdb_device_id (get_input_snd_device is_tmus adev)) adev.acdb_settings] :=
      if_pos ⟨hmode, hcsd, hen⟩
    rw [select_devices_trace x is_tmus adev hns, hlast]
    exact ⟨_, rfl⟩
  · intro y
    rw [select_devices_state y is_tmus adev hns, select_devices_state x is_tmus adev hns]

/-- C18, counterexample: in call mode with the voice-signaling library loaded and
the speaker requested, the voice-enable call reports the failure -1:
`select_devices` returns -1, not success. -/
theorem select_devices_voice_enable_counterexample :
    (select_devices { csd_enable_device := -1 } false
      { mode := AUDIO_MODE_IN_CALL, out_device := AUDIO_DEVICE_OUT_SPEAKER,
        csd_client := true, csd_disable_device := true, csd_enable_device := true }).1 = -1 ∧
    (select_devices { csd_enable_device := -1 } false
      { mode := AUDIO_MODE_IN_CALL, out_device := AUDIO_DEVICE_OUT_SPEAKER,
        csd_client := true, csd_disable_device := true, csd_enable_device := true }).1 ≠ 0 := by
  decide

/-! ## Stream lifecycle and usecase list -/

/-- The run of `select_devices` at the start of `start_voice_call`, made while the
in-call flag is still false, when the output path is active on the sound device
the output selector resolves to: it performs no disable and no enable of the
output path, which stays active on the same device; it is short-circuited when
the input path is active on the selected input device, and otherwise it
disables the input path only if that is active on another device, enables it
only if the selected input device is not `None` and the path is not already
active on it, and goes on with the commit, the usecase paths, the commit and the
voice-enable call. -/
theorem select_devices_same_output_blocks (x : start_voice_call_ext) (is_tmus : Bool)
    (adev : audio_device) (hcall : adev.in_call = false)
    (hactive : adev.out_snd_device_active = true)
    (hsame : get_output_snd_device is_tmus adev = adev.cur_out_snd_device) :
    (∃ rest, (start_voice_call x is_tmus adev).2.2 =
      (select_devices x.select is_tmus adev).2.2 ++ rest) ∧
    (select_devices x.select is_tmus adev).2.2 =
      (if get_input_snd_device is_tmus adev = adev.cur_in_snd_device ∧
          adev.in_snd_device_active = true then []
      else
        (if get_input_snd_device is_tmus adev ≠ adev.cur_in_snd_device ∧
              adev.in_snd_device_active = true then
            disable_in_routes adev.cur_in_snd_device adev.usecase_list ++
              [action.audio_route_update_mixer] ++
              (disable_snd_device adev.cur_in_snd_device).2
          else []) ++
        (if get_input_snd_device is_tmus adev ≠ SND_DEVICE_NONE ∧
              (adev.in_snd_device_active = false ∨
                get_input_snd_device is_tmus adev ≠ adev.cur_in_snd_device) then
            (enable_snd_device adev (get_input_snd_device is_tmus adev)).2
          else []) ++
        [action.audio_route_update_mixer] ++
        enable_routes adev.cur_out_snd_device
          (if get_input_snd_device is_tmus adev ≠ SND_DEVICE_NONE then
            get_input_snd_device is_tmus adev else adev.cur_in_snd_device)
          adev.usecase_list ++
        [action.audio_route_update_mixer] ++
        (if adev.mode = AUDIO_MODE_IN_CALL ∧ adev.csd_client = true ∧
            adev.csd_enable_device = true then
          [action.csd_enable_device
            (get_acdb_device_id (get_output_snd_device is_tmus adev))
            (get_acdb_device_id (get_input_snd_device is_tmus adev)) adev.acdb_settings]
        else [])) ∧
    (select_devices x.select is_tmus adev).2.1.out_snd_device_active = true ∧
    (select_devices x.select is_tmus adev).2.1.cur_out_snd_device =
      adev.cur_out_snd_device := by
  have hsw : (adev.in_call && adev.csd_client) = false := by rw [hcall]; rfl
  refine ⟨?_, ?_, ?_⟩
  · simp only [start_voice_call, start_voice_call_error]
    split_ifs <;> simp only [List.append_assoc] <;> first | exact ⟨_, rfl⟩ | exact ⟨[], by simp⟩
  · by_cases hsc : get_output_snd_device is_tmus adev = adev.cur_out_snd_device ∧
        adev.out_snd_device_active = true ∧
        get_input_snd_device is_tmus adev = adev.cur_in_snd_device ∧
        adev.in_snd_device_active = true
    · rw [if_pos ⟨hsc.2.2.1, hsc.2.2.2⟩]
      simp only [select_devices]
      rw [if_pos hsc]
    · rw [if_neg (fun h => hsc ⟨hsame, hactive, h.1, h.2⟩)]
      have hcd : (select_devices_csd_disable x.select adev).2 = [] := by
        simp only [select_devices_csd_disable]
        rw [if_neg (by
          rintro ⟨h1, _⟩
          rw [hcall] at h1
          exact absurd h1 (by decide))]
      have hco : (if get_output_snd_device is_tmus adev ≠ SND_DEVICE_NONE then
          get_output_snd_device is_tmus adev else adev.cur_out_snd_device) =
          adev.cur_out_snd_device := by
        by_cases h : get_output_snd_device is_tmus adev ≠ SND_DEVICE_NONE
        · rw [if_pos h]
          exact hsame
        · rw [if_neg h]
      have hdo : ∀ A : List action,
          (if (get_output_snd_device is_tmus adev ≠ adev.cur_out_snd_device ∨
              false = true) ∧ adev.out_snd_device_active = true then A else []) = [] := by
        intro A
        apply if_neg
        rintro ⟨h1 | h1, _⟩
        · exact h1 hsame
        · exact absurd h1 (by decide)
      have heo : ∀ A : List action,
          (if get_output_snd_device is_tmus adev ≠ SND_DEVICE_NONE ∧
              (adev.out_snd_device_active = false ∨
                get_output_snd_device is_tmus adev ≠ adev.cur_out_snd_device ∨
                false = true) then A else []) = [] := by
        intro A
        apply if_neg
        rintro ⟨_, h1 | h1 | h1⟩
        · rw [hactive] at h1
          exact absurd h1 (by decide)
        · exact h1 hsame
        · exact absurd h1 (by decide)
      rw [select_devices_trace x.select is_tmus adev hsc, hcd, hsw, hco, hdo, heo]
      simp only [or_false, Bool.false_eq_true, List.nil_append, List.append_nil]
  · by_cases hsc : get_output_snd_device is_tmus adev = adev.cur_out_snd_device ∧
        adev.out_snd_device_active = true ∧
        get_input_snd_device is_tmus adev = adev.cur_in_snd_device ∧
        adev.in_snd_device_active = true
    · have h : select_devices x.select is_tmus adev = (0, adev, []) := by
        simp only [select_devices]
        rw [if_pos hsc]
      rw [h]
      exact ⟨hactive, rfl⟩
    · rw [select_devices_state x.select is_tmus adev hsc, hsw]
      constructor
      · by_cases h : get_output_snd_device is_tmus adev = SND_DEVICE_NONE
        · simp [h, hsame.symm.trans h, hactive]
        · simp [h]
      · by_cases h : get_output_snd_device is_tmus adev = SND_DEVICE_NONE
        · simp [h]
        · simp [h, hsame]

/-- C17, counterexample: deep-buffer playback was started on Bluetooth SCO in normal
mode, which leaves the output path active on the bt-sco device; then call mode
is set, for which the output selection resolves to the same device.
`start_voice_call` succeeds without any reset or apply of the device path of
bt-sco, "bt-sco-headset": only the input path ("bt-sco-mic") is enabled. -/
theorem start_voice_call_same_output_counterexample :
    ({ (start_output_stream {} false
          { out_device := AUDIO_DEVICE_OUT_BLUETOOTH_SCO,
            csd_client := true, csd_disable_device := true, csd_enable_device := true,
            csd_start_voice := true, csd_stop_voice := true, acdb_send_audio_cal := true }
          { usecase := USECASE_AUDIO_PLAYBACK_DEEP_BUFFER,
            devices := AUDIO_DEVICE_OUT_BLUETOOTH_SCO, standby := true }).2.1 with
        mode := AUDIO_MODE_IN_CALL } : audio_device) =
      { mode := AUDIO_MODE_IN_CALL, out_device := AUDIO_DEVICE_OUT_BLUETOOTH_SCO,
        cur_out_snd_device := SND_DEVICE_OUT_BT_SCO, out_snd_device_active := true,
        csd_client := true, csd_disable_device := true, csd_enable_device := true,
        csd_start_voice := true, csd_stop_voice := true, acdb_send_audio_cal := true,
        usecase_list := [{ id := USECASE_AUDIO_PLAYBACK_DEEP_BUFFER, type := PCM_PLAYBACK,
                           devices := AUDIO_DEVICE_OUT_BLUETOOTH_SCO }] } ∧
    get_output_snd_device false
      { mode := AUDIO_MODE_IN_CALL, out_device := AUDIO_DEVICE_OUT_BLUETOOTH_SCO,
        cur_out_snd_device := SND_DEVICE_OUT_BT_SCO, out_snd_device_active := true,
        csd_client := true, csd_disable_device := true, csd_enable_device := true,
        csd_start_voice := true, csd_stop_voice := true, acdb_send_audio_cal := true,
        usecase_list := [{ id := USECASE_AUDIO_PLAYBACK_DEEP_BUFFER, type := PCM_PLAYBACK,
                           devices := AUDIO_DEVICE_OUT_BLUETOOTH_SCO }] } =
      SND_DEVICE_OUT_BT_SCO ∧
    (start_voice_call {} false
      { mode := AUDIO_MODE_IN_CALL, out_device := AUDIO_DEVICE_OUT_BLUETOOTH_SCO,
        cur_out_snd_device := SND_DEVICE_OUT_BT_SCO, out_snd_device_active := true,
        csd_client := true, csd_disable_device := true, csd_enable_device := true,
        csd_start_voice := true, csd_stop_voice := true, acdb_send_audio_cal := true,
        usecase_list := [{ id := USECASE_AUDIO_PLAYBACK_DEEP_BUFFER, type := PCM_PLAYBACK,
                           devices := AUDIO_DEVICE_OUT_BLUETOOTH_SCO }] }).1 = 0 ∧
    (start_voice_call {} false
      { mode := AUDIO_MODE_IN_CALL, out_device := AUDIO_DEVICE_OUT_BLUETOOTH_SCO,
        cur_out_snd_device := SND_DEVICE_OUT_BT_SCO, out_snd_device_active := true,
        csd_client := true, csd_disable_device := true, csd_enable_device := true,
        csd_start_voice := true, csd_stop_voice := true, acdb_send_audio_cal := true,
        usecase_list := [{ id := USECASE_AUDIO_PLAYBACK_DEEP_BUFFER, type := PCM_PLAYBACK,
                           devices := AUDIO_DEVICE_OUT_BLUETOOTH_SCO }] }).2.2 =
      [action.acdb_send_audio_cal 21 ACDB_DEV_TYPE_IN,
        action.audio_route_apply_path "bt-sco-mic",
        action.audio_route_update_mixer,
        action.audio_route_apply_path "deep-buffer-playback bt-sco",
        action.audio_route_update_mixer,
        action.csd_enable_device 22 21 0x10,
        action.audio_route_apply_path "voice-call bt-sco",
        action.audio_route_update_mixer,
        action.pcm_open 12 PCM_OUT,
        action.pcm_open 12 PCM_IN,
        action.pcm_start PCM_OUT,
        action.pcm_start PCM_IN,
        action.csd_start_voice] := by
  decide

/-- The usecase of the stream `adev_open_output_stream` checks against the list. -/
theorem adev_open_output_stream_checks (x : adev_open_output_stream_ext)
    (adev : audio_device) (devices flags channel_mask : Nat) :
    adev_open_output_stream x adev devices flags channel_mask =
      if get_usecase_from_list adev (adev_open_output_stream_usecase devices flags) ≠ none then
        (-EEXIST, adev, none, (adev_open_output_stream x adev devices flags channel_mask).2.2.2)
      else
        (0, adev, (adev_open_output_stream x adev devices flags channel_mask).2.2.1,
          (adev_open_output_stream x adev devices flags channel_mask).2.2.2) := by
  simp only [adev_open_output_stream, adev_open_output_stream_usecase, read_hdmi_channel_masks]
  split_ifs <;> simp_all

/-- C19, amended: opening an output stream whose usecase id is already present in
the registry fails with AlreadyExists (`-EEXIST`), creates no stream and leaves
the registry, like the whole device state, unchanged, for every registry
state. -/
theorem adev_open_output_stream_already_exists (x : adev_open_output_stream_ext)
    (adev : audio_device) (devices flags channel_mask : Nat)
    (hpresent :
      get_usecase_from_list adev (adev_open_output_stream_usecase devices flags) ≠ none) :
    (adev_open_output_stream x adev devices flags channel_mask).1 = -EEXIST ∧
    (adev_open_output_stream x adev devices flags channel_mask).2.1 = adev ∧
    (adev_open_output_stream x adev devices flags channel_mask).2.1.usecase_list =
      adev.usecase_list ∧
    (adev_open_output_stream x adev devices flags channel_mask).2.2.1 = none := by
  rw [adev_open_output_stream_checks x adev devices flags channel_mask, if_pos hpresent]
  exact ⟨rfl, rfl, rfl, rfl⟩

/-- C19, counterexample: the registry holds a low-latency playback entry.
`add_usecase_to_list` with an entry of the same id does not fail and puts a
second entry in the registry; `start_output_stream` for a stream of that usecase
returns success, not AlreadyExists, and leaves two entries with the id. -/
theorem add_usecase_to_list_duplicate_counterexample :
    get_usecase_from_list
      { usecase_list := [{ id := USECASE_AUDIO_PLAYBACK_LOW_LATENCY, type := PCM_PLAYBACK,
                           devices := AUDIO_DEVICE_OUT_SPEAKER }] }
      USECASE_AUDIO_PLAYBACK_LOW_LATENCY ≠ none ∧
    (add_usecase_to_list
      { usecase_list := [{ id := USECASE_AUDIO_PLAYBACK_LOW_LATENCY, type := PCM_PLAYBACK,
                           devices := AUDIO_DEVICE_OUT_SPEAKER }] }
      { id := USECASE_AUDIO_PLAYBACK_LOW_LATENCY, type := PCM_PLAYBACK,
        devices := AUDIO_DEVICE_OUT_SPEAKER }).usecase_list =
      [{ id := USECASE_AUDIO_PLAYBACK_LOW_LATENCY, type := PCM_PLAYBACK,
         devices := AUDIO_DEVICE_OUT_SPEAKER },
       { id := USECASE_AUDIO_PLAYBACK_LOW_LATENCY, type := PCM_PLAYBACK,
         devices := AUDIO_DEVICE_OUT_SPEAKER }] ∧
    (start_output_stream {} false
      { out_device := AUDIO_DEVICE_OUT_SPEAKER, cur_out_snd_device := SND_DEVICE_OUT_SPEAKER,
        out_snd_device_active := true,
        usecase_list := [{ id := USECASE_AUDIO_PLAYBACK_LOW_LATENCY, type := PCM_PLAYBACK,
                           devices := AUDIO_DEVICE_OUT_SPEAKER }] }
      { usecase := USECASE_AUDIO_PLAYBACK_LOW_LATENCY, devices := AUDIO_DEVICE_OUT_SPEAKER,
        standby := true }).1 = 0 ∧
    (start_output_stream {} false
      { out_device := AUDIO_DEVICE_OUT_SPEAKER, cur_out_snd_device := SND_DEVICE_OUT_SPEAKER,
        out_snd_device_active := true,
        usecase_list := [{ id := USECASE_AUDIO_PLAYBACK_LOW_LATENCY, type := PCM_PLAYBACK,
                           devices := AUDIO_DEVICE_OUT_SPEAKER }] }
      { usecase := USECASE_AUDIO_PLAYBACK_LOW_LATENCY, devices := AUDIO_DEVICE_OUT_SPEAKER,
        standby := true }).2.1.usecase_list =
      [{ id := USECASE_AUDIO_PLAYBACK_LOW_LATENCY, type := PCM_PLAYBACK,
         devices := AUDIO_DEVICE_OUT_SPEAKER },
       { id := USECASE_AUDIO_PLAYBACK_LOW_LATENCY, type := PCM_PLAYBACK,
         devices := AUDIO_DEVICE_OUT_SPEAKER }] := by
  decide

/-- C20, the code at the failing input: on a freshly opened device two output
streams are opened with the same flags and the speaker, both before either is
started: the open call leaves the device state as it was, so the second open is
the same call and passes the check of `adev_open_output_stream` as the first
does; then each stream is started.  Every call succeeds and the registry holds two entries with the
low-latency playback id. -/
theorem usecase_list_duplicate_after_two_starts :
    adev_open {} = (0, some {}) ∧
    adev_open_output_stream {} {} AUDIO_DEVICE_OUT_SPEAKER 0 0 =
      (0, {},
        some { usecase := USECASE_AUDIO_PLAYBACK_LOW_LATENCY,
               devices := AUDIO_DEVICE_OUT_SPEAKER, flags := 0,
               channel_mask := AUDIO_CHANNEL_OUT_STEREO,
               supported_channel_masks := [AUDIO_CHANNEL_OUT_STEREO, 0, 0],
               standby := true }, []) ∧
    (start_output_stream {} false {}
      { usecase := USECASE_AUDIO_PLAYBACK_LOW_LATENCY,
        devices := AUDIO_DEVICE_OUT_SPEAKER, flags := 0,
        channel_mask := AUDIO_CHANNEL_OUT_STEREO,
        supported_channel_masks := [AUDIO_CHANNEL_OUT_STEREO, 0, 0],
        standby := true }).1 = 0 ∧
    (start_output_stream {} false
      (start_output_stream {} false {}
        { usecase := USECASE_AUDIO_PLAYBACK_LOW_LATENCY,
          devices := AUDIO_DEVICE_OUT_SPEAKER, flags := 0,
          channel_mask := AUDIO_CHANNEL_OUT_STEREO,
          supported_channel_masks := [AUDIO_CHANNEL_OUT_STEREO, 0, 0],
          standby := true }).2.1
      { usecase := USECASE_AUDIO_PLAYBACK_LOW_LATENCY,
        devices := AUDIO_DEVICE_OUT_SPEAKER, flags := 0,
        channel_mask := AUDIO_CHANNEL_OUT_STEREO,
        supported_channel_masks := [AUDIO_CHANNEL_OUT_STEREO, 0, 0],
        standby := true }).1 = 0 ∧
    (start_output_stream {} false
      (start_output_stream {} false {}
        { usecase := USECASE_AUDIO_PLAYBACK_LOW_LATENCY,
          devices := AUDIO_DEVICE_OUT_SPEAKER, flags := 0,
          channel_mask := AUDIO_CHANNEL_OUT_STEREO,
          supported_channel_masks := [AUDIO_CHANNEL_OUT_STEREO, 0, 0],
          standby := true }).2.1
      { usecase := USECASE_AUDIO_PLAYBACK_LOW_LATENCY,
        devices := AUDIO_DEVICE_OUT_SPEAKER, flags := 0,
        channel_mask := AUDIO_CHANNEL_OUT_STEREO,
        supported_channel_masks := [AUDIO_CHANNEL_OUT_STEREO, 0, 0],
        standby := true }).2.1.usecase_list =
      [{ id := USECASE_AUDIO_PLAYBACK_LOW_LATENCY, type := PCM_PLAYBACK,
         devices := AUDIO_DEVICE_OUT_SPEAKER },
       { id := USECASE_AUDIO_PLAYBACK_LOW_LATENCY, type := PCM_PLAYBACK,
         devices := AUDIO_DEVICE_OUT_SPEAKER }] := by
  decide

/-! ## HDMI negotiation, capture configuration and path names -/

/-- The stream `adev_open_output_stream` creates for the multichannel HDMI usecase:
the masks `read_hdmi_channel_masks` leaves after the stereo default of line
1613. -/
theorem adev_open_output_stream_multi_ch (x : adev_open_output_stream_ext)
    (adev : audio_device) (devices flags channel_mask : Nat)
    (hflag : flags &&& AUDIO_OUTPUT_FLAG_DIRECT ≠ 0)
    (hdev : devices &&& AUDIO_DEVICE_OUT_AUX_DIGITAL ≠ 0)
    (hfree : get_usecase_from_list adev USECASE_AUDIO_PLAYBACK_MULTI_CH = none) :
    ∃ out, (adev_open_output_stream x adev devices flags channel_mask).2.2.1 = some out ∧
      out.usecase = USECASE_AUDIO_PLAYBACK_MULTI_CH ∧
      out.supported_channel_masks =
        (read_hdmi_channel_masks x.edid_get_max_channels
          { supported_channel_masks := [AUDIO_CHANNEL_OUT_STEREO, 0, 0] }).supported_channel_masks := by
  have hd : devices ≠ AUDIO_DEVICE_NONE := by
    intro h
    rw [h] at hdev
    exact hdev (by decide)
  have hc : flags &&& AUDIO_OUTPUT_FLAG_DIRECT ≠ 0 ∧
      devices &&& AUDIO_DEVICE_OUT_AUX_DIGITAL ≠ 0 := ⟨hflag, hdev⟩
  simp only [adev_open_output_stream, if_neg hd, if_pos hc]
  by_cases h6 : x.edid_get_max_channels = 6
  · simp [read_hdmi_channel_masks, h6, hfree]
  · by_cases h8 : x.edid_get_max_channels = 8
    · simp [read_hdmi_channel_masks, h8, hfree]
    · simp [read_hdmi_channel_masks, h6, h8, hfree]

/-- C23, amended: when a multichannel HDMI output stream is opened (direct flag,
AUX_DIGITAL requested, usecase not registered), the supported channel masks of
the stream, which `out_get_parameters` reports by name, are 5.1 alone when the
reported channel capability is 6, 5.1 and 7.1 when it is 8, and for any other
reported value the stereo mask that line 1613 stores before the negotiation. -/
theorem adev_open_output_stream_hdmi_masks (x : adev_open_output_stream_ext)
    (adev : audio_device) (devices flags channel_mask : Nat)
    (hflag : flags &&& AUDIO_OUTPUT_FLAG_DIRECT ≠ 0)
    (hdev : devices &&& AUDIO_DEVICE_OUT_AUX_DIGITAL ≠ 0)
    (hfree : get_usecase_from_list adev USECASE_AUDIO_PLAYBACK_MULTI_CH = none) :
    ∃ out, (adev_open_output_stream x adev devices flags channel_mask).2.2.1 = some out ∧
      (adev_open_output_stream x adev devices flags channel_mask).1 = 0 ∧
      out.usecase = USECASE_AUDIO_PLAYBACK_MULTI_CH ∧
      (x.edid_get_max_channels = 6 →
        out.supported_channel_masks = [AUDIO_CHANNEL_OUT_5POINT1, 0, 0] ∧
        out_get_parameters_sup_channels out = "AUDIO_CHANNEL_OUT_5POINT1") ∧
      (x.edid_get_max_channels = 8 →
        out.supported_channel_masks =
          [AUDIO_CHANNEL_OUT_5POINT1, AUDIO_CHANNEL_OUT_7POINT1, 0] ∧
        out_get_parameters_sup_channels out =
          "AUDIO_CHANNEL_OUT_5POINT1|AUDIO_CHANNEL_OUT_7POINT1") ∧
      (x.edid_get_max_channels ≠ 6 → x.edid_get_max_channels ≠ 8 →
        out.supported_channel_masks = [AUDIO_CHANNEL_OUT_STEREO, 0, 0] ∧
        out_get_parameters_sup_channels out = "AUDIO_CHANNEL_OUT_STEREO") := by
  obtain ⟨out, hout, huc, hmasks⟩ :=
    adev_open_output_stream_multi_ch x adev devices flags channel_mask hflag hdev hfree
  have hst : (adev_open_output_stream x adev devices flags channel_mask).1 = 0 := by
    rw [adev_open_output_stream_checks]
    have hu : adev_open_output_stream_usecase devices flags =
        USECASE_AUDIO_PLAYBACK_MULTI_CH := by
      have hd : devices ≠ AUDIO_DEVICE_NONE := by
        intro h
        rw [h] at hdev
        exact hdev (by decide)
      simp only [adev_open_output_stream_usecase, if_neg hd]
      rw [if_pos ⟨hflag, hdev⟩]
    rw [hu, if_neg (fun h => h hfree)]
  refine ⟨out, hout, hst, huc, ?_, ?_, ?_⟩
  · intro h6
    rw [h6] at hmasks
    have hm : out.supported_channel_masks = [AUDIO_CHANNEL_OUT_5POINT1, 0, 0] :=
      hmasks.trans (by decide)
    refine ⟨hm, ?_⟩
    simp only [out_get_parameters_sup_channels]
    rw [hm]
    decide
  · intro h8
    rw [h8] at hmasks
    have hm : out.supported_channel_masks =
        [AUDIO_CHANNEL_OUT_5POINT1, AUDIO_CHANNEL_OUT_7POINT1, 0] :=
      hmasks.trans (by decide)
    refine ⟨hm, ?_⟩
    simp only [out_get_parameters_sup_channels]
    rw [hm]
    decide
  · intro h6 h8
    have hm : out.supported_channel_masks = [AUDIO_CHANNEL_OUT_STEREO, 0, 0] := by
      rw [hmasks]
      simp only [read_hdmi_channel_masks, if_neg h6, if_neg h8]
    refine ⟨hm, ?_⟩
    simp only [out_get_parameters_sup_channels]
    rw [hm]
    decide

/-- C23, counterexample: the reported channel capability is 2.  The multichannel
HDMI stream is opened with the supported mask set holding the stereo mask: it
is not empty. -/
theorem adev_open_output_stream_hdmi_masks_counterexample :
    (adev_open_output_stream { edid_get_max_channels := 2 } {}
      AUDIO_DEVICE_OUT_AUX_DIGITAL AUDIO_OUTPUT_FLAG_DIRECT 0).2.2.1 =
      some { usecase := USECASE_AUDIO_PLAYBACK_MULTI_CH,
             devices := AUDIO_DEVICE_OUT_AUX_DIGITAL, flags := AUDIO_OUTPUT_FLAG_DIRECT,
             channel_mask := AUDIO_CHANNEL_OUT_5POINT1,
             supported_channel_masks := [AUDIO_CHANNEL_OUT_STEREO, 0, 0],
             standby := true } ∧
    out_get_parameters_sup_channels
      { usecase := USECASE_AUDIO_PLAYBACK_MULTI_CH,
        devices := AUDIO_DEVICE_OUT_AUX_DIGITAL, flags := AUDIO_OUTPUT_FLAG_DIRECT,
        channel_mask := AUDIO_CHANNEL_OUT_5POINT1,
        supported_channel_masks := [AUDIO_CHANNEL_OUT_STEREO, 0, 0],
        standby := true } = "AUDIO_CHANNEL_OUT_STEREO" := by
  decide

/-- C24: for every channel count from 2 to 8, `set_hdmi_channels` succeeds on a
mixer that has the control "HDMI_RX Channels" and sets it to the name of the
count: "Two", "Three", "Four", "Five", "Six", "Seven", "Eight". -/
theorem set_hdmi_channels_mapping :
    set_hdmi_channels true 2 =
      (0, [action.mixer_ctl_set_enum_by_string "HDMI_RX Channels" "Two"]) ∧
    set_hdmi_channels true 3 =
      (0, [action.mixer_ctl_set_enum_by_string "HDMI_RX Channels" "Three"]) ∧
    set_hdmi_channels true 4 =
      (0, [action.mixer_ctl_set_enum_by_string "HDMI_RX Channels" "Four"]) ∧
    set_hdmi_channels true 5 =
      (0, [action.mixer_ctl_set_enum_by_string "HDMI_RX Channels" "Five"]) ∧
    set_hdmi_channels true 6 =
      (0, [action.mixer_ctl_set_enum_by_string "HDMI_RX Channels" "Six"]) ∧
    set_hdmi_channels true 7 =
      (0, [action.mixer_ctl_set_enum_by_string "HDMI_RX Channels" "Seven"]) ∧
    set_hdmi_channels true 8 =
      (0, [action.mixer_ctl_set_enum_by_string "HDMI_RX Channels" "Eight"]) :=
  ⟨rfl, rfl, rfl, rfl, rfl, rfl, rfl⟩

/-- The two results of `check_input_parameters`. -/
theorem check_input_parameters_cases (sample_rate format : Nat) (channel_count : Int) :
    check_input_parameters sample_rate format channel_count = 0 ∨
      check_input_parameters sample_rate format channel_count = -EINVAL := by
  simp only [check_input_parameters]
  split_ifs <;> simp

/-- C25: `check_input_parameters` accepts a capture configuration exactly if the
format is 16-bit PCM, the channel count is 1 or 2 and the sample rate is one of
8000, 11025, 12000, 16000, 22050, 24000, 32000, 44100, 48000, and rejects every
other one with `-EINVAL`; `adev_open_input_stream`, with the channel count of
the requested channel mask, fails with `-EINVAL` and creates no stream for
exactly the configurations rejected, and succeeds with a stream otherwise. -/
theorem check_input_parameters_accepts (sample_rate format : Nat) (channel_count : Int) :
    (check_input_parameters sample_rate format channel_count = 0 ↔
      format = AUDIO_FORMAT_PCM_16_BIT ∧ (channel_count = 1 ∨ channel_count = 2) ∧
      sample_rate ∈ [8000, 11025, 12000, 16000, 22050, 24000, 32000, 44100, 48000]) ∧
    (check_input_parameters sample_rate format channel_count ≠ 0 ↔
      check_input_parameters sample_rate format channel_count = -EINVAL) ∧
    (∀ devices channel_mask : Nat,
      (check_input_parameters sample_rate format (popcount channel_mask) ≠ 0 ↔
        adev_open_input_stream devices sample_rate format channel_mask = (-EINVAL, none)) ∧
      (check_input_parameters sample_rate format (popcount channel_mask) = 0 ↔
        (adev_open_input_stream devices sample_rate format channel_mask).1 = 0 ∧
        (adev_open_input_stream devices sample_rate format channel_mask).2 ≠ none)) := by
  refine ⟨?_, ?_, ?_⟩
  · simp only [check_input_parameters, List.mem_cons, List.mem_singleton, List.mem_nil_iff,
      or_false]
    constructor
    · intro h
      by_cases hf : format = AUDIO_FORMAT_PCM_16_BIT
      · by_cases hc : channel_count < 1 ∨ channel_count > 2
        · rw [if_neg (not_not.mpr hf), if_pos hc] at h
          exact absurd h (by decide)
        · rw [if_neg (not_not.mpr hf), if_neg hc] at h
          refine ⟨hf, by omega, ?_⟩
          by_contra hr
          rw [if_neg hr] at h
          exact absurd h (by decide)
      · rw [if_pos hf] at h
        exact absurd h (by decide)
    · rintro ⟨hf, hc, hr⟩
      rw [if_neg (not_not.mpr hf), if_neg (by omega), if_pos hr]
  · constructor
    · intro h
      rcases check_input_parameters_cases sample_rate format channel_count with h0 | h1
      · exact absurd h0 h
      · exact h1
    · intro h
      rw [h]
      decide
  · intro devices channel_mask
    simp only [adev_open_input_stream]
    by_cases h : check_input_parameters sample_rate format (popcount channel_mask) = 0
    · rw [if_neg (not_not.mpr h)]
      simp [h]
    · rw [if_pos h]
      simp [h]

/-- C26, amended: the mixer path `enable_audio_route` applies and
`disable_audio_route` resets is the base name of the usecase followed by
" hdmi" when the sound device is hdmi or hdmi-mic, by " bt-sco" when it is
bt-sco or bt-sco-mic, by " speaker-and-hdmi" when it is speaker-and-hdmi, and
is the base name alone for every other sound device. -/
theorem audio_route_path_name (usecase : audio_usecase_t) (snd_device : snd_device_t) :
    (∃ name, enable_audio_route usecase snd_device = [action.audio_route_apply_path name] ∧
      disable_audio_route usecase snd_device = [action.audio_route_reset_path name] ∧
      (snd_device = SND_DEVICE_OUT_HDMI ∨ snd_device = SND_DEVICE_IN_HDMI_MIC →
        name = use_case_table usecase ++ " hdmi") ∧
      (snd_device = SND_DEVICE_OUT_BT_SCO ∨ snd_device = SND_DEVICE_IN_BT_SCO_MIC →
        name = use_case_table usecase ++ " bt-sco") ∧
      (snd_device = SND_DEVICE_OUT_SPEAKER_AND_HDMI →
        name = use_case_table usecase ++ " speaker-and-hdmi") ∧
      (snd_device ≠ SND_DEVICE_OUT_HDMI → snd_device ≠ SND_DEVICE_IN_HDMI_MIC →
        snd_device ≠ SND_DEVICE_OUT_BT_SCO → snd_device ≠ SND_DEVICE_IN_BT_SCO_MIC →
        snd_device ≠ SND_DEVICE_OUT_SPEAKER_AND_HDMI → name = use_case_table usecase)) := by
  refine ⟨add_backend_name (use_case_table usecase) snd_device, rfl, rfl, ?_, ?_, ?_, ?_⟩
  · intro h
    simp only [add_backend_name]
    rw [if_pos h]
  · intro h
    simp only [add_backend_name]
    rw [if_neg (by rcases h with h | h <;> rw [h] <;> decide), if_pos h]
  · intro h
    rw [h]
    rfl
  · intro h1 h2 h3 h4 h5
    simp only [add_backend_name]
    rw [if_neg (by rintro (h | h); exact h1 h; exact h2 h),
      if_neg (by rintro (h | h); exact h3 h; exact h4 h), if_neg h5]

/-- C26, counterexample: for the bt-sco-mic and hdmi-mic input devices, which are
none of hdmi, bt-sco and speaker-and-hdmi, the path of the record usecase is
not the base name "audio-record" alone. -/
theorem audio_route_path_name_counterexample :
    enable_audio_route USECASE_AUDIO_RECORD SND_DEVICE_IN_BT_SCO_MIC =
      [action.audio_route_apply_path "audio-record bt-sco"] ∧
    disable_audio_route USECASE_AUDIO_RECORD SND_DEVICE_IN_HDMI_MIC =
      [action.audio_route_reset_path "audio-record hdmi"] ∧
    use_case_table USECASE_AUDIO_RECORD = "audio-record" := by
  decide

/-! ## Registry queries -/

/-- The loop of `get_active_out_devices` from the accumulator `devices`. -/
theorem get_active_out_devices_loop_eq (usecase : audio_usecase_t) :
    ∀ (l : List audio_usecase) (devices : Nat),
      get_active_out_devices_loop usecase devices l =
        devices ||| unionOutputDevices l usecase := by
  intro l
  induction l with
  | nil =>
    intro devices
    simp [get_active_out_devices_loop, unionOutputDevices]
  | cons u us ih =>
    intro devices
    simp only [get_active_out_devices_loop]
    rw [ih]
    by_cases h : u.type = PCM_PLAYBACK ∧ u.id ≠ usecase
    · rw [if_pos h]
      simp only [unionOutputDevices, List.filter_cons, decide_eq_true h, if_true, List.map_cons,
        List.foldr_cons]
      rw [Nat.lor_assoc]
    · rw [if_neg h]
      simp only [unionOutputDevices, List.filter_cons, decide_eq_false h, Bool.false_eq_true,
        if_false]

/-- A bit is set in the union of the specification exactly if it is set in the
device bitmask of a playback entry other than the excluded one. -/
theorem unionOutputDevices_testBit (l : List audio_usecase) (x : audio_usecase_t) (k : Nat) :
    (unionOutputDevices l x).testBit k = true ↔
      ∃ u ∈ l, u.type = PCM_PLAYBACK ∧ u.id ≠ x ∧ u.devices.testBit k = true := by
  induction l with
  | nil => simp [unionOutputDevices]
  | cons u us ih =>
    by_cases h : u.type = PCM_PLAYBACK ∧ u.id ≠ x
    · have hu : unionOutputDevices (u :: us) x = u.devices ||| unionOutputDevices us x := by
        simp only [unionOutputDevices, List.filter_cons, decide_eq_true h, if_true,
          List.map_cons, List.foldr_cons]
      rw [hu, Nat.testBit_or, Bool.or_eq_true, ih]
      constructor
      · rintro (hb | ⟨v, hv, hrest⟩)
        · exact ⟨u, List.mem_cons_self _ _, h.1, h.2, hb⟩
        · exact ⟨v, List.mem_cons_of_mem _ hv, hrest⟩
      · rintro ⟨v, hv, hvt, hvi, hvb⟩
        rcases List.mem_cons.mp hv with rfl | hv
        · exact Or.inl hvb
        · exact Or.inr ⟨v, hv, hvt, hvi, hvb⟩
    · have hu : unionOutputDevices (u :: us) x = unionOutputDevices us x := by
        simp only [unionOutputDevices, List.filter_cons, decide_eq_false h, Bool.false_eq_true,
          if_false]
      rw [hu, ih]
      constructor
      · rintro ⟨v, hv, hrest⟩
        exact ⟨v, List.mem_cons_of_mem _ hv, hrest⟩
      · rintro ⟨v, hv, hvt, hvi, hvb⟩
        rcases List.mem_cons.mp hv with rfl | hv
        · exact absurd ⟨hvt, hvi⟩ h
        · exact ⟨v, hv, hvt, hvi, hvb⟩

/-- The loop of `get_usecase_from_list` finds the first entry with the id. -/
theorem get_usecase_loop_eq_find (uc_id : audio_usecase_t) (l : List audio_usecase) :
    get_usecase_loop uc_id l = l.find? (fun u => decide (u.id = uc_id)) := by
  induction l with
  | nil => rfl
  | cons u us ih =>
    simp only [get_usecase_loop, List.find?_cons]
    by_cases h : u.id = uc_id
    · rw [if_pos h, decide_eq_true h]
    · rw [if_neg h, decide_eq_false h, ih]

/-- C30: for every registry and usecase id `x`, `get_active_out_devices(x)` is the
bitwise OR of the device bitmasks of the entries of kind Playback whose id
differs from `x` (a bit is set in it exactly if it is set in one of them, so it
is zero if there are none), and `get_voice_call_out_device()` is the device
bitmask of the first entry with the VoiceCall id if there is one and zero
otherwise. -/
theorem get_active_out_devices_union (adev : audio_device) (x : audio_usecase_t) :
    get_active_out_devices adev x = unionOutputDevices adev.usecase_list x ∧
    (∀ k, (get_active_out_devices adev x).testBit k = true ↔
      ∃ u ∈ adev.usecase_list,
        u.type = PCM_PLAYBACK ∧ u.id ≠ x ∧ u.devices.testBit k = true) ∧
    ((∀ u ∈ adev.usecase_list, ¬ (u.type = PCM_PLAYBACK ∧ u.id ≠ x)) →
      get_active_out_devices adev x = 0) ∧
    get_voice_call_out_device adev = unionVoiceCallDevice adev.usecase_list ∧
    (∀ u, adev.usecase_list.find? (fun u => decide (u.id = USECASE_VOICE_CALL)) = some u →
      get_voice_call_out_device adev = u.devices) ∧
    ((∀ u ∈ adev.usecase_list, u.id ≠ USECASE_VOICE_CALL) →
      get_voice_call_out_device adev = 0) := by
  have h1 : get_active_out_devices adev x = unionOutputDevices adev.usecase_list x := by
    simp only [get_active_out_devices]
    rw [get_active_out_devices_loop_eq, Nat.zero_or]
  have h2 : get_voice_call_out_device adev = unionVoiceCallDevice adev.usecase_list := by
    simp only [get_voice_call_out_device, unionVoiceCallDevice]
    rw [get_usecase_loop_eq_find]
  refine ⟨h1, ?_, ?_, h2, ?_, ?_⟩
  · intro k
    rw [h1]
    exact unionOutputDevices_testBit adev.usecase_list x k
  · intro hnone
    rw [h1]
    apply Nat.eq_of_testBit_eq
    intro k
    rw [Nat.zero_testBit]
    cases hb : (unionOutputDevices adev.usecase_list x).testBit k
    · rfl
    · obtain ⟨u, hu, ht, hi, _⟩ := (unionOutputDevices_testBit adev.usecase_list x k).mp hb
      exact absurd ⟨ht, hi⟩ (hnone u hu)
  · intro u hu
    rw [h2]
    simp only [unionVoiceCallDevice]
    rw [hu]
  · intro hnone
    rw [h2]
    simp only [unionVoiceCallDevice]
    have hf : adev.usecase_list.find? (fun u => decide (u.id = USECASE_VOICE_CALL)) = none := by
      rw [List.find?_eq_none]
      intro u hu
      simp [hnone u hu]
    rw [hf]

/-! ## Stopping and starting streams -/

/-- The entry `get_usecase_from_list` finds has the id asked for. -/
theorem get_usecase_loop_id (uc_id : audio_usecase_t) :
    ∀ (l : List audio_usecase) (u : audio_usecase), get_usecase_loop uc_id l = some u →
      u.id = uc_id := by
  intro l
  induction l with
  | nil =>
    intro u h
    simp [get_usecase_loop] at h
  | cons v vs ih =>
    intro u h
    simp only [get_usecase_loop] at h
    by_cases hv : v.id = uc_id
    · rw [if_pos hv] at h
      cases h
      exact hv
    · rw [if_neg hv] at h
      exact ih u h

/-- The loop of `get_usecase_from_list` finds nothing exactly if no entry has the
id. -/
theorem get_usecase_loop_eq_none (uc_id : audio_usecase_t) (l : List audio_usecase) :
    get_usecase_loop uc_id l = none ↔ uc_id ∉ l.map (fun u => u.id) := by
  induction l with
  | nil => simp [get_usecase_loop]
  | cons v vs ih =>
    simp only [get_usecase_loop, List.map_cons, List.mem_cons, not_or]
    by_cases hv : v.id = uc_id
    · rw [if_pos hv]
      simp [hv]
    · rw [if_neg hv, ih]
      constructor
      · intro h
        exact ⟨fun h2 => hv h2.symm, h⟩
      · intro h
        exact h.2

/-- The ids left by `remove_usecase_from_list`: the first occurrence of the id is
erased. -/
theorem remove_usecase_loop_ids (uc_id : audio_usecase_t) (l : List audio_usecase) :
    (remove_usecase_loop uc_id l).map (fun u => u.id) =
      (l.map (fun u => u.id)).erase uc_id := by
  induction l with
  | nil => rfl
  | cons v vs ih =>
    simp only [remove_usecase_loop, List.map_cons]
    by_cases hv : v.id = uc_id
    · rw [if_pos hv, hv, List.erase_cons_head]
    · rw [if_neg hv, List.map_cons, ih, List.erase_cons_tail]
      simpa using hv

/-- Writing the requested output bitmask into the entries changes no id and no
kind. -/
theorem update_usecase_devices_kinds (d : Nat) (l : List audio_usecase) :
    (update_usecase_devices d l).map (fun u => (u.id, u.type)) =
      l.map (fun u => (u.id, u.type)) := by
  induction l with
  | nil => rfl
  | cons v vs ih =>
    simp only [update_usecase_devices, List.map_cons]
    rw [ih]
    by_cases h : v.type = PCM_PLAYBACK ∨ v.type = VOICE_CALL
    · rw [if_pos h]
    · rw [if_neg h]

/-- Writing the requested output bitmask into the entries changes no id. -/
theorem update_usecase_devices_ids (d : Nat) (l : List audio_usecase) :
    (update_usecase_devices d l).map (fun u => u.id) = l.map (fun u => u.id) := by
  have h := congrArg (List.map Prod.fst) (update_usecase_devices_kinds d l)
  simpa [List.map_map, Function.comp] using h

/-- The frame of `select_devices`: it writes the two active flags, the two current
devices and the device bitmasks of the registry entries, nothing else. -/
theorem select_devices_frame (x : select_devices_ext) (is_tmus : Bool) (adev : audio_device) :
    ∃ (oa ia : Bool) (co ci : snd_device_t) (l : List audio_usecase),
      (select_devices x is_tmus adev).2.1 =
        { adev with out_snd_device_active := oa, cur_out_snd_device := co,
                    in_snd_device_active := ia, cur_in_snd_device := ci, usecase_list := l } ∧
      (l = adev.usecase_list ∨ l = update_usecase_devices adev.out_device adev.usecase_list) := by
  by_cases hsc : get_output_snd_device is_tmus adev = adev.cur_out_snd_device ∧
      adev.out_snd_device_active = true ∧
      get_input_snd_device is_tmus adev = adev.cur_in_snd_device ∧
      adev.in_snd_device_active = true
  · have h : select_devices x is_tmus adev = (0, adev, []) := by
      simp only [select_devices]
      rw [if_pos hsc]
    rw [h]
    exact ⟨adev.out_snd_device_active, adev.in_snd_device_active, adev.cur_out_snd_device,
      adev.cur_in_snd_device, adev.usecase_list, rfl, Or.inl rfl⟩
  · rw [select_devices_state x is_tmus adev hsc]
    exact ⟨_, _, _, _, _, rfl, Or.inr rfl⟩

/-- The output selector returns no device for the empty bitmask, in every mode. -/
theorem get_output_snd_device_empty (is_tmus : Bool) (adev : audio_device)
    (h : adev.out_device = AUDIO_DEVICE_NONE) :
    get_output_snd_device is_tmus adev = SND_DEVICE_NONE := by
  simp only [get_output_snd_device]
  rw [if_pos (Or.inl h)]

/-- The run of `stop_output_stream` on a registered usecase: the path reset, the
commit, and `select_devices` on the recomputed state. -/
theorem stop_output_stream_eq (x : select_devices_ext) (is_tmus : Bool) (adev : audio_device)
    (out : stream_out) (hreg : get_usecase_from_list adev out.usecase ≠ none) :
    stop_output_stream x is_tmus adev out =
      ((select_devices x is_tmus (stop_output_stream_recompute adev out)).1,
        (select_devices x is_tmus (stop_output_stream_recompute adev out)).2.1,
        disable_audio_route out.usecase adev.cur_out_snd_device ++
          [action.audio_route_update_mixer] ++
          (select_devices x is_tmus (stop_output_stream_recompute adev out)).2.2) := by
  simp only [stop_output_stream, stop_output_stream_recompute]
  cases h : get_usecase_from_list adev out.usecase with
  | none => exact absurd h hreg
  | some u =>
    have hid : u.id = out.usecase := get_usecase_loop_id out.usecase adev.usecase_list u h
    simp only [hid]

/-- The union of the specification over a registry whose playback and voice-call
entries all carry the bitmask `d`: `d` if a playback entry other than the
excluded one exists, zero otherwise. -/
theorem unionOutputDevices_update (d : Nat) (x : audio_usecase_t) (l : List audio_usecase) :
    unionOutputDevices (update_usecase_devices d l) x =
      if ∃ u ∈ l, u.type = PCM_PLAYBACK ∧ u.id ≠ x then d else 0 := by
  induction l with
  | nil => simp [update_usecase_devices, unionOutputDevices]
  | cons v vs ih =>
    by_cases hv : v.type = PCM_PLAYBACK ∧ v.id ≠ x
    · have hu : unionOutputDevices (update_usecase_devices d (v :: vs)) x =
          d ||| unionOutputDevices (update_usecase_devices d vs) x := by
        simp only [update_usecase_devices, if_pos (Or.inl hv.1), unionOutputDevices,
          List.filter_cons, decide_eq_true hv, if_true, List.map_cons, List.foldr_cons]
      have hex : ∃ u ∈ v :: vs, u.type = PCM_PLAYBACK ∧ u.id ≠ x :=
        ⟨v, List.mem_cons_self _ _, hv⟩
      rw [hu, ih, if_pos hex]
      split_ifs
      · exact Nat.or_self d
      · exact Nat.or_zero d
    · have hu : unionOutputDevices (update_usecase_devices d (v :: vs)) x =
          unionOutputDevices (update_usecase_devices d vs) x := by
        by_cases ht : v.type = PCM_PLAYBACK ∨ v.type = VOICE_CALL
        · simp only [update_usecase_devices, if_pos ht, unionOutputDevices,
            List.filter_cons, decide_eq_false hv, Bool.false_eq_true, if_false]
        · simp only [update_usecase_devices, if_neg ht, unionOutputDevices,
            List.filter_cons, decide_eq_false hv, Bool.false_eq_true, if_false]
      rw [hu, ih]
      have hiff : (∃ u ∈ v :: vs, u.type = PCM_PLAYBACK ∧ u.id ≠ x) ↔
          ∃ u ∈ vs, u.type = PCM_PLAYBACK ∧ u.id ≠ x := by
        constructor
        · rintro ⟨u, hu, hp⟩
          rcases List.mem_cons.mp hu with rfl | hu
          · exact absurd hp hv
          · exact ⟨u, hu, hp⟩
        · rintro ⟨u, hu, hp⟩
          exact ⟨u, List.mem_cons_of_mem _ hu, hp⟩
      simp only [hiff]

/-- The union of the specification is zero when no playback entry other than the
excluded one exists. -/
theorem unionOutputDevices_eq_zero (x : audio_usecase_t) (l : List audio_usecase)
    (h : ¬ ∃ u ∈ l, u.type = PCM_PLAYBACK ∧ u.id ≠ x) : unionOutputDevices l x = 0 := by
  apply Nat.eq_of_testBit_eq
  intro k
  rw [Nat.zero_testBit]
  cases hb : (unionOutputDevices l x).testBit k
  · rfl
  · obtain ⟨u, hu, ht, hi, _⟩ := (unionOutputDevices_testBit l x k).mp hb
    exact absurd ⟨u, hu, ht, hi⟩ h

/-- The voice-call bitmask of the specification over a registry after the
requested output bitmask `d` was written into its playback and voice-call
entries. -/
theorem unionVoiceCallDevice_update (d : Nat) (l : List audio_usecase) :
    unionVoiceCallDevice (update_usecase_devices d l) =
      match l.find? (fun u => decide (u.id = USECASE_VOICE_CALL)) with
      | some u => if u.type = PCM_PLAYBACK ∨ u.type = VOICE_CALL then d else u.devices
      | none => 0 := by
  induction l with
  | nil => rfl
  | cons v vs ih =>
    by_cases hv : v.id = USECASE_VOICE_CALL
    · by_cases ht : v.type = PCM_PLAYBACK ∨ v.type = VOICE_CALL
      · simp [unionVoiceCallDevice, update_usecase_devices, hv, ht]
      · simp [unionVoiceCallDevice, update_usecase_devices, hv, ht]
    · have h1 : unionVoiceCallDevice (update_usecase_devices d (v :: vs)) =
          unionVoiceCallDevice (update_usecase_devices d vs) := by
        by_cases ht : v.type = PCM_PLAYBACK ∨ v.type = VOICE_CALL
        · simp [unionVoiceCallDevice, update_usecase_devices, hv, ht]
        · simp [unionVoiceCallDevice, update_usecase_devices, hv, ht]
      rw [h1, ih]
      simp [List.find?_cons, hv]

/-- Recomputing the requested output bitmask from a registry into which it was
just written gives it again. -/
theorem requested_after_update (x : audio_usecase_t) (l : List audio_usecase) :
    unionOutputDevices
        (update_usecase_devices (unionOutputDevices l x ||| unionVoiceCallDevice l) l) x |||
      unionVoiceCallDevice
        (update_usecase_devices (unionOutputDevices l x ||| unionVoiceCallDevice l) l) =
      unionOutputDevices l x ||| unionVoiceCallDevice l := by
  rw [unionOutputDevices_update, unionVoiceCallDevice_update]
  by_cases hp : ∃ u ∈ l, u.type = PCM_PLAYBACK ∧ u.id ≠ x
  · rw [if_pos hp]
    cases hf : l.find? (fun u => decide (u.id = USECASE_VOICE_CALL)) with
    | none => simp
    | some u =>
      have hv : unionVoiceCallDevice l = u.devices := by
        simp only [unionVoiceCallDevice]
        rw [hf]
      by_cases ht : u.type = PCM_PLAYBACK ∨ u.type = VOICE_CALL
      · simp only [if_pos ht]
        exact Nat.or_self _
      · simp only [if_neg ht]
        rw [hv, Nat.lor_assoc, Nat.or_self]
  · rw [if_neg hp, unionOutputDevices_eq_zero x l hp]
    cases hf : l.find? (fun u => decide (u.id = USECASE_VOICE_CALL)) with
    | none =>
      have hv : unionVoiceCallDevice l = 0 := by
        simp only [unionVoiceCallDevice]
        rw [hf]
      rw [hv]
    | some u =>
      have hv : unionVoiceCallDevice l = u.devices := by
        simp only [unionVoiceCallDevice]
        rw [hf]
      by_cases ht : u.type = PCM_PLAYBACK ∨ u.type = VOICE_CALL
      · simp only [if_pos ht, Nat.zero_or]
      · simp only [if_neg ht, Nat.zero_or]
        rw [hv]

/-- The function `get_active_out_devices` computes the union of the
specification. -/
theorem get_active_out_devices_eq (adev : audio_device) (x : audio_usecase_t) :
    get_active_out_devices adev x = unionOutputDevices adev.usecase_list x := by
  simp only [get_active_out_devices]
  rw [get_active_out_devices_loop_eq, Nat.zero_or]

/-- The function `get_voice_call_out_device` computes the voice-call bitmask of the
specification. -/
theorem get_voice_call_out_device_eq (adev : audio_device) :
    get_voice_call_out_device adev = unionVoiceCallDevice adev.usecase_list := by
  simp only [get_voice_call_out_device, unionVoiceCallDevice]
  rw [get_usecase_loop_eq_find]

/-- C29: after `stop_output_stream` on a registered usecase, the first entry with
the stream's usecase id is gone from the registry (no entry with the id is left
if it was registered once); the requested output bitmask is
`get_active_out_devices` (excluding the stopped id) OR
`get_voice_call_out_device`, evaluated on the registry without the entry, and
also on the registry as the function leaves it; and when that bitmask is empty
the output path is not active afterwards (in a state in which an active output
path has a current device). -/
theorem stop_output_stream_recomputes (x : select_devices_ext) (is_tmus : Bool)
    (adev : audio_device) (out : stream_out)
    (hreg : get_usecase_from_list adev out.usecase ≠ none)
    (hinv : adev.out_snd_device_active = true → adev.cur_out_snd_device ≠ SND_DEVICE_NONE) :
    ((stop_output_stream x is_tmus adev out).2.1.usecase_list.map (fun u => u.id) =
      (adev.usecase_list.map (fun u => u.id)).erase out.usecase) ∧
    ((adev.usecase_list.map (fun u => u.id)).count out.usecase = 1 →
      get_usecase_from_list (stop_output_stream x is_tmus adev out).2.1 out.usecase = none) ∧
    ((stop_output_stream x is_tmus adev out).2.1.out_device =
      get_active_out_devices (remove_usecase_from_list adev out.usecase) out.usecase |||
        get_voice_call_out_device (remove_usecase_from_list adev out.usecase)) ∧
    ((stop_output_stream x is_tmus adev out).2.1.out_device =
      get_active_out_devices (stop_output_stream x is_tmus adev out).2.1 out.usecase |||
        get_voice_call_out_device (stop_output_stream x is_tmus adev out).2.1) ∧
    ((stop_output_stream x is_tmus adev out).2.1.out_device = AUDIO_DEVICE_NONE →
      (stop_output_stream x is_tmus adev out).2.1.out_snd_device_active = false) := by
  rw [stop_output_stream_eq x is_tmus adev out hreg]
  obtain ⟨oa, ia, co, ci, l, hs, hl⟩ :=
    select_devices_frame x is_tmus (stop_output_stream_recompute adev out)
  have hids : l.map (fun u => u.id) = (adev.usecase_list.map (fun u => u.id)).erase out.usecase := by
    rcases hl with hl | hl
    · rw [hl]
      exact remove_usecase_loop_ids out.usecase adev.usecase_list
    · rw [hl, update_usecase_devices_ids]
      exact remove_usecase_loop_ids out.usecase adev.usecase_list
  have hlist : (select_devices x is_tmus (stop_output_stream_recompute adev out)).2.1.usecase_list
      = l := by rw [hs]
  have hdev : (select_devices x is_tmus (stop_output_stream_recompute adev out)).2.1.out_device
      = (stop_output_stream_recompute adev out).out_device := by rw [hs]
  have hreq : (stop_output_stream_recompute adev out).out_device =
      unionOutputDevices (remove_usecase_loop out.usecase adev.usecase_list) out.usecase |||
        unionVoiceCallDevice (remove_usecase_loop out.usecase adev.usecase_list) := by
    simp only [stop_output_stream_recompute, get_active_out_devices_eq,
      get_voice_call_out_device_eq, remove_usecase_from_list]
  refine ⟨?_, ?_, ?_, ?_, ?_⟩
  · simp only [hlist]
    exact hids
  · intro hone
    simp only [get_usecase_from_list, hlist]
    rw [get_usecase_loop_eq_none, hids]
    intro hmem
    have hc := List.count_erase_self out.usecase (adev.usecase_list.map (fun u => u.id))
    rw [hone] at hc
    have hpos := List.count_pos_iff.mpr hmem
    omega
  · simp only [hdev]
    rfl
  · simp only [hdev, get_active_out_devices_eq, get_voice_call_out_device_eq, hlist]
    rw [hreq]
    rcases hl with hl | hl
    · rw [hl]
      rfl
    · rw [hl, hreq]
      exact (requested_after_update out.usecase _).symm
  · simp only [hdev]
    intro hempty
    have ho : get_output_snd_device is_tmus (stop_output_stream_recompute adev out) =
        SND_DEVICE_NONE := get_output_snd_device_empty is_tmus _ hempty
    have hcur : (stop_output_stream_recompute adev out).cur_out_snd_device =
        adev.cur_out_snd_device := rfl
    have hact : (stop_output_stream_recompute adev out).out_snd_device_active =
        adev.out_snd_device_active := rfl
    by_cases hsc : get_output_snd_device is_tmus (stop_output_stream_recompute adev out) =
          (stop_output_stream_recompute adev out).cur_out_snd_device ∧
        (stop_output_stream_recompute adev out).out_snd_device_active = true ∧
        get_input_snd_device is_tmus (stop_output_stream_recompute adev out) =
          (stop_output_stream_recompute adev out).cur_in_snd_device ∧
        (stop_output_stream_recompute adev out).in_snd_device_active = true
    · obtain ⟨h1, h2, _, _⟩ := hsc
      rw [ho, hcur] at h1
      rw [hact] at h2
      exact absurd h1.symm (hinv h2)
    · rw [select_devices_state x is_tmus _ hsc, ho, hcur, hact]
      simp only [ne_eq, not_true_eq_false, if_false]
      by_cases hc : adev.cur_out_snd_device = SND_DEVICE_NONE
      · have hna : adev.out_snd_device_active = false := by
          cases ha : adev.out_snd_device_active
          · rfl
          · exact absurd hc (hinv ha)
        simp [hc, hna]
      · have hne : ¬ (SND_DEVICE_NONE = adev.cur_out_snd_device) := fun h => hc h.symm
        simp [hne]

/-! ## Order of the routing actions -/

/-- The resets of the output side: one per playback or voice-call entry, in
registry order, against the sound device `d`. -/
theorem disable_out_routes_eq (d : snd_device_t) (l : List audio_usecase) :
    disable_out_routes d l =
      (l.filter (fun u => decide (u.type = PCM_PLAYBACK ∨ u.type = VOICE_CALL))).map
        (fun u => action.audio_route_reset_path (add_backend_name (use_case_table u.id) d)) := by
  induction l with
  | nil => rfl
  | cons v vs ih =>
    simp only [disable_out_routes, List.filter_cons]
    rw [ih]
    by_cases h : v.type = PCM_PLAYBACK ∨ v.type = VOICE_CALL
    · rw [if_pos h, decide_eq_true h]
      rfl
    · rw [if_neg h, decide_eq_false h]
      rfl

/-- The resets of the input side: one per capture entry, in registry order,
against the sound device `d`. -/
theorem disable_in_routes_eq (d : snd_device_t) (l : List audio_usecase) :
    disable_in_routes d l =
      (l.filter (fun u => decide (u.type = PCM_CAPTURE))).map
        (fun u => action.audio_route_reset_path (add_backend_name (use_case_table u.id) d)) := by
  induction l with
  | nil => rfl
  | cons v vs ih =>
    simp only [disable_in_routes, List.filter_cons]
    rw [ih]
    by_cases h : v.type = PCM_CAPTURE
    · rw [if_pos h, decide_eq_true h]
      rfl
    · rw [if_neg h, decide_eq_false h]
      rfl

/-- The applies of the route loop: one per entry, in registry order, against the
current output device for playback and voice-call entries and against the
current input device for the others. -/
theorem enable_routes_eq (cur_out cur_in : snd_device_t) (l : List audio_usecase) :
    enable_routes cur_out cur_in l =
      l.map (fun u => action.audio_route_apply_path
        (add_backend_name (use_case_table u.id)
          (if u.type = PCM_PLAYBACK ∨ u.type = VOICE_CALL then cur_out else cur_in))) := by
  induction l with
  | nil => rfl
  | cons v vs ih =>
    simp only [enable_routes, List.map_cons]
    rw [ih]
    by_cases h : v.type = PCM_PLAYBACK ∨ v.type = VOICE_CALL
    · rw [if_pos h, if_pos h]
      rfl
    · rw [if_neg h, if_neg h]
      rfl

/-- The calls of `disable_snd_device`: the reset of the device path, nothing for
the `None` sentinel. -/
theorem disable_snd_device_snd (d : snd_device_t) :
    (disable_snd_device d).2 =
      if d = SND_DEVICE_NONE then [] else [action.audio_route_reset_path (device_table d)] := by
  cases d <;> rfl

/-- The calls of `enable_snd_device` for a sound device other than `None`: the
calibration push, when the entry point is resolved, then the apply of the
device path. -/
theorem enable_snd_device_calls (adev : audio_device) (d : snd_device_t)
    (h : d ≠ SND_DEVICE_NONE) :
    (enable_snd_device adev d).2 =
      (if adev.acdb_send_audio_cal = true then
        [action.acdb_send_audio_cal (get_acdb_device_id d)
          (if snd_device_is_out d = true then ACDB_DEV_TYPE_OUT else ACDB_DEV_TYPE_IN)]
      else []) ++ [action.audio_route_apply_path (device_table d)] := by
  cases d <;> first | exact absurd rfl h | rfl

/-- A conditional between two sound devices that are `None` or of the output range
is `None` or of the output range. -/
theorem is_out_ite (c : Prop) [Decidable c] (a b : snd_device_t)
    (ha : a = SND_DEVICE_NONE ∨ snd_device_is_out a = true)
    (hb : b = SND_DEVICE_NONE ∨ snd_device_is_out b = true) :
    (if c then a else b) = SND_DEVICE_NONE ∨ snd_device_is_out (if c then a else b) = true := by
  split_ifs
  · exact ha
  · exact hb

/-- A conditional between two sound devices that are not of the output range is
not of the output range. -/
theorem is_in_ite (c : Prop) [Decidable c] (a b : snd_device_t)
    (ha : snd_device_is_out a = false) (hb : snd_device_is_out b = false) :
    snd_device_is_out (if c then a else b) = false := by
  split_ifs
  · exact ha
  · exact hb

/-- The output selector returns `None` or a sound device of the output range. -/
theorem get_output_snd_device_is_out (is_tmus : Bool) (adev : audio_device) :
    get_output_snd_device is_tmus adev = SND_DEVICE_NONE ∨
      snd_device_is_out (get_output_snd_device is_tmus adev) = true := by
  simp only [get_output_snd_device, get_output_snd_device_in_call, get_output_snd_device_combo,
    get_output_snd_device_single]
  repeat' (first | apply is_out_ite | exact Or.inl rfl | exact Or.inr rfl)

/-- The input selector returns no sound device of the output range. -/
theorem get_input_snd_device_is_in (is_tmus : Bool) (adev : audio_device) :
    snd_device_is_out (get_input_snd_device is_tmus adev) = false := by
  simp only [get_input_snd_device, get_input_snd_device_in_call, get_input_snd_device_tty,
    get_input_snd_device_voice_rec, get_input_snd_device_by_in_device,
    get_input_snd_device_by_out_device, get_input_snd_device_tail]
  repeat' (first | apply is_in_ite | rfl)

/-- C28: in a run of `select_devices` that is not short-circuited, when the output
device changes or the in-call switch is set while the output path is active,
the actions come in this order: the voice-disable call of the switch; the reset
of the path of every registered playback and voice-call usecase against the old
output device; the commit; the disable of the old output device; the disable
block of the input side; then, if the new output device is not `None`, the
calibration push for it (direction RX, when the entry point is resolved) and
its enable, after which it is the current output device; the enable block of
the input side; the commit; the apply of every usecase path against the
current device of its side; the commit; the voice-enable call.  The same order
holds for the capture usecases and the input device (direction TX). -/
theorem select_devices_order (x : select_devices_ext) (is_tmus : Bool) (adev : audio_device)
    (hns : ¬ (get_output_snd_device is_tmus adev = adev.cur_out_snd_device ∧
      adev.out_snd_device_active = true ∧
      get_input_snd_device is_tmus adev = adev.cur_in_snd_device ∧
      adev.in_snd_device_active = true)) :
    ((get_output_snd_device is_tmus adev ≠ adev.cur_out_snd_device ∨
        (adev.in_call && adev.csd_client) = true) ∧ adev.out_snd_device_active = true →
      (select_devices x is_tmus adev).2.2 =
        (select_devices_csd_disable x adev).2 ++
        (adev.usecase_list.filter
            (fun u => decide (u.type = PCM_PLAYBACK ∨ u.type = VOICE_CALL))).map
          (fun u => action.audio_route_reset_path
            (add_backend_name (use_case_table u.id) adev.cur_out_snd_device)) ++
        [action.audio_route_update_mixer] ++
        (if adev.cur_out_snd_device = SND_DEVICE_NONE then []
          else [action.audio_route_reset_path (device_table adev.cur_out_snd_device)]) ++
        (select_devices_disable_in adev (get_input_snd_device is_tmus adev)
          (adev.in_call && adev.csd_client)).2 ++
        (if get_output_snd_device is_tmus adev ≠ SND_DEVICE_NONE then
            (if adev.acdb_send_audio_cal = true then
              [action.acdb_send_audio_cal
                (get_acdb_device_id (get_output_snd_device is_tmus adev)) ACDB_DEV_TYPE_OUT]
            else []) ++
            [action.audio_route_apply_path (device_table (get_output_snd_device is_tmus adev))]
          else []) ++
        (if get_input_snd_device is_tmus adev ≠ SND_DEVICE_NONE ∧
              (adev.in_snd_device_active = false ∨
                get_input_snd_device is_tmus adev ≠ adev.cur_in_snd_device ∨
                (adev.in_call && adev.csd_client) = true) then
            (enable_snd_device adev (get_input_snd_device is_tmus adev)).2
          else []) ++
        [action.audio_route_update_mixer] ++
        adev.usecase_list.map (fun u => action.audio_route_apply_path
          (add_backend_name (use_case_table u.id)
            (if u.type = PCM_PLAYBACK ∨ u.type = VOICE_CALL then
              (select_devices x is_tmus adev).2.1.cur_out_snd_device
            else (select_devices x is_tmus adev).2.1.cur_in_snd_device))) ++
        [action.audio_route_update_mixer] ++
        (if adev.mode = AUDIO_MODE_IN_CALL ∧ adev.csd_client = true ∧
            adev.csd_enable_device = true then
          [action.csd_enable_device
            (get_acdb_device_id (get_output_snd_device is_tmus adev))
            (get_acdb_device_id (get_input_snd_device is_tmus adev)) adev.acdb_settings]
        else []) ∧
      (select_devices x is_tmus adev).2.1.cur_out_snd_device =
        (if get_output_snd_device is_tmus adev ≠ SND_DEVICE_NONE then
          get_output_snd_device is_tmus adev else adev.cur_out_snd_device)) ∧
    ((get_input_snd_device is_tmus adev ≠ adev.cur_in_snd_device ∨
        (adev.in_call && adev.csd_client) = true) ∧ adev.in_snd_device_active = true →
      (select_devices x is_tmus adev).2.2 =
        (select_devices_csd_disable x adev).2 ++
        (select_devices_disable_out adev (get_output_snd_device is_tmus adev)
          (adev.in_call && adev.csd_client)).2 ++
        (adev.usecase_list.filter (fun u => decide (u.type = PCM_CAPTURE))).map
          (fun u => action.audio_route_reset_path
            (add_backend_name (use_case_table u.id) adev.cur_in_snd_device)) ++
        [action.audio_route_update_mixer] ++
        (if adev.cur_in_snd_device = SND_DEVICE_NONE then []
          else [action.audio_route_reset_path (device_table adev.cur_in_snd_device)]) ++
        (if get_output_snd_device is_tmus adev ≠ SND_DEVICE_NONE ∧
              (adev.out_snd_device_active = false ∨
                get_output_snd_device is_tmus adev ≠ adev.cur_out_snd_device ∨
                (adev.in_call && adev.csd_client) = true) then
            (enable_snd_device adev (get_output_snd_device is_tmus adev)).2
          else []) ++
        (if get_input_snd_device is_tmus adev ≠ SND_DEVICE_NONE then
            (if adev.acdb_send_audio_cal = true then
              [action.acdb_send_audio_cal
                (get_acdb_device_id (get_input_snd_device is_tmus adev)) ACDB_DEV_TYPE_IN]
            else []) ++
            [action.audio_route_apply_path (device_table (get_input_snd_device is_tmus adev))]
          else []) ++
        [action.audio_route_update_mixer] ++
        adev.usecase_list.map (fun u => action.audio_route_apply_path
          (add_backend_name (use_case_table u.id)
            (if u.type = PCM_PLAYBACK ∨ u.type = VOICE_CALL then
              (select_devices x is_tmus adev).2.1.cur_out_snd_device
            else (select_devices x is_tmus adev).2.1.cur_in_snd_device))) ++
        [action.audio_route_update_mixer] ++
        (if adev.mode = AUDIO_MODE_IN_CALL ∧ adev.csd_client = true ∧
            adev.csd_enable_device = true then
          [action.csd_enable_device
            (get_acdb_device_id (get_output_snd_device is_tmus adev))
            (get_acdb_device_id (get_input_snd_device is_tmus adev)) adev.acdb_settings]
        else []) ∧
      (select_devices x is_tmus adev).2.1.cur_in_snd_device =
        (if get_input_snd_device is_tmus adev ≠ SND_DEVICE_NONE then
          get_input_snd_device is_tmus adev else adev.cur_in_snd_device)) := by
  have hco : (select_devices x is_tmus adev).2.1.cur_out_snd_device =
      (if get_output_snd_device is_tmus adev ≠ SND_DEVICE_NONE then
        get_output_snd_device is_tmus adev else adev.cur_out_snd_device) := by
    rw [select_devices_state x is_tmus adev hns]
  have hci : (select_devices x is_tmus adev).2.1.cur_in_snd_device =
      (if get_input_snd_device is_tmus adev ≠ SND_DEVICE_NONE then
        get_input_snd_device is_tmus adev else adev.cur_in_snd_device) := by
    rw [select_devices_state x is_tmus adev hns]
  have hout_cal : get_output_snd_device is_tmus adev ≠ SND_DEVICE_NONE →
      (enable_snd_device adev (get_output_snd_device is_tmus adev)).2 =
        (if adev.acdb_send_audio_cal = true then
          [action.acdb_send_audio_cal
            (get_acdb_device_id (get_output_snd_device is_tmus adev)) ACDB_DEV_TYPE_OUT]
        else []) ++
        [action.audio_route_apply_path (device_table (get_output_snd_device is_tmus adev))] := by
    intro h
    rw [enable_snd_device_calls adev _ h]
    rcases get_output_snd_device_is_out is_tmus adev with h0 | h1
    · exact absurd h0 h
    · rw [h1]
      rfl
  have hin_cal : get_input_snd_device is_tmus adev ≠ SND_DEVICE_NONE →
      (enable_snd_device adev (get_input_snd_device is_tmus adev)).2 =
        (if adev.acdb_send_audio_cal = true then
          [action.acdb_send_audio_cal
            (get_acdb_device_id (get_input_snd_device is_tmus adev)) ACDB_DEV_TYPE_IN]
        else []) ++
        [action.audio_route_apply_path (device_table (get_input_snd_device is_tmus adev))] := by
    intro h
    rw [enable_snd_device_calls adev _ h, get_input_snd_device_is_in is_tmus adev]
    rfl
  constructor
  · intro hout
    refine ⟨?_, hco⟩
    rw [select_devices_trace x is_tmus adev hns, hco, hci]
    have hd : (if (get_output_snd_device is_tmus adev ≠ adev.cur_out_snd_device ∨
          (adev.in_call && adev.csd_client) = true) ∧ adev.out_snd_device_active = true then
        disable_out_routes adev.cur_out_snd_device adev.usecase_list ++
          [action.audio_route_update_mixer] ++
          (disable_snd_device adev.cur_out_snd_device).2
        else []) =
        disable_out_routes adev.cur_out_snd_device adev.usecase_list ++
          [action.audio_route_update_mixer] ++
          (disable_snd_device adev.cur_out_snd_device).2 := if_pos hout
    have he : (if get_output_snd_device is_tmus adev ≠ SND_DEVICE_NONE ∧
          (adev.out_snd_device_active = false ∨
            get_output_snd_device is_tmus adev ≠ adev.cur_out_snd_device ∨
            (adev.in_call && adev.csd_client) = true) then
        (enable_snd_device adev (get_output_snd_device is_tmus adev)).2
        else []) =
        (if get_output_snd_device is_tmus adev ≠ SND_DEVICE_NONE then
          (if adev.acdb_send_audio_cal = true then
            [action.acdb_send_audio_cal
              (get_acdb_device_id (get_output_snd_device is_tmus adev)) ACDB_DEV_TYPE_OUT]
          else []) ++
          [action.audio_route_apply_path (device_table (get_output_snd_device is_tmus adev))]
        else []) := by
      by_cases h : get_output_snd_device is_tmus adev ≠ SND_DEVICE_NONE
      · rw [if_pos ⟨h, Or.inr hout.1⟩, if_pos h, hout_cal h]
      · rw [if_neg (fun hh => h hh.1), if_neg h]
    rw [select_devices_disable_in_trace, hd, he, disable_out_routes_eq, enable_routes_eq,
      disable_snd_device_snd adev.cur_out_snd_device]
    simp only [List.append_assoc]
  · intro hin
    refine ⟨?_, hci⟩
    rw [select_devices_trace x is_tmus adev hns, hco, hci]
    have hd : (if (get_input_snd_device is_tmus adev ≠ adev.cur_in_snd_device ∨
          (adev.in_call && adev.csd_client) = true) ∧ adev.in_snd_device_active = true then
        disable_in_routes adev.cur_in_snd_device adev.usecase_list ++
          [action.audio_route_update_mixer] ++
          (disable_snd_device adev.cur_in_snd_device).2
        else []) =
        disable_in_routes adev.cur_in_snd_device adev.usecase_list ++
          [action.audio_route_update_mixer] ++
          (disable_snd_device adev.cur_in_snd_device).2 := if_pos hin
    have he : (if get_input_snd_device is_tmus adev ≠ SND_DEVICE_NONE ∧
          (adev.in_snd_device_active = false ∨
            get_input_snd_device is_tmus adev ≠ adev.cur_in_snd_device ∨
            (adev.in_call && adev.csd_client) = true) then
        (enable_snd_device adev (get_input_snd_device is_tmus adev)).2
        else []) =
        (if get_input_snd_device is_tmus adev ≠ SND_DEVICE_NONE then
          (if adev.acdb_send_audio_cal = true then
            [action.acdb_send_audio_cal
              (get_acdb_device_id (get_input_snd_device is_tmus adev)) ACDB_DEV_TYPE_IN]
          else []) ++
          [action.audio_route_apply_path (device_table (get_input_snd_device is_tmus adev))]
        else []) := by
      by_cases h : get_input_snd_device is_tmus adev ≠ SND_DEVICE_NONE
      · rw [if_pos ⟨h, Or.inr hin.1⟩, if_pos h, hin_cal h]
      · rw [if_neg (fun hh => h hh.1), if_neg h]
    rw [select_devices_disable_out_trace, hd, he, disable_in_routes_eq, enable_routes_eq,
      disable_snd_device_snd adev.cur_in_snd_device]
    simp only [List.append_assoc]

/-- C21, the code at the failing input: on a freshly opened device deep-buffer
playback is started on the speaker and low-latency playback on the wired
headphone; both starts succeed and the second writes the union of the two
requested bitmasks into the entry of the first (line 700).  Stopping the
low-latency usecase then leaves the speaker-and-headphones device as the
current active output device, not the speaker device selected for the speaker
alone, and the headphone bit of the stopped usecase is still in the result of
`get_active_out_devices`.  Stopping the deep-buffer usecase instead leaves the
headphones device. -/
theorem stop_output_stream_two_playback :
    (start_output_stream {} false {}
      { usecase := USECASE_AUDIO_PLAYBACK_DEEP_BUFFER, devices := AUDIO_DEVICE_OUT_SPEAKER,
        standby := true }).1 = 0 ∧
    (start_output_stream {} false
      (start_output_stream {} false {}
        { usecase := USECASE_AUDIO_PLAYBACK_DEEP_BUFFER, devices := AUDIO_DEVICE_OUT_SPEAKER,
          standby := true }).2.1
      { usecase := USECASE_AUDIO_PLAYBACK_LOW_LATENCY,
        devices := AUDIO_DEVICE_OUT_WIRED_HEADPHONE, standby := true }).1 = 0 ∧
    (start_output_stream {} false
      (start_output_stream {} false {}
        { usecase := USECASE_AUDIO_PLAYBACK_DEEP_BUFFER, devices := AUDIO_DEVICE_OUT_SPEAKER,
          standby := true }).2.1
      { usecase := USECASE_AUDIO_PLAYBACK_LOW_LATENCY,
        devices := AUDIO_DEVICE_OUT_WIRED_HEADPHONE, standby := true }).2.1 =
      { out_device := AUDIO_DEVICE_OUT_SPEAKER ||| AUDIO_DEVICE_OUT_WIRED_HEADPHONE,
        cur_out_snd_device := SND_DEVICE_OUT_SPEAKER_AND_HEADPHONES,
        out_snd_device_active := true,
        usecase_list :=
          [{ id := USECASE_AUDIO_PLAYBACK_LOW_LATENCY, type := PCM_PLAYBACK,
             devices := AUDIO_DEVICE_OUT_WIRED_HEADPHONE },
           { id := USECASE_AUDIO_PLAYBACK_DEEP_BUFFER, type := PCM_PLAYBACK,
             devices := AUDIO_DEVICE_OUT_SPEAKER ||| AUDIO_DEVICE_OUT_WIRED_HEADPHONE }] } ∧
    (stop_output_stream {} false
      { out_device := AUDIO_DEVICE_OUT_SPEAKER ||| AUDIO_DEVICE_OUT_WIRED_HEADPHONE,
        cur_out_snd_device := SND_DEVICE_OUT_SPEAKER_AND_HEADPHONES,
        out_snd_device_active := true,
        usecase_list :=
          [{ id := USECASE_AUDIO_PLAYBACK_LOW_LATENCY, type := PCM_PLAYBACK,
             devices := AUDIO_DEVICE_OUT_WIRED_HEADPHONE },
           { id := USECASE_AUDIO_PLAYBACK_DEEP_BUFFER, type := PCM_PLAYBACK,
             devices := AUDIO_DEVICE_OUT_SPEAKER ||| AUDIO_DEVICE_OUT_WIRED_HEADPHONE }] }
      { usecase := USECASE_AUDIO_PLAYBACK_LOW_LATENCY,
        devices := AUDIO_DEVICE_OUT_WIRED_HEADPHONE }).1 = 0 ∧
    (stop_output_stream {} false
      { out_device := AUDIO_DEVICE_OUT_SPEAKER ||| AUDIO_DEVICE_OUT_WIRED_HEADPHONE,
        cur_out_snd_device := SND_DEVICE_OUT_SPEAKER_AND_HEADPHONES,
        out_snd_device_active := true,
        usecase_list :=
          [{ id := USECASE_AUDIO_PLAYBACK_LOW_LATENCY, type := PCM_PLAYBACK,
             devices := AUDIO_DEVICE_OUT_WIRED_HEADPHONE },
           { id := USECASE_AUDIO_PLAYBACK_DEEP_BUFFER, type := PCM_PLAYBACK,
             devices := AUDIO_DEVICE_OUT_SPEAKER ||| AUDIO_DEVICE_OUT_WIRED_HEADPHONE }] }
      { usecase := USECASE_AUDIO_PLAYBACK_LOW_LATENCY,
        devices := AUDIO_DEVICE_OUT_WIRED_HEADPHONE }).2.1 =
      { out_device := AUDIO_DEVICE_OUT_SPEAKER ||| AUDIO_DEVICE_OUT_WIRED_HEADPHONE,
        cur_out_snd_device := SND_DEVICE_OUT_SPEAKER_AND_HEADPHONES,
        out_snd_device_active := true,
        usecase_list :=
          [{ id := USECASE_AUDIO_PLAYBACK_DEEP_BUFFER, type := PCM_PLAYBACK,
             devices := AUDIO_DEVICE_OUT_SPEAKER ||| AUDIO_DEVICE_OUT_WIRED_HEADPHONE }] } ∧
    get_output_snd_device false { out_device := AUDIO_DEVICE_OUT_SPEAKER } =
      SND_DEVICE_OUT_SPEAKER ∧
    get_active_out_devices
      { out_device := AUDIO_DEVICE_OUT_SPEAKER ||| AUDIO_DEVICE_OUT_WIRED_HEADPHONE,
        cur_out_snd_device := SND_DEVICE_OUT_SPEAKER_AND_HEADPHONES,
        out_snd_device_active := true,
        usecase_list :=
          [{ id := USECASE_AUDIO_PLAYBACK_DEEP_BUFFER, type := PCM_PLAYBACK,
             devices := AUDIO_DEVICE_OUT_SPEAKER ||| AUDIO_DEVICE_OUT_WIRED_HEADPHONE }] }
      USECASE_AUDIO_PLAYBACK_LOW_LATENCY =
      AUDIO_DEVICE_OUT_SPEAKER ||| AUDIO_DEVICE_OUT_WIRED_HEADPHONE ∧
    (stop_output_stream {} false
      { out_device := AUDIO_DEVICE_OUT_SPEAKER ||| AUDIO_DEVICE_OUT_WIRED_HEADPHONE,
        cur_out_snd_device := SND_DEVICE_OUT_SPEAKER_AND_HEADPHONES,
        out_snd_device_active := true,
        usecase_list :=
          [{ id := USECASE_AUDIO_PLAYBACK_LOW_LATENCY, type := PCM_PLAYBACK,
             devices := AUDIO_DEVICE_OUT_WIRED_HEADPHONE },
           { id := USECASE_AUDIO_PLAYBACK_DEEP_BUFFER, type := PCM_PLAYBACK,
             devices := AUDIO_DEVICE_OUT_SPEAKER ||| AUDIO_DEVICE_OUT_WIRED_HEADPHONE }] }
      { usecase := USECASE_AUDIO_PLAYBACK_DEEP_BUFFER,
        devices := AUDIO_DEVICE_OUT_SPEAKER }).2.1 =
      { out_device := AUDIO_DEVICE_OUT_WIRED_HEADPHONE,
        cur_out_snd_device := SND_DEVICE_OUT_HEADPHONES,
        out_snd_device_active := true,
        usecase_list :=
          [{ id := USECASE_AUDIO_PLAYBACK_LOW_LATENCY, type := PCM_PLAYBACK,
             devices := AUDIO_DEVICE_OUT_WIRED_HEADPHONE }] } := by
  decide

/-- Every usecase has transfer-endpoint indices that are not negative. -/
theorem get_pcm_device_id_nonneg (usecase : audio_usecase_t) (device_type : usecase_type_t) :
    ¬ (get_pcm_device_id usecase device_type < 0) := by
  cases usecase <;> cases device_type <;> decide

/-- The registry `select_devices` leaves has the ids and kinds it found, in
order. -/
theorem select_devices_kinds (x : select_devices_ext) (is_tmus : Bool) (adev : audio_device) :
    (select_devices x is_tmus adev).2.1.usecase_list.map (fun u => (u.id, u.type)) =
      adev.usecase_list.map (fun u => (u.id, u.type)) := by
  obtain ⟨oa, ia, co, ci, l, hs, hl⟩ := select_devices_frame x is_tmus adev
  rw [hs]
  rcases hl with hl | hl
  · rw [hl]
  · rw [hl]
    exact update_usecase_devices_kinds _ _

/-- The run of `stop_input_stream` on a registered usecase. -/
theorem stop_input_stream_eq (x : select_devices_ext) (is_tmus : Bool) (adev : audio_device)
    (in_stream : stream_in)
    (hreg : get_usecase_loop in_stream.usecase adev.usecase_list ≠ none) :
    stop_input_stream x is_tmus adev in_stream =
      (0,
        (select_devices x is_tmus
          (remove_usecase_from_list { adev with active_input := none } in_stream.usecase)).2.1,
        disable_audio_route in_stream.usecase adev.cur_in_snd_device ++
          [action.audio_route_update_mixer] ++
          (select_devices x is_tmus
            (remove_usecase_from_list { adev with active_input := none }
              in_stream.usecase)).2.2) := by
  simp only [stop_input_stream, get_usecase_from_list]
  cases h : get_usecase_loop in_stream.usecase adev.usecase_list with
  | none => exact absurd h hreg
  | some u => rfl

/-- The failure of `start_output_stream` on a selector that yields no device: only
the requested output bitmask is written, recomputed from the registry. -/
theorem start_output_stream_no_device (x : start_output_stream_ext) (is_tmus : Bool)
    (adev : audio_device) (out : stream_out)
    (hnone : get_output_snd_device is_tmus
      { adev with out_device := adev.out_device ||| out.devices } = SND_DEVICE_NONE) :
    start_output_stream x is_tmus adev out =
      (-EINVAL,
        { adev with out_device :=
            get_active_out_devices adev out.usecase ||| get_voice_call_out_device adev },
        out, []) := by
  simp only [start_output_stream, if_pos hnone]
  rfl

/-- The failure of `start_output_stream` on a rejected transfer endpoint: the
unwinding through `stop_output_stream`. -/
theorem start_output_stream_rejected (x : start_output_stream_ext) (is_tmus : Bool)
    (adev : audio_device) (out : stream_out)
    (hdev : get_output_snd_device is_tmus
      { adev with out_device := adev.out_device ||| out.devices } ≠ SND_DEVICE_NONE)
    (hsel : (select_devices x.select is_tmus
      { adev with out_device := adev.out_device ||| out.devices }).1 = 0)
    (hpcm : pcm_open_failed x.pcm_open = true) :
    (start_output_stream x is_tmus adev out).1 = - EIO ∧
    (start_output_stream x is_tmus adev out).2.2.1.pcm = none ∧
    (start_output_stream x is_tmus adev out).2.1.usecase_list.map (fun u => (u.id, u.type)) =
      adev.usecase_list.map (fun u => (u.id, u.type)) := by
  have hid : ¬ (get_pcm_device_id out.usecase PCM_PLAYBACK < 0) :=
    get_pcm_device_id_nonneg _ _
  have hsel2 : ¬ ((select_devices x.select is_tmus
      { adev with out_device := adev.out_device ||| out.devices }).1 ≠ 0) :=
    fun h => h hsel
  simp only [start_output_stream, if_neg hdev, if_neg hid, if_neg hsel2, hpcm, if_true]
  refine ⟨rfl, rfl, ?_⟩
  simp only [start_output_stream_error_config]
  rw [stop_output_stream_eq _ _ _ _ (by
    simp only [get_usecase_from_list, add_usecase_to_list, get_usecase_loop, if_true]
    exact fun h => Option.noConfusion h)]
  simp only [select_devices_kinds]
  simp only [stop_output_stream_recompute, remove_usecase_from_list, add_usecase_to_list,
    remove_usecase_loop, if_true]
  exact select_devices_kinds _ _ _

/-- The failure of `start_input_stream` on a selector that yields no device: only
the active input is written, and cleared again. -/
theorem start_input_stream_no_device (x : start_input_stream_ext) (is_tmus : Bool)
    (adev : audio_device) (in_stream : stream_in)
    (hnone : get_input_snd_device is_tmus
      { adev with active_input := some in_stream } = SND_DEVICE_NONE) :
    start_input_stream x is_tmus adev in_stream =
      (-EINVAL, { adev with active_input := none }, in_stream, []) := by
  simp only [start_input_stream, if_pos hnone]

/-- The failure of `start_input_stream` on a rejected transfer endpoint: the
unwinding through `stop_input_stream`. -/
theorem start_input_stream_rejected (x : start_input_stream_ext) (is_tmus : Bool)
    (adev : audio_device) (in_stream : stream_in)
    (hdev : get_input_snd_device is_tmus
      { adev with active_input := some in_stream } ≠ SND_DEVICE_NONE)
    (hsel : (select_devices x.select is_tmus
      { adev with
        active_input := some { in_stream with
          pcm_device_id := get_pcm_device_id in_stream.usecase PCM_CAPTURE } }).1 = 0)
    (hpcm : pcm_open_failed x.pcm_open = true) :
    (start_input_stream x is_tmus adev in_stream).1 = - EIO ∧
    (start_input_stream x is_tmus adev in_stream).2.2.1.pcm = none ∧
    (start_input_stream x is_tmus adev in_stream).2.1.active_input = none ∧
    (start_input_stream x is_tmus adev in_stream).2.1.usecase_list.map
        (fun u => (u.id, u.type)) =
      adev.usecase_list.map (fun u => (u.id, u.type)) := by
  have hid : ¬ (get_pcm_device_id in_stream.usecase PCM_CAPTURE < 0) :=
    get_pcm_device_id_nonneg _ _
  have hsel2 : ¬ ((select_devices x.select is_tmus
      { adev with
        active_input := some { in_stream with
          pcm_device_id := get_pcm_device_id in_stream.usecase PCM_CAPTURE } }).1 ≠ 0) :=
    fun h => h hsel
  simp only [start_input_stream, if_neg hdev, if_neg hid, if_neg hsel2, hpcm, if_true]
  refine ⟨trivial, trivial, trivial, ?_⟩
  rw [stop_input_stream_eq _ _ _ _ (by
    simp only [add_usecase_to_list, get_usecase_loop, if_true]
    exact fun h => Option.noConfusion h)]
  simp only [select_devices_kinds]
  simp only [remove_usecase_from_list, add_usecase_to_list, remove_usecase_loop, if_true]
  exact select_devices_kinds _ _ _

/-- C22, amended: a start that fails because the selector yields no device writes
nothing of the registry, the current devices and the active flags:
`start_output_stream` only recomputes the requested output bitmask from the
registry, `start_input_stream` only clears the active input.  A start that
fails because the transfer endpoint is rejected reports `-EIO`, leaves the
stream without endpoint and leaves a registry with the ids and kinds it had
before, in the same order: the entry added is unlinked again by the stop
path. -/
theorem start_stream_failure (xo : start_output_stream_ext) (xi : start_input_stream_ext)
    (is_tmus : Bool) (adev : audio_device) (out : stream_out) (in_stream : stream_in) :
    (get_output_snd_device is_tmus
        { adev with out_device := adev.out_device ||| out.devices } = SND_DEVICE_NONE →
      start_output_stream xo is_tmus adev out =
        (-EINVAL,
          { adev with out_device :=
              get_active_out_devices adev out.usecase ||| get_voice_call_out_device adev },
          out, [])) ∧
    (get_output_snd_device is_tmus
        { adev with out_device := adev.out_device ||| out.devices } ≠ SND_DEVICE_NONE →
      (select_devices xo.select is_tmus
        { adev with out_device := adev.out_device ||| out.devices }).1 = 0 →
      pcm_open_failed xo.pcm_open = true →
      (start_output_stream xo is_tmus adev out).1 = - EIO ∧
      (start_output_stream xo is_tmus adev out).2.2.1.pcm = none ∧
      (start_output_stream xo is_tmus adev out).2.1.usecase_list.map
          (fun u => (u.id, u.type)) =
        adev.usecase_list.map (fun u => (u.id, u.type))) ∧
    (get_input_snd_device is_tmus
        { adev with active_input := some in_stream } = SND_DEVICE_NONE →
      start_input_stream xi is_tmus adev in_stream =
        (-EINVAL, { adev with active_input := none }, in_stream, [])) ∧
    (get_input_snd_device is_tmus
        { adev with active_input := some in_stream } ≠ SND_DEVICE_NONE →
      (select_devices xi.select is_tmus
        { adev with
          active_input := some { in_stream with
            pcm_device_id := get_pcm_device_id in_stream.usecase PCM_CAPTURE } }).1 = 0 →
      pcm_open_failed xi.pcm_open = true →
      (start_input_stream xi is_tmus adev in_stream).1 = - EIO ∧
      (start_input_stream xi is_tmus adev in_stream).2.2.1.pcm = none ∧
      (start_input_stream xi is_tmus adev in_stream).2.1.active_input = none ∧
      (start_input_stream xi is_tmus adev in_stream).2.1.usecase_list.map
          (fun u => (u.id, u.type)) =
        adev.usecase_list.map (fun u => (u.id, u.type))) :=
  ⟨start_output_stream_no_device xo is_tmus adev out,
    start_output_stream_rejected xo is_tmus adev out,
    start_input_stream_no_device xi is_tmus adev in_stream,
    start_input_stream_rejected xi is_tmus adev in_stream⟩

/-- C22, counterexample: on a freshly opened device, whose current output device is
`None`, a low-latency stream on the speaker is started and the transfer
endpoint is rejected.  The start fails with `-EIO` and leaves the speaker device
as the current output device, the path not active. -/
theorem start_stream_failure_counterexample :
    (start_output_stream { pcm_open := some { pcm_is_ready := false } } false {}
      { usecase := USECASE_AUDIO_PLAYBACK_LOW_LATENCY, devices := AUDIO_DEVICE_OUT_SPEAKER,
        standby := true }).1 = - EIO ∧
    (start_output_stream { pcm_open := some { pcm_is_ready := false } } false {}
      { usecase := USECASE_AUDIO_PLAYBACK_LOW_LATENCY, devices := AUDIO_DEVICE_OUT_SPEAKER,
        standby := true }).2.1 =
      { cur_out_snd_device := SND_DEVICE_OUT_SPEAKER, out_snd_device_active := false } ∧
    ({ cur_out_snd_device := SND_DEVICE_OUT_SPEAKER, out_snd_device_active := false } :
      audio_device).cur_out_snd_device ≠ ({} : audio_device).cur_out_snd_device := by
  decide

/-! ## Unresolved vendor entry points -/

/-- A run of `select_devices` writes none of the call flag, the library flag and the
entry points. -/
theorem select_devices_keeps (x : select_devices_ext) (is_tmus : Bool) (adev : audio_device) :
    (select_devices x is_tmus adev).2.1.in_call = adev.in_call ∧
    (select_devices x is_tmus adev).2.1.csd_client = adev.csd_client ∧
    (select_devices x is_tmus adev).2.1.csd_start_voice = adev.csd_start_voice ∧
    (select_devices x is_tmus adev).2.1.voice_call_rx = adev.voice_call_rx ∧
    (select_devices x is_tmus adev).2.1.voice_call_tx = adev.voice_call_tx := by
  obtain ⟨oa, ia, co, ci, l, hs, _⟩ := select_devices_frame x is_tmus adev
  rw [hs]
  exact ⟨rfl, rfl, rfl, rfl, rfl⟩

/-- After `stop_voice_call` no call is in progress. -/
theorem stop_voice_call_in_call (x : select_devices_ext) (is_tmus : Bool)
    (adev : audio_device) : (stop_voice_call x is_tmus adev).2.1.in_call = false := by
  simp only [stop_voice_call]
  split
  · rfl
  · rw [(select_devices_keeps x is_tmus _).1]
    rfl

/-- The registry after `stop_voice_call` when the VoiceCall entry is the first
one: the ids and kinds of the others, in order. -/
theorem stop_voice_call_kinds (x : select_devices_ext) (is_tmus : Bool)
    (adev : audio_device) (uc : audio_usecase) (l : List audio_usecase)
    (hlist : adev.usecase_list = uc :: l) (hid : uc.id = USECASE_VOICE_CALL) :
    (stop_voice_call x is_tmus adev).2.1.usecase_list.map (fun u => (u.id, u.type)) =
      l.map (fun u => (u.id, u.type)) := by
  simp only [stop_voice_call, get_usecase_from_list, hlist, get_usecase_loop, if_pos hid]
  rw [select_devices_kinds]
  simp only [remove_usecase_from_list, hlist, remove_usecase_loop, if_pos hid, if_true]

/-- The label `error_start_voice` reached with the VoiceCall entry first in the
registry: no call is in progress afterwards and the entry is unlinked. -/
theorem start_voice_call_error_state (x : start_voice_call_ext) (is_tmus : Bool) (ret : Int)
    (adev : audio_device) (log : List action) (uc : audio_usecase) (l : List audio_usecase)
    (hlist : adev.usecase_list = uc :: l) (hid : uc.id = USECASE_VOICE_CALL) :
    (start_voice_call_error x is_tmus ret adev log).1 = ret ∧
    (start_voice_call_error x is_tmus ret adev log).2.1.in_call = false ∧
    (start_voice_call_error x is_tmus ret adev log).2.1.usecase_list.map
        (fun u => (u.id, u.type)) = l.map (fun u => (u.id, u.type)) :=
  ⟨rfl, stop_voice_call_in_call _ _ _, stop_voice_call_kinds _ _ _ uc l hlist hid⟩

/-- The start of a voice call with the voice-signaling library loaded and its
start entry point unresolved, after a successful `select_devices`: the start is
abandoned through `stop_voice_call`. -/
theorem start_voice_call_unresolved (x : start_voice_call_ext) (is_tmus : Bool)
    (adev : audio_device) (hcsd : adev.csd_client = true)
    (hstart : adev.csd_start_voice = false)
    (hsel : (select_devices x.select is_tmus adev).1 = 0) :
    (start_voice_call x is_tmus adev).2.1.in_call = false ∧
    (start_voice_call x is_tmus adev).2.1.usecase_list.map (fun u => (u.id, u.type)) =
      adev.usecase_list.map (fun u => (u.id, u.type)) := by
  have hsel2 : ¬ ((select_devices x.select is_tmus adev).1 ≠ 0) := fun h => h hsel
  have hk := select_devices_keeps x.select is_tmus adev
  have hkinds := select_devices_kinds x.select is_tmus adev
  simp only [start_voice_call, if_neg hsel2]
  split_ifs with h1 h2 h3 h4 h5 h6
  all_goals first
    | exact ⟨(start_voice_call_error_state x is_tmus _ _ _ _ _ rfl rfl).2.1,
        ((start_voice_call_error_state x is_tmus _ _ _ _ _ rfl rfl).2.2).trans hkinds⟩
    | skip
  all_goals simp_all [add_usecase_to_list]

/-- With the voice disable and enable entry points unresolved, `select_devices`
returns success. -/
theorem select_devices_status_unresolved (x : select_devices_ext) (is_tmus : Bool)
    (adev : audio_device) (hdis : adev.csd_disable_device = false)
    (hen : adev.csd_enable_device = false) : (select_devices x is_tmus adev).1 = 0 := by
  have hfin : ∀ (o i : snd_device_t) (a : audio_device), a.csd_enable_device = false →
      (select_devices_finish x o i 0 a).1 = 0 := by
    intro o i a h
    simp only [select_devices_finish, h]
    split_ifs <;> rfl
  have hin : ∀ (o i : snd_device_t) (a : audio_device), a.csd_enable_device = false →
      (select_devices_enable_in x o i 0 a).1 = 0 := by
    intro o i a h
    rw [select_devices_enable_in_eq]
    split_ifs
    · exact hfin o i _ h
    · exact hfin o i a h
  have hout : ∀ (o i : snd_device_t) (a : audio_device), a.csd_enable_device = false →
      (select_devices_enable_out x o i 0 a).1 = 0 := by
    intro o i a h
    rw [select_devices_enable_out_eq]
    split_ifs
    · exact hin o i _ h
    · exact hin o i a h
  have hc : (select_devices_csd_disable x adev).1 = 0 := by
    simp only [select_devices_csd_disable, hdis]
    split_ifs <;> rfl
  simp only [select_devices]
  split_ifs
  · rfl
  · simp only [hc]
    apply hout
    simp only [select_devices_disable_in_state, select_devices_disable_out_state]
    exact hen

/-- The device state `select_devices` leaves does not depend on which of the
calibration, voice-disable and voice-enable entry points are resolved. -/
theorem select_devices_entry_points (x y : select_devices_ext) (is_tmus : Bool)
    (adev : audio_device) (a b c : Bool) :
    (select_devices x is_tmus
      { adev with acdb_send_audio_cal := a, csd_disable_device := b,
                  csd_enable_device := c }).2.1 =
      { (select_devices y is_tmus adev).2.1 with
        acdb_send_audio_cal := a, csd_disable_device := b, csd_enable_device := c } := by
  have ho : get_output_snd_device is_tmus
      { adev with acdb_send_audio_cal := a, csd_disable_device := b,
                  csd_enable_device := c } = get_output_snd_device is_tmus adev := rfl
  have hi : get_input_snd_device is_tmus
      { adev with acdb_send_audio_cal := a, csd_disable_device := b,
                  csd_enable_device := c } = get_input_snd_device is_tmus adev := rfl
  by_cases hsc : get_output_snd_device is_tmus adev = adev.cur_out_snd_device ∧
      adev.out_snd_device_active = true ∧
      get_input_snd_device is_tmus adev = adev.cur_in_snd_device ∧
      adev.in_snd_device_active = true
  · have h1 : select_devices y is_tmus adev = (0, adev, []) := by
      simp only [select_devices]
      rw [if_pos hsc]
    have h2 : select_devices x is_tmus
        { adev with acdb_send_audio_cal := a, csd_disable_device := b,
                    csd_enable_device := c } =
        (0, { adev with acdb_send_audio_cal := a, csd_disable_device := b,
                        csd_enable_device := c }, []) := by
      simp only [select_devices, ho, hi]
      rw [if_pos hsc]
    rw [h1, h2]
  · have hsc2 : ¬ (get_output_snd_device is_tmus
          { adev with acdb_send_audio_cal := a, csd_disable_device := b,
                      csd_enable_device := c } =
          ({ adev with acdb_send_audio_cal := a, csd_disable_device := b,
                       csd_enable_device := c } : audio_device).cur_out_snd_device ∧
        ({ adev with acdb_send_audio_cal := a, csd_disable_device := b,
                     csd_enable_device := c } : audio_device).out_snd_device_active = true ∧
        get_input_snd_device is_tmus
          { adev with acdb_send_audio_cal := a, csd_disable_device := b,
                      csd_enable_device := c } =
          ({ adev with acdb_send_audio_cal := a, csd_disable_device := b,
                       csd_enable_device := c } : audio_device).cur_in_snd_device ∧
        ({ adev with acdb_send_audio_cal := a, csd_disable_device := b,
                     csd_enable_device := c } : audio_device).in_snd_device_active = true) := by
      rw [ho, hi]
      exact hsc
    rw [select_devices_state y is_tmus adev hsc, select_devices_state x is_tmus _ hsc2, ho, hi]

/-- C27, amended: with the voice-signaling library loaded and its start entry point
unresolved, `start_voice_call` does not complete the call start: after its
`select_devices` has succeeded it unwinds through `stop_voice_call`, so that
no call is in progress afterwards and the registry has the ids and kinds it had
before, the VoiceCall entry unlinked again.  In `select_devices` the unresolved
calibration, voice-disable and voice-enable entry points are skipped: the
device state it leaves is the same whichever of them are resolved, and with the
two voice entry points unresolved it returns success. -/
theorem start_voice_call_entry_points (x : start_voice_call_ext) (y : select_devices_ext)
    (is_tmus : Bool) (adev : audio_device) :
    (adev.csd_client = true → adev.csd_start_voice = false →
      (select_devices x.select is_tmus adev).1 = 0 →
      (start_voice_call x is_tmus adev).2.1.in_call = false ∧
      (start_voice_call x is_tmus adev).2.1.usecase_list.map (fun u => (u.id, u.type)) =
        adev.usecase_list.map (fun u => (u.id, u.type))) ∧
    (∀ a b c : Bool,
      (select_devices y is_tmus
        { adev with acdb_send_audio_cal := a, csd_disable_device := b,
                    csd_enable_device := c }).2.1 =
        { (select_devices y is_tmus adev).2.1 with
          acdb_send_audio_cal := a, csd_disable_device := b, csd_enable_device := c }) ∧
    (adev.csd_disable_device = false → adev.csd_enable_device = false →
      (select_devices y is_tmus adev).1 = 0) :=
  ⟨start_voice_call_unresolved x is_tmus adev,
    fun a b c => select_devices_entry_points y y is_tmus adev a b c,
    select_devices_status_unresolved y is_tmus adev⟩

/-- C27, counterexample: in call mode with the voice-signaling library loaded, its
start entry point unresolved and the earpiece requested, `start_voice_call`
opens and starts both endpoints and then tears the call down again: no call is
in progress afterwards and the registry is empty. -/
theorem start_voice_call_entry_points_counterexample :
    (start_voice_call {} false
      { mode := AUDIO_MODE_IN_CALL, out_device := AUDIO_DEVICE_OUT_EARPIECE,
        csd_client := true, csd_disable_device := true, csd_enable_device := true,
        csd_start_voice := false, csd_stop_voice := true }).2.1.in_call = false ∧
    (start_voice_call {} false
      { mode := AUDIO_MODE_IN_CALL, out_device := AUDIO_DEVICE_OUT_EARPIECE,
        csd_client := true, csd_disable_device := true, csd_enable_device := true,
        csd_start_voice := false, csd_stop_voice := true }).2.1.usecase_list = [] ∧
    (start_voice_call {} false
      { mode := AUDIO_MODE_IN_CALL, out_device := AUDIO_DEVICE_OUT_EARPIECE,
        csd_client := true, csd_disable_device := true, csd_enable_device := true,
        csd_start_voice := false, csd_stop_voice := true }).2.2 =
      [action.audio_route_apply_path "handset",
        action.audio_route_apply_path "handset-mic",
        action.audio_route_update_mixer,
        action.audio_route_update_mixer,
        action.csd_enable_device 7 4 0x10,
        action.audio_route_apply_path "voice-call",
        action.audio_route_update_mixer,
        action.pcm_open 12 PCM_OUT,
        action.pcm_open 12 PCM_IN,
        action.pcm_start PCM_OUT,
        action.pcm_start PCM_IN,
        action.csd_stop_voice,
        action.pcm_close PCM_OUT,
        action.pcm_close PCM_IN,
        action.audio_route_reset_path "voice-call",
        action.audio_route_update_mixer] := by
  decide

/-! ## Usecase registry -/

/-- The loop of `remove_usecase_from_list` leaves a list without the id as it is. -/
theorem remove_usecase_loop_absent (uc_id : audio_usecase_t) (l : List audio_usecase)
    (h : get_usecase_loop uc_id l = none) : remove_usecase_loop uc_id l = l := by
  induction l with
  | nil => rfl
  | cons v vs ih =>
    simp only [get_usecase_loop] at h
    simp only [remove_usecase_loop]
    by_cases hv : v.id = uc_id
    · rw [if_pos hv] at h
      exact absurd h (fun h => Option.noConfusion h)
    · rw [if_neg hv] at h
      rw [if_neg hv, ih h]

/-- The loop of `remove_usecase_from_list` on a list with the id: the entry
`get_usecase_from_list` finds is the first with the id, and it alone is
unlinked. -/
theorem remove_usecase_loop_present (uc_id : audio_usecase_t) (l : List audio_usecase)
    (h : get_usecase_loop uc_id l ≠ none) :
    ∃ l1 u l2, l = l1 ++ u :: l2 ∧ u.id = uc_id ∧ (∀ v ∈ l1, v.id ≠ uc_id) ∧
      get_usecase_loop uc_id l = some u ∧ remove_usecase_loop uc_id l = l1 ++ l2 := by
  induction l with
  | nil => exact absurd rfl h
  | cons v vs ih =>
    by_cases hv : v.id = uc_id
    · refine ⟨[], v, vs, rfl, hv, ?_, ?_, ?_⟩
      · intro w hw
        cases hw
      · simp only [get_usecase_loop]
        rw [if_pos hv]
      · simp only [remove_usecase_loop]
        rw [if_pos hv]
        rfl
    · have h2 : get_usecase_loop uc_id vs ≠ none := by
        simp only [get_usecase_loop] at h
        rw [if_neg hv] at h
        exact h
      obtain ⟨l1, u, l2, hl, hu, hl1, hg, hr⟩ := ih h2
      refine ⟨v :: l1, u, l2, ?_, hu, ?_, ?_, ?_⟩
      · rw [hl]
        rfl
      · intro w hw
        rcases List.mem_cons.mp hw with rfl | hw
        · exact hv
        · exact hl1 w hw
      · simp only [get_usecase_loop]
        rw [if_neg hv]
        exact hg
      · simp only [remove_usecase_loop]
        rw [if_neg hv, hr]
        rfl

/-- C31: `remove_usecase_from_list` leaves a registry without the id as it is; on
a registry with the id it unlinks exactly the first entry with the id, the one
`get_usecase_from_list` finds, keeps every other entry in its place relative
to the others, and lowers `get_num_active_usecases` by one; if the ids of the
registry were unique, `get_usecase_from_list` finds nothing for the id
afterwards.  `add_usecase_to_list` raises the count by one and makes
`get_usecase_from_list` return the inserted entry for its id. -/
theorem usecase_list_operations (adev : audio_device) (uc_id : audio_usecase_t)
    (uc_info : audio_usecase) :
    (get_usecase_from_list adev uc_id = none → remove_usecase_from_list adev uc_id = adev) ∧
    (get_usecase_from_list adev uc_id ≠ none →
      ∃ l1 u l2, adev.usecase_list = l1 ++ u :: l2 ∧ u.id = uc_id ∧
        (∀ v ∈ l1, v.id ≠ uc_id) ∧ get_usecase_from_list adev uc_id = some u ∧
        remove_usecase_from_list adev uc_id = { adev with usecase_list := l1 ++ l2 } ∧
        get_num_active_usecases (remove_usecase_from_list adev uc_id) + 1 =
          get_num_active_usecases adev) ∧
    ((adev.usecase_list.map (fun u => u.id)).Nodup →
      get_usecase_from_list (remove_usecase_from_list adev uc_id) uc_id = none) ∧
    get_num_active_usecases (add_usecase_to_list adev uc_info) =
      get_num_active_usecases adev + 1 ∧
    get_usecase_from_list (add_usecase_to_list adev uc_info) uc_info.id = some uc_info := by
  refine ⟨?_, ?_, ?_, rfl, ?_⟩
  · intro h
    simp only [remove_usecase_from_list]
    rw [remove_usecase_loop_absent uc_id adev.usecase_list h]
  · intro h
    obtain ⟨l1, u, l2, hl, hu, hl1, hg, hr⟩ :=
      remove_usecase_loop_present uc_id adev.usecase_list h
    refine ⟨l1, u, l2, hl, hu, hl1, hg, ?_, ?_⟩
    · simp only [remove_usecase_from_list]
      rw [hr]
    · simp only [get_num_active_usecases, remove_usecase_from_list]
      rw [hr, hl]
      simp only [List.length_append, List.length_cons]
      omega
  · intro hnodup
    simp only [get_usecase_from_list, remove_usecase_from_list]
    rw [get_usecase_loop_eq_none, remove_usecase_loop_ids, hnodup.mem_erase_iff]
    exact fun h => h.1 rfl
  · simp only [get_usecase_from_list, add_usecase_to_list, get_usecase_loop]
    rw [if_pos trivial]

/-- The writes of the route loop: every playback and voice-call entry takes the
bitmask `d`, every other entry is left as it is. -/
theorem update_usecase_devices_eq_map (d : Nat) (l : List audio_usecase) :
    update_usecase_devices d l =
      l.map (fun u =>
        if u.type = PCM_PLAYBACK ∨ u.type = VOICE_CALL then { u with devices := d } else u) := by
  induction l with
  | nil => rfl
  | cons v vs ih =>
    simp only [update_usecase_devices, List.map_cons]
    rw [ih]

/-- C35: a run of `select_devices` that is not short-circuited leaves a registry
with the same number of entries, in which the entry at each position has the id
and kind of the entry it replaces, the device bitmask of the requested output
bitmask if its kind is Playback or VoiceCall, and its own device bitmask
otherwise; the requested output bitmask itself is not written. -/
theorem select_devices_registry (x : select_devices_ext) (is_tmus : Bool) (adev : audio_device)
    (hns : ¬ (get_output_snd_device is_tmus adev = adev.cur_out_snd_device ∧
      adev.out_snd_device_active = true ∧
      get_input_snd_device is_tmus adev = adev.cur_in_snd_device ∧
      adev.in_snd_device_active = true)) :
    (select_devices x is_tmus adev).2.1.usecase_list =
      adev.usecase_list.map (fun u =>
        if u.type = PCM_PLAYBACK ∨ u.type = VOICE_CALL then
          { u with devices := adev.out_device } else u) ∧
    (select_devices x is_tmus adev).2.1.usecase_list.map (fun u => (u.id, u.type)) =
      adev.usecase_list.map (fun u => (u.id, u.type)) ∧
    (select_devices x is_tmus adev).2.1.usecase_list.length = adev.usecase_list.length ∧
    (∀ (k : Nat) (u v : audio_usecase), adev.usecase_list[k]? = some u →
      (select_devices x is_tmus adev).2.1.usecase_list[k]? = some v →
      v.id = u.id ∧ v.type = u.type ∧
      (u.type = PCM_CAPTURE → v.devices = u.devices) ∧
      (u.type = PCM_PLAYBACK ∨ u.type = VOICE_CALL → v.devices = adev.out_device)) ∧
    (select_devices x is_tmus adev).2.1.out_device = adev.out_device := by
  have hl : (select_devices x is_tmus adev).2.1.usecase_list =
      adev.usecase_list.map (fun u =>
        if u.type = PCM_PLAYBACK ∨ u.type = VOICE_CALL then
          { u with devices := adev.out_device } else u) := by
    rw [select_devices_state x is_tmus adev hns]
    exact update_usecase_devices_eq_map _ _
  refine ⟨hl, select_devices_kinds x is_tmus adev, ?_, ?_, ?_⟩
  · rw [hl, List.length_map]
  · intro k u v hu hv
    rw [hl, List.getElem?_map, hu] at hv
    simp only [Option.map_some', Option.some.injEq] at hv
    by_cases ht : u.type = PCM_PLAYBACK ∨ u.type = VOICE_CALL
    · rw [if_pos ht] at hv
      subst hv
      refine ⟨rfl, rfl, fun hc => ?_, fun _ => rfl⟩
      rcases ht with ht | ht <;> rw [ht] at hc <;> cases hc
    · rw [if_neg ht] at hv
      subst hv
      exact ⟨rfl, rfl, fun _ => rfl, fun h => absurd h ht⟩
  · rw [select_devices_state x is_tmus adev hns]

/-! ## Selector ranges and unresolved devices -/

/-- The tier on the output bitmask never leaves the device unresolved. -/
theorem get_input_snd_device_by_out_device_ne_none (out_device : Nat) :
    get_input_snd_device_by_out_device out_device ≠ SND_DEVICE_NONE := by
  simp only [get_input_snd_device_by_out_device]
  split_ifs <;> decide

/-- The code after the mode / source chain never leaves the device unresolved. -/
theorem get_input_snd_device_tail_ne_none (adev : audio_device) (in_device : Nat)
    (snd_device : snd_device_t) :
    get_input_snd_device_tail adev in_device snd_device ≠ SND_DEVICE_NONE := by
  simp only [get_input_snd_device_tail]
  by_cases h : snd_device ≠ SND_DEVICE_NONE
  · rw [if_pos h]
    exact h
  · rw [if_neg h]
    split_ifs
    · exact get_input_snd_device_by_in_device_ne_none adev in_device
    · exact get_input_snd_device_by_out_device_ne_none adev.out_device

/-- C32: the input selector returns `None` exactly if (a) call mode is set and the
requested output bitmask is empty, or (b) call mode is set, the output bitmask
holds the wired headphone or the wired headset and the TTY mode is none of OFF,
FULL, VCO and HCO, or (c) call mode is not set and the source is the default
source, which it also is without active input; in every other state it returns
a sound device of the input range. -/
theorem get_input_snd_device_none_iff (is_tmus : Bool) (adev : audio_device) :
    (get_input_snd_device is_tmus adev = SND_DEVICE_NONE ↔
      (adev.mode = AUDIO_MODE_IN_CALL ∧ adev.out_device = AUDIO_DEVICE_NONE) ∨
      (adev.mode = AUDIO_MODE_IN_CALL ∧
        (adev.out_device &&& AUDIO_DEVICE_OUT_WIRED_HEADPHONE ≠ 0 ∨
          adev.out_device &&& AUDIO_DEVICE_OUT_WIRED_HEADSET ≠ 0) ∧
        adev.tty_mode ≠ TTY_MODE_OFF ∧ adev.tty_mode ≠ TTY_MODE_FULL ∧
        adev.tty_mode ≠ TTY_MODE_VCO ∧ adev.tty_mode ≠ TTY_MODE_HCO) ∨
      (adev.mode ≠ AUDIO_MODE_IN_CALL ∧
        ∀ i, adev.active_input = some i → i.source = AUDIO_SOURCE_DEFAULT)) ∧
    (get_input_snd_device is_tmus adev ≠ SND_DEVICE_NONE →
      snd_device_in_range (get_input_snd_device is_tmus adev) = true ∧
      snd_device_is_out (get_input_snd_device is_tmus adev) = false) := by
  constructor
  · by_cases hmode : adev.mode = AUDIO_MODE_IN_CALL
    · by_cases hout : adev.out_device = AUDIO_DEVICE_NONE
      · have h : get_input_snd_device is_tmus adev = SND_DEVICE_NONE := by
          simp only [get_input_snd_device]
          rw [if_pos hmode, if_pos hout]
        rw [h]
        exact ⟨fun _ => Or.inl ⟨hmode, hout⟩, fun _ => rfl⟩
      · by_cases htty : adev.tty_mode ≠ TTY_MODE_OFF ∧
            (adev.out_device &&& AUDIO_DEVICE_OUT_WIRED_HEADPHONE ≠ 0 ∨
              adev.out_device &&& AUDIO_DEVICE_OUT_WIRED_HEADSET ≠ 0)
        · have h : get_input_snd_device is_tmus adev = get_input_snd_device_tty adev := by
            simp only [get_input_snd_device]
            rw [if_pos hmode, if_neg hout, if_pos htty]
          rw [h]
          simp only [get_input_snd_device_tty]
          constructor
          · intro hn
            right
            left
            refine ⟨hmode, htty.2, htty.1, ?_, ?_, ?_⟩
            · intro hf
              rw [if_pos hf] at hn
              exact absurd hn (by decide)
            · intro hv
              by_cases hf : adev.tty_mode = TTY_MODE_FULL
              · rw [if_pos hf] at hn
                exact absurd hn (by decide)
              · rw [if_neg hf, if_pos hv] at hn
                exact absurd hn (by decide)
            · intro hh
              by_cases hf : adev.tty_mode = TTY_MODE_FULL
              · rw [if_pos hf] at hn
                exact absurd hn (by decide)
              · by_cases hv : adev.tty_mode = TTY_MODE_VCO
                · rw [if_neg hf, if_pos hv] at hn
                  exact absurd hn (by decide)
                · rw [if_neg hf, if_neg hv, if_pos hh] at hn
                  exact absurd hn (by decide)
          · rintro (⟨_, h0⟩ | ⟨_, _, _, hf, hv, hh⟩ | ⟨hm, _⟩)
            · exact absurd h0 hout
            · rw [if_neg hf, if_neg hv, if_neg hh]
            · exact absurd hmode hm
        · have h : get_input_snd_device is_tmus adev ≠ SND_DEVICE_NONE := by
            simp only [get_input_snd_device]
            rw [if_pos hmode, if_neg hout, if_neg htty]
            exact get_input_snd_device_tail_ne_none _ _ _
          constructor
          · intro hn
            exact absurd hn h
          · rintro (⟨_, h0⟩ | ⟨_, hw, ho, _⟩ | ⟨hm, _⟩)
            · exact absurd h0 hout
            · exact absurd ⟨ho, hw⟩ htty
            · exact absurd hmode hm
    · by_cases hsrc : ∀ i, adev.active_input = some i → i.source = AUDIO_SOURCE_DEFAULT
      · have h : get_input_snd_device is_tmus adev = SND_DEVICE_NONE := by
          simp only [get_input_snd_device]
          rw [if_neg hmode]
          cases hai : adev.active_input with
          | none => simp
          | some i =>
            have hs := hsrc i hai
            simp [hs]
        rw [h]
        exact ⟨fun _ => Or.inr (Or.inr ⟨hmode, hsrc⟩), fun _ => rfl⟩
      · have h : get_input_snd_device is_tmus adev ≠ SND_DEVICE_NONE := by
          simp only [get_input_snd_device]
          rw [if_neg hmode]
          cases hai : adev.active_input with
          | none =>
            exact absurd (fun i hi => by rw [hai] at hi; cases hi) hsrc
          | some i =>
            have hs : i.source ≠ AUDIO_SOURCE_DEFAULT := by
              intro hs
              apply hsrc
              intro j hj
              rw [hai] at hj
              cases hj
              exact hs
            simp only []
            split_ifs
            all_goals exact get_input_snd_device_tail_ne_none _ _ _
        constructor
        · intro hn
          exact absurd hn h
        · rintro (⟨hm, _⟩ | ⟨hm, _⟩ | ⟨_, hd⟩)
          · exact absurd hm hmode
          · exact absurd hm hmode
          · exact absurd hd hsrc
  · intro hne
    refine ⟨?_, get_input_snd_device_is_in is_tmus adev⟩
    simp only [snd_device_in_range]
    rw [if_neg hne]

/-- C36: for every requested output bitmask that holds none of the bits the in-call
branch tests (wired headphone, wired headset, a Bluetooth SCO bit, speaker,
earpiece), the output selector returns in call mode (as in every mode) what it
returns for the same device state in a mode other than call mode. -/
theorem get_output_snd_device_in_call_unrecognised (is_tmus : Bool) (adev : audio_device)
    (hhp : adev.out_device &&& AUDIO_DEVICE_OUT_WIRED_HEADPHONE = 0)
    (hhs : adev.out_device &&& AUDIO_DEVICE_OUT_WIRED_HEADSET = 0)
    (hsco : adev.out_device &&& AUDIO_DEVICE_OUT_ALL_SCO = 0)
    (hspk : adev.out_device &&& AUDIO_DEVICE_OUT_SPEAKER = 0)
    (hear : adev.out_device &&& AUDIO_DEVICE_OUT_EARPIECE = 0)
    (mode : audio_mode_t) (hother : mode ≠ AUDIO_MODE_IN_CALL) :
    get_output_snd_device is_tmus adev =
      get_output_snd_device is_tmus { adev with mode := mode } := by
  have hin : get_output_snd_device_in_call is_tmus adev = SND_DEVICE_NONE := by
    simp only [get_output_snd_device_in_call]
    rw [if_neg (by
      rintro (h | h)
      · exact h hhp
      · exact h hhs), if_neg (not_not.mpr hsco), if_neg (not_not.mpr hspk),
      if_neg (not_not.mpr hear)]
  rw [get_output_snd_device_not_in_call is_tmus { adev with mode := mode } hother]
  simp only [get_output_snd_device]
  rw [hin]
  by_cases hg : adev.out_device = AUDIO_DEVICE_NONE ∨
      adev.out_device &&& AUDIO_DEVICE_BIT_IN ≠ 0
  · rw [if_pos hg, if_pos hg]
  · rw [if_neg hg, if_neg hg, if_neg (fun h => h.2 rfl)]

/-- The calibration id of every sound device is not negative. -/
theorem get_acdb_device_id_nonneg (d : snd_device_t) : 0 ≤ get_acdb_device_id d := by
  cases d <;> decide

/-- C37: for every device state the output selector returns `None` or a sound
device of the output range and the input selector `None` or a sound device of
the input range; every sound device has a calibration id that is not negative,
so `enable_snd_device` succeeds on every sound device but `None`, in
particular on the selected ones whenever an enable step of `select_devices`
runs; a run that is not short-circuited therefore reaches the end of the
function, and its status is that of the voice-enable call when that call is
made. -/
theorem selectors_enable_ok (x : select_devices_ext) (is_tmus : Bool) (adev : audio_device) :
    (get_output_snd_device is_tmus adev = SND_DEVICE_NONE ∨
      (snd_device_in_range (get_output_snd_device is_tmus adev) = true ∧
        snd_device_is_out (get_output_snd_device is_tmus adev) = true)) ∧
    (get_input_snd_device is_tmus adev = SND_DEVICE_NONE ∨
      (snd_device_in_range (get_input_snd_device is_tmus adev) = true ∧
        snd_device_is_out (get_input_snd_device is_tmus adev) = false)) ∧
    (∀ d : snd_device_t, 0 ≤ acdb_device_table d) ∧
    (∀ (a : audio_device) (d : snd_device_t), d ≠ SND_DEVICE_NONE →
      (enable_snd_device a d).1 = 0) ∧
    (∀ a : audio_device, get_output_snd_device is_tmus adev ≠ SND_DEVICE_NONE →
      (enable_snd_device a (get_output_snd_device is_tmus adev)).1 = 0) ∧
    (∀ a : audio_device, get_input_snd_device is_tmus adev ≠ SND_DEVICE_NONE →
      (enable_snd_device a (get_input_snd_device is_tmus adev)).1 = 0) ∧
    (¬ (get_output_snd_device is_tmus adev = adev.cur_out_snd_device ∧
        adev.out_snd_device_active = true ∧
        get_input_snd_device is_tmus adev = adev.cur_in_snd_device ∧
        adev.in_snd_device_active = true) →
      (∃ before, (select_devices x is_tmus adev).2.2 =
        before ++ [action.audio_route_update_mixer] ++
          (if adev.mode = AUDIO_MODE_IN_CALL ∧ adev.csd_client = true ∧
              adev.csd_enable_device = true then
            [action.csd_enable_device
              (get_acdb_device_id (get_output_snd_device is_tmus adev))
              (get_acdb_device_id (get_input_snd_device is_tmus adev)) adev.acdb_settings]
          else [])) ∧
      (adev.mode = AUDIO_MODE_IN_CALL → adev.csd_client = true →
        adev.csd_enable_device = true →
        (select_devices x is_tmus adev).1 = x.csd_enable_device)) := by
  refine ⟨?_, ?_, ?_, ?_, ?_, ?_, ?_⟩
  · rcases get_output_snd_device_is_out is_tmus adev with h | h
    · exact Or.inl h
    · by_cases h0 : get_output_snd_device is_tmus adev = SND_DEVICE_NONE
      · exact Or.inl h0
      · refine Or.inr ⟨?_, h⟩
        simp only [snd_device_in_range]
        rw [if_neg h0]
  · by_cases h0 : get_input_snd_device is_tmus adev = SND_DEVICE_NONE
    · exact Or.inl h0
    · refine Or.inr ⟨?_, get_input_snd_device_is_in is_tmus adev⟩
      simp only [snd_device_in_range]
      rw [if_neg h0]
  · exact get_acdb_device_id_nonneg
  · intro a d hd
    exact enable_snd_device_fst a d hd
  · intro a h
    exact enable_snd_device_fst a _ h
  · intro a h
    exact enable_snd_device_fst a _ h
  · intro hns
    constructor
    · rw [select_devices_trace x is_tmus adev hns]
      exact ⟨_, rfl⟩
    · intro hm hc he
      exact select_devices_status_in_call x is_tmus adev hns hm hc he

/-- C40: for every usecase and every sound device the mixer path that
`enable_audio_route` and `disable_audio_route` build, the base name with the
backend suffix, has at most 39 characters, all of one byte, so that with its
terminator it takes less than the 50 bytes of the buffer `mixer_path`; the
longest is "multi-channel-playback speaker-and-hdmi". -/
theorem mixer_path_fits (usecase : audio_usecase_t) (snd_device : snd_device_t) :
    (add_backend_name (use_case_table usecase) snd_device).length ≤ 39 ∧
    (add_backend_name (use_case_table usecase) snd_device).utf8ByteSize =
      (add_backend_name (use_case_table usecase) snd_device).length ∧
    (add_backend_name (use_case_table usecase) snd_device).utf8ByteSize + 1 < 50 ∧
    enable_audio_route usecase snd_device =
      [action.audio_route_apply_path (add_backend_name (use_case_table usecase) snd_device)] ∧
    disable_audio_route usecase snd_device =
      [action.audio_route_reset_path (add_backend_name (use_case_table usecase) snd_device)] ∧
    add_backend_name (use_case_table USECASE_AUDIO_PLAYBACK_MULTI_CH)
      SND_DEVICE_OUT_SPEAKER_AND_HDMI = "multi-channel-playback speaker-and-hdmi" ∧
    ("multi-channel-playback speaker-and-hdmi").length = 39 := by
  cases usecase <;> cases snd_device <;> decide

/-! ## Capture buffer size -/

/-- C39: `get_input_buffer_size` returns 0 for every configuration
`check_input_parameters` rejects; for an accepted one it returns
`frames * 2 * channel_count` bytes with 160, 320, 640 frames at 8000, 16000,
32000 Hz, 256 at 11025 and 12000 Hz, 512 at 22050 and 24000 Hz and 1024 at
44100 and 48000 Hz; that is positive and a multiple of the frame size of a
stream with `channel_count` channels, so that the period size
`adev_open_input_stream` stores, the quotient, is the number of frames and
loses no remainder. -/
theorem get_input_buffer_size_frames (sample_rate format : Nat) (channel_count : Int) :
    (check_input_parameters sample_rate format channel_count ≠ 0 →
      get_input_buffer_size sample_rate format channel_count = 0) ∧
    (check_input_parameters sample_rate format channel_count = 0 →
      (sample_rate = 8000 →
        get_input_buffer_size sample_rate format channel_count =
          160 * 2 * channel_count.toNat) ∧
      (sample_rate = 16000 →
        get_input_buffer_size sample_rate format channel_count =
          320 * 2 * channel_count.toNat) ∧
      (sample_rate = 32000 →
        get_input_buffer_size sample_rate format channel_count =
          640 * 2 * channel_count.toNat) ∧
      (sample_rate = 11025 ∨ sample_rate = 12000 →
        get_input_buffer_size sample_rate format channel_count =
          256 * 2 * channel_count.toNat) ∧
      (sample_rate = 22050 ∨ sample_rate = 24000 →
        get_input_buffer_size sample_rate format channel_count =
          512 * 2 * channel_count.toNat) ∧
      (sample_rate = 44100 ∨ sample_rate = 48000 →
        get_input_buffer_size sample_rate format channel_count =
          1024 * 2 * channel_count.toNat) ∧
      0 < get_input_buffer_size sample_rate format channel_count ∧
      (∀ devices channel_mask : Nat, (popcount channel_mask : Int) = channel_count →
        ∃ in_stream,
          adev_open_input_stream devices sample_rate format channel_mask =
            (0, some in_stream) ∧
          0 < audio_stream_frame_size in_stream ∧
          audio_stream_frame_size in_stream = 2 * channel_count.toNat ∧
          get_input_buffer_size sample_rate format channel_count %
            audio_stream_frame_size in_stream = 0 ∧
          in_stream.config_period_size * audio_stream_frame_size in_stream =
            get_input_buffer_size sample_rate format channel_count)) := by
  constructor
  · intro h
    simp only [get_input_buffer_size]
    rw [if_pos h]
  · intro h
    have hacc := h
    simp only [check_input_parameters] at hacc
    have hf : format = AUDIO_FORMAT_PCM_16_BIT := by
      by_contra hf
      rw [if_pos hf] at hacc
      exact absurd hacc (by decide)
    have hc : ¬ (channel_count < 1 ∨ channel_count > 2) := by
      intro hc
      rw [if_neg (not_not.mpr hf), if_pos hc] at hacc
      exact absurd hacc (by decide)
    have hr : sample_rate = 8000 ∨ sample_rate = 11025 ∨ sample_rate = 12000 ∨
        sample_rate = 16000 ∨ sample_rate = 22050 ∨ sample_rate = 24000 ∨
        sample_rate = 32000 ∨ sample_rate = 44100 ∨ sample_rate = 48000 := by
      by_contra hr
      rw [if_neg (not_not.mpr hf), if_neg hc, if_neg hr] at hacc
      exact absurd hacc (by decide)
    have hcc : channel_count = 1 ∨ channel_count = 2 := by omega
    have hval : get_input_buffer_size sample_rate format channel_count =
        (if sample_rate = 8000 ∨ sample_rate = 16000 ∨ sample_rate = 32000 then
          (sample_rate * 20) % 2 ^ 32 / 1000
        else if sample_rate = 11025 ∨ sample_rate = 12000 then 256
        else if sample_rate = 22050 ∨ sample_rate = 24000 then 512
        else if sample_rate = 44100 ∨ sample_rate = 48000 then 1024
        else 0) * 2 * channel_count.toNat % 2 ^ 32 := by
      simp only [get_input_buffer_size]
      rw [if_neg (not_not.mpr h)]
    have hall : ∀ f : Nat, (sample_rate = 8000 → f = 160) → (sample_rate = 16000 → f = 320) →
        (sample_rate = 32000 → f = 640) → (sample_rate = 11025 ∨ sample_rate = 12000 → f = 256) →
        (sample_rate = 22050 ∨ sample_rate = 24000 → f = 512) →
        (sample_rate = 44100 ∨ sample_rate = 48000 → f = 1024) →
        0 < f ∧ f ≤ 1024 := by
      intro f h1 h2 h3 h4 h5 h6
      rcases hr with hr | hr | hr | hr | hr | hr | hr | hr | hr
      · have := h1 hr; omega
      · have := h4 (Or.inl hr); omega
      · have := h4 (Or.inr hr); omega
      · have := h2 hr; omega
      · have := h5 (Or.inl hr); omega
      · have := h5 (Or.inr hr); omega
      · have := h3 hr; omega
      · have := h6 (Or.inl hr); omega
      · have := h6 (Or.inr hr); omega
    obtain ⟨f, hfdef⟩ : ∃ f : Nat, f =
        (if sample_rate = 8000 ∨ sample_rate = 16000 ∨ sample_rate = 32000 then
          (sample_rate * 20) % 2 ^ 32 / 1000
        else if sample_rate = 11025 ∨ sample_rate = 12000 then 256
        else if sample_rate = 22050 ∨ sample_rate = 24000 then 512
        else if sample_rate = 44100 ∨ sample_rate = 48000 then 1024
        else 0) := ⟨_, rfl⟩
    rw [← hfdef] at hval
    have h1 : sample_rate = 8000 → f = 160 := by
      intro h
      rw [hfdef, h]
      rfl
    have h2 : sample_rate = 16000 → f = 320 := by
      intro h
      rw [hfdef, h]
      rfl
    have h3 : sample_rate = 32000 → f = 640 := by
      intro h
      rw [hfdef, h]
      rfl
    have h4 : sample_rate = 11025 ∨ sample_rate = 12000 → f = 256 := by
      rintro (h | h) <;> rw [hfdef, h] <;> rfl
    have h5 : sample_rate = 22050 ∨ sample_rate = 24000 → f = 512 := by
      rintro (h | h) <;> rw [hfdef, h] <;> rfl
    have h6 : sample_rate = 44100 ∨ sample_rate = 48000 → f = 1024 := by
      rintro (h | h) <;> rw [hfdef, h] <;> rfl
    obtain ⟨hfpos, hfle⟩ := hall f h1 h2 h3 h4 h5 h6
    have hcn : channel_count.toNat = 1 ∨ channel_count.toNat = 2 := by
      rcases hcc with hcc | hcc <;> subst hcc
      · exact Or.inl rfl
      · exact Or.inr rfl
    have hfv : get_input_buffer_size sample_rate format channel_count =
        f * 2 * channel_count.toNat := by
      rw [hval]
      apply Nat.mod_eq_of_lt
      rcases hcn with hcn | hcn <;> rw [hcn] <;> omega
    refine ⟨fun h => by rw [hfv, h1 h], fun h => by rw [hfv, h2 h], fun h => by rw [hfv, h3 h],
      fun h => by rw [hfv, h4 h], fun h => by rw [hfv, h5 h], fun h => by rw [hfv, h6 h], ?_, ?_⟩
    · rw [hfv]
      rcases hcn with hcn | hcn <;> rw [hcn] <;> omega
    · intro devices channel_mask hpc
      have hpn : popcount channel_mask = channel_count.toNat := by
        rw [← hpc]
        rfl
      have hchk : ¬ (check_input_parameters sample_rate format (popcount channel_mask : Int) ≠ 0) := by
        rw [hpc]
        exact not_not.mpr h
      refine ⟨{ device := devices, source := AUDIO_SOURCE_DEFAULT, standby := true,
                channel_mask := channel_mask, usecase := USECASE_AUDIO_RECORD,
                config_channels := (popcount channel_mask : Int), config_rate := sample_rate,
                config_period_size :=
                  get_input_buffer_size sample_rate format (popcount channel_mask : Int) /
                    (popcount channel_mask * 2) }, ?_, ?_, ?_, ?_, ?_⟩
      · simp only [adev_open_input_stream]
        rw [if_neg hchk]
        rfl
      · simp only [audio_stream_frame_size]
        rw [hpn]
        rcases hcn with hcn | hcn <;> rw [hcn] <;> decide
      · simp only [audio_stream_frame_size]
        rw [hpn]
        omega
      · simp only [audio_stream_frame_size]
        rw [hpn, hfv]
        rcases hcn with hcn | hcn <;> rw [hcn] <;> omega
      · simp only [audio_stream_frame_size]
        rw [hpc, hpn, hfv]
        rcases hcn with hcn | hcn <;> rw [hcn]
        · rw [show f * 2 * 1 = f * (1 * 2) by ring, Nat.mul_div_cancel _ (by decide)]
        · rw [show f * 2 * 2 = f * (2 * 2) by ring, Nat.mul_div_cancel _ (by decide)]

/-! ## Invariants of the device state

The lemmas of this section hold for every property `P` of the device state
that `select_devices` preserves and that depends only on the current devices,
the active flags, the TTY mode and the calibration settings. -/

/-- A property preserved by `select_devices` and by the writes of the other fields
is preserved by `stop_output_stream`. -/
theorem stop_output_stream_preserves (P : audio_device → Prop) (is_tmus : Bool)
    (hsel : ∀ (x : select_devices_ext) (a : audio_device), P a →
      P (select_devices x is_tmus a).2.1)
    (hframe : ∀ a b : audio_device, P a →
      b.cur_out_snd_device = a.cur_out_snd_device →
      b.out_snd_device_active = a.out_snd_device_active →
      b.cur_in_snd_device = a.cur_in_snd_device →
      b.in_snd_device_active = a.in_snd_device_active →
      b.tty_mode = a.tty_mode → b.acdb_settings = a.acdb_settings → P b)
    (x : select_devices_ext) (adev : audio_device) (out : stream_out) (h : P adev) :
    P (stop_output_stream x is_tmus adev out).2.1 := by
  simp only [stop_output_stream]
  split
  · exact h
  · exact hsel _ _ (hframe adev _ h rfl rfl rfl rfl rfl rfl)

/-- The same for `stop_input_stream`. -/
theorem stop_input_stream_preserves (P : audio_device → Prop) (is_tmus : Bool)
    (hsel : ∀ (x : select_devices_ext) (a : audio_device), P a →
      P (select_devices x is_tmus a).2.1)
    (hframe : ∀ a b : audio_device, P a →
      b.cur_out_snd_device = a.cur_out_snd_device →
      b.out_snd_device_active = a.out_snd_device_active →
      b.cur_in_snd_device = a.cur_in_snd_device →
      b.in_snd_device_active = a.in_snd_device_active →
      b.tty_mode = a.tty_mode → b.acdb_settings = a.acdb_settings → P b)
    (x : select_devices_ext) (adev : audio_device) (in_stream : stream_in) (h : P adev) :
    P (stop_input_stream x is_tmus adev in_stream).2.1 := by
  simp only [stop_input_stream]
  split
  · exact hframe adev _ h rfl rfl rfl rfl rfl rfl
  · exact hsel _ _ (hframe adev _ h rfl rfl rfl rfl rfl rfl)

/-- The same for `stop_voice_call`. -/
theorem stop_voice_call_preserves (P : audio_device → Prop) (is_tmus : Bool)
    (hsel : ∀ (x : select_devices_ext) (a : audio_device), P a →
      P (select_devices x is_tmus a).2.1)
    (hframe : ∀ a b : audio_device, P a →
      b.cur_out_snd_device = a.cur_out_snd_device →
      b.out_snd_device_active = a.out_snd_device_active →
      b.cur_in_snd_device = a.cur_in_snd_device →
      b.in_snd_device_active = a.in_snd_device_active →
      b.tty_mode = a.tty_mode → b.acdb_settings = a.acdb_settings → P b)
    (x : select_devices_ext) (adev : audio_device) (h : P adev) :
    P (stop_voice_call x is_tmus adev).2.1 := by
  simp only [stop_voice_call]
  split
  · exact hframe adev _ h rfl rfl rfl rfl rfl rfl
  · exact hsel _ _ (hframe adev _ h rfl rfl rfl rfl rfl rfl)

/-- The same for `start_output_stream`. -/
theorem start_output_stream_preserves (P : audio_device → Prop) (is_tmus : Bool)
    (hsel : ∀ (x : select_devices_ext) (a : audio_device), P a →
      P (select_devices x is_tmus a).2.1)
    (hframe : ∀ a b : audio_device, P a →
      b.cur_out_snd_device = a.cur_out_snd_device →
      b.out_snd_device_active = a.out_snd_device_active →
      b.cur_in_snd_device = a.cur_in_snd_device →
      b.in_snd_device_active = a.in_snd_device_active →
      b.tty_mode = a.tty_mode → b.acdb_settings = a.acdb_settings → P b)
    (x : start_output_stream_ext) (adev : audio_device) (out : stream_out) (h : P adev) :
    P (start_output_stream x is_tmus adev out).2.1 := by
  have hod : ∀ (a : audio_device) (v : Nat), P a → P { a with out_device := v } :=
    fun a v ha => hframe a _ ha rfl rfl rfl rfl rfl rfl
  have hadd : ∀ (a : audio_device) (u : audio_usecase), P a → P (add_usecase_to_list a u) :=
    fun a u ha => hframe a _ ha rfl rfl rfl rfl rfl rfl
  have herr : ∀ (ret : Int) (a : audio_device) (o : stream_out) (log : List action), P a →
      P (start_output_stream_error_config ret a o log).2.1 :=
    fun ret a o log ha => hframe a _ ha rfl rfl rfl rfl rfl rfl
  have h1 : P { adev with out_device := adev.out_device ||| out.devices } := hod _ _ h
  have h2 := hsel x.select _ h1
  unfold start_output_stream
  dsimp only []
  split_ifs
  · exact herr _ _ _ _ h1
  · exact herr _ _ _ _ h1
  · exact herr _ _ _ _ h2
  · apply herr
    apply stop_output_stream_preserves P is_tmus hsel hframe
    exact hadd _ _ h2
  · exact hadd _ _ h2

/-- The same for `start_input_stream`. -/
theorem start_input_stream_preserves (P : audio_device → Prop) (is_tmus : Bool)
    (hsel : ∀ (x : select_devices_ext) (a : audio_device), P a →
      P (select_devices x is_tmus a).2.1)
    (hframe : ∀ a b : audio_device, P a →
      b.cur_out_snd_device = a.cur_out_snd_device →
      b.out_snd_device_active = a.out_snd_device_active →
      b.cur_in_snd_device = a.cur_in_snd_device →
      b.in_snd_device_active = a.in_snd_device_active →
      b.tty_mode = a.tty_mode → b.acdb_settings = a.acdb_settings → P b)
    (x : start_input_stream_ext) (adev : audio_device) (in_stream : stream_in) (h : P adev) :
    P (start_input_stream x is_tmus adev in_stream).2.1 := by
  have hai : ∀ (a : audio_device) (v : Option stream_in), P a →
      P { a with active_input := v } :=
    fun a v ha => hframe a _ ha rfl rfl rfl rfl rfl rfl
  have hadd : ∀ (a : audio_device) (u : audio_usecase), P a → P (add_usecase_to_list a u) :=
    fun a u ha => hframe a _ ha rfl rfl rfl rfl rfl rfl
  unfold start_input_stream
  dsimp only []
  split_ifs
  · exact hframe adev _ h rfl rfl rfl rfl rfl rfl
  · exact hframe adev _ h rfl rfl rfl rfl rfl rfl
  · apply hai
    apply hsel
    exact hframe adev _ h rfl rfl rfl rfl rfl rfl
  · apply hai
    apply stop_input_stream_preserves P is_tmus hsel hframe
    apply hai
    apply hadd
    apply hsel
    exact hframe adev _ h rfl rfl rfl rfl rfl rfl
  · apply hai
    apply hadd
    apply hsel
    exact hframe adev _ h rfl rfl rfl rfl rfl rfl

/-- The same for `start_voice_call`. -/
theorem start_voice_call_preserves (P : audio_device → Prop) (is_tmus : Bool)
    (hsel : ∀ (x : select_devices_ext) (a : audio_device), P a →
      P (select_devices x is_tmus a).2.1)
    (hframe : ∀ a b : audio_device, P a →
      b.cur_out_snd_device = a.cur_out_snd_device →
      b.out_snd_device_active = a.out_snd_device_active →
      b.cur_in_snd_device = a.cur_in_snd_device →
      b.in_snd_device_active = a.in_snd_device_active →
      b.tty_mode = a.tty_mode → b.acdb_settings = a.acdb_settings → P b)
    (x : start_voice_call_ext) (adev : audio_device) (h : P adev) :
    P (start_voice_call x is_tmus adev).2.1 := by
  have h2 := hsel x.select _ h
  have hadd : ∀ (a : audio_device) (u : audio_usecase), P a → P (add_usecase_to_list a u) :=
    fun a u ha => hframe a _ ha rfl rfl rfl rfl rfl rfl
  have herr : ∀ (ret : Int) (a : audio_device) (log : List action), P a →
      P (start_voice_call_error x is_tmus ret a log).2.1 :=
    fun ret a log ha => stop_voice_call_preserves P is_tmus hsel hframe x.unwind a ha
  have h3 := hadd _ { id := USECASE_VOICE_CALL, type := VOICE_CALL, devices := adev.out_device }
    h2
  unfold start_voice_call
  dsimp only []
  split_ifs
  · exact h2
  all_goals first
    | exact herr _ _ _ (hframe _ _ h3 rfl rfl rfl rfl rfl rfl)
    | exact hframe _ _ h3 rfl rfl rfl rfl rfl rfl

/-- The same for `out_standby`. -/
theorem out_standby_preserves (P : audio_device → Prop) (is_tmus : Bool)
    (hsel : ∀ (x : select_devices_ext) (a : audio_device), P a →
      P (select_devices x is_tmus a).2.1)
    (hframe : ∀ a b : audio_device, P a →
      b.cur_out_snd_device = a.cur_out_snd_device →
      b.out_snd_device_active = a.out_snd_device_active →
      b.cur_in_snd_device = a.cur_in_snd_device →
      b.in_snd_device_active = a.in_snd_device_active →
      b.tty_mode = a.tty_mode → b.acdb_settings = a.acdb_settings → P b)
    (x : select_devices_ext) (adev : audio_device) (out : stream_out) (h : P adev) :
    P (out_standby x is_tmus adev out).2.1 := by
  unfold out_standby
  dsimp only []
  split_ifs
  all_goals first
    | exact h
    | exact stop_output_stream_preserves P is_tmus hsel hframe x adev _ h

/-- The same for `in_standby`. -/
theorem in_standby_preserves (P : audio_device → Prop) (is_tmus : Bool)
    (hsel : ∀ (x : select_devices_ext) (a : audio_device), P a →
      P (select_devices x is_tmus a).2.1)
    (hframe : ∀ a b : audio_device, P a →
      b.cur_out_snd_device = a.cur_out_snd_device →
      b.out_snd_device_active = a.out_snd_device_active →
      b.cur_in_snd_device = a.cur_in_snd_device →
      b.in_snd_device_active = a.in_snd_device_active →
      b.tty_mode = a.tty_mode → b.acdb_settings = a.acdb_settings → P b)
    (x : select_devices_ext) (adev : audio_device) (in_stream : stream_in) (h : P adev) :
    P (in_standby x is_tmus adev in_stream).2.1 := by
  unfold in_standby
  dsimp only []
  split_ifs
  all_goals first
    | exact h
    | exact stop_input_stream_preserves P is_tmus hsel hframe x adev _ h

/-- The same for `out_write`. -/
theorem out_write_preserves (P : audio_device → Prop) (is_tmus : Bool)
    (hsel : ∀ (x : select_devices_ext) (a : audio_device), P a →
      P (select_devices x is_tmus a).2.1)
    (hframe : ∀ a b : audio_device, P a →
      b.cur_out_snd_device = a.cur_out_snd_device →
      b.out_snd_device_active = a.out_snd_device_active →
      b.cur_in_snd_device = a.cur_in_snd_device →
      b.in_snd_device_active = a.in_snd_device_active →
      b.tty_mode = a.tty_mode → b.acdb_settings = a.acdb_settings → P b)
    (x : out_write_ext) (adev : audio_device) (out : stream_out) (h : P adev) :
    P (out_write x is_tmus adev out).1 := by
  have hs := start_output_stream_preserves P is_tmus hsel hframe x.start adev out h
  have hb : ∀ (a : audio_device) (o : stream_out), P a →
      P (out_standby x.standby is_tmus a o).2.1 :=
    fun a o ha => out_standby_preserves P is_tmus hsel hframe x.standby a o ha
  unfold out_write
  dsimp only []
  split_ifs
  all_goals first
    | exact hs
    | exact h
    | exact hb _ _ hs
    | exact hb _ _ h

/-- The same for `in_read`. -/
theorem in_read_preserves (P : audio_device → Prop) (is_tmus : Bool)
    (hsel : ∀ (x : select_devices_ext) (a : audio_device), P a →
      P (select_devices x is_tmus a).2.1)
    (hframe : ∀ a b : audio_device, P a →
      b.cur_out_snd_device = a.cur_out_snd_device →
      b.out_snd_device_active = a.out_snd_device_active →
      b.cur_in_snd_device = a.cur_in_snd_device →
      b.in_snd_device_active = a.in_snd_device_active →
      b.tty_mode = a.tty_mode → b.acdb_settings = a.acdb_settings → P b)
    (x : in_read_ext) (adev : audio_device) (in_stream : stream_in) (h : P adev) :
    P (in_read x is_tmus adev in_stream).1 := by
  have hs := start_input_stream_preserves P is_tmus hsel hframe x.start adev in_stream h
  have hb : ∀ (a : audio_device) (i : stream_in), P a →
      P (in_standby x.standby is_tmus a i).2.1 :=
    fun a i ha => in_standby_preserves P is_tmus hsel hframe x.standby a i ha
  unfold in_read
  dsimp only []
  split_ifs
  all_goals first
    | exact hs
    | exact h
    | exact hb _ _ hs
    | exact hb _ _ h
    | exact hframe _ _ hs rfl rfl rfl rfl rfl rfl
    | exact hb _ _ (hframe _ _ hs rfl rfl rfl rfl rfl rfl)

/-- The same for `out_set_parameters`. -/
theorem out_set_parameters_preserves (P : audio_device → Prop) (is_tmus : Bool)
    (hsel : ∀ (x : select_devices_ext) (a : audio_device), P a →
      P (select_devices x is_tmus a).2.1)
    (hframe : ∀ a b : audio_device, P a →
      b.cur_out_snd_device = a.cur_out_snd_device →
      b.out_snd_device_active = a.out_snd_device_active →
      b.cur_in_snd_device = a.cur_in_snd_device →
      b.in_snd_device_active = a.in_snd_device_active →
      b.tty_mode = a.tty_mode → b.acdb_settings = a.acdb_settings → P b)
    (x : out_set_parameters_ext) (adev : audio_device) (out : stream_out) (val : Nat)
    (h : P adev) : P (out_set_parameters x is_tmus adev out val).2.1 := by
  have hod : P { adev with out_device := get_active_out_devices adev out.usecase ||| val } :=
    hframe adev _ h rfl rfl rfl rfl rfl rfl
  unfold out_set_parameters
  dsimp only []
  split_ifs
  · exact start_voice_call_preserves P is_tmus hsel hframe x.start_voice _ hod
  · exact stop_voice_call_preserves P is_tmus hsel hframe x.stop_voice _ hod
  · exact stop_voice_call_preserves P is_tmus hsel hframe x.stop_voice _ h
  · exact hsel _ _ hod
  · exact h
  · exact h

/-- The same for `in_set_parameters`. -/
theorem in_set_parameters_preserves (P : audio_device → Prop) (is_tmus : Bool)
    (hsel : ∀ (x : select_devices_ext) (a : audio_device), P a →
      P (select_devices x is_tmus a).2.1)
    (hframe : ∀ a b : audio_device, P a →
      b.cur_out_snd_device = a.cur_out_snd_device →
      b.out_snd_device_active = a.out_snd_device_active →
      b.cur_in_snd_device = a.cur_in_snd_device →
      b.in_snd_device_active = a.in_snd_device_active →
      b.tty_mode = a.tty_mode → b.acdb_settings = a.acdb_settings → P b)
    (x : select_devices_ext) (ret : Int) (adev : audio_device) (in_stream : stream_in)
    (source : Option audio_source_t) (routing : Option Nat) (h : P adev) :
    P (in_set_parameters x ret is_tmus adev in_stream source routing).2.1 := by
  unfold in_set_parameters
  dsimp only []
  split <;> split_ifs
  all_goals first
    | exact h
    | exact hframe adev _ h rfl rfl rfl rfl rfl rfl
    | exact hsel _ _ h
    | exact hsel _ _ (hframe adev _ h rfl rfl rfl rfl rfl rfl)

/-- The same for `adev_set_mode`. -/
theorem adev_set_mode_preserves (P : audio_device → Prop)
    (hframe : ∀ a b : audio_device, P a →
      b.cur_out_snd_device = a.cur_out_snd_device →
      b.out_snd_device_active = a.out_snd_device_active →
      b.cur_in_snd_device = a.cur_in_snd_device →
      b.in_snd_device_active = a.in_snd_device_active →
      b.tty_mode = a.tty_mode → b.acdb_settings = a.acdb_settings → P b)
    (adev : audio_device) (mode : audio_mode_t) (h : P adev) :
    P (adev_set_mode adev mode).2 := by
  unfold adev_set_mode
  split_ifs
  · exact hframe adev _ h rfl rfl rfl rfl rfl rfl
  · exact h

/-- A property that `select_devices` and `adev_set_parameters` preserve and that
depends only on the current devices, the active flags, the TTY mode and the
calibration settings holds after every call of an entry point or of one of
the operations they are built from. -/
theorem hal_step_preserves (P : audio_device → Prop) (is_tmus : Bool)
    (hsel : ∀ (x : select_devices_ext) (a : audio_device), P a →
      P (select_devices x is_tmus a).2.1)
    (hframe : ∀ a b : audio_device, P a →
      b.cur_out_snd_device = a.cur_out_snd_device →
      b.out_snd_device_active = a.out_snd_device_active →
      b.cur_in_snd_device = a.cur_in_snd_device →
      b.in_snd_device_active = a.in_snd_device_active →
      b.tty_mode = a.tty_mode → b.acdb_settings = a.acdb_settings → P b)
    (hset : ∀ (x : select_devices_ext) (ret : Int) (a : audio_device) (v : tty_value_t),
      P a → P (adev_set_parameters x ret is_tmus a v).2.1)
    (adev : audio_device) (op : hal_op) (h : P adev) : P (hal_step is_tmus adev op) := by
  cases op with
  | select_devices x => exact hsel x adev h
  | start_output_stream x out =>
    exact start_output_stream_preserves P is_tmus hsel hframe x adev out h
  | stop_output_stream x out =>
    exact stop_output_stream_preserves P is_tmus hsel hframe x adev out h
  | start_input_stream x i =>
    exact start_input_stream_preserves P is_tmus hsel hframe x adev i h
  | stop_input_stream x i =>
    exact stop_input_stream_preserves P is_tmus hsel hframe x adev i h
  | start_voice_call x => exact start_voice_call_preserves P is_tmus hsel hframe x adev h
  | stop_voice_call x => exact stop_voice_call_preserves P is_tmus hsel hframe x adev h
  | out_write x out => exact out_write_preserves P is_tmus hsel hframe x adev out h
  | out_standby x out => exact out_standby_preserves P is_tmus hsel hframe x adev out h
  | out_set_parameters x out val =>
    exact out_set_parameters_preserves P is_tmus hsel hframe x adev out val h
  | in_read x i => exact in_read_preserves P is_tmus hsel hframe x adev i h
  | in_standby x i => exact in_standby_preserves P is_tmus hsel hframe x adev i h
  | in_set_parameters x ret i source routing =>
    exact in_set_parameters_preserves P is_tmus hsel hframe x ret adev i source routing h
  | adev_set_parameters x ret value => exact hset x ret adev value h
  | adev_set_mode mode => exact adev_set_mode_preserves P hframe adev mode h

/-- Such a property holds after every sequence of such calls. -/
theorem hal_run_preserves (P : audio_device → Prop) (is_tmus : Bool)
    (hsel : ∀ (x : select_devices_ext) (a : audio_device), P a →
      P (select_devices x is_tmus a).2.1)
    (hframe : ∀ a b : audio_device, P a →
      b.cur_out_snd_device = a.cur_out_snd_device →
      b.out_snd_device_active = a.out_snd_device_active →
      b.cur_in_snd_device = a.cur_in_snd_device →
      b.in_snd_device_active = a.in_snd_device_active →
      b.tty_mode = a.tty_mode → b.acdb_settings = a.acdb_settings → P b)
    (hset : ∀ (x : select_devices_ext) (ret : Int) (a : audio_device) (v : tty_value_t),
      P a → P (adev_set_parameters x ret is_tmus a v).2.1)
    (ops : List hal_op) (adev : audio_device) (h : P adev) : P (hal_run is_tmus adev ops) := by
  induction ops generalizing adev with
  | nil => exact h
  | cons op ops ih =>
    exact ih _ (hal_step_preserves P is_tmus hsel hframe hset adev op h)

/-! ## Reachable states (audio_hw.c, lines 639-707, 1704-1727 and 2103-2121) -/

/-- The function `init_platform_data` writes neither the active flags nor the TTY
mode, and of the calibration settings at most the dual-mic flag. -/
theorem init_platform_data_routing (p : platform_data) (adev : audio_device) :
    (init_platform_data p adev).out_snd_device_active = adev.out_snd_device_active ∧
      (init_platform_data p adev).in_snd_device_active = adev.in_snd_device_active ∧
      (init_platform_data p adev).tty_mode = adev.tty_mode ∧
      ((init_platform_data p adev).acdb_settings = adev.acdb_settings ∨
        (init_platform_data p adev).acdb_settings = adev.acdb_settings ||| DMIC_FLAG) := by
  obtain ⟨n, mo, ari, mta, dc, fvc, fvr, ah, asac, mdm, csd, c1, c2, c3, c4⟩ := p
  by_cases hc : adev.csd_client = true <;>
    cases mta <;> cases dc <;> cases ah <;> cases mdm <;> cases csd <;>
    simp [init_platform_data, hc]

/-- The freshly opened device: neither path is active, the TTY mode is OFF, and the
calibration settings hold the TTY bits of OFF and at most the dual-mic flag. -/
theorem adev_open_initial (p : platform_data) (adev : audio_device)
    (h : adev_open p = (0, some adev)) :
    adev.out_snd_device_active = false ∧ adev.in_snd_device_active = false ∧
      adev.tty_mode = TTY_MODE_OFF ∧
      (adev.acdb_settings = 0x10 ∨ adev.acdb_settings = 0x12) := by
  simp only [adev_open] at h
  split_ifs at h
  · exact absurd (congrArg Prod.snd h) (by simp)
  · exact absurd (congrArg Prod.snd h) (by simp)
  · exact absurd (congrArg Prod.snd h) (by simp)
  · have h2 := Option.some.inj (congrArg Prod.snd h)
    obtain ⟨h3, h4, h5, h6⟩ := init_platform_data_routing p
      { mode := AUDIO_MODE_NORMAL, active_input := none, out_device := AUDIO_DEVICE_NONE,
        voice_call_rx := none, voice_call_tx := none, tty_mode := TTY_MODE_OFF,
        cur_out_snd_device := SND_DEVICE_NONE, cur_in_snd_device := SND_DEVICE_NONE,
        out_snd_device_active := false, in_snd_device_active := false,
        usecase_list := [], in_call := false, acdb_settings := 0x10,
        acdb_send_audio_cal := false, csd_client := false, csd_disable_device := false,
        csd_enable_device := false, csd_start_voice := false, csd_stop_voice := false }
    rw [← h2]
    exact ⟨h3, h4, h5, h6⟩

/-- A run of `select_devices` writes neither the TTY mode nor the calibration
settings. -/
theorem select_devices_tty (x : select_devices_ext) (is_tmus : Bool) (adev : audio_device) :
    (select_devices x is_tmus adev).2.1.tty_mode = adev.tty_mode ∧
      (select_devices x is_tmus adev).2.1.acdb_settings = adev.acdb_settings := by
  obtain ⟨oa, ia, co, ci, l, h, _⟩ := select_devices_frame x is_tmus adev
  rw [h]
  exact ⟨rfl, rfl⟩

/-- A run of `select_devices` keeps the routing invariant: an active output path is
on a sound device of the output range, an active input path on one of the input
range. -/
theorem select_devices_routing (x : select_devices_ext) (is_tmus : Bool)
    (adev : audio_device)
    (h : (adev.out_snd_device_active = true →
        snd_device_is_out adev.cur_out_snd_device = true) ∧
      (adev.in_snd_device_active = true →
        adev.cur_in_snd_device ≠ SND_DEVICE_NONE ∧
        snd_device_is_out adev.cur_in_snd_device = false)) :
    ((select_devices x is_tmus adev).2.1.out_snd_device_active = true →
        snd_device_is_out (select_devices x is_tmus adev).2.1.cur_out_snd_device = true) ∧
      ((select_devices x is_tmus adev).2.1.in_snd_device_active = true →
        (select_devices x is_tmus adev).2.1.cur_in_snd_device ≠ SND_DEVICE_NONE ∧
        snd_device_is_out (select_devices x is_tmus adev).2.1.cur_in_snd_device = false) := by
  by_cases hsc : get_output_snd_device is_tmus adev = adev.cur_out_snd_device ∧
      adev.out_snd_device_active = true ∧
      get_input_snd_device is_tmus adev = adev.cur_in_snd_device ∧
      adev.in_snd_device_active = true
  · have hs : select_devices x is_tmus adev = (0, adev, []) := by
      simp only [select_devices]
      rw [if_pos hsc]
    rw [hs]
    exact h
  · rw [select_devices_state x is_tmus adev hsc]
    dsimp only []
    constructor
    · by_cases ho : get_output_snd_device is_tmus adev ≠ SND_DEVICE_NONE
      · rw [if_pos ho, if_pos ho]
        intro _
        rcases get_output_snd_device_is_out is_tmus adev with h0 | h1
        · exact absurd h0 ho
        · exact h1
      · rw [if_neg ho, if_neg ho]
        split_ifs
        · intro hf
          exact absurd hf (by decide)
        · exact h.1
    · by_cases hi : get_input_snd_device is_tmus adev ≠ SND_DEVICE_NONE
      · rw [if_pos hi, if_pos hi]
        intro _
        exact ⟨hi, get_input_snd_device_is_in is_tmus adev⟩
      · rw [if_neg hi, if_neg hi]
        split_ifs
        · intro hf
          exact absurd hf (by decide)
        · exact h.2

/-- C33: in every state reached from the freshly opened device by calls of the entry
points and of the stream, routing and voice-call operations, with any streams
and any results of the collaborators, an output path marked active is on a
sound device of the output range (not `None`), and an input path marked active
is on a sound device of the input range (not `None`). -/
theorem routing_invariant (p : platform_data) (is_tmus : Bool) (adev : audio_device)
    (hopen : adev_open p = (0, some adev)) (ops : List hal_op) :
    ((hal_run is_tmus adev ops).out_snd_device_active = true →
        (hal_run is_tmus adev ops).cur_out_snd_device ≠ SND_DEVICE_NONE ∧
        snd_device_is_out (hal_run is_tmus adev ops).cur_out_snd_device = true) ∧
      ((hal_run is_tmus adev ops).in_snd_device_active = true →
        (hal_run is_tmus adev ops).cur_in_snd_device ≠ SND_DEVICE_NONE ∧
        snd_device_in_range (hal_run is_tmus adev ops).cur_in_snd_device = true ∧
        snd_device_is_out (hal_run is_tmus adev ops).cur_in_snd_device = false) := by
  obtain ⟨ho, hi, _, _⟩ := adev_open_initial p adev hopen
  have h := hal_run_preserves
    (fun a : audio_device =>
      (a.out_snd_device_active = true → snd_device_is_out a.cur_out_snd_device = true) ∧
      (a.in_snd_device_active = true →
        a.cur_in_snd_device ≠ SND_DEVICE_NONE ∧
        snd_device_is_out a.cur_in_snd_device = false))
    is_tmus
    (fun x a ha => select_devices_routing x is_tmus a ha)
    (fun a b ha h1 h2 h3 h4 _ _ => by
      show (b.out_snd_device_active = true → snd_device_is_out b.cur_out_snd_device = true) ∧
        (b.in_snd_device_active = true →
          b.cur_in_snd_device ≠ SND_DEVICE_NONE ∧
          snd_device_is_out b.cur_in_snd_device = false)
      rw [h1, h2, h3, h4]
      exact ha)
    (fun x ret a v ha => by
      show ((adev_set_parameters x ret is_tmus a v).2.1.out_snd_device_active = true →
          snd_device_is_out
            (adev_set_parameters x ret is_tmus a v).2.1.cur_out_snd_device = true) ∧
        ((adev_set_parameters x ret is_tmus a v).2.1.in_snd_device_active = true →
          (adev_set_parameters x ret is_tmus a v).2.1.cur_in_snd_device ≠ SND_DEVICE_NONE ∧
          snd_device_is_out
            (adev_set_parameters x ret is_tmus a v).2.1.cur_in_snd_device = false)
      simp only [adev_set_parameters]
      split
      · exact ha
      · split_ifs
        · exact select_devices_routing x is_tmus _ ha
        · exact ha
        · exact ha)
    ops adev
    ⟨fun hf => absurd hf (by rw [ho]; decide), fun hf => absurd hf (by rw [hi]; decide)⟩
  refine ⟨fun hf => ⟨?_, h.1 hf⟩, fun hf => ⟨(h.2 hf).1, ?_, (h.2 hf).2⟩⟩
  · intro hn
    have h1 := h.1 hf
    rw [hn] at h1
    exact absurd h1 (by decide)
  · simp only [snd_device_in_range]
    rw [if_neg (h.2 hf).1]

/-- The TTY modes the values of the TTY-mode key stand for. -/
theorem adev_set_parameters_tty_mode_cases (value : tty_value_t) (m : Int)
    (h : adev_set_parameters_tty_mode value = some m) :
    m = TTY_MODE_OFF ∨ m = TTY_MODE_VCO ∨ m = TTY_MODE_HCO ∨ m = TTY_MODE_FULL := by
  cases value <;> simp [adev_set_parameters_tty_mode] at h <;> simp [← h]

/-- Writing a TTY mode into the calibration settings sets the TTY bits to the mode
and keeps the bits the mask `TTY_MODE_CLEAR` selects. -/
theorem tty_bits_written (a : Nat) (m : Int)
    (hm : m = TTY_MODE_OFF ∨ m = TTY_MODE_VCO ∨ m = TTY_MODE_HCO ∨ m = TTY_MODE_FULL) :
    ((a &&& TTY_MODE_CLEAR) ||| m.toNat) &&& 0xF0 = m.toNat ∧
      ((a &&& TTY_MODE_CLEAR) ||| m.toNat) &&& TTY_MODE_CLEAR = a &&& TTY_MODE_CLEAR ∧
      ((a &&& TTY_MODE_CLEAR) ||| m.toNat) < 2 ^ 32 := by
  have hlt : (a &&& TTY_MODE_CLEAR) < 2 ^ 32 :=
    Nat.lt_of_le_of_lt Nat.and_le_right (by decide)
  have h0 : (a &&& TTY_MODE_CLEAR) &&& 0xF0 = 0 := by
    rw [Nat.and_assoc]
    exact Nat.and_zero a
  have h1 : (a &&& TTY_MODE_CLEAR) &&& TTY_MODE_CLEAR = a &&& TTY_MODE_CLEAR := by
    rw [Nat.and_assoc, Nat.and_self]
  rw [Nat.and_distrib_right, Nat.and_distrib_right, h0, h1]
  have hz : m.toNat &&& TTY_MODE_CLEAR = 0 := by
    rcases hm with h | h | h | h <;> subst h <;> decide
  have hb : m.toNat &&& 0xF0 = m.toNat ∧ m.toNat < 2 ^ 32 := by
    rcases hm with h | h | h | h <;> subst h <;> decide
  rw [hz, hb.1, Nat.or_zero, Nat.zero_or]
  exact ⟨rfl, rfl, Nat.or_lt_two_pow hlt hb.2⟩

/-- The state a request with the TTY-mode key leaves when its value stands for the
mode `m`: the status is the result `ret` of the last lookup, and when `m` is not
the stored mode it is stored and written into the TTY bits of the calibration
settings; otherwise neither is written. -/
theorem adev_set_parameters_state (x : select_devices_ext) (ret : Int) (is_tmus : Bool)
    (adev : audio_device) (value : tty_value_t) (m : Int)
    (h : adev_set_parameters_tty_mode value = some m) :
    (adev_set_parameters x ret is_tmus adev value).1 = ret ∧
      (adev_set_parameters x ret is_tmus adev value).2.1.tty_mode = m ∧
      (adev_set_parameters x ret is_tmus adev value).2.1.acdb_settings =
        (if m ≠ adev.tty_mode then (adev.acdb_settings &&& TTY_MODE_CLEAR) ||| m.toNat
         else adev.acdb_settings) := by
  simp only [adev_set_parameters]
  rw [h]
  dsimp only []
  by_cases hm : m ≠ adev.tty_mode
  · rw [if_pos hm, if_pos hm]
    split_ifs
    · exact ⟨rfl, (select_devices_tty x is_tmus _).1, (select_devices_tty x is_tmus _).2⟩
    · exact ⟨rfl, rfl, rfl⟩
  · rw [if_neg hm, if_neg hm]
    exact ⟨rfl, (not_not.mp hm).symm, rfl⟩

/-- A request with the TTY-mode key keeps the invariant of the calibration
settings: their TTY bits are the stored TTY mode, and they fit 32 bits. -/
theorem adev_set_parameters_tty_invariant (x : select_devices_ext) (ret : Int)
    (is_tmus : Bool) (adev : audio_device) (value : tty_value_t)
    (h : adev.acdb_settings &&& 0xF0 = adev.tty_mode.toNat ∧ adev.acdb_settings < 2 ^ 32) :
    (adev_set_parameters x ret is_tmus adev value).2.1.acdb_settings &&& 0xF0 =
        (adev_set_parameters x ret is_tmus adev value).2.1.tty_mode.toNat ∧
      (adev_set_parameters x ret is_tmus adev value).2.1.acdb_settings < 2 ^ 32 := by
  cases hv : adev_set_parameters_tty_mode value with
  | none =>
    have hs : adev_set_parameters x ret is_tmus adev value = (-EINVAL, adev, []) := by
      simp only [adev_set_parameters]
      rw [hv]
    rw [hs]
    exact h
  | some m =>
    obtain ⟨_, h2, h3⟩ := adev_set_parameters_state x ret is_tmus adev value m hv
    obtain ⟨hb1, _, hb3⟩ := tty_bits_written adev.acdb_settings m
      (adev_set_parameters_tty_mode_cases value m hv)
    rw [h2, h3]
    by_cases hm : m ≠ adev.tty_mode
    · rw [if_pos hm]
      exact ⟨hb1, hb3⟩
    · rw [if_neg hm, not_not.mp hm]
      exact h

/-- Writing a TTY mode into calibration settings of 32 bits keeps every bit outside
the TTY bits, bits 4 to 7. -/
theorem tty_bits_outside (a : Nat) (m : Int)
    (hm : m = TTY_MODE_OFF ∨ m = TTY_MODE_VCO ∨ m = TTY_MODE_HCO ∨ m = TTY_MODE_FULL)
    (ha : a < 2 ^ 32) (i : Nat) (hi : i < 4 ∨ 8 ≤ i) :
    ((a &&& TTY_MODE_CLEAR) ||| m.toNat).testBit i = a.testBit i := by
  by_cases h32 : i < 32
  · have key : ∀ j : Fin 32, (j.val < 4 ∨ 8 ≤ j.val) →
        TTY_MODE_CLEAR.testBit j.val = true ∧ TTY_MODE_OFF.toNat.testBit j.val = false ∧
        TTY_MODE_VCO.toNat.testBit j.val = false ∧ TTY_MODE_HCO.toNat.testBit j.val = false ∧
        TTY_MODE_FULL.toNat.testBit j.val = false := by decide
    obtain ⟨k1, k2, k3, k4, k5⟩ := key ⟨i, h32⟩ hi
    have hmf : m.toNat.testBit i = false := by
      rcases hm with h | h | h | h <;> subst h <;> assumption
    rw [Nat.testBit_or, Nat.testBit_and, hmf]
    have k1b : TTY_MODE_CLEAR.testBit i = true := k1
    rw [k1b, Bool.and_true, Bool.or_false]
  · have hp : 2 ^ 32 ≤ 2 ^ i := Nat.pow_le_pow_right (by decide) (Nat.le_of_not_lt h32)
    rw [Nat.testBit_lt_two_pow (Nat.lt_of_lt_of_le (tty_bits_written a m hm).2.2 hp),
      Nat.testBit_lt_two_pow (Nat.lt_of_lt_of_le ha hp)]

/-- C38: in every state reached from the freshly opened device the TTY bits (mask
0xF0) of the calibration settings are the stored TTY mode, and the settings fit
32 bits; each of the four values of the TTY-mode key stands for its mode; a
request with any other value is refused with `-EINVAL` and writes nothing; and a
request whose value stands for the mode `m`, made in such a state, is not
refused: it returns the result `ret` of the last lookup of the function and
leaves `m` as the stored TTY mode and as the TTY bits of the calibration
settings, every bit outside the mask being as before. -/
theorem calibration_settings_tty (p : platform_data) (is_tmus : Bool) (adev : audio_device)
    (hopen : adev_open p = (0, some adev)) (ops : List hal_op) :
    (hal_run is_tmus adev ops).acdb_settings &&& 0xF0 =
        (hal_run is_tmus adev ops).tty_mode.toNat ∧
      (hal_run is_tmus adev ops).acdb_settings < 2 ^ 32 ∧
      adev_set_parameters_tty_mode AUDIO_PARAMETER_VALUE_TTY_OFF = some TTY_MODE_OFF ∧
      adev_set_parameters_tty_mode AUDIO_PARAMETER_VALUE_TTY_VCO = some TTY_MODE_VCO ∧
      adev_set_parameters_tty_mode AUDIO_PARAMETER_VALUE_TTY_HCO = some TTY_MODE_HCO ∧
      adev_set_parameters_tty_mode AUDIO_PARAMETER_VALUE_TTY_FULL = some TTY_MODE_FULL ∧
      adev_set_parameters_tty_mode tty_value_t.other = none ∧
      (∀ (x : select_devices_ext) (ret : Int),
        adev_set_parameters x ret is_tmus (hal_run is_tmus adev ops) tty_value_t.other =
          (-EINVAL, hal_run is_tmus adev ops, [])) ∧
      ∀ (x : select_devices_ext) (ret : Int) (value : tty_value_t) (m : Int),
        adev_set_parameters_tty_mode value = some m →
        (adev_set_parameters x ret is_tmus (hal_run is_tmus adev ops) value).1 = ret ∧
        (adev_set_parameters x ret is_tmus (hal_run is_tmus adev ops) value).2.1.tty_mode = m ∧
        (adev_set_parameters x ret is_tmus (hal_run is_tmus adev ops) value).2.1.acdb_settings
          &&& 0xF0 = m.toNat ∧
        ∀ i, i < 4 ∨ 8 ≤ i →
          (adev_set_parameters x ret is_tmus
            (hal_run is_tmus adev ops) value).2.1.acdb_settings.testBit i =
          (hal_run is_tmus adev ops).acdb_settings.testBit i := by
  obtain ⟨_, _, ht, hs⟩ := adev_open_initial p adev hopen
  have h := hal_run_preserves
    (fun a : audio_device =>
      a.acdb_settings &&& 0xF0 = a.tty_mode.toNat ∧ a.acdb_settings < 2 ^ 32)
    is_tmus
    (fun x a ha => by
      show (select_devices x is_tmus a).2.1.acdb_settings &&& 0xF0 =
          (select_devices x is_tmus a).2.1.tty_mode.toNat ∧
        (select_devices x is_tmus a).2.1.acdb_settings < 2 ^ 32
      rw [(select_devices_tty x is_tmus a).1, (select_devices_tty x is_tmus a).2]
      exact ha)
    (fun a b ha _ _ _ _ h5 h6 => by
      show b.acdb_settings &&& 0xF0 = b.tty_mode.toNat ∧ b.acdb_settings < 2 ^ 32
      rw [h5, h6]
      exact ha)
    (fun x ret a v ha => adev_set_parameters_tty_invariant x ret is_tmus a v ha)
    ops adev
    (by
      show adev.acdb_settings &&& 0xF0 = adev.tty_mode.toNat ∧ adev.acdb_settings < 2 ^ 32
      rw [ht]
      rcases hs with hs | hs <;> rw [hs] <;> decide)
  refine ⟨h.1, h.2, rfl, rfl, rfl, rfl, rfl, fun _ _ => rfl, ?_⟩
  intro x ret value m hv
  obtain ⟨h1, h2, h3⟩ :=
    adev_set_parameters_state x ret is_tmus (hal_run is_tmus adev ops) value m hv
  have hm := adev_set_parameters_tty_mode_cases value m hv
  refine ⟨h1, h2, ?_, ?_⟩
  · rw [h3]
    by_cases hne : m ≠ (hal_run is_tmus adev ops).tty_mode
    · rw [if_pos hne]
      exact (tty_bits_written _ m hm).1
    · rw [if_neg hne, not_not.mp hne]
      exact h.1
  · intro i hi
    rw [h3]
    by_cases hne : m ≠ (hal_run is_tmus adev ops).tty_mode
    · rw [if_pos hne]
      exact tty_bits_outside _ m hm h.2 i hi
    · rw [if_neg hne]

/-! ## Call state (audio_hw.c, lines 1022-1155 and 1284-1300) -/

/-- C34: on a platform whose voice-signaling library loads without its start entry
point, in call mode, the routing request for the earpiece starts a voice call;
`start_voice_call` opens and starts both endpoints, abandons the start through
`stop_voice_call` and returns 0: it reports success while the in-call switch
is false and the registry has no voice-call entry. -/
theorem start_voice_call_success_without_call :
    adev_open
      { msm8960_mdm := true, csd_client := true, csd_disable_device := true,
        csd_enable_device := true, csd_start_voice := false, csd_stop_voice := true } =
      (0, some
        { csd_client := true, csd_disable_device := true, csd_enable_device := true,
          csd_start_voice := false, csd_stop_voice := true }) ∧
    (start_voice_call {} false
      { mode := AUDIO_MODE_IN_CALL, out_device := AUDIO_DEVICE_OUT_EARPIECE,
        csd_client := true, csd_disable_device := true, csd_enable_device := true,
        csd_start_voice := false, csd_stop_voice := true }).1 = 0 ∧
    (start_voice_call {} false
      { mode := AUDIO_MODE_IN_CALL, out_device := AUDIO_DEVICE_OUT_EARPIECE,
        csd_client := true, csd_disable_device := true, csd_enable_device := true,
        csd_start_voice := false, csd_stop_voice := true }).2.1.in_call = false ∧
    get_usecase_from_list (start_voice_call {} false
      { mode := AUDIO_MODE_IN_CALL, out_device := AUDIO_DEVICE_OUT_EARPIECE,
        csd_client := true, csd_disable_device := true, csd_enable_device := true,
        csd_start_voice := false, csd_stop_voice := true }).2.1 USECASE_VOICE_CALL = none ∧
    (start_voice_call {} false
      { mode := AUDIO_MODE_IN_CALL, out_device := AUDIO_DEVICE_OUT_EARPIECE,
        csd_client := true, csd_disable_device := true, csd_enable_device := true,
        csd_start_voice := false, csd_stop_voice := true }).2.2 =
      [action.audio_route_apply_path "handset", action.audio_route_apply_path "handset-mic",
        action.audio_route_update_mixer, action.audio_route_update_mixer,
        action.csd_enable_device 7 4 16, action.audio_route_apply_path "voice-call",
        action.audio_route_update_mixer, action.pcm_open 12 PCM_OUT, action.pcm_open 12 PCM_IN,
        action.pcm_start PCM_OUT, action.pcm_start PCM_IN, action.csd_stop_voice,
        action.pcm_close PCM_OUT, action.pcm_close PCM_IN,
        action.audio_route_reset_path "voice-call", action.audio_route_update_mixer] ∧
    (hal_run false
      { csd_client := true, csd_disable_device := true, csd_enable_device := true,
        csd_start_voice := false, csd_stop_voice := true }
      [hal_op.adev_set_mode AUDIO_MODE_IN_CALL,
        hal_op.out_set_parameters {}
          { usecase := USECASE_AUDIO_PLAYBACK_LOW_LATENCY,
            devices := AUDIO_DEVICE_OUT_SPEAKER, standby := true }
          AUDIO_DEVICE_OUT_EARPIECE]).in_call = false ∧
    (out_set_parameters {} false
      { mode := AUDIO_MODE_IN_CALL, csd_client := true, csd_disable_device := true,
        csd_enable_device := true, csd_start_voice := false, csd_stop_voice := true }
      { usecase := USECASE_AUDIO_PLAYBACK_LOW_LATENCY,
        devices := AUDIO_DEVICE_OUT_SPEAKER, standby := true }
      AUDIO_DEVICE_OUT_EARPIECE).2.2.2 =
      (start_voice_call {} false
        { mode := AUDIO_MODE_IN_CALL, out_device := AUDIO_DEVICE_OUT_EARPIECE,
          csd_client := true, csd_disable_device := true, csd_enable_device := true,
          csd_start_voice := false, csd_stop_voice := true }).2.2 := by
  decide

/-! ## Device switches during a call and at its start (audio_hw.c, lines 625-725 and 1072-1155) -/

/-- The calls of the enable step of the output side: the calibration push with
direction RX, when the entry point is resolved, then the apply of the device
path. -/
theorem enable_snd_device_out_calls (is_tmus : Bool) (adev : audio_device)
    (h : get_output_snd_device is_tmus adev ≠ SND_DEVICE_NONE) :
    (enable_snd_device adev (get_output_snd_device is_tmus adev)).2 =
      (if adev.acdb_send_audio_cal = true then
        [action.acdb_send_audio_cal
          (get_acdb_device_id (get_output_snd_device is_tmus adev)) ACDB_DEV_TYPE_OUT]
      else []) ++
      [action.audio_route_apply_path (device_table (get_output_snd_device is_tmus adev))] := by
  rw [enable_snd_device_calls adev _ h]
  rcases get_output_snd_device_is_out is_tmus adev with h0 | h1
  · exact absurd h0 h
  · rw [h1]
    rfl

/-- The calls of the enable step of the input side: the calibration push with
direction TX, when the entry point is resolved, then the apply of the device
path. -/
theorem enable_snd_device_in_calls (is_tmus : Bool) (adev : audio_device)
    (h : get_input_snd_device is_tmus adev ≠ SND_DEVICE_NONE) :
    (enable_snd_device adev (get_input_snd_device is_tmus adev)).2 =
      (if adev.acdb_send_audio_cal = true then
        [action.acdb_send_audio_cal
          (get_acdb_device_id (get_input_snd_device is_tmus adev)) ACDB_DEV_TYPE_IN]
      else []) ++
      [action.audio_route_apply_path (device_table (get_input_snd_device is_tmus adev))] := by
  rw [enable_snd_device_calls adev _ h, get_input_snd_device_is_in is_tmus adev]
  rfl

/-- C16: when a call is in progress and the voice-signaling library is loaded, a run
of `select_devices` that is not short-circuited issues these calls, in this
order, the in-call switch being taken from the state at entry: the
voice-disable call (when resolved); if the output path is active, the reset of
the path of every playback and voice-call usecase against the current output
device, the commit and the reset of the path of that device; if the input path
is active, the same with the capture usecases and the current input device; if
the selected output device is not `None`, the calibration push for it (when
resolved) and the apply of its path, also when it is the current device; the
same for the selected input device; the commit; the apply of the path of every
usecase against the device of its side; the commit; the voice-enable call.
Afterwards a side is active exactly if its selected device is not `None`, on
that device. -/
theorem select_devices_in_call_switch (x : select_devices_ext) (is_tmus : Bool)
    (adev : audio_device) (hcall : adev.in_call = true) (hcsd : adev.csd_client = true)
    (hns : ¬ (get_output_snd_device is_tmus adev = adev.cur_out_snd_device ∧
      adev.out_snd_device_active = true ∧
      get_input_snd_device is_tmus adev = adev.cur_in_snd_device ∧
      adev.in_snd_device_active = true)) :
    (select_devices x is_tmus adev).2.2 =
      (if adev.csd_disable_device = true then [action.csd_disable_device] else []) ++
      (if adev.out_snd_device_active = true then
          (adev.usecase_list.filter
              (fun u => decide (u.type = PCM_PLAYBACK ∨ u.type = VOICE_CALL))).map
            (fun u => action.audio_route_reset_path
              (add_backend_name (use_case_table u.id) adev.cur_out_snd_device)) ++
          [action.audio_route_update_mixer] ++
          (if adev.cur_out_snd_device = SND_DEVICE_NONE then []
            else [action.audio_route_reset_path (device_table adev.cur_out_snd_device)])
        else []) ++
      (if adev.in_snd_device_active = true then
          (adev.usecase_list.filter (fun u => decide (u.type = PCM_CAPTURE))).map
            (fun u => action.audio_route_reset_path
              (add_backend_name (use_case_table u.id) adev.cur_in_snd_device)) ++
          [action.audio_route_update_mixer] ++
          (if adev.cur_in_snd_device = SND_DEVICE_NONE then []
            else [action.audio_route_reset_path (device_table adev.cur_in_snd_device)])
        else []) ++
      (if get_output_snd_device is_tmus adev ≠ SND_DEVICE_NONE then
          (if adev.acdb_send_audio_cal = true then
            [action.acdb_send_audio_cal
              (get_acdb_device_id (get_output_snd_device is_tmus adev)) ACDB_DEV_TYPE_OUT]
          else []) ++
          [action.audio_route_apply_path (device_table (get_output_snd_device is_tmus adev))]
        else []) ++
      (if get_input_snd_device is_tmus adev ≠ SND_DEVICE_NONE then
          (if adev.acdb_send_audio_cal = true then
            [action.acdb_send_audio_cal
              (get_acdb_device_id (get_input_snd_device is_tmus adev)) ACDB_DEV_TYPE_IN]
          else []) ++
          [action.audio_route_apply_path (device_table (get_input_snd_device is_tmus adev))]
        else []) ++
      [action.audio_route_update_mixer] ++
      adev.usecase_list.map (fun u => action.audio_route_apply_path
        (add_backend_name (use_case_table u.id)
          (if u.type = PCM_PLAYBACK ∨ u.type = VOICE_CALL then
            (if get_output_snd_device is_tmus adev ≠ SND_DEVICE_NONE then
              get_output_snd_device is_tmus adev else adev.cur_out_snd_device)
          else
            (if get_input_snd_device is_tmus adev ≠ SND_DEVICE_NONE then
              get_input_snd_device is_tmus adev else adev.cur_in_snd_device)))) ++
      [action.audio_route_update_mixer] ++
      (if adev.mode = AUDIO_MODE_IN_CALL ∧ adev.csd_enable_device = true then
        [action.csd_enable_device
          (get_acdb_device_id (get_output_snd_device is_tmus adev))
          (get_acdb_device_id (get_input_snd_device is_tmus adev)) adev.acdb_settings]
      else []) ∧
    ((select_devices x is_tmus adev).2.1.out_snd_device_active = true ↔
      get_output_snd_device is_tmus adev ≠ SND_DEVICE_NONE) ∧
    ((select_devices x is_tmus adev).2.1.in_snd_device_active = true ↔
      get_input_snd_device is_tmus adev ≠ SND_DEVICE_NONE) ∧
    (get_output_snd_device is_tmus adev ≠ SND_DEVICE_NONE →
      (select_devices x is_tmus adev).2.1.cur_out_snd_device =
        get_output_snd_device is_tmus adev) ∧
    (get_input_snd_device is_tmus adev ≠ SND_DEVICE_NONE →
      (select_devices x is_tmus adev).2.1.cur_in_snd_device =
        get_input_snd_device is_tmus adev) := by
  obtain ⟨ht, h1, h2, h3, h4⟩ := select_devices_in_call_blocks x is_tmus adev hcall hcsd hns
  refine ⟨?_, h1, h2, h3, h4⟩
  have heo : (if get_output_snd_device is_tmus adev ≠ SND_DEVICE_NONE then
        (enable_snd_device adev (get_output_snd_device is_tmus adev)).2 else []) =
      (if get_output_snd_device is_tmus adev ≠ SND_DEVICE_NONE then
        (if adev.acdb_send_audio_cal = true then
          [action.acdb_send_audio_cal
            (get_acdb_device_id (get_output_snd_device is_tmus adev)) ACDB_DEV_TYPE_OUT]
        else []) ++
        [action.audio_route_apply_path (device_table (get_output_snd_device is_tmus adev))]
      else []) := by
    by_cases h : get_output_snd_device is_tmus adev ≠ SND_DEVICE_NONE
    · rw [if_pos h, if_pos h, enable_snd_device_out_calls is_tmus adev h]
    · rw [if_neg h, if_neg h]
  have hei : (if get_input_snd_device is_tmus adev ≠ SND_DEVICE_NONE then
        (enable_snd_device adev (get_input_snd_device is_tmus adev)).2 else []) =
      (if get_input_snd_device is_tmus adev ≠ SND_DEVICE_NONE then
        (if adev.acdb_send_audio_cal = true then
          [action.acdb_send_audio_cal
            (get_acdb_device_id (get_input_snd_device is_tmus adev)) ACDB_DEV_TYPE_IN]
        else []) ++
        [action.audio_route_apply_path (device_table (get_input_snd_device is_tmus adev))]
      else []) := by
    by_cases h : get_input_snd_device is_tmus adev ≠ SND_DEVICE_NONE
    · rw [if_pos h, if_pos h, enable_snd_device_in_calls is_tmus adev h]
    · rw [if_neg h, if_neg h]
  have hce : (if adev.mode = AUDIO_MODE_IN_CALL ∧ adev.csd_client = true ∧
        adev.csd_enable_device = true then
        [action.csd_enable_device
          (get_acdb_device_id (get_output_snd_device is_tmus adev))
          (get_acdb_device_id (get_input_snd_device is_tmus adev)) adev.acdb_settings]
      else []) =
      (if adev.mode = AUDIO_MODE_IN_CALL ∧ adev.csd_enable_device = true then
        [action.csd_enable_device
          (get_acdb_device_id (get_output_snd_device is_tmus adev))
          (get_acdb_device_id (get_input_snd_device is_tmus adev)) adev.acdb_settings]
      else []) := by
    by_cases h : adev.mode = AUDIO_MODE_IN_CALL ∧ adev.csd_enable_device = true
    · rw [if_pos ⟨h.1, hcsd, h.2⟩, if_pos h]
    · rw [if_neg (fun hh => h ⟨hh.1, hh.2.2⟩), if_neg h]
  rw [ht, heo, hei, hce, disable_out_routes_eq, disable_in_routes_eq, enable_routes_eq,
    disable_snd_device_snd adev.cur_out_snd_device,
    disable_snd_device_snd adev.cur_in_snd_device]

/-- The path `add_backend_name` builds is the path itself or the path with one of
the three backend suffixes. -/
theorem add_backend_name_cases (p : String) (d : snd_device_t) :
    add_backend_name p d = p ∨ add_backend_name p d = p ++ " hdmi" ∨
      add_backend_name p d = p ++ " bt-sco" ∨
      add_backend_name p d = p ++ " speaker-and-hdmi" := by
  simp only [add_backend_name]
  split_ifs <;> simp

/-- No usecase path is the path of a sound device. -/
theorem usecase_path_ne_device_path (u : audio_usecase_t) (d' d : snd_device_t) :
    add_backend_name (use_case_table u) d' ≠ device_table d := by
  rcases add_backend_name_cases (use_case_table u) d' with h | h | h | h <;> rw [h] <;>
    cases u <;> cases d <;> decide

/-- A run of `select_devices` made with no call in progress on a state whose output
path is active on the selected output device and whose input path is settled
(active on the selected input device, or no input device selected and the path
not active or on no device) resets and applies the path of no sound device, and
leaves the output path active on its device. -/
theorem select_devices_settled (x : select_devices_ext) (is_tmus : Bool) (a : audio_device)
    (hcall : a.in_call = false)
    (ho : get_output_snd_device is_tmus a = a.cur_out_snd_device)
    (hoa : a.out_snd_device_active = true)
    (hi1 : get_input_snd_device is_tmus a ≠ SND_DEVICE_NONE →
      a.in_snd_device_active = true ∧ a.cur_in_snd_device = get_input_snd_device is_tmus a)
    (hi2 : get_input_snd_device is_tmus a = SND_DEVICE_NONE →
      a.in_snd_device_active = false ∨ a.cur_in_snd_device = SND_DEVICE_NONE) :
    (∀ act ∈ (select_devices x is_tmus a).2.2, ∀ d : snd_device_t,
      act ≠ action.audio_route_reset_path (device_table d) ∧
      act ≠ action.audio_route_apply_path (device_table d)) ∧
    (select_devices x is_tmus a).2.1.out_snd_device_active = true ∧
    (select_devices x is_tmus a).2.1.cur_out_snd_device = a.cur_out_snd_device := by
  have hsw : (a.in_call && a.csd_client) = false := by rw [hcall]; rfl
  by_cases hsc : get_output_snd_device is_tmus a = a.cur_out_snd_device ∧
      a.out_snd_device_active = true ∧
      get_input_snd_device is_tmus a = a.cur_in_snd_device ∧
      a.in_snd_device_active = true
  · have hs : select_devices x is_tmus a = (0, a, []) := by
      simp only [select_devices]
      rw [if_pos hsc]
    rw [hs]
    exact ⟨fun act h => absurd h (List.not_mem_nil _), hoa, rfl⟩
  · have hin : get_input_snd_device is_tmus a = SND_DEVICE_NONE := by
      by_contra h
      exact hsc ⟨ho, hoa, (hi1 h).2.symm, (hi1 h).1⟩
    have hcd : (select_devices_csd_disable x a).2 = [] := by
      simp only [select_devices_csd_disable]
      rw [if_neg (by
        rintro ⟨h1, _⟩
        rw [hcall] at h1
        exact absurd h1 (by decide))]
    have hdo : ∀ A : List action,
        (if (get_output_snd_device is_tmus a ≠ a.cur_out_snd_device ∨
            false = true) ∧ a.out_snd_device_active = true then A else []) = [] := by
      intro A
      apply if_neg
      rintro ⟨h1 | h1, _⟩
      · exact h1 ho
      · exact absurd h1 (by decide)
    have hdi : ∀ A : List action,
        (if (get_input_snd_device is_tmus a ≠ a.cur_in_snd_device ∨
            false = true) ∧ a.in_snd_device_active = true then A else []) = [] := by
      intro A
      apply if_neg
      rintro ⟨h1 | h1, h2⟩
      · rcases hi2 hin with h3 | h3
        · rw [h3] at h2
          exact absurd h2 (by decide)
        · exact h1 (hin.trans h3.symm)
      · exact absurd h1 (by decide)
    have heo : ∀ A : List action,
        (if get_output_snd_device is_tmus a ≠ SND_DEVICE_NONE ∧
            (a.out_snd_device_active = false ∨
              get_output_snd_device is_tmus a ≠ a.cur_out_snd_device ∨
              false = true) then A else []) = [] := by
      intro A
      apply if_neg
      rintro ⟨_, h1 | h1 | h1⟩
      · rw [hoa] at h1
        exact absurd h1 (by decide)
      · exact h1 ho
      · exact absurd h1 (by decide)
    have hei : ∀ A : List action,
        (if get_input_snd_device is_tmus a ≠ SND_DEVICE_NONE ∧
            (a.in_snd_device_active = false ∨
              get_input_snd_device is_tmus a ≠ a.cur_in_snd_device ∨
              false = true) then A else []) = [] := by
      intro A
      apply if_neg
      rintro ⟨h1, _⟩
      exact h1 hin
    refine ⟨?_, ?_, ?_⟩
    · rw [select_devices_trace x is_tmus a hsc, hcd, hsw, hdo, hdi, heo, hei, enable_routes_eq]
      intro act hact d
      simp only [List.nil_append, List.mem_append, List.mem_cons, List.mem_map,
        List.mem_singleton, List.not_mem_nil, or_false] at hact
      rcases hact with ((hact | ⟨u, _, hact⟩) | hact) | hact
      · rw [hact]
        exact ⟨fun h => action.noConfusion h, fun h => action.noConfusion h⟩
      · rw [← hact]
        refine ⟨fun h => action.noConfusion h, fun h => ?_⟩
        exact usecase_path_ne_device_path _ _ _ (action.audio_route_apply_path.inj h)
      · rw [hact]
        exact ⟨fun h => action.noConfusion h, fun h => action.noConfusion h⟩
      · split_ifs at hact
        · rw [List.mem_singleton] at hact
          rw [hact]
          exact ⟨fun h => action.noConfusion h, fun h => action.noConfusion h⟩
        · exact absurd hact (List.not_mem_nil _)
    · rw [select_devices_state x is_tmus a hsc, hsw]
      by_cases h : get_output_snd_device is_tmus a = SND_DEVICE_NONE
      · simp [h, ho.symm.trans h, hoa]
      · simp [h]
    · rw [select_devices_state x is_tmus a hsc, hsw]
      by_cases h : get_output_snd_device is_tmus a = SND_DEVICE_NONE
      · simp [h]
      · simp [h, ho]
/-- The selectors read none of the call flag, the two voice endpoints and the
registry. -/
theorem selectors_call_frame (is_tmus : Bool) (adev : audio_device) (ic : Bool)
    (rx tx : Option pcm_t) (l : List audio_usecase) :
    get_output_snd_device is_tmus
        { adev with in_call := ic, voice_call_rx := rx, voice_call_tx := tx,
                    usecase_list := l } =
        get_output_snd_device is_tmus adev ∧
      get_input_snd_device is_tmus
        { adev with in_call := ic, voice_call_rx := rx, voice_call_tx := tx,
                    usecase_list := l } =
        get_input_snd_device is_tmus adev :=
  ⟨rfl, rfl⟩

/-- On a state whose output path is active on the selected output device and whose
input path is settled, `stop_voice_call` resets and applies the path of no sound
device, and leaves the output path active on its device. -/
theorem stop_voice_call_settled (x : select_devices_ext) (is_tmus : Bool) (b : audio_device)
    (ho : get_output_snd_device is_tmus b = b.cur_out_snd_device)
    (hoa : b.out_snd_device_active = true)
    (hi1 : get_input_snd_device is_tmus b ≠ SND_DEVICE_NONE →
      b.in_snd_device_active = true ∧ b.cur_in_snd_device = get_input_snd_device is_tmus b)
    (hi2 : get_input_snd_device is_tmus b = SND_DEVICE_NONE →
      b.in_snd_device_active = false ∨ b.cur_in_snd_device = SND_DEVICE_NONE) :
    (∀ act ∈ (stop_voice_call x is_tmus b).2.2, ∀ d : snd_device_t,
      act ≠ action.audio_route_reset_path (device_table d) ∧
      act ≠ action.audio_route_apply_path (device_table d)) ∧
    (stop_voice_call x is_tmus b).2.1.out_snd_device_active = true ∧
    (stop_voice_call x is_tmus b).2.1.cur_out_snd_device = b.cur_out_snd_device := by
  have hpre : ∀ act ∈
      (if b.voice_call_tx ≠ none then
        (if b.voice_call_rx ≠ none then
          (if b.csd_client = true ∧ b.csd_stop_voice = true then [action.csd_stop_voice]
            else []) ++ [action.pcm_close PCM_OUT]
          else
            (if b.csd_client = true ∧ b.csd_stop_voice = true then [action.csd_stop_voice]
              else [])) ++ [action.pcm_close PCM_IN]
        else
          (if b.voice_call_rx ≠ none then
            (if b.csd_client = true ∧ b.csd_stop_voice = true then [action.csd_stop_voice]
              else []) ++ [action.pcm_close PCM_OUT]
          else
            (if b.csd_client = true ∧ b.csd_stop_voice = true then [action.csd_stop_voice]
              else []))), ∀ d : snd_device_t,
      act ≠ action.audio_route_reset_path (device_table d) ∧
      act ≠ action.audio_route_apply_path (device_table d) := by
    intro act hact d
    split_ifs at hact <;>
      simp only [List.mem_append, List.mem_singleton, List.not_mem_nil, false_or,
        List.nil_append] at hact <;>
      first
        | exact absurd hact (fun h => h)
        | (rcases hact with (h | h) | h <;> rw [h] <;>
            exact ⟨fun h => action.noConfusion h, fun h => action.noConfusion h⟩)
        | (rcases hact with h | h <;> rw [h] <;>
            exact ⟨fun h => action.noConfusion h, fun h => action.noConfusion h⟩)
        | (rw [hact]
           exact ⟨fun h => action.noConfusion h, fun h => action.noConfusion h⟩)
  simp only [stop_voice_call]
  split
  · exact ⟨hpre, hoa, rfl⟩
  · rename_i uc _
    obtain ⟨h1, h2, h3⟩ := select_devices_settled x is_tmus
      (remove_usecase_from_list
        { b with in_call := false, voice_call_rx := none, voice_call_tx := none } uc.id)
      rfl ho hoa hi1 hi2
    refine ⟨?_, h2, h3⟩
    intro act hact d
    simp only [List.mem_append, disable_audio_route, List.mem_singleton] at hact
    rcases hact with ((hact | hact) | hact) | hact
    · exact hpre act hact d
    · rw [hact]
      exact ⟨fun h =>
        usecase_path_ne_device_path _ _ _ (action.audio_route_reset_path.inj h),
        fun h => action.noConfusion h⟩
    · rw [hact]
      exact ⟨fun h => action.noConfusion h, fun h => action.noConfusion h⟩
    · exact h1 act hact d
/-- After the run of `select_devices` at the start of `start_voice_call`, entered
with the output path active on the selected output device, no call is in
progress, the output path is active on the same device, which is the selected
one, and the input path is settled. -/
theorem select_devices_same_output_settles (x : select_devices_ext) (is_tmus : Bool)
    (adev : audio_device) (hcall : adev.in_call = false)
    (hactive : adev.out_snd_device_active = true)
    (hsame : get_output_snd_device is_tmus adev = adev.cur_out_snd_device) :
    (select_devices x is_tmus adev).2.1.in_call = false ∧
    get_output_snd_device is_tmus (select_devices x is_tmus adev).2.1 =
      (select_devices x is_tmus adev).2.1.cur_out_snd_device ∧
    (select_devices x is_tmus adev).2.1.out_snd_device_active = true ∧
    (select_devices x is_tmus adev).2.1.cur_out_snd_device = adev.cur_out_snd_device ∧
    (get_input_snd_device is_tmus (select_devices x is_tmus adev).2.1 ≠ SND_DEVICE_NONE →
      (select_devices x is_tmus adev).2.1.in_snd_device_active = true ∧
      (select_devices x is_tmus adev).2.1.cur_in_snd_device =
        get_input_snd_device is_tmus (select_devices x is_tmus adev).2.1) ∧
    (get_input_snd_device is_tmus (select_devices x is_tmus adev).2.1 = SND_DEVICE_NONE →
      (select_devices x is_tmus adev).2.1.in_snd_device_active = false ∨
      (select_devices x is_tmus adev).2.1.cur_in_snd_device = SND_DEVICE_NONE) := by
  obtain ⟨po, pi, pc, _, _, pin, _, _⟩ := select_devices_post x is_tmus adev
  obtain ⟨_, _, hoa, hco⟩ :=
    select_devices_same_output_blocks { select := x } is_tmus adev hcall hactive hsame
  have hsw : (adev.in_call && adev.csd_client) = false := by rw [hcall]; rfl
  refine ⟨pc.trans hcall, ?_, hoa, hco, ?_, ?_⟩
  · rw [po, hsame]
    exact hco.symm
  · intro h
    rw [pi] at h ⊢
    exact pin h
  · intro h
    rw [pi] at h
    by_cases hsc : get_output_snd_device is_tmus adev = adev.cur_out_snd_device ∧
        adev.out_snd_device_active = true ∧
        get_input_snd_device is_tmus adev = adev.cur_in_snd_device ∧
        adev.in_snd_device_active = true
    · have hs : select_devices x is_tmus adev = (0, adev, []) := by
        simp only [select_devices]
        rw [if_pos hsc]
      rw [hs]
      exact Or.inr (hsc.2.2.1.symm.trans h)
    · rw [select_devices_state x is_tmus adev hsc, hsw]
      by_cases hc : adev.cur_in_snd_device = SND_DEVICE_NONE
      · right
        simp [h, hc]
      · left
        have hne : ¬ (SND_DEVICE_NONE = adev.cur_in_snd_device) := fun hh => hc hh.symm
        simp [h, hne]
/-- What `start_voice_call` does after its run of `select_devices`, when it is
entered with no call in progress and the output path active on the selected
output device: the calls that follow reset and apply the path of no sound
device; if the call is started they are the apply of the voice-call path, the
commit, the opening and the start of the two endpoints and the start call of the
voice-signaling library; the output path stays active on its device. -/
theorem start_voice_call_rest (x : start_voice_call_ext) (is_tmus : Bool)
    (adev : audio_device) (hcall : adev.in_call = false)
    (hactive : adev.out_snd_device_active = true)
    (hsame : get_output_snd_device is_tmus adev = adev.cur_out_snd_device) :
    (∃ rest : List action,
      (start_voice_call x is_tmus adev).2.2 =
        (select_devices x.select is_tmus adev).2.2 ++ rest ∧
      (∀ act ∈ rest, ∀ d : snd_device_t,
        act ≠ action.audio_route_reset_path (device_table d) ∧
        act ≠ action.audio_route_apply_path (device_table d)) ∧
      ((start_voice_call x is_tmus adev).2.1.in_call = true →
        rest =
          [action.audio_route_apply_path
              (add_backend_name (use_case_table USECASE_VOICE_CALL) adev.cur_out_snd_device),
            action.audio_route_update_mixer,
            action.pcm_open (get_pcm_device_id USECASE_VOICE_CALL PCM_PLAYBACK) PCM_OUT,
            action.pcm_open (get_pcm_device_id USECASE_VOICE_CALL PCM_CAPTURE) PCM_IN,
            action.pcm_start PCM_OUT, action.pcm_start PCM_IN] ++
          (if adev.csd_client = true then [action.csd_start_voice] else []))) ∧
    (start_voice_call x is_tmus adev).2.1.out_snd_device_active = true ∧
    (start_voice_call x is_tmus adev).2.1.cur_out_snd_device = adev.cur_out_snd_device := by
  obtain ⟨sc, so, soa, sco, si1, si2⟩ :=
    select_devices_same_output_settles x.select is_tmus adev hcall hactive hsame
  have hcsd := (select_devices_keeps x.select is_tmus adev).2.1
  have hsimple : ∀ act ∈
      [action.audio_route_apply_path
          (add_backend_name (use_case_table USECASE_VOICE_CALL)
            (select_devices x.select is_tmus adev).2.1.cur_out_snd_device),
        action.audio_route_update_mixer,
        action.pcm_open (get_pcm_device_id USECASE_VOICE_CALL PCM_PLAYBACK) PCM_OUT,
        action.pcm_open (get_pcm_device_id USECASE_VOICE_CALL PCM_CAPTURE) PCM_IN,
        action.pcm_start PCM_OUT, action.pcm_start PCM_IN, action.csd_start_voice],
      ∀ d : snd_device_t,
        act ≠ action.audio_route_reset_path (device_table d) ∧
        act ≠ action.audio_route_apply_path (device_table d) := by
    intro act h d
    simp only [List.mem_cons, List.mem_singleton, List.not_mem_nil, or_false] at h
    rcases h with h | h | h | h | h | h | h <;> rw [h]
    · exact ⟨fun h => action.noConfusion h, fun h =>
        usecase_path_ne_device_path _ _ _ (action.audio_route_apply_path.inj h)⟩
    all_goals exact ⟨fun h => action.noConfusion h, fun h => action.noConfusion h⟩
  have herr : ∀ (ret : Int) (B : audio_device) (pre R : List action),
      get_output_snd_device is_tmus B = B.cur_out_snd_device →
      B.out_snd_device_active = true →
      (get_input_snd_device is_tmus B ≠ SND_DEVICE_NONE →
        B.in_snd_device_active = true ∧
        B.cur_in_snd_device = get_input_snd_device is_tmus B) →
      (get_input_snd_device is_tmus B = SND_DEVICE_NONE →
        B.in_snd_device_active = false ∨ B.cur_in_snd_device = SND_DEVICE_NONE) →
      B.cur_out_snd_device = adev.cur_out_snd_device →
      (∀ act ∈ pre, ∀ d : snd_device_t,
        act ≠ action.audio_route_reset_path (device_table d) ∧
        act ≠ action.audio_route_apply_path (device_table d)) →
      (∃ rest : List action,
        (start_voice_call_error x is_tmus ret B
          ((select_devices x.select is_tmus adev).2.2 ++ pre)).2.2 =
          (select_devices x.select is_tmus adev).2.2 ++ rest ∧
        (∀ act ∈ rest, ∀ d : snd_device_t,
          act ≠ action.audio_route_reset_path (device_table d) ∧
          act ≠ action.audio_route_apply_path (device_table d)) ∧
        ((start_voice_call_error x is_tmus ret B
          ((select_devices x.select is_tmus adev).2.2 ++ pre)).2.1.in_call = true →
          rest = R)) ∧
      (start_voice_call_error x is_tmus ret B
        ((select_devices x.select is_tmus adev).2.2 ++ pre)).2.1.out_snd_device_active = true ∧
      (start_voice_call_error x is_tmus ret B
        ((select_devices x.select is_tmus adev).2.2 ++ pre)).2.1.cur_out_snd_device =
        adev.cur_out_snd_device := by
    intro ret B pre R bo boa bi1 bi2 bco hpre
    obtain ⟨h1, h2, h3⟩ := stop_voice_call_settled x.unwind is_tmus B bo boa bi1 bi2
    refine ⟨⟨pre ++ (stop_voice_call x.unwind is_tmus B).2.2, ?_, ?_, ?_⟩, h2, h3.trans bco⟩
    · simp only [start_voice_call_error, List.append_assoc]
    · intro act hact d
      rcases List.mem_append.mp hact with h | h
      · exact hpre act h d
      · exact h1 act h d
    · intro hin
      have hf := stop_voice_call_in_call x.unwind is_tmus B
      simp only [start_voice_call_error] at hin
      rw [hf] at hin
      exact absurd hin (by decide)
  have hS : ∀ (rx tx : Option pcm_t),
      get_output_snd_device is_tmus
          { add_usecase_to_list (select_devices x.select is_tmus adev).2.1
              { id := USECASE_VOICE_CALL, type := VOICE_CALL, devices := adev.out_device } with
            voice_call_rx := rx, voice_call_tx := tx } =
        (select_devices x.select is_tmus adev).2.1.cur_out_snd_device ∧
      (get_input_snd_device is_tmus
          { add_usecase_to_list (select_devices x.select is_tmus adev).2.1
              { id := USECASE_VOICE_CALL, type := VOICE_CALL, devices := adev.out_device } with
            voice_call_rx := rx, voice_call_tx := tx } ≠ SND_DEVICE_NONE →
        (select_devices x.select is_tmus adev).2.1.in_snd_device_active = true ∧
        (select_devices x.select is_tmus adev).2.1.cur_in_snd_device =
          get_input_snd_device is_tmus
            { add_usecase_to_list (select_devices x.select is_tmus adev).2.1
                { id := USECASE_VOICE_CALL, type := VOICE_CALL,
                  devices := adev.out_device } with
              voice_call_rx := rx, voice_call_tx := tx }) ∧
      (get_input_snd_device is_tmus
          { add_usecase_to_list (select_devices x.select is_tmus adev).2.1
              { id := USECASE_VOICE_CALL, type := VOICE_CALL, devices := adev.out_device } with
            voice_call_rx := rx, voice_call_tx := tx } = SND_DEVICE_NONE →
        (select_devices x.select is_tmus adev).2.1.in_snd_device_active = false ∨
        (select_devices x.select is_tmus adev).2.1.cur_in_snd_device = SND_DEVICE_NONE) := by
    intro rx tx
    have hB := selectors_call_frame is_tmus (select_devices x.select is_tmus adev).2.1
      (select_devices x.select is_tmus adev).2.1.in_call rx tx
      ({ id := USECASE_VOICE_CALL, type := VOICE_CALL, devices := adev.out_device } ::
        (select_devices x.select is_tmus adev).2.1.usecase_list)
    have k1 : ∀ v : snd_device_t,
        v = get_input_snd_device is_tmus (select_devices x.select is_tmus adev).2.1 →
        v ≠ SND_DEVICE_NONE →
        (select_devices x.select is_tmus adev).2.1.in_snd_device_active = true ∧
        (select_devices x.select is_tmus adev).2.1.cur_in_snd_device = v := by
      intro v hv
      rw [hv]
      exact si1
    have k2 : ∀ v : snd_device_t,
        v = get_input_snd_device is_tmus (select_devices x.select is_tmus adev).2.1 →
        v = SND_DEVICE_NONE →
        (select_devices x.select is_tmus adev).2.1.in_snd_device_active = false ∨
        (select_devices x.select is_tmus adev).2.1.cur_in_snd_device = SND_DEVICE_NONE := by
      intro v hv
      rw [hv]
      exact si2
    exact ⟨hB.1.trans so, k1 _ hB.2, k2 _ hB.2⟩
  have hmem : ∀ (l : List action),
      (∀ act ∈ l, act ∈
        [action.audio_route_apply_path
            (add_backend_name (use_case_table USECASE_VOICE_CALL)
              (select_devices x.select is_tmus adev).2.1.cur_out_snd_device),
          action.audio_route_update_mixer,
          action.pcm_open (get_pcm_device_id USECASE_VOICE_CALL PCM_PLAYBACK) PCM_OUT,
          action.pcm_open (get_pcm_device_id USECASE_VOICE_CALL PCM_CAPTURE) PCM_IN,
          action.pcm_start PCM_OUT, action.pcm_start PCM_IN, action.csd_start_voice]) →
      ∀ act ∈ l, ∀ d : snd_device_t,
        act ≠ action.audio_route_reset_path (device_table d) ∧
        act ≠ action.audio_route_apply_path (device_table d) :=
    fun l hl act hact => hsimple act (hl act hact)
  rw [← hcsd]
  simp only [start_voice_call, List.append_assoc]
  by_cases c1 : (select_devices x.select is_tmus adev).1 ≠ 0
  · simp only [if_pos c1]
    exact ⟨⟨[], (List.append_nil _).symm, fun act h => absurd h (List.not_mem_nil _),
      fun h => absurd (sc.symm.trans h) (by decide)⟩, soa, sco⟩
  simp only [if_neg c1]
  by_cases c2 : get_pcm_device_id USECASE_VOICE_CALL PCM_PLAYBACK < 0 ∨
      get_pcm_device_id USECASE_VOICE_CALL PCM_CAPTURE < 0
  · simp only [if_pos c2]
    refine herr _ _ _ _
      (hS (select_devices x.select is_tmus adev).2.1.voice_call_rx
        (select_devices x.select is_tmus adev).2.1.voice_call_tx).1 soa
      (hS (select_devices x.select is_tmus adev).2.1.voice_call_rx
        (select_devices x.select is_tmus adev).2.1.voice_call_tx).2.1
      (hS (select_devices x.select is_tmus adev).2.1.voice_call_rx
        (select_devices x.select is_tmus adev).2.1.voice_call_tx).2.2 sco (hmem _ ?_)
    intro act hact
    simp only [enable_audio_route, List.mem_append, List.mem_cons, List.mem_singleton,
      List.not_mem_nil, or_false] at hact ⊢
    rcases hact with h | h <;> simp [h]
  simp only [if_neg c2]
  by_cases c3 : pcm_open_failed x.pcm_open_rx = true
  · simp only [if_pos c3]
    refine herr _ _ _ _
      (hS x.pcm_open_rx (select_devices x.select is_tmus adev).2.1.voice_call_tx).1 soa
      (hS x.pcm_open_rx (select_devices x.select is_tmus adev).2.1.voice_call_tx).2.1
      (hS x.pcm_open_rx (select_devices x.select is_tmus adev).2.1.voice_call_tx).2.2 sco
      (hmem _ ?_)
    intro act hact
    simp only [enable_audio_route, List.mem_append, List.mem_cons, List.mem_singleton,
      List.not_mem_nil, or_false] at hact ⊢
    rcases hact with h | h | h <;> simp [h]
  simp only [if_neg c3]
  by_cases c4 : pcm_open_failed x.pcm_open_tx = true
  · simp only [if_pos c4]
    refine herr _ _ _ _
      (hS x.pcm_open_rx x.pcm_open_tx).1 soa
      (hS x.pcm_open_rx x.pcm_open_tx).2.1
      (hS x.pcm_open_rx x.pcm_open_tx).2.2 sco (hmem _ ?_)
    intro act hact
    simp only [enable_audio_route, List.mem_append, List.mem_cons, List.mem_singleton,
      List.not_mem_nil, or_false] at hact ⊢
    rcases hact with h | h | h | h <;> simp [h]
  simp only [if_neg c4]
  by_cases c5 : (add_usecase_to_list (select_devices x.select is_tmus adev).2.1
      { id := USECASE_VOICE_CALL, type := VOICE_CALL, devices := adev.out_device }).csd_client = true
  · have c5s : (select_devices x.select is_tmus adev).2.1.csd_client = true := c5
    simp only [if_pos c5, if_pos c5s]
    by_cases c6 : (add_usecase_to_list (select_devices x.select is_tmus adev).2.1
      { id := USECASE_VOICE_CALL, type := VOICE_CALL, devices := adev.out_device }).csd_start_voice = false
    · simp only [if_pos c6]
      refine herr _ _ _ _
        (hS x.pcm_open_rx x.pcm_open_tx).1 soa
        (hS x.pcm_open_rx x.pcm_open_tx).2.1
        (hS x.pcm_open_rx x.pcm_open_tx).2.2 sco (hmem _ ?_)
      intro act hact
      simp only [enable_audio_route, List.mem_append, List.mem_cons, List.mem_singleton,
        List.not_mem_nil, or_false] at hact ⊢
      rcases hact with h | h | h | h | h | h <;> simp [h]
    simp only [if_neg c6]
    by_cases c7 : x.csd_start_voice < 0
    · simp only [if_pos c7]
      refine herr _ _ _ _
        (hS x.pcm_open_rx x.pcm_open_tx).1 soa
        (hS x.pcm_open_rx x.pcm_open_tx).2.1
        (hS x.pcm_open_rx x.pcm_open_tx).2.2 sco (hmem _ ?_)
      intro act hact
      simp only [enable_audio_route, List.mem_append, List.mem_cons, List.mem_singleton,
        List.not_mem_nil, or_false] at hact ⊢
      rcases hact with h | h | h | h | (h | h) | h <;> simp [h]
    simp only [if_neg c7]
    refine ⟨⟨_, rfl, hmem _ ?_, ?_⟩, soa, sco⟩
    · intro act hact
      simp only [enable_audio_route, List.mem_append, List.mem_cons, List.mem_singleton,
        List.not_mem_nil, or_false] at hact ⊢
      rcases hact with h | h | h | h | (h | h) | h <;> simp [h]
    · intro _
      rw [← sco]
      rfl
  · have c5s : ¬ (select_devices x.select is_tmus adev).2.1.csd_client = true := c5
    simp only [if_neg c5, if_neg c5s]
    refine ⟨⟨_, rfl, hmem _ ?_, ?_⟩, soa, sco⟩
    · intro act hact
      simp only [enable_audio_route, List.mem_append, List.mem_cons, List.mem_singleton,
        List.not_mem_nil, or_false] at hact ⊢
      rcases hact with h | h | h | h | h | h <;> simp [h]
    · intro _
      rw [← sco]
      rfl
/-- C17, amended: `start_voice_call`, entered with the in-call flag still false
while the output path is active on the sound device the output selector
resolves to, performs no disable and no enable of the output path, which is
active on the same device when the function returns, on every path through it.
Its calls begin with those of its run of `select_devices`: none when the input
path is active on the selected input device; otherwise, if the input path is
active on another device, the reset of the path of every capture usecase against
the current input device, the commit and the reset of the path of that device;
if the selected input device is not `None` and the path is not active on it, the
calibration push for it (direction TX, when resolved) and the apply of its
path; the commit; the apply of the path of every usecase against the device of
its side; the commit; the voice-enable call.  The calls that follow reset and
apply the path of no sound device; when the call is started they are the apply
of the voice-call path, the commit, the opening and the start of the two
endpoints and the start call of the voice-signaling library. -/
theorem start_voice_call_same_output (x : start_voice_call_ext) (is_tmus : Bool)
    (adev : audio_device) (hcall : adev.in_call = false)
    (hactive : adev.out_snd_device_active = true)
    (hsame : get_output_snd_device is_tmus adev = adev.cur_out_snd_device) :
    (∃ rest : List action,
      (start_voice_call x is_tmus adev).2.2 =
        (if get_input_snd_device is_tmus adev = adev.cur_in_snd_device ∧
            adev.in_snd_device_active = true then []
        else
          (if get_input_snd_device is_tmus adev ≠ adev.cur_in_snd_device ∧
                adev.in_snd_device_active = true then
              (adev.usecase_list.filter (fun u => decide (u.type = PCM_CAPTURE))).map
                (fun u => action.audio_route_reset_path
                  (add_backend_name (use_case_table u.id) adev.cur_in_snd_device)) ++
              [action.audio_route_update_mixer] ++
              (if adev.cur_in_snd_device = SND_DEVICE_NONE then []
                else [action.audio_route_reset_path (device_table adev.cur_in_snd_device)])
            else []) ++
          (if get_input_snd_device is_tmus adev ≠ SND_DEVICE_NONE ∧
                (adev.in_snd_device_active = false ∨
                  get_input_snd_device is_tmus adev ≠ adev.cur_in_snd_device) then
              (if adev.acdb_send_audio_cal = true then
                [action.acdb_send_audio_cal
                  (get_acdb_device_id (get_input_snd_device is_tmus adev)) ACDB_DEV_TYPE_IN]
              else []) ++
              [action.audio_route_apply_path
                (device_table (get_input_snd_device is_tmus adev))]
            else []) ++
          [action.audio_route_update_mixer] ++
          adev.usecase_list.map (fun u => action.audio_route_apply_path
            (add_backend_name (use_case_table u.id)
              (if u.type = PCM_PLAYBACK ∨ u.type = VOICE_CALL then adev.cur_out_snd_device
              else
                (if get_input_snd_device is_tmus adev ≠ SND_DEVICE_NONE then
                  get_input_snd_device is_tmus adev else adev.cur_in_snd_device)))) ++
          [action.audio_route_update_mixer] ++
          (if adev.mode = AUDIO_MODE_IN_CALL ∧ adev.csd_client = true ∧
              adev.csd_enable_device = true then
            [action.csd_enable_device
              (get_acdb_device_id (get_output_snd_device is_tmus adev))
              (get_acdb_device_id (get_input_snd_device is_tmus adev)) adev.acdb_settings]
          else [])) ++ rest ∧
      (∀ act ∈ rest, ∀ d : snd_device_t,
        act ≠ action.audio_route_reset_path (device_table d) ∧
        act ≠ action.audio_route_apply_path (device_table d)) ∧
      ((start_voice_call x is_tmus adev).2.1.in_call = true →
        rest =
          [action.audio_route_apply_path
              (add_backend_name (use_case_table USECASE_VOICE_CALL) adev.cur_out_snd_device),
            action.audio_route_update_mixer,
            action.pcm_open (get_pcm_device_id USECASE_VOICE_CALL PCM_PLAYBACK) PCM_OUT,
            action.pcm_open (get_pcm_device_id USECASE_VOICE_CALL PCM_CAPTURE) PCM_IN,
            action.pcm_start PCM_OUT, action.pcm_start PCM_IN] ++
          (if adev.csd_client = true then [action.csd_start_voice] else []))) ∧
    (start_voice_call x is_tmus adev).2.1.out_snd_device_active = true ∧
    (start_voice_call x is_tmus adev).2.1.cur_out_snd_device = adev.cur_out_snd_device := by
  obtain ⟨⟨rest, h1, h2, h3⟩, h4, h5⟩ := start_voice_call_rest x is_tmus adev hcall hactive hsame
  obtain ⟨_, hb, _, _⟩ :=
    select_devices_same_output_blocks x is_tmus adev hcall hactive hsame
  refine ⟨⟨rest, ?_, h2, h3⟩, h4, h5⟩
  have hei : (if get_input_snd_device is_tmus adev ≠ SND_DEVICE_NONE ∧
        (adev.in_snd_device_active = false ∨
          get_input_snd_device is_tmus adev ≠ adev.cur_in_snd_device) then
        (enable_snd_device adev (get_input_snd_device is_tmus adev)).2 else []) =
      (if get_input_snd_device is_tmus adev ≠ SND_DEVICE_NONE ∧
        (adev.in_snd_device_active = false ∨
          get_input_snd_device is_tmus adev ≠ adev.cur_in_snd_device) then
        (if adev.acdb_send_audio_cal = true then
          [action.acdb_send_audio_cal
            (get_acdb_device_id (get_input_snd_device is_tmus adev)) ACDB_DEV_TYPE_IN]
        else []) ++
        [action.audio_route_apply_path (device_table (get_input_snd_device is_tmus adev))]
      else []) := by
    by_cases h : get_input_snd_device is_tmus adev ≠ SND_DEVICE_NONE ∧
        (adev.in_snd_device_active = false ∨
          get_input_snd_device is_tmus adev ≠ adev.cur_in_snd_device)
    · rw [if_pos h, if_pos h, enable_snd_device_in_calls is_tmus adev h.1]
    · rw [if_neg h, if_neg h]
  rw [h1, hb, hei, disable_in_routes_eq, enable_routes_eq,
    disable_snd_device_snd adev.cur_in_snd_device]

/-! ## Instances

Each statement above that has hypotheses, applied to a concrete device state. -/

/-- C1 at wired headset + Bluetooth SCO outside call mode: an invalid combination. -/
theorem get_output_snd_device_two_bit_combo_witness :
    popcount (AUDIO_DEVICE_OUT_WIRED_HEADSET ||| AUDIO_DEVICE_OUT_BLUETOOTH_SCO) = 2 ∧
      (AUDIO_DEVICE_OUT_WIRED_HEADSET ||| AUDIO_DEVICE_OUT_BLUETOOTH_SCO) &&&
        AUDIO_DEVICE_BIT_IN = 0 ∧
      get_output_snd_device false
        { out_device := AUDIO_DEVICE_OUT_WIRED_HEADSET ||| AUDIO_DEVICE_OUT_BLUETOOTH_SCO } =
        SND_DEVICE_NONE :=
  ⟨by decide, by decide,
    (get_output_snd_device_two_bit_combo false
      { out_device := AUDIO_DEVICE_OUT_WIRED_HEADSET ||| AUDIO_DEVICE_OUT_BLUETOOTH_SCO }
      (by decide) (by decide) (Or.inl (by decide))).trans (by decide)⟩

/-- C2 at wired headset + speaker in call mode with TTY off: the headset rule wins
over the speaker rule. -/
theorem get_output_snd_device_in_call_priority_witness :
    (AUDIO_DEVICE_OUT_WIRED_HEADSET ||| AUDIO_DEVICE_OUT_SPEAKER) ≠ AUDIO_DEVICE_NONE ∧
      (AUDIO_DEVICE_OUT_WIRED_HEADSET ||| AUDIO_DEVICE_OUT_SPEAKER) &&&
        AUDIO_DEVICE_BIT_IN = 0 ∧
      get_output_snd_device false
        { mode := AUDIO_MODE_IN_CALL, tty_mode := TTY_MODE_OFF,
          out_device := AUDIO_DEVICE_OUT_WIRED_HEADSET ||| AUDIO_DEVICE_OUT_SPEAKER } =
        SND_DEVICE_OUT_VOICE_HEADPHONES :=
  ⟨by decide, by decide,
    ((get_output_snd_device_in_call_priority false
      { mode := AUDIO_MODE_IN_CALL, tty_mode := TTY_MODE_OFF,
        out_device := AUDIO_DEVICE_OUT_WIRED_HEADSET ||| AUDIO_DEVICE_OUT_SPEAKER }
      rfl (by decide) (by decide)).1 (Or.inr (by decide))).2.2.2 rfl⟩

/-- C3 at AUX_DIGITAL alone outside call mode. -/
theorem get_output_snd_device_one_bit_witness :
    AUDIO_DEVICE_OUT_AUX_DIGITAL < 2 ^ 32 ∧ popcount AUDIO_DEVICE_OUT_AUX_DIGITAL = 1 ∧
      get_output_snd_device false { out_device := AUDIO_DEVICE_OUT_AUX_DIGITAL } =
        SND_DEVICE_OUT_HDMI :=
  ⟨by decide, by decide,
    (get_output_snd_device_one_bit false { out_device := AUDIO_DEVICE_OUT_AUX_DIGITAL }
      (by decide) (by decide) (by decide)).trans (by decide)⟩

/-- C4 at earpiece + speaker + wired headset outside call mode: three bits. -/
theorem get_output_snd_device_invalid_none_witness :
    2 < popcount (AUDIO_DEVICE_OUT_EARPIECE ||| AUDIO_DEVICE_OUT_SPEAKER |||
        AUDIO_DEVICE_OUT_WIRED_HEADSET) ∧
      get_output_snd_device false
        { out_device := AUDIO_DEVICE_OUT_EARPIECE ||| AUDIO_DEVICE_OUT_SPEAKER |||
            AUDIO_DEVICE_OUT_WIRED_HEADSET } = SND_DEVICE_NONE :=
  ⟨by decide,
    get_output_snd_device_invalid_none false
      { out_device := AUDIO_DEVICE_OUT_EARPIECE ||| AUDIO_DEVICE_OUT_SPEAKER |||
          AUDIO_DEVICE_OUT_WIRED_HEADSET }
      (by decide) (Or.inr (Or.inl (by decide)))⟩

/-- C5 at wired headset in call mode with TTY full. -/
theorem get_input_snd_device_in_call_tty_witness :
    TTY_MODE_FULL ≠ TTY_MODE_OFF ∧
      get_input_snd_device false
        { mode := AUDIO_MODE_IN_CALL, tty_mode := TTY_MODE_FULL,
          out_device := AUDIO_DEVICE_OUT_WIRED_HEADSET } =
        SND_DEVICE_IN_VOICE_TTY_FULL_HEADSET_MIC :=
  ⟨by decide,
    (get_input_snd_device_in_call_tty false
      { mode := AUDIO_MODE_IN_CALL, tty_mode := TTY_MODE_FULL,
        out_device := AUDIO_DEVICE_OUT_WIRED_HEADSET }
      rfl (Or.inr (by decide)) (by decide)).trans (by decide)⟩

/-- C6 at earpiece in call mode, fluence-in-call on an endfire dual mic, carrier
variant detected. -/
theorem get_input_snd_device_in_call_handset_witness :
    AUDIO_DEVICE_OUT_EARPIECE &&& AUDIO_DEVICE_OUT_EARPIECE ≠ 0 ∧
      get_input_snd_device true
        { mode := AUDIO_MODE_IN_CALL, out_device := AUDIO_DEVICE_OUT_EARPIECE,
          fluence_in_voice_call := true, dualmic_config := DUALMIC_CONFIG_ENDFIRE } =
        SND_DEVICE_IN_VOICE_DMIC_EF_TMUS :=
  ⟨by decide,
    (get_input_snd_device_in_call_handset true
      { mode := AUDIO_MODE_IN_CALL, out_device := AUDIO_DEVICE_OUT_EARPIECE,
        fluence_in_voice_call := true, dualmic_config := DUALMIC_CONFIG_ENDFIRE }
      rfl (Or.inl rfl) (Or.inl (by decide))).trans (by decide)⟩

/-- C7 at exactly wired headset in call mode with TTY off: the voice headset mic. -/
theorem get_input_snd_device_in_call_headset_sco_speaker_witness :
    AUDIO_DEVICE_OUT_WIRED_HEADSET &&& AUDIO_DEVICE_OUT_EARPIECE = 0 ∧
      AUDIO_DEVICE_OUT_WIRED_HEADSET &&& AUDIO_DEVICE_OUT_WIRED_HEADPHONE = 0 ∧
      get_input_snd_device false
        { mode := AUDIO_MODE_IN_CALL, tty_mode := TTY_MODE_OFF,
          out_device := AUDIO_DEVICE_OUT_WIRED_HEADSET } =
        SND_DEVICE_IN_VOICE_HEADSET_MIC :=
  ⟨by decide, by decide,
    (get_input_snd_device_in_call_headset_sco_speaker false
      { mode := AUDIO_MODE_IN_CALL, tty_mode := TTY_MODE_OFF,
        out_device := AUDIO_DEVICE_OUT_WIRED_HEADSET }
      rfl (Or.inl rfl) (by decide) (by decide)).1 (by decide)⟩

/-- C8, amended, at the empty bitmask in call mode. -/
theorem get_input_snd_device_in_call_no_output_witness :
    get_output_snd_device false
        { mode := AUDIO_MODE_IN_CALL, out_device := AUDIO_DEVICE_NONE } = SND_DEVICE_NONE ∧
      get_input_snd_device false
        { mode := AUDIO_MODE_IN_CALL, out_device := AUDIO_DEVICE_NONE } = SND_DEVICE_NONE :=
  get_input_snd_device_in_call_no_output false
    { mode := AUDIO_MODE_IN_CALL, out_device := AUDIO_DEVICE_NONE } rfl rfl

/-- C9, amended, with no active input outside call mode and the speaker requested. -/
theorem get_input_snd_device_default_source_none_witness :
    get_input_snd_device false
      { mode := AUDIO_MODE_NORMAL, active_input := none,
        out_device := AUDIO_DEVICE_OUT_SPEAKER } = SND_DEVICE_NONE :=
  get_input_snd_device_default_source_none false
    { mode := AUDIO_MODE_NORMAL, active_input := none,
      out_device := AUDIO_DEVICE_OUT_SPEAKER } (by decide) (Or.inl rfl)

/-- C11 at the builtin mic with voice-recognition source, endfire dual mic, mono
channel mask and fluence-in-record on. -/
theorem get_input_snd_device_voice_rec_builtin_witness :
    (AUDIO_DEVICE_IN_BUILTIN_MIC &&& not32 AUDIO_DEVICE_BIT_IN) &&&
        AUDIO_DEVICE_IN_BUILTIN_MIC ≠ 0 ∧
      get_input_snd_device false
        { mode := AUDIO_MODE_NORMAL, dualmic_config := DUALMIC_CONFIG_ENDFIRE,
          fluence_in_voice_rec := true,
          active_input := some { source := AUDIO_SOURCE_VOICE_RECOGNITION,
                                 device := AUDIO_DEVICE_IN_BUILTIN_MIC,
                                 channel_mask := AUDIO_CHANNEL_IN_MONO } } =
        SND_DEVICE_IN_VOICE_REC_DMIC_EF_FLUENCE :=
  ⟨by decide,
    (get_input_snd_device_voice_rec_builtin false
      { mode := AUDIO_MODE_NORMAL, dualmic_config := DUALMIC_CONFIG_ENDFIRE,
        fluence_in_voice_rec := true,
        active_input := some { source := AUDIO_SOURCE_VOICE_RECOGNITION,
                               device := AUDIO_DEVICE_IN_BUILTIN_MIC,
                               channel_mask := AUDIO_CHANNEL_IN_MONO } }
      { source := AUDIO_SOURCE_VOICE_RECOGNITION, device := AUDIO_DEVICE_IN_BUILTIN_MIC,
        channel_mask := AUDIO_CHANNEL_IN_MONO }
      (by decide) rfl rfl (by decide)).trans (by decide)⟩

/-- C12, amended, at the back mic with the mic source outside call mode and the
analog-mic flag set. -/
theorem get_input_snd_device_generic_tier_witness :
    AUDIO_DEVICE_IN_BACK_MIC &&& not32 AUDIO_DEVICE_BIT_IN ≠ AUDIO_DEVICE_NONE ∧
      (AUDIO_DEVICE_IN_BACK_MIC &&& not32 AUDIO_DEVICE_BIT_IN) &&&
        AUDIO_DEVICE_IN_VOICE_CALL = 0 ∧
      (AUDIO_DEVICE_IN_BACK_MIC &&& not32 AUDIO_DEVICE_BIT_IN) &&&
        AUDIO_DEVICE_IN_COMMUNICATION = 0 ∧
      get_input_snd_device false
        { mode := AUDIO_MODE_NORMAL, mic_type_analog := true,
          active_input := some { source := AUDIO_SOURCE_MIC,
                                 device := AUDIO_DEVICE_IN_BACK_MIC } } =
        SND_DEVICE_IN_HANDSET_MIC :=
  ⟨by decide, by decide, by decide,
    (get_input_snd_device_generic_tier false
      { mode := AUDIO_MODE_NORMAL, mic_type_analog := true,
        active_input := some { source := AUDIO_SOURCE_MIC,
                               device := AUDIO_DEVICE_IN_BACK_MIC } }
      { source := AUDIO_SOURCE_MIC, device := AUDIO_DEVICE_IN_BACK_MIC } rfl
      (Or.inr ⟨by decide, Or.inr (Or.inr (Or.inr ⟨by decide, by decide, by decide,
        by decide⟩))⟩)
      (by decide) (by decide) (by decide)).1.trans (by decide)⟩

/-- C14 at speaker playback and microphone capture, both paths active on the
devices the selectors return. -/
theorem select_devices_short_circuit_witness :
    select_devices {} false
      { out_device := AUDIO_DEVICE_OUT_SPEAKER, cur_out_snd_device := SND_DEVICE_OUT_SPEAKER,
        out_snd_device_active := true,
        active_input := some { source := AUDIO_SOURCE_MIC,
                               device := AUDIO_DEVICE_IN_BUILTIN_MIC },
        cur_in_snd_device := SND_DEVICE_IN_HANDSET_MIC, in_snd_device_active := true,
        usecase_list := [{ id := USECASE_AUDIO_PLAYBACK_DEEP_BUFFER, type := PCM_PLAYBACK,
                           devices := AUDIO_DEVICE_OUT_SPEAKER }] } =
      (0,
        { out_device := AUDIO_DEVICE_OUT_SPEAKER, cur_out_snd_device := SND_DEVICE_OUT_SPEAKER,
          out_snd_device_active := true,
          active_input := some { source := AUDIO_SOURCE_MIC,
                                 device := AUDIO_DEVICE_IN_BUILTIN_MIC },
          cur_in_snd_device := SND_DEVICE_IN_HANDSET_MIC, in_snd_device_active := true,
          usecase_list := [{ id := USECASE_AUDIO_PLAYBACK_DEEP_BUFFER, type := PCM_PLAYBACK,
                             devices := AUDIO_DEVICE_OUT_SPEAKER }] }, []) :=
  select_devices_short_circuit {} false
    { out_device := AUDIO_DEVICE_OUT_SPEAKER, cur_out_snd_device := SND_DEVICE_OUT_SPEAKER,
      out_snd_device_active := true,
      active_input := some { source := AUDIO_SOURCE_MIC,
                             device := AUDIO_DEVICE_IN_BUILTIN_MIC },
      cur_in_snd_device := SND_DEVICE_IN_HANDSET_MIC, in_snd_device_active := true,
      usecase_list := [{ id := USECASE_AUDIO_PLAYBACK_DEEP_BUFFER, type := PCM_PLAYBACK,
                         devices := AUDIO_DEVICE_OUT_SPEAKER }] }
    (by decide) (by decide) (by decide) (by decide)

/-- C15 at a switch from the handset to speaker playback with microphone capture
(both selected devices not `None`, second run short-circuited), and at speaker
playback without capture (no call in progress, second run changes no state). -/
theorem select_devices_twice_witness :
    select_devices {} false
      (select_devices {} false
        { out_device := AUDIO_DEVICE_OUT_SPEAKER, cur_out_snd_device := SND_DEVICE_OUT_HANDSET,
          out_snd_device_active := true,
          active_input := some { source := AUDIO_SOURCE_MIC,
                                 device := AUDIO_DEVICE_IN_BUILTIN_MIC },
          usecase_list := [{ id := USECASE_AUDIO_PLAYBACK_DEEP_BUFFER, type := PCM_PLAYBACK,
                             devices := AUDIO_DEVICE_OUT_EARPIECE }] }).2.1 =
      (0,
        (select_devices {} false
          { out_device := AUDIO_DEVICE_OUT_SPEAKER,
            cur_out_snd_device := SND_DEVICE_OUT_HANDSET, out_snd_device_active := true,
            active_input := some { source := AUDIO_SOURCE_MIC,
                                   device := AUDIO_DEVICE_IN_BUILTIN_MIC },
            usecase_list := [{ id := USECASE_AUDIO_PLAYBACK_DEEP_BUFFER, type := PCM_PLAYBACK,
                               devices := AUDIO_DEVICE_OUT_EARPIECE }] }).2.1, []) ∧
    (select_devices {} false
      (select_devices {} false
        { out_device := AUDIO_DEVICE_OUT_SPEAKER,
          usecase_list := [{ id := USECASE_AUDIO_PLAYBACK_DEEP_BUFFER, type := PCM_PLAYBACK,
                             devices := AUDIO_DEVICE_OUT_SPEAKER }] }).2.1).2.1 =
      (select_devices {} false
        { out_device := AUDIO_DEVICE_OUT_SPEAKER,
          usecase_list := [{ id := USECASE_AUDIO_PLAYBACK_DEEP_BUFFER, type := PCM_PLAYBACK,
                             devices := AUDIO_DEVICE_OUT_SPEAKER }] }).2.1 :=
  ⟨(select_devices_twice {} {} false
      { out_device := AUDIO_DEVICE_OUT_SPEAKER, cur_out_snd_device := SND_DEVICE_OUT_HANDSET,
        out_snd_device_active := true,
        active_input := some { source := AUDIO_SOURCE_MIC,
                               device := AUDIO_DEVICE_IN_BUILTIN_MIC },
        usecase_list := [{ id := USECASE_AUDIO_PLAYBACK_DEEP_BUFFER, type := PCM_PLAYBACK,
                           devices := AUDIO_DEVICE_OUT_EARPIECE }] }).1 (by decide) (by decide),
    ((select_devices_twice {} {} false
      { out_device := AUDIO_DEVICE_OUT_SPEAKER,
        usecase_list := [{ id := USECASE_AUDIO_PLAYBACK_DEEP_BUFFER, type := PCM_PLAYBACK,
                           devices := AUDIO_DEVICE_OUT_SPEAKER }] }).2 (by decide)).1⟩

/-- C18 at the speaker in call mode with a voice-enable call that reports -5: the
status returned is -5. -/
theorem select_devices_voice_enable_status_witness :
    (select_devices { csd_enable_device := -5 } false
      { mode := AUDIO_MODE_IN_CALL, out_device := AUDIO_DEVICE_OUT_SPEAKER,
        csd_client := true, csd_enable_device := true }).1 = -5 :=
  (select_devices_voice_enable_status { csd_enable_device := -5 } false
    { mode := AUDIO_MODE_IN_CALL, out_device := AUDIO_DEVICE_OUT_SPEAKER,
      csd_client := true, csd_enable_device := true }
    (by decide) (by decide) (by decide) (by decide)).1

/-- C19 at a second low-latency open while the first low-latency stream is
registered: the open fails with `-EEXIST`. -/
theorem adev_open_output_stream_already_exists_witness :
    (adev_open_output_stream {}
      { usecase_list := [{ id := USECASE_AUDIO_PLAYBACK_LOW_LATENCY, type := PCM_PLAYBACK,
                           devices := AUDIO_DEVICE_OUT_SPEAKER }] }
      AUDIO_DEVICE_OUT_SPEAKER 0 0).1 = -EEXIST :=
  (adev_open_output_stream_already_exists {}
    { usecase_list := [{ id := USECASE_AUDIO_PLAYBACK_LOW_LATENCY, type := PCM_PLAYBACK,
                         devices := AUDIO_DEVICE_OUT_SPEAKER }] }
    AUDIO_DEVICE_OUT_SPEAKER 0 0 (by decide)).1

/-- C22 at a low-latency stream on the speaker of a freshly opened device whose
transfer endpoint is rejected: the start reports `-EIO` and the registry is
empty as before. -/
theorem start_stream_failure_witness :
    (start_output_stream { pcm_open := some { pcm_is_ready := false } } false {}
      { usecase := USECASE_AUDIO_PLAYBACK_LOW_LATENCY, devices := AUDIO_DEVICE_OUT_SPEAKER,
        standby := true }).1 = - EIO ∧
    (start_output_stream { pcm_open := some { pcm_is_ready := false } } false {}
      { usecase := USECASE_AUDIO_PLAYBACK_LOW_LATENCY, devices := AUDIO_DEVICE_OUT_SPEAKER,
        standby := true }).2.1.usecase_list.map (fun u => (u.id, u.type)) = [] :=
  ⟨((start_stream_failure { pcm_open := some { pcm_is_ready := false } } {} false {}
      { usecase := USECASE_AUDIO_PLAYBACK_LOW_LATENCY, devices := AUDIO_DEVICE_OUT_SPEAKER,
        standby := true } {}).2.1 (by decide) (by decide) (by decide)).1,
    ((start_stream_failure { pcm_open := some { pcm_is_ready := false } } {} false {}
      { usecase := USECASE_AUDIO_PLAYBACK_LOW_LATENCY, devices := AUDIO_DEVICE_OUT_SPEAKER,
        standby := true } {}).2.1 (by decide) (by decide) (by decide)).2.2⟩

/-- C23 at a reported channel capability of 8: the stream supports 5.1 and 7.1. -/
theorem adev_open_output_stream_hdmi_masks_witness :
    ∃ out, (adev_open_output_stream { edid_get_max_channels := 8 } {}
        AUDIO_DEVICE_OUT_AUX_DIGITAL AUDIO_OUTPUT_FLAG_DIRECT 0).2.2.1 = some out ∧
      out.supported_channel_masks =
        [AUDIO_CHANNEL_OUT_5POINT1, AUDIO_CHANNEL_OUT_7POINT1, 0] ∧
      out_get_parameters_sup_channels out =
        "AUDIO_CHANNEL_OUT_5POINT1|AUDIO_CHANNEL_OUT_7POINT1" := by
  obtain ⟨out, h1, _, _, _, h8, _⟩ :=
    adev_open_output_stream_hdmi_masks { edid_get_max_channels := 8 } {}
      AUDIO_DEVICE_OUT_AUX_DIGITAL AUDIO_OUTPUT_FLAG_DIRECT 0
      (by decide) (by decide) (by decide)
  exact ⟨out, h1, h8 rfl⟩

/-- C27 at call mode on the earpiece with the start entry point unresolved: no call
is in progress after `start_voice_call`. -/
theorem start_voice_call_entry_points_witness :
    (start_voice_call {} false
      { mode := AUDIO_MODE_IN_CALL, out_device := AUDIO_DEVICE_OUT_EARPIECE,
        csd_client := true, csd_enable_device := true, csd_stop_voice := true }).2.1.in_call =
      false :=
  ((start_voice_call_entry_points {} {} false
    { mode := AUDIO_MODE_IN_CALL, out_device := AUDIO_DEVICE_OUT_EARPIECE,
      csd_client := true, csd_enable_device := true, csd_stop_voice := true }).1
    (by decide) (by decide) (by decide)).1

/-- C28 at deep-buffer playback switched from the speaker to the wired headphone:
the path of the usecase is reset, the speaker disabled, the headphones enabled,
the path applied again. -/
theorem select_devices_order_witness :
    (select_devices {} false
      { out_device := AUDIO_DEVICE_OUT_WIRED_HEADPHONE,
        cur_out_snd_device := SND_DEVICE_OUT_SPEAKER, out_snd_device_active := true,
        usecase_list := [{ id := USECASE_AUDIO_PLAYBACK_DEEP_BUFFER, type := PCM_PLAYBACK,
                           devices := AUDIO_DEVICE_OUT_SPEAKER }] }).2.2 =
      [action.audio_route_reset_path "deep-buffer-playback",
        action.audio_route_update_mixer,
        action.audio_route_reset_path "speaker",
        action.audio_route_apply_path "headphones",
        action.audio_route_update_mixer,
        action.audio_route_apply_path "deep-buffer-playback",
        action.audio_route_update_mixer] :=
  (((select_devices_order {} false
    { out_device := AUDIO_DEVICE_OUT_WIRED_HEADPHONE,
      cur_out_snd_device := SND_DEVICE_OUT_SPEAKER, out_snd_device_active := true,
      usecase_list := [{ id := USECASE_AUDIO_PLAYBACK_DEEP_BUFFER, type := PCM_PLAYBACK,
                         devices := AUDIO_DEVICE_OUT_SPEAKER }] }
    (by decide)).1 (by decide)).1).trans (by decide)

/-- C29 at the only playback usecase, active on the speaker: after the stop the
requested output bitmask is empty and the output path is not active. -/
theorem stop_output_stream_recomputes_witness :
    (stop_output_stream {} false
      { out_device := AUDIO_DEVICE_OUT_SPEAKER, cur_out_snd_device := SND_DEVICE_OUT_SPEAKER,
        out_snd_device_active := true,
        usecase_list := [{ id := USECASE_AUDIO_PLAYBACK_DEEP_BUFFER, type := PCM_PLAYBACK,
                           devices := AUDIO_DEVICE_OUT_SPEAKER }] }
      { usecase := USECASE_AUDIO_PLAYBACK_DEEP_BUFFER,
        devices := AUDIO_DEVICE_OUT_SPEAKER }).2.1.out_snd_device_active = false :=
  (stop_output_stream_recomputes {} false
    { out_device := AUDIO_DEVICE_OUT_SPEAKER, cur_out_snd_device := SND_DEVICE_OUT_SPEAKER,
      out_snd_device_active := true,
      usecase_list := [{ id := USECASE_AUDIO_PLAYBACK_DEEP_BUFFER, type := PCM_PLAYBACK,
                         devices := AUDIO_DEVICE_OUT_SPEAKER }] }
    { usecase := USECASE_AUDIO_PLAYBACK_DEEP_BUFFER, devices := AUDIO_DEVICE_OUT_SPEAKER }
    (by decide) (by decide)).2.2.2.2 (by decide)

/-- Instance of C33: after a write on a speaker stream and a read on a microphone
stream on the freshly opened device both paths are active, on `speaker` and on
`handset-mic`. -/
theorem routing_invariant_witness :
    adev_open {} = (0, some {}) ∧
    (hal_run false {}
      [hal_op.out_write {}
        { usecase := USECASE_AUDIO_PLAYBACK_LOW_LATENCY,
          devices := AUDIO_DEVICE_OUT_SPEAKER, standby := true },
       hal_op.in_read {}
        { source := AUDIO_SOURCE_MIC, device := AUDIO_DEVICE_IN_BUILTIN_MIC,
          standby := true }]).cur_out_snd_device = SND_DEVICE_OUT_SPEAKER ∧
    snd_device_is_out (hal_run false {}
      [hal_op.out_write {}
        { usecase := USECASE_AUDIO_PLAYBACK_LOW_LATENCY,
          devices := AUDIO_DEVICE_OUT_SPEAKER, standby := true },
       hal_op.in_read {}
        { source := AUDIO_SOURCE_MIC, device := AUDIO_DEVICE_IN_BUILTIN_MIC,
          standby := true }]).cur_out_snd_device = true ∧
    snd_device_in_range (hal_run false {}
      [hal_op.out_write {}
        { usecase := USECASE_AUDIO_PLAYBACK_LOW_LATENCY,
          devices := AUDIO_DEVICE_OUT_SPEAKER, standby := true },
       hal_op.in_read {}
        { source := AUDIO_SOURCE_MIC, device := AUDIO_DEVICE_IN_BUILTIN_MIC,
          standby := true }]).cur_in_snd_device = true :=
  ⟨by decide, by decide,
    ((routing_invariant {} false {} (by decide) _).1 (by decide)).2,
    ((routing_invariant {} false {} (by decide) _).2 (by decide)).2.1⟩

/-- Instance of C35: with the speaker requested and a playback entry on the wired
headphone and a capture entry in the registry, the run overwrites the device
bitmask of the playback entry and leaves the capture entry as it is. -/
theorem select_devices_registry_witness :
    (select_devices {} false
      { out_device := AUDIO_DEVICE_OUT_SPEAKER,
        usecase_list :=
          [{ id := USECASE_AUDIO_PLAYBACK_DEEP_BUFFER, type := PCM_PLAYBACK,
             devices := AUDIO_DEVICE_OUT_WIRED_HEADPHONE },
           { id := USECASE_AUDIO_RECORD, type := PCM_CAPTURE,
             devices := AUDIO_DEVICE_IN_BUILTIN_MIC }] }).2.1.usecase_list =
      [{ id := USECASE_AUDIO_PLAYBACK_DEEP_BUFFER, type := PCM_PLAYBACK,
         devices := AUDIO_DEVICE_OUT_SPEAKER },
       { id := USECASE_AUDIO_RECORD, type := PCM_CAPTURE,
         devices := AUDIO_DEVICE_IN_BUILTIN_MIC }] :=
  ((select_devices_registry {} false
    { out_device := AUDIO_DEVICE_OUT_SPEAKER,
      usecase_list :=
        [{ id := USECASE_AUDIO_PLAYBACK_DEEP_BUFFER, type := PCM_PLAYBACK,
           devices := AUDIO_DEVICE_OUT_WIRED_HEADPHONE },
         { id := USECASE_AUDIO_RECORD, type := PCM_CAPTURE,
           devices := AUDIO_DEVICE_IN_BUILTIN_MIC }] }
    (by decide)).1).trans (by decide)

/-- Instance of C36: in call mode the digital output alone selects `hdmi`, as in
normal mode. -/
theorem get_output_snd_device_in_call_unrecognised_witness :
    get_output_snd_device false
        { mode := AUDIO_MODE_IN_CALL, out_device := AUDIO_DEVICE_OUT_AUX_DIGITAL } =
      get_output_snd_device false
        { mode := AUDIO_MODE_NORMAL, out_device := AUDIO_DEVICE_OUT_AUX_DIGITAL } ∧
    get_output_snd_device false
        { mode := AUDIO_MODE_IN_CALL, out_device := AUDIO_DEVICE_OUT_AUX_DIGITAL } =
      SND_DEVICE_OUT_HDMI ∧
    get_output_snd_device false
        { mode := AUDIO_MODE_IN_CALL,
          out_device := AUDIO_DEVICE_OUT_AUX_DIGITAL ||| 0x100 } = SND_DEVICE_NONE :=
  ⟨get_output_snd_device_in_call_unrecognised false
      { mode := AUDIO_MODE_IN_CALL, out_device := AUDIO_DEVICE_OUT_AUX_DIGITAL }
      (by decide) (by decide) (by decide) (by decide) (by decide)
      AUDIO_MODE_NORMAL (by decide),
    by decide, by decide⟩

/-- Instance of C38: on a dual-mic platform the request for the TTY mode FULL, with
the negative result -2 of the last lookup, leaves the calibration settings
0x22, the dual-mic flag kept, and returns -2. -/
theorem calibration_settings_tty_witness :
    adev_open { dualmic_config := DUALMIC_CONFIG_ENDFIRE } =
      (0, some { dualmic_config := DUALMIC_CONFIG_ENDFIRE, acdb_settings := 0x12 }) ∧
    (hal_run false { dualmic_config := DUALMIC_CONFIG_ENDFIRE, acdb_settings := 0x12 }
      [hal_op.adev_set_parameters {} (-2)
        AUDIO_PARAMETER_VALUE_TTY_FULL]).acdb_settings = 0x22 ∧
    (hal_run false { dualmic_config := DUALMIC_CONFIG_ENDFIRE, acdb_settings := 0x12 }
      [hal_op.adev_set_parameters {} (-2)
        AUDIO_PARAMETER_VALUE_TTY_FULL]).acdb_settings &&& 0xF0 =
    (hal_run false { dualmic_config := DUALMIC_CONFIG_ENDFIRE, acdb_settings := 0x12 }
      [hal_op.adev_set_parameters {} (-2)
        AUDIO_PARAMETER_VALUE_TTY_FULL]).tty_mode.toNat ∧
    (adev_set_parameters {} (-2) false
      { dualmic_config := DUALMIC_CONFIG_ENDFIRE, acdb_settings := 0x12 }
      AUDIO_PARAMETER_VALUE_TTY_FULL).1 = -2 :=
  ⟨by decide, by decide,
    (calibration_settings_tty { dualmic_config := DUALMIC_CONFIG_ENDFIRE } false
      { dualmic_config := DUALMIC_CONFIG_ENDFIRE, acdb_settings := 0x12 } (by decide)
      [hal_op.adev_set_parameters {} (-2) AUDIO_PARAMETER_VALUE_TTY_FULL]).1,
    ((calibration_settings_tty { dualmic_config := DUALMIC_CONFIG_ENDFIRE } false
      { dualmic_config := DUALMIC_CONFIG_ENDFIRE, acdb_settings := 0x12 } (by decide)
      []).2.2.2.2.2.2.2.2 {} (-2) AUDIO_PARAMETER_VALUE_TTY_FULL TTY_MODE_FULL rfl).1⟩

/-- C16 at a call whose output is switched from the handset to the speaker while
the selected input device, voice-speaker-mic, is the current one: the path of
the handset is reset and that of the speaker applied, and the path of the
unchanged input device is reset and applied again. -/
theorem select_devices_in_call_switch_witness :
    (select_devices {} false
      { mode := AUDIO_MODE_IN_CALL, in_call := true, csd_client := true,
        csd_disable_device := true, csd_enable_device := true, acdb_send_audio_cal := true,
        out_device := AUDIO_DEVICE_OUT_SPEAKER,
        cur_out_snd_device := SND_DEVICE_OUT_HANDSET, out_snd_device_active := true,
        cur_in_snd_device := SND_DEVICE_IN_VOICE_SPEAKER_MIC, in_snd_device_active := true,
        usecase_list := [{ id := USECASE_VOICE_CALL, type := VOICE_CALL,
                           devices := AUDIO_DEVICE_OUT_EARPIECE }] }).2.2 =
      [action.csd_disable_device,
        action.audio_route_reset_path "voice-call",
        action.audio_route_update_mixer,
        action.audio_route_reset_path "handset",
        action.audio_route_update_mixer,
        action.audio_route_reset_path "voice-speaker-mic",
        action.acdb_send_audio_cal 14 ACDB_DEV_TYPE_OUT,
        action.audio_route_apply_path "voice-speaker",
        action.acdb_send_audio_cal 11 ACDB_DEV_TYPE_IN,
        action.audio_route_apply_path "voice-speaker-mic",
        action.audio_route_update_mixer,
        action.audio_route_apply_path "voice-call",
        action.audio_route_update_mixer,
        action.csd_enable_device 14 11 0x10] ∧
    get_input_snd_device false
      { mode := AUDIO_MODE_IN_CALL, in_call := true, csd_client := true,
        csd_disable_device := true, csd_enable_device := true, acdb_send_audio_cal := true,
        out_device := AUDIO_DEVICE_OUT_SPEAKER,
        cur_out_snd_device := SND_DEVICE_OUT_HANDSET, out_snd_device_active := true,
        cur_in_snd_device := SND_DEVICE_IN_VOICE_SPEAKER_MIC, in_snd_device_active := true,
        usecase_list := [{ id := USECASE_VOICE_CALL, type := VOICE_CALL,
                           devices := AUDIO_DEVICE_OUT_EARPIECE }] } =
      SND_DEVICE_IN_VOICE_SPEAKER_MIC :=
  ⟨((select_devices_in_call_switch {} false
      { mode := AUDIO_MODE_IN_CALL, in_call := true, csd_client := true,
        csd_disable_device := true, csd_enable_device := true, acdb_send_audio_cal := true,
        out_device := AUDIO_DEVICE_OUT_SPEAKER,
        cur_out_snd_device := SND_DEVICE_OUT_HANDSET, out_snd_device_active := true,
        cur_in_snd_device := SND_DEVICE_IN_VOICE_SPEAKER_MIC, in_snd_device_active := true,
        usecase_list := [{ id := USECASE_VOICE_CALL, type := VOICE_CALL,
                           devices := AUDIO_DEVICE_OUT_EARPIECE }] }
      (by decide) (by decide) (by decide)).1).trans (by decide),
    by decide⟩

/-- C17 at deep-buffer playback on Bluetooth SCO followed by call mode: the output
path stays active on the bt-sco device; the run of `select_devices` only pushes
the calibration of the bt-sco microphone and applies its path, and the calls
that follow are those of a started call. -/
theorem start_voice_call_same_output_witness :
    (start_voice_call {} false
      { mode := AUDIO_MODE_IN_CALL, out_device := AUDIO_DEVICE_OUT_BLUETOOTH_SCO,
        cur_out_snd_device := SND_DEVICE_OUT_BT_SCO, out_snd_device_active := true,
        csd_client := true, csd_disable_device := true, csd_enable_device := true,
        csd_start_voice := true, csd_stop_voice := true, acdb_send_audio_cal := true,
        usecase_list := [{ id := USECASE_AUDIO_PLAYBACK_DEEP_BUFFER, type := PCM_PLAYBACK,
                           devices := AUDIO_DEVICE_OUT_BLUETOOTH_SCO }] }).2.1.out_snd_device_active
        = true ∧
    (start_voice_call {} false
      { mode := AUDIO_MODE_IN_CALL, out_device := AUDIO_DEVICE_OUT_BLUETOOTH_SCO,
        cur_out_snd_device := SND_DEVICE_OUT_BT_SCO, out_snd_device_active := true,
        csd_client := true, csd_disable_device := true, csd_enable_device := true,
        csd_start_voice := true, csd_stop_voice := true, acdb_send_audio_cal := true,
        usecase_list := [{ id := USECASE_AUDIO_PLAYBACK_DEEP_BUFFER, type := PCM_PLAYBACK,
                           devices := AUDIO_DEVICE_OUT_BLUETOOTH_SCO }] }).2.1.cur_out_snd_device
        = SND_DEVICE_OUT_BT_SCO ∧
    ∃ rest : List action,
      (start_voice_call {} false
        { mode := AUDIO_MODE_IN_CALL, out_device := AUDIO_DEVICE_OUT_BLUETOOTH_SCO,
          cur_out_snd_device := SND_DEVICE_OUT_BT_SCO, out_snd_device_active := true,
          csd_client := true, csd_disable_device := true, csd_enable_device := true,
          csd_start_voice := true, csd_stop_voice := true, acdb_send_audio_cal := true,
          usecase_list := [{ id := USECASE_AUDIO_PLAYBACK_DEEP_BUFFER, type := PCM_PLAYBACK,
                             devices := AUDIO_DEVICE_OUT_BLUETOOTH_SCO }] }).2.2 =
        [action.acdb_send_audio_cal 21 ACDB_DEV_TYPE_IN,
          action.audio_route_apply_path "bt-sco-mic",
          action.audio_route_update_mixer,
          action.audio_route_apply_path "deep-buffer-playback bt-sco",
          action.audio_route_update_mixer,
          action.csd_enable_device 22 21 0x10] ++ rest ∧
      rest =
        [action.audio_route_apply_path "voice-call bt-sco",
          action.audio_route_update_mixer,
          action.pcm_open 12 PCM_OUT,
          action.pcm_open 12 PCM_IN,
          action.pcm_start PCM_OUT,
          action.pcm_start PCM_IN,
          action.csd_start_voice] := by
  obtain ⟨⟨rest, h1, _, h3⟩, h4, h5⟩ := start_voice_call_same_output {} false
    { mode := AUDIO_MODE_IN_CALL, out_device := AUDIO_DEVICE_OUT_BLUETOOTH_SCO,
      cur_out_snd_device := SND_DEVICE_OUT_BT_SCO, out_snd_device_active := true,
      csd_client := true, csd_disable_device := true, csd_enable_device := true,
      csd_start_voice := true, csd_stop_voice := true, acdb_send_audio_cal := true,
      usecase_list := [{ id := USECASE_AUDIO_PLAYBACK_DEEP_BUFFER, type := PCM_PLAYBACK,
                         devices := AUDIO_DEVICE_OUT_BLUETOOTH_SCO }] }
    (by decide) (by decide) (by decide)
  exact ⟨h4, h5, rest, h1.trans (congrArg (fun l => l ++ rest) (by decide)),
    (h3 (by decide)).trans (by decide)⟩

end AudioHw
